import Mathlib

/-!
# Phase-field solidification solver: embedding and verified properties

Shallow embedding of the two engines of the repository (`C++_explicit` and
`C_explicit_implicit`).

Conventions of the embedding
* `double` values are elements of a field `F` (exact arithmetic); concrete
  evaluations are carried out over `ℚ`.
* `int` values are `Int`; no overflow is modelled (grid extents are small).
* a `double *` array is an `Arr F`, a total map from the flattened index to the
  stored value; `arr[p]` is `arr.get p` and the assignment `arr[p] = v` is
  `arr.set p v`.
* `for (int i = lo; i < hi; i++)` is `forLoop lo hi`, and the decreasing loop
  `for (int p = hi; p >= lo; p--)` is `forLoopDown hi lo`.
* the literals `0.5`, `0.25`, `2.0` are the field elements `1 / 2`, `1 / 4`, `2`.
* `rand()` is a stream `rng : Nat → Int` of return values together with a call
  counter carried in the state.
* the library functions `atan`, `atan2`, `cos`, `sin` and the constant `M_PI` are
  a parameter `lib : MathLib F` of the functions that call them.
* an output file (VTK, CSV) is the sequence of the data records written to it,
  and the round trip of a value through its `%.8lf` text is a parameter `rt`.
* a C string and the text of the input file are lists of characters; `atoi`,
  `atof` and the output of `%g` are parameters, `fgets`, `sscanf`, `strtok`,
  `trim` and `%d` are functions on lists of characters.
* the remainder `t % n` of two `int` values is `Int.tmod` (truncation toward
  zero) and has no value when `n = 0`: the test built on it returns an `Option`.
* sums over the interior cells (`sumRange`, `interiorSum2D`) are finite sums in
  the order of the loops `i = 1 .. NX-2`, `j = 1 .. NY-2`.
-/

set_option autoImplicit false

namespace PhaseField

/-! ## Loops -/

/-- Run `n` iterations of a counting-up loop whose index starts at `i`. -/
def loopFrom {σ : Type} (body : Int → σ → σ) : Nat → Int → σ → σ
  | 0, _, s => s
  | n + 1, i, s => loopFrom body n (i + 1) (body i s)

/-- The C loop `for (int i = lo; i < hi; i++) body`. -/
def forLoop {σ : Type} (lo hi : Int) (body : Int → σ → σ) (s : σ) : σ :=
  loopFrom body (hi - lo).toNat lo s

/-- Run `n` iterations of a counting-down loop whose index starts at `i`. -/
def loopDownFrom {σ : Type} (body : Int → σ → σ) : Nat → Int → σ → σ
  | 0, _, s => s
  | n + 1, i, s => loopDownFrom body n (i - 1) (body i s)

/-- The C loop `for (int p = hi; p >= lo; p--) body`. -/
def forLoopDown {σ : Type} (hi lo : Int) (body : Int → σ → σ) (s : σ) : σ :=
  loopDownFrom body (hi - lo + 1).toNat hi s

/-! ## Arrays -/

/-- A `double *` array: the value stored at each flattened index. -/
structure Arr (F : Type) where
  get : Int → F

/-- The assignment `arr[p] = v`. -/
def Arr.set {F : Type} (arr : Arr F) (p : Int) (v : F) : Arr F :=
  ⟨Function.update arr.get p v⟩

/-- A freshly allocated array (contents taken to be `v`). -/
def Arr.const {F : Type} (v : F) : Arr F :=
  ⟨fun _ => v⟩

/-! ## Data model (header.h / header.hpp) -/

/-- The enum `BoundaryType`. -/
inductive BoundaryType where
  | BOUNDARY_UNDEFINED
  | BOUNDARY_NOFLUX
  | BOUNDARY_PERIODIC
  deriving DecidableEq

/-- The struct `FaceBoundary`: one policy per face. -/
structure FaceBoundary where
  top : BoundaryType
  bottom : BoundaryType
  left : BoundaryType
  right : BoundaryType
  front : BoundaryType
  back : BoundaryType
  deriving DecidableEq

/-- The struct `VariableBoundary` (name and face policies of a variable). -/
structure VariableBoundary where
  varName : String
  bc : FaceBoundary

/-- The struct `SimParams`. -/
structure SimParams (F : Type) where
  DIM : Int
  Num_X : Int
  Num_Y : Int
  Num_Z : Int
  dx : F
  dy : F
  dz : F
  dt : F
  total_timesteps : Int
  timebreak : Int
  epsilon : F
  tau : F
  delta : F
  j : Int
  theta_0 : F
  alpha : F
  gamma : F
  a : F
  K : F
  T_e : F
  variables_ : List VariableBoundary

/-- The struct `FieldBuffers`: scratch arrays, each of size `NX*NY*NZ`. -/
structure FieldBuffers (F : Type) where
  phi_new : Arr F
  temp_new : Arr F
  dphi_dt : Arr F
  dfdphi : Arr F
  ac : Arr F
  ac_right : Arr F
  ac_left : Arr F
  ac_top : Arr F
  ac_bottom : Arr F
  ac_p : Arr F
  ac_p_right : Arr F
  ac_p_left : Arr F
  ac_p_top : Arr F
  ac_p_bottom : Arr F
  DERX_c : Arr F
  DERY_c : Arr F
  DERX_right : Arr F
  DERX_left : Arr F
  DERY_top : Arr F
  DERY_bottom : Arr F
  DERY_right : Arr F
  DERY_left : Arr F
  DERX_top : Arr F
  DERX_bottom : Arr F
  temp_buf1 : Arr F
  temp_buf2 : Arr F

/-- The lookup `findVariableBoundary`: first entry whose name matches. -/
def findVariableBoundary {F : Type} (name : String) (params : SimParams F) :
    Option VariableBoundary :=
  params.variables_.find? (fun vb => vb.varName == name)

/-- The macro `IDX(i,j,k)`. -/
def IDX (strides : Fin 3 → Int) (i j k : Int) : Int :=
  i * strides 0 + j * strides 1 + k * strides 2

/-- The strides array as `main` builds it: `{Num_Y * Num_Z, Num_Z, 1}`. -/
def mainStrides {F : Type} (params : SimParams F) : Fin 3 → Int :=
  ![params.Num_Y * params.Num_Z, params.Num_Z, 1]

/-! ## Boundary enforcement (boundary.cpp / boundary.c)

The two engines have the same `applyBoundaryConditions`, statement for
statement; one definition embeds both. -/

/-- The flattened index used in the X and Y passes: the `dim == 2` branch of the
conditional expression drops the `k` term. -/
def bcIndex (dim : Int) (strides : Fin 3 → Int) (i j k : Int) : Int :=
  if dim = 2 then i * strides 0 + j * strides 1 else IDX strides i j k

/-- The pair of `if / else if` statements executed for one pair of opposite
ghost cells: `lo`/`hi` are the ghost cells, `loRef`/`hiRef` the interior
reference cells next to them, `bcLo`/`bcHi` the policies of the two faces. -/
def bcPair {F : Type} (bcLo bcHi : BoundaryType) (lo hi loRef hiRef : Int)
    (arr : Arr F) : Arr F :=
  let arr :=
    if bcLo = BoundaryType.BOUNDARY_PERIODIC then arr.set lo (arr.get hiRef)
    else if bcLo = BoundaryType.BOUNDARY_NOFLUX then arr.set lo (arr.get loRef)
    else arr
  let arr :=
    if bcHi = BoundaryType.BOUNDARY_PERIODIC then arr.set hi (arr.get loRef)
    else if bcHi = BoundaryType.BOUNDARY_NOFLUX then arr.set hi (arr.get hiRef)
    else arr
  arr

/-- The value a ghost cell holds after its `if / else if` statement: `periodic`
under `BOUNDARY_PERIODIC`, `noflux` under `BOUNDARY_NOFLUX`, and the value `old`
it held before otherwise. -/
def bcValue {F : Type} (bc : BoundaryType) (periodic noflux old : F) : F :=
  if bc = BoundaryType.BOUNDARY_PERIODIC then periodic
  else if bc = BoundaryType.BOUNDARY_NOFLUX then noflux
  else old

/-- The function `applyBoundaryConditions`. -/
def applyBoundaryConditions {F : Type} (arr : Arr F) (params : SimParams F)
    (strides : Fin 3 → Int) (bc : FaceBoundary) : Arr F :=
  let NX := params.Num_X
  let NY := params.Num_Y
  let NZ := params.Num_Z
  let dim := params.DIM
  -- X-direction
  let arr := forLoop 1 (NY - 1) (fun j arr =>
    let kstart : Int := if dim = 3 then 1 else 0
    let kend : Int := if dim = 3 then NZ - 1 else 1
    forLoop kstart kend (fun k arr =>
      let left_idx := bcIndex dim strides 0 j k
      let right_idx := bcIndex dim strides (NX - 1) j k
      let lref_idx := bcIndex dim strides 1 j k
      let rref_idx := bcIndex dim strides (NX - 2) j k
      bcPair bc.left bc.right left_idx right_idx lref_idx rref_idx arr) arr) arr
  -- Y-direction
  let arr := forLoop 1 (NX - 1) (fun i arr =>
    let kstart : Int := if dim = 3 then 1 else 0
    let kend : Int := if dim = 3 then NZ - 1 else 1
    forLoop kstart kend (fun k arr =>
      let bot_idx := bcIndex dim strides i 0 k
      let top_idx := bcIndex dim strides i (NY - 1) k
      let bref_idx := bcIndex dim strides i 1 k
      let tref_idx := bcIndex dim strides i (NY - 2) k
      bcPair bc.bottom bc.top bot_idx top_idx bref_idx tref_idx arr) arr) arr
  -- Z-direction (only for 3D)
  let arr :=
    if dim = 3 then
      forLoop 1 (NX - 1) (fun i arr =>
        forLoop 1 (NY - 1) (fun j arr =>
          let back_idx := IDX strides i j 0
          let front_idx := IDX strides i j (NZ - 1)
          let bref_idx := IDX strides i j 1
          let fref_idx := IDX strides i j (NZ - 2)
          bcPair bc.back bc.front back_idx front_idx bref_idx fref_idx arr) arr) arr
    else arr
  arr

/-- The X pass of `applyBoundaryConditions` (first loop nest). -/
def bcPassX {F : Type} (arr : Arr F) (params : SimParams F) (strides : Fin 3 → Int)
    (bc : FaceBoundary) : Arr F :=
  forLoop 1 (params.Num_Y - 1) (fun j arr =>
    forLoop (if params.DIM = 3 then 1 else 0)
      (if params.DIM = 3 then params.Num_Z - 1 else 1) (fun k arr =>
        bcPair bc.left bc.right (bcIndex params.DIM strides 0 j k)
          (bcIndex params.DIM strides (params.Num_X - 1) j k)
          (bcIndex params.DIM strides 1 j k)
          (bcIndex params.DIM strides (params.Num_X - 2) j k) arr) arr) arr

/-- The Y pass of `applyBoundaryConditions` (second loop nest). -/
def bcPassY {F : Type} (arr : Arr F) (params : SimParams F) (strides : Fin 3 → Int)
    (bc : FaceBoundary) : Arr F :=
  forLoop 1 (params.Num_X - 1) (fun i arr =>
    forLoop (if params.DIM = 3 then 1 else 0)
      (if params.DIM = 3 then params.Num_Z - 1 else 1) (fun k arr =>
        bcPair bc.bottom bc.top (bcIndex params.DIM strides i 0 k)
          (bcIndex params.DIM strides i (params.Num_Y - 1) k)
          (bcIndex params.DIM strides i 1 k)
          (bcIndex params.DIM strides i (params.Num_Y - 2) k) arr) arr) arr

/-- The Z pass of `applyBoundaryConditions` (third loop nest, run when
`dim == 3`). -/
def bcPassZ {F : Type} (arr : Arr F) (params : SimParams F) (strides : Fin 3 → Int)
    (bc : FaceBoundary) : Arr F :=
  forLoop 1 (params.Num_X - 1) (fun i arr =>
    forLoop 1 (params.Num_Y - 1) (fun j arr =>
      bcPair bc.back bc.front (IDX strides i j 0) (IDX strides i j (params.Num_Z - 1))
        (IDX strides i j 1) (IDX strides i j (params.Num_Z - 2)) arr) arr) arr

/-- Grid extents covered by the boundary claims: `NX, NY >= 3`, and either a 2D
grid with `Num_Z = 1` or a 3D grid with `NZ >= 3`. -/
def validGrid {F : Type} (params : SimParams F) : Prop :=
  3 ≤ params.Num_X ∧ 3 ≤ params.Num_Y ∧
    ((params.DIM = 2 ∧ params.Num_Z = 1) ∨ (params.DIM = 3 ∧ 3 ≤ params.Num_Z))

/-- Interior range of the Z index: `1 .. NZ-2` in 3D, the single layer `0`
otherwise. -/
def interiorK {F : Type} (params : SimParams F) (k : Int) : Prop :=
  if params.DIM = 3 then 1 ≤ k ∧ k ≤ params.Num_Z - 2 else k = 0

/-! ## Tridiagonal solver and ADI temperature update (temperature.c) -/

/-- The helper `lapX`: discrete second difference in X (no spacing factor). -/
def lapX {F : Type} [Field F] (field : Arr F) (i j : Int) (strides : Fin 3 → Int) : F :=
  field.get (IDX strides (i + 1) j 0) - 2 * field.get (IDX strides i j 0) + field.get (IDX strides (i - 1) j 0)

/-- The helper `lapY`: discrete second difference in Y (no spacing factor). -/
def lapY {F : Type} [Field F] (field : Arr F) (i j : Int) (strides : Fin 3 → Int) : F :=
  field.get (IDX strides i (j + 1) 0) - 2 * field.get (IDX strides i j 0) + field.get (IDX strides i (j - 1) 0)

/-- Forward elimination of `thomas` (lines 18-26): the scratch arrays
`(c_prime, d_prime)` when the first loop has finished.  The freshly allocated
scratch arrays are taken to hold zeros; every entry read has been written. -/
def thomasForward {F : Type} [Field F] (M : Int) (a b c d : Arr F) :
    Arr F × Arr F :=
  let c_prime : Arr F := Arr.const 0
  let d_prime : Arr F := Arr.const 0
  let c_prime := c_prime.set 0 (c.get 0 / b.get 0)
  let d_prime := d_prime.set 0 (d.get 0 / b.get 0)
  forLoop 1 M (fun p st =>
    let m := b.get p - a.get p * st.1.get (p - 1)
    let c_prime := st.1.set p (c.get p / m)
    let d_prime := st.2.set p ((d.get p - a.get p * st.2.get (p - 1)) / m)
    (c_prime, d_prime)) (c_prime, d_prime)

/-- The function `thomas`: forward elimination, then back substitution into `x`. -/
def thomas {F : Type} [Field F] (M : Int) (a b c d x : Arr F) : Arr F :=
  let cd := thomasForward M a b c d
  let c_prime := cd.1
  let d_prime := cd.2
  let x := x.set (M - 1) (d_prime.get (M - 1))
  forLoopDown (M - 2) 0 (fun p x =>
    x.set p (d_prime.get p - c_prime.get p * x.get (p + 1))) x

/-- The arrays that an ADI sweep allocates once and reuses for every line,
together with the output field. -/
structure AdiState (F : Type) where
  a : Arr F
  b : Arr F
  c : Arr F
  d : Arr F
  x : Arr F
  out : Arr F

/-- Body of the loop over `j` in `adi_step1_X` (lines 46-61): one row. -/
def adi_step1_X_row {F : Type} [Field F] (NX : Int) (rx ry : F) (inp : Arr F)
    (strides : Fin 3 → Int) (j : Int) (st : AdiState F) : AdiState F :=
  let M := NX - 2
  -- build tridiagonal for row j
  let st := forLoop 1 (NX - 1) (fun i st =>
    let k := i - 1
    { st with
      a := st.a.set k (-rx)
      b := st.b.set k (1 + 2 * rx)
      c := st.c.set k (-rx)
      d := st.d.set k (inp.get (IDX strides i j 0) + ry * lapY inp i j strides) }) st
  -- Neumann BC adjustments
  let st := { st with b := st.b.set 0 (st.b.get 0 - st.a.get 0) }
  let st := { st with b := st.b.set (M - 1) (st.b.get (M - 1) - st.c.get (M - 1)) }
  let st := { st with x := thomas M st.a st.b st.c st.d st.x }
  -- write back solution
  forLoop 1 (NX - 1) (fun i st =>
    { st with out := st.out.set (IDX strides i j 0) (st.x.get (i - 1)) }) st

/-- The function `adi_step1_X`: implicit in X, explicit in Y.  Returns the
output field. -/
def adi_step1_X {F : Type} [Field F] (NX NY : Int) (rx ry : F) (inp out : Arr F)
    (strides : Fin 3 → Int) : Arr F :=
  let z : Arr F := Arr.const 0
  (forLoop 1 (NY - 1) (adi_step1_X_row NX rx ry inp strides)
    { a := z, b := z, c := z, d := z, x := z, out := out }).out

/-- Body of the loop over `i` in `adi_step2_Y` (lines 77-92): one column. -/
def adi_step2_Y_col {F : Type} [Field F] (NY : Int) (rx ry : F) (inp : Arr F)
    (strides : Fin 3 → Int) (i : Int) (st : AdiState F) : AdiState F :=
  let M := NY - 2
  -- build tridiagonal for column i
  let st := forLoop 1 (NY - 1) (fun j st =>
    let p := j - 1
    { st with
      a := st.a.set p (-ry)
      b := st.b.set p (1 + 2 * ry)
      c := st.c.set p (-ry)
      d := st.d.set p (inp.get (IDX strides i j 0) + rx * lapX inp i j strides) }) st
  -- Neumann BC adjustments
  let st := { st with b := st.b.set 0 (st.b.get 0 - st.a.get 0) }
  let st := { st with b := st.b.set (M - 1) (st.b.get (M - 1) - st.c.get (M - 1)) }
  let st := { st with x := thomas M st.a st.b st.c st.d st.x }
  -- write back solution
  forLoop 1 (NY - 1) (fun j st =>
    { st with out := st.out.set (IDX strides i j 0) (st.x.get (j - 1)) }) st

/-- The function `adi_step2_Y`: implicit in Y, explicit in X.  Returns the
output field. -/
def adi_step2_Y {F : Type} [Field F] (NX NY : Int) (rx ry : F) (inp out : Arr F)
    (strides : Fin 3 → Int) : Arr F :=
  let z : Arr F := Arr.const 0
  (forLoop 1 (NX - 1) (adi_step2_Y_col NY rx ry inp strides)
    { a := z, b := z, c := z, d := z, x := z, out := out }).out

/-- The coefficient-building loop of a line solve (`a[k] = -r`, `b[k] = 1 + 2r`,
`c[k] = -r`, `d[k] = rhs(i)` with `k = i - 1`). -/
def adiBuild {F : Type} [Field F] (N : Int) (r : F) (rhs : Int → F) (st : AdiState F) :
    AdiState F :=
  forLoop 1 (N - 1) (fun i st =>
    let k := i - 1
    { st with
      a := st.a.set k (-r)
      b := st.b.set k (1 + 2 * r)
      c := st.c.set k (-r)
      d := st.d.set k (rhs i) }) st

/-- The two statements `b[0] -= a[0]; b[M - 1] -= c[M - 1];`. -/
def adiAdjust {F : Type} [Field F] (M : Int) (st : AdiState F) : AdiState F :=
  let st := { st with b := st.b.set 0 (st.b.get 0 - st.a.get 0) }
  { st with b := st.b.set (M - 1) (st.b.get (M - 1) - st.c.get (M - 1)) }

/-- The call `thomas(M, a, b, c, d, x)`. -/
def adiSolve {F : Type} [Field F] (M : Int) (st : AdiState F) : AdiState F :=
  { st with x := thomas M st.a st.b st.c st.d st.x }

/-- The write-back loop of a line solve (`out[cell(i)] = x[i - 1]`). -/
def adiWriteBack {F : Type} (N : Int) (cell : Int → Int) (st : AdiState F) : AdiState F :=
  forLoop 1 (N - 1) (fun i st =>
    { st with out := st.out.set (cell i) (st.x.get (i - 1)) }) st

/-- The common shape of the two line solves (`adi_step1_X_row`,
`adi_step2_Y_col`): a line of `N` cells `cell 1 .. cell (N-2)` between two ghost
cells, coefficient `r`, right-hand side `rhs`. -/
def adiLine {F : Type} [Field F] (N : Int) (r : F) (rhs : Int → F) (cell : Int → Int)
    (st : AdiState F) : AdiState F :=
  adiWriteBack N cell (adiSolve (N - 2) (adiAdjust (N - 2) (adiBuild N r rhs st)))

/-- The tridiagonal system that a line solve assembles for a line of `N` cells
(`N - 2` unknowns `g 1 .. g (N-2)`), with the two end rows as the statements
`b[0] -= a[0]; b[M - 1] -= c[M - 1];` leave them. -/
def lineSystem {F : Type} [Field F] (N : Int) (r : F) (rhs g : Int → F) : Prop :=
  (N = 3 → (1 + 4 * r) * g 1 = rhs 1) ∧
  (4 ≤ N →
    (1 + 3 * r) * g 1 - r * g 2 = rhs 1 ∧
    (∀ i, 2 ≤ i → i ≤ N - 3 → -r * g (i - 1) + (1 + 2 * r) * g i - r * g (i + 1) = rhs i) ∧
    -r * g (N - 3) + (1 + 3 * r) * g (N - 2) = rhs (N - 2))

/-- Apply the boundary conditions of the variable when it is registered
(`if (vb) applyBoundaryConditions(arr, params, strides, vb->bc);`). -/
def applyBCIfFound {F : Type} (vb : Option VariableBoundary) (arr : Arr F)
    (params : SimParams F) (strides : Fin 3 → Int) : Arr F :=
  match vb with
  | some v => applyBoundaryConditions arr params strides v.bc
  | none => arr

namespace CEngine

/-- Lines 98-145 of the ADI `updateTemp`: the buffers at the moment
`adi_step2_Y` is called (`temp_buf1` is `T1`, `temp_buf2` is `T2`). -/
def updateTempBeforeStep2 {F : Type} [Field F] (T : Arr F) (fb : FieldBuffers F)
    (params : SimParams F) (strides : Fin 3 → Int) (r2 : Fin 3 → F) : FieldBuffers F :=
  let NX := params.Num_X
  let NY := params.Num_Y
  let dt := params.dt
  let K := params.K
  let rx := (1 / 2) * K * dt * r2 0
  let ry := (1 / 2) * K * dt * r2 1
  let T0 := T
  let T1 := fb.temp_buf1
  let T2 := fb.temp_buf2
  -- inherit phi BC on the dphi_dt buffer
  let vb_phi := findVariableBoundary "phi" params
  let dphi_dt := applyBCIfFound vb_phi fb.dphi_dt params strides
  let T1 := forLoop 1 (NX - 1) (fun i T1 =>
    forLoop 1 (NY - 1) (fun j T1 =>
      let index := IDX strides i j 0
      T1.set index (T0.get index + (1 / 2) * dt * K * dphi_dt.get index)) T1) T1
  let vb_temp := findVariableBoundary "temp" params
  let T1 := applyBCIfFound vb_temp T1 params strides
  let T2 := adi_step1_X NX NY rx ry T1 T2 strides
  let T2 := applyBCIfFound vb_temp T2 params strides
  let T2 := forLoop 1 (NX - 1) (fun i T2 =>
    forLoop 1 (NY - 1) (fun j T2 =>
      let index := IDX strides i j 0
      T2.set index (T2.get index + (1 / 2) * dt * K * dphi_dt.get index)) T2) T2
  { fb with dphi_dt := dphi_dt, temp_buf1 := T1, temp_buf2 := T2 }

/-- The ADI `updateTemp` of the C engine. -/
def updateTemp {F : Type} [Field F] (T : Arr F) (fb : FieldBuffers F)
    (params : SimParams F) (strides : Fin 3 → Int) (r2 : Fin 3 → F) : FieldBuffers F :=
  let NX := params.Num_X
  let NY := params.Num_Y
  let dt := params.dt
  let K := params.K
  let rx := (1 / 2) * K * dt * r2 0
  let ry := (1 / 2) * K * dt * r2 1
  let fb := updateTempBeforeStep2 T fb params strides r2
  let T2 := fb.temp_buf2
  let Tn := fb.temp_new
  let vb_temp := findVariableBoundary "temp" params
  let T1 := adi_step2_Y NX NY rx ry T2 fb.temp_buf1 strides
  let T1 := applyBCIfFound vb_temp T1 params strides
  let Tn := forLoop 1 (NX - 1) (fun i Tn =>
    forLoop 1 (NY - 1) (fun j Tn =>
      let index := IDX strides i j 0
      Tn.set index (T1.get index)) Tn) Tn
  { fb with temp_buf1 := T1, temp_new := Tn }

/-- The C engine's `copyInterior`: the layer `k = 0` only. -/
def copyInterior {F : Type} (dst src : Arr F) (params : SimParams F)
    (strides : Fin 3 → Int) : Arr F :=
  let NX := params.Num_X
  let NY := params.Num_Y
  forLoop 1 (NX - 1) (fun i dst =>
    forLoop 1 (NY - 1) (fun j dst =>
      let index := IDX strides i j 0
      dst.set index (src.get index)) dst) dst

end CEngine

/-! ### Stages of the ADI `updateTemp`, named for the proofs -/

/-- The loop nest `for i, for j: index = IDX(i,j,0); A[index] = g(index, A[index])`
over the interior of the layer `k = 0`. -/
def interiorUpdate2D {F : Type} (params : SimParams F) (strides : Fin 3 → Int)
    (g : Int → F → F) (A : Arr F) : Arr F :=
  forLoop 1 (params.Num_X - 1) (fun i A =>
    forLoop 1 (params.Num_Y - 1) (fun j A =>
      let index := IDX strides i j 0
      A.set index (g index (A.get index))) A) A

namespace CEngine

/-- The `dphi_dt` buffer after the phi boundary policy is applied to it (line 115). -/
def stageDphi {F : Type} (fb : FieldBuffers F) (params : SimParams F)
    (strides : Fin 3 → Int) : Arr F :=
  applyBCIfFound (findVariableBoundary "phi" params) fb.dphi_dt params strides

/-- The field `T1` passed to `adi_step1_X` (lines 119-129). -/
def stageT1 {F : Type} [Field F] (T : Arr F) (fb : FieldBuffers F) (params : SimParams F)
    (strides : Fin 3 → Int) : Arr F :=
  applyBCIfFound (findVariableBoundary "temp" params)
    (interiorUpdate2D params strides
      (fun index _ => T.get index
        + (1 / 2) * params.dt * params.K * (stageDphi fb params strides).get index)
      fb.temp_buf1) params strides

/-- The field `T2` after `adi_step1_X` and the boundary enforcement that follows
it (lines 132-137). -/
def stageT2Enforced {F : Type} [Field F] (T : Arr F) (fb : FieldBuffers F)
    (params : SimParams F) (strides : Fin 3 → Int) (r2 : Fin 3 → F) : Arr F :=
  applyBCIfFound (findVariableBoundary "temp" params)
    (adi_step1_X params.Num_X params.Num_Y ((1 / 2) * params.K * params.dt * r2 0)
      ((1 / 2) * params.K * params.dt * r2 1) (stageT1 T fb params strides) fb.temp_buf2 strides)
    params strides

/-- The field `T2` passed to `adi_step2_Y`: after the second source injection
(lines 140-145). -/
def stageT2 {F : Type} [Field F] (T : Arr F) (fb : FieldBuffers F) (params : SimParams F)
    (strides : Fin 3 → Int) (r2 : Fin 3 → F) : Arr F :=
  interiorUpdate2D params strides
    (fun index v => v + (1 / 2) * params.dt * params.K * (stageDphi fb params strides).get index)
    (stageT2Enforced T fb params strides r2)

/-- The field `T1` after `adi_step2_Y` and the boundary enforcement that follows
it (lines 147-150). -/
def stageT1Final {F : Type} [Field F] (T : Arr F) (fb : FieldBuffers F) (params : SimParams F)
    (strides : Fin 3 → Int) (r2 : Fin 3 → F) : Arr F :=
  applyBCIfFound (findVariableBoundary "temp" params)
    (adi_step2_Y params.Num_X params.Num_Y ((1 / 2) * params.K * params.dt * r2 0)
      ((1 / 2) * params.K * params.dt * r2 1) (stageT2 T fb params strides r2)
      (stageT1 T fb params strides) strides)
    params strides

end CEngine

/-! ## Gradients (gradient.cpp / gradient.c) -/

/-- The ten assignments that `computeGradientPhi` executes for the cell with
flattened index `idx`; the two engines have the same statements (the C engine
names the index `index`). -/
def gradientCell {F : Type} [Field F] (phi : Arr F) (r : Fin 3 → F) (strides : Fin 3 → Int)
    (idx : Int) (fb : FieldBuffers F) : FieldBuffers F :=
  let s0 := strides 0
  let s1 := strides 1
  -- forward differences
  let fb := { fb with
    DERX_right := fb.DERX_right.set idx ((phi.get (idx + s0) - phi.get idx) * r 0) }
  let fb := { fb with
    DERX_left := fb.DERX_left.set idx ((phi.get idx - phi.get (idx - s0)) * r 0) }
  let fb := { fb with
    DERY_top := fb.DERY_top.set idx ((phi.get (idx + s1) - phi.get idx) * r 1) }
  let fb := { fb with
    DERY_bottom := fb.DERY_bottom.set idx ((phi.get idx - phi.get (idx - s1)) * r 1) }
  -- central differences
  let fb := { fb with
    DERX_c := fb.DERX_c.set idx ((1 / 2) * (phi.get (idx + s0) - phi.get (idx - s0)) * r 0) }
  let fb := { fb with
    DERY_c := fb.DERY_c.set idx ((1 / 2) * (phi.get (idx + s1) - phi.get (idx - s1)) * r 1) }
  -- mixed-direction derivatives
  let fb := { fb with
    DERX_top := fb.DERX_top.set idx
      ((1 / 4) * ((phi.get (idx + s0) + phi.get (idx + s0 + s1) + phi.get idx
            + phi.get (idx + s1))
          - (phi.get (idx - s0) + phi.get (idx - s0 + s1) + phi.get idx
            + phi.get (idx + s1))) * r 0) }
  let fb := { fb with
    DERX_bottom := fb.DERX_bottom.set idx
      ((1 / 4) * ((phi.get (idx + s0) + phi.get (idx + s0 - s1) + phi.get idx
            + phi.get (idx - s1))
          - (phi.get (idx - s0) + phi.get (idx - s0 - s1) + phi.get idx
            + phi.get (idx - s1))) * r 0) }
  let fb := { fb with
    DERY_right := fb.DERY_right.set idx
      ((1 / 4) * ((phi.get (idx + s1) + phi.get (idx + s0 + s1) + phi.get idx
            + phi.get (idx + s0))
          - (phi.get (idx - s1) + phi.get (idx + s0 - s1) + phi.get idx
            + phi.get (idx + s0))) * r 1) }
  let fb := { fb with
    DERY_left := fb.DERY_left.set idx
      ((1 / 4) * ((phi.get (idx + s1) + phi.get (idx - s0 + s1) + phi.get idx
            + phi.get (idx - s0))
          - (phi.get (idx - s1) + phi.get (idx - s0 - s1) + phi.get idx
            + phi.get (idx - s0))) * r 1) }
  fb

/-- Values held at the flattened index `p` by the ten derivative buffers. -/
def FieldBuffers.gradCell {F : Type} (fb : FieldBuffers F) (p : Int) : List F :=
  [fb.DERX_right.get p, fb.DERX_left.get p, fb.DERY_top.get p, fb.DERY_bottom.get p,
   fb.DERX_c.get p, fb.DERY_c.get p, fb.DERX_top.get p, fb.DERX_bottom.get p,
   fb.DERY_right.get p, fb.DERY_left.get p]

/-! ## Gradients and phase-field update, C engine (gradient.c, phasefield.c) -/

namespace CEngine

/-- The C engine's `computeGradientPhi`: the layer `k = 0` only. -/
def computeGradientPhi {F : Type} [Field F] (phi : Arr F) (fb : FieldBuffers F)
    (params : SimParams F) (r : Fin 3 → F) (strides : Fin 3 → Int) : FieldBuffers F :=
  let NX := params.Num_X
  let NY := params.Num_Y
  forLoop 1 (NX - 1) (fun i fb =>
    forLoop 1 (NY - 1) (fun j fb =>
      let index := IDX strides i j 0
      gradientCell phi r strides index fb) fb) fb

/-- Body of the loops of the C engine's `updatePhi` (lines 19-35) for the cell
with flattened index `index`; the state is the buffers and the number of
`rand()` calls made so far. -/
def updatePhiCell {F : Type} [Field F] (phi : Arr F) (params : SimParams F) (r : Fin 3 → F)
    (RAND_MAX : Int) (rng : Nat → Int) (index : Int) (st : FieldBuffers F × Nat) :
    FieldBuffers F × Nat :=
  let fb := st.1
  -- phase-field fluxes on the right, left, top and bottom edges
  let rj := fb.ac_right.get index * (fb.ac_right.get index * fb.DERX_right.get index
    - fb.ac_p_right.get index * fb.DERY_right.get index)
  let lj := fb.ac_left.get index * (fb.ac_left.get index * fb.DERX_left.get index
    - fb.ac_p_left.get index * fb.DERY_left.get index)
  let tj := fb.ac_top.get index * (fb.ac_top.get index * fb.DERY_top.get index
    + fb.ac_p_top.get index * fb.DERX_top.get index)
  let bj := fb.ac_bottom.get index * (fb.ac_bottom.get index * fb.DERY_bottom.get index
    + fb.ac_p_bottom.get index * fb.DERX_bottom.get index)
  let noise := params.a * (((rng st.2 : Int) : F) / ((RAND_MAX : Int) : F) - 1 / 2)
  let noise := noise * (phi.get index * (1 - phi.get index))
  let fb := { fb with dphi_dt := fb.dphi_dt.set index ((rj - lj) * r 0 + (tj - bj) * r 1) }
  let fb := { fb with
    dphi_dt := fb.dphi_dt.set index (fb.dphi_dt.get index + fb.dfdphi.get index) }
  let fb := { fb with dphi_dt := fb.dphi_dt.set index (fb.dphi_dt.get index + noise) }
  let fb := { fb with dphi_dt := fb.dphi_dt.set index (fb.dphi_dt.get index / params.tau) }
  let fb := { fb with
    phi_new := fb.phi_new.set index (phi.get index + params.dt * fb.dphi_dt.get index) }
  (fb, st.2 + 1)

/-- The C engine's `updatePhi`: the layer `k = 0` only.  Returns the buffers and
the number of `rand()` calls made so far. -/
def updatePhi {F : Type} [Field F] (phi : Arr F) (fb : FieldBuffers F) (params : SimParams F)
    (r : Fin 3 → F) (strides : Fin 3 → Int) (RAND_MAX : Int) (rng : Nat → Int) (calls : Nat) :
    FieldBuffers F × Nat :=
  let NX := params.Num_X
  let NY := params.Num_Y
  forLoop 1 (NX - 1) (fun i st =>
    forLoop 1 (NY - 1) (fun j st =>
      let index := IDX strides i j 0
      updatePhiCell phi params r RAND_MAX rng index st) st) (fb, calls)

end CEngine

/-! ## Gradients and phase-field update, C++ engine (gradient.cpp, phasefield.cpp) -/

namespace CppEngine

/-- The C++ engine's `computeGradientPhi`. -/
def computeGradientPhi {F : Type} [Field F] (phi : Arr F) (fb : FieldBuffers F)
    (params : SimParams F) (r : Fin 3 → F) (strides : Fin 3 → Int) : FieldBuffers F :=
  let NX := params.Num_X
  let NY := params.Num_Y
  let NZ := params.Num_Z
  let dim := params.DIM
  let kstart : Int := if dim = 3 then 1 else 0
  let kend : Int := if dim = 3 then NZ - 1 else 1
  forLoop 1 (NX - 1) (fun i fb =>
    forLoop 1 (NY - 1) (fun j fb =>
      forLoop kstart kend (fun k fb =>
        let idx := IDX strides i j k
        gradientCell phi r strides idx fb) fb) fb) fb

/-- Body of the loops of the C++ engine's `updatePhi` (lines 34-58) for the cell
with flattened index `idx`; the state is the buffers and the number of
`rand()` calls made so far. -/
def updatePhiCell {F : Type} [Field F] (phi : Arr F) (params : SimParams F) (r : Fin 3 → F)
    (RAND_MAX : Int) (rng : Nat → Int) (idx : Int) (st : FieldBuffers F × Nat) :
    FieldBuffers F × Nat :=
  let dt := params.dt
  let a := params.a
  let tau := params.tau
  let fb := st.1
  -- anisotropic fluxes
  let rj := fb.ac_right.get idx * (fb.ac_right.get idx * fb.DERX_right.get idx
    - fb.ac_p_right.get idx * fb.DERY_right.get idx)
  let lj := fb.ac_left.get idx * (fb.ac_left.get idx * fb.DERX_left.get idx
    - fb.ac_p_left.get idx * fb.DERY_left.get idx)
  let tj := fb.ac_top.get idx * (fb.ac_top.get idx * fb.DERY_top.get idx
    + fb.ac_p_top.get idx * fb.DERX_top.get idx)
  let bj := fb.ac_bottom.get idx * (fb.ac_bottom.get idx * fb.DERY_bottom.get idx
    + fb.ac_p_bottom.get idx * fb.DERX_bottom.get idx)
  -- noise term
  let noise := a * (((rng st.2 : Int) : F) / ((RAND_MAX : Int) : F) - 1 / 2)
  let noise := noise * (phi.get idx * (1 - phi.get idx))
  -- time derivative
  let dphi := (rj - lj) * r 0 + (tj - bj) * r 1
  let dphi := dphi + fb.dfdphi.get idx
  let dphi := dphi + noise
  let dphi := dphi / tau
  let fb := { fb with dphi_dt := fb.dphi_dt.set idx dphi }
  -- update phi
  let fb := { fb with phi_new := fb.phi_new.set idx (phi.get idx + dt * dphi) }
  (fb, st.2 + 1)

/-- The C++ engine's `updatePhi`.  Returns the buffers and the number of
`rand()` calls made so far. -/
def updatePhi {F : Type} [Field F] (phi : Arr F) (fb : FieldBuffers F) (params : SimParams F)
    (r : Fin 3 → F) (strides : Fin 3 → Int) (RAND_MAX : Int) (rng : Nat → Int) (calls : Nat) :
    FieldBuffers F × Nat :=
  let NX := params.Num_X
  let NY := params.Num_Y
  let NZ := params.Num_Z
  let dim := params.DIM
  let kstart : Int := if dim = 3 then 1 else 0
  let kend : Int := if dim = 3 then NZ - 1 else 1
  forLoop 1 (NX - 1) (fun i st =>
    forLoop 1 (NY - 1) (fun j st =>
      forLoop kstart kend (fun k st =>
        let idx := IDX strides i j k
        updatePhiCell phi params r RAND_MAX rng idx st) st) st) (fb, calls)

/-- The C++ engine's `copyInterior`. -/
def copyInterior {F : Type} (dst src : Arr F) (params : SimParams F)
    (strides : Fin 3 → Int) : Arr F :=
  let NX := params.Num_X
  let NY := params.Num_Y
  let dim := params.DIM
  let kstart : Int := if dim = 3 then 1 else 0
  let kend : Int := if dim = 3 then params.Num_Z - 1 else 1
  forLoop 1 (NX - 1) (fun i dst =>
    forLoop 1 (NY - 1) (fun j dst =>
      forLoop kstart kend (fun k dst =>
        let idx := IDX strides i j k
        dst.set idx (src.get idx)) dst) dst) dst

end CppEngine

/-- The reciprocal spacings `r` as `main` builds them. -/
def mainR {F : Type} [Field F] (params : SimParams F) : Fin 3 → F :=
  ![1 / params.dx, 1 / params.dy, 1 / params.dz]

/-- The squared reciprocal spacings `r2` as `main` builds them. -/
def mainR2 {F : Type} [Field F] (params : SimParams F) : Fin 3 → F :=
  ![1 / (params.dx * params.dx), 1 / (params.dy * params.dy), 1 / (params.dz * params.dz)]

/-- Values held at the flattened index `p` by the buffers that `updatePhi`
reads or writes there. -/
def FieldBuffers.phiCell {F : Type} (fb : FieldBuffers F) (p : Int) : List F :=
  [fb.phi_new.get p, fb.dphi_dt.get p, fb.dfdphi.get p,
   fb.ac_right.get p, fb.ac_left.get p, fb.ac_top.get p, fb.ac_bottom.get p,
   fb.ac_p_right.get p, fb.ac_p_left.get p, fb.ac_p_top.get p, fb.ac_p_bottom.get p,
   fb.DERX_right.get p, fb.DERX_left.get p, fb.DERY_top.get p, fb.DERY_bottom.get p,
   fb.DERY_right.get p, fb.DERY_left.get p, fb.DERX_top.get p, fb.DERX_bottom.get p]

/-- The time derivative of phi as the specification states it (section 4.5):
`[(rj - lj)/dx + (tj - bj)/dy + dF/dphi + a (U - 0.5) phi (1 - phi)] / tau`, with
the four face fluxes built from the buffers at the cell `idx` and `U` the random
sample of the cell. -/
def specDphiDt {F : Type} [Field F] (fb : FieldBuffers F) (phi : Arr F) (params : SimParams F)
    (U : F) (idx : Int) : F :=
  let rj := fb.ac_right.get idx * (fb.ac_right.get idx * fb.DERX_right.get idx
    - fb.ac_p_right.get idx * fb.DERY_right.get idx)
  let lj := fb.ac_left.get idx * (fb.ac_left.get idx * fb.DERX_left.get idx
    - fb.ac_p_left.get idx * fb.DERY_left.get idx)
  let tj := fb.ac_top.get idx * (fb.ac_top.get idx * fb.DERY_top.get idx
    + fb.ac_p_top.get idx * fb.DERX_top.get idx)
  let bj := fb.ac_bottom.get idx * (fb.ac_bottom.get idx * fb.DERY_bottom.get idx
    + fb.ac_p_bottom.get idx * fb.DERX_bottom.get idx)
  ((rj - lj) / params.dx + (tj - bj) / params.dy + fb.dfdphi.get idx
    + params.a * (U - 1 / 2) * phi.get idx * (1 - phi.get idx)) / params.tau

/-! ## The math library (`<cmath>` / `<math.h>`) -/

/-- The library functions `atan`, `atan2`, `cos`, `sin` and the constant `M_PI`
that the engines use.  The embedding takes them as a parameter; where a theorem
needs a property of the real functions (such as `atan 0 = 0`) that property is
a hypothesis of the theorem. -/
structure MathLib (F : Type) where
  atan : F → F
  atan2 : F → F → F
  cos : F → F
  sin : F → F
  M_PI : F

/-! ## Free-energy forcing (free_energy.cpp / free_energy.c) -/

/-- The coupling term `m = (alpha / M_PI) * atan(gamma * (T_e - T))` that
`computedfdphi` evaluates for a cell of temperature `T`. -/
def couplingM {F : Type} [Field F] (lib : MathLib F) (params : SimParams F) (T : F) : F :=
  (params.alpha / lib.M_PI) * lib.atan (params.gamma * (params.T_e - T))

/-- The two statements that `computedfdphi` executes for the cell with flattened
index `idx`; the two engines have the same statements. -/
def dfdphiCell {F : Type} [Field F] (lib : MathLib F) (phi temp : Arr F) (params : SimParams F)
    (idx : Int) (dfdphi : Arr F) : Arr F :=
  let m := (params.alpha / lib.M_PI) * lib.atan (params.gamma * (params.T_e - temp.get idx))
  dfdphi.set idx (phi.get idx * (1 - phi.get idx) * (phi.get idx - 1 / 2 + m))

namespace CppEngine

/-- The C++ engine's `computedfdphi`.  Returns the `dfdphi` array. -/
def computedfdphi {F : Type} [Field F] (lib : MathLib F) (phi dfdphi temp : Arr F)
    (params : SimParams F) (strides : Fin 3 → Int) : Arr F :=
  let NX := params.Num_X
  let NY := params.Num_Y
  let NZ := params.Num_Z
  let dim := params.DIM
  let kstart : Int := if dim = 3 then 1 else 0
  let kend : Int := if dim = 3 then NZ - 1 else 1
  forLoop 1 (NX - 1) (fun i dfdphi =>
    forLoop 1 (NY - 1) (fun j dfdphi =>
      forLoop kstart kend (fun k dfdphi =>
        let idx := IDX strides i j k
        dfdphiCell lib phi temp params idx dfdphi) dfdphi) dfdphi) dfdphi

end CppEngine

namespace CEngine

/-- The C engine's `computedfdphi`: the layer `k = 0` only.  Returns the `dfdphi`
array. -/
def computedfdphi {F : Type} [Field F] (lib : MathLib F) (phi dfdphi temp : Arr F)
    (params : SimParams F) (strides : Fin 3 → Int) : Arr F :=
  let NX := params.Num_X
  let NY := params.Num_Y
  forLoop 1 (NX - 1) (fun i dfdphi =>
    forLoop 1 (NY - 1) (fun j dfdphi =>
      let index := IDX strides i j 0
      dfdphiCell lib phi temp params index dfdphi) dfdphi) dfdphi

end CEngine

/-! ## Anisotropy (anisotropy.cpp / anisotropy.c) -/

/-- The statements that `computeAnisotropy` executes for the cell with flattened
index `idx`; the two engines have the same statements (the C++ engine first
copies `epsilon`, `delta`, `j`, `theta_0` into locals). -/
def anisotropyCell {F : Type} [Field F] (lib : MathLib F) (params : SimParams F) (idx : Int)
    (fb : FieldBuffers F) : FieldBuffers F :=
  let eps := params.epsilon
  let delta := params.delta
  let jmult : F := ((params.j : Int) : F)
  let theta0 := params.theta_0
  -- interface normal angle, anisotropy and its derivative
  let theta := lib.atan2 (fb.DERY_c.get idx) (fb.DERX_c.get idx)
  let fb := { fb with ac := fb.ac.set idx (eps * (1 + delta * lib.cos (jmult * (theta - theta0)))) }
  let fb := { fb with
    ac_p := fb.ac_p.set idx (-eps * (delta * jmult * lib.sin (jmult * (theta - theta0)))) }
  -- neighbours' interface angles
  let theta_r := lib.atan2 (fb.DERY_right.get idx) (fb.DERX_right.get idx)
  let theta_l := lib.atan2 (fb.DERY_left.get idx) (fb.DERX_left.get idx)
  let theta_t := lib.atan2 (fb.DERY_top.get idx) (fb.DERX_top.get idx)
  let theta_b := lib.atan2 (fb.DERY_bottom.get idx) (fb.DERX_bottom.get idx)
  -- anisotropy at neighbours
  let fb := { fb with
    ac_right := fb.ac_right.set idx (eps * (1 + delta * lib.cos (jmult * (theta_r - theta0)))) }
  let fb := { fb with
    ac_left := fb.ac_left.set idx (eps * (1 + delta * lib.cos (jmult * (theta_l - theta0)))) }
  let fb := { fb with
    ac_top := fb.ac_top.set idx (eps * (1 + delta * lib.cos (jmult * (theta_t - theta0)))) }
  let fb := { fb with
    ac_bottom := fb.ac_bottom.set idx (eps * (1 + delta * lib.cos (jmult * (theta_b - theta0)))) }
  -- derivative of anisotropy at neighbours
  let fb := { fb with
    ac_p_right := fb.ac_p_right.set idx
      (-eps * (delta * jmult * lib.sin (jmult * (theta_r - theta0)))) }
  let fb := { fb with
    ac_p_left := fb.ac_p_left.set idx
      (-eps * (delta * jmult * lib.sin (jmult * (theta_l - theta0)))) }
  let fb := { fb with
    ac_p_top := fb.ac_p_top.set idx
      (-eps * (delta * jmult * lib.sin (jmult * (theta_t - theta0)))) }
  let fb := { fb with
    ac_p_bottom := fb.ac_p_bottom.set idx
      (-eps * (delta * jmult * lib.sin (jmult * (theta_b - theta0)))) }
  fb

/-- Values held at the flattened index `p` by the ten anisotropy buffers: `ac`
and `ac_p` at the centre, then at the right, left, top and bottom positions. -/
def FieldBuffers.anisoCell {F : Type} (fb : FieldBuffers F) (p : Int) : List F :=
  [fb.ac.get p, fb.ac_p.get p, fb.ac_right.get p, fb.ac_p_right.get p,
   fb.ac_left.get p, fb.ac_p_left.get p, fb.ac_top.get p, fb.ac_p_top.get p,
   fb.ac_bottom.get p, fb.ac_p_bottom.get p]

namespace CppEngine

/-- The C++ engine's `computeAnisotropy`: the layer `k = 0` in 2D, the first
interior layer `k = 1` in 3D. -/
def computeAnisotropy {F : Type} [Field F] (lib : MathLib F) (fb : FieldBuffers F)
    (params : SimParams F) (strides : Fin 3 → Int) : FieldBuffers F :=
  let NX := params.Num_X
  let NY := params.Num_Y
  let dim := params.DIM
  forLoop 1 (NX - 1) (fun i fb =>
    forLoop 1 (NY - 1) (fun j fb =>
      let idx := IDX strides i j (if dim = 3 then 1 else 0)
      anisotropyCell lib params idx fb) fb) fb

end CppEngine

namespace CEngine

/-- The C engine's `computeAnisotropy`: the layer `k = 0` only. -/
def computeAnisotropy {F : Type} [Field F] (lib : MathLib F) (fb : FieldBuffers F)
    (params : SimParams F) (strides : Fin 3 → Int) : FieldBuffers F :=
  let NX := params.Num_X
  let NY := params.Num_Y
  forLoop 1 (NX - 1) (fun i fb =>
    forLoop 1 (NY - 1) (fun j fb =>
      let index := IDX strides i j 0
      anisotropyCell lib params index fb) fb) fb

end CEngine

/-! ## Explicit temperature update (temperature.cpp) -/

namespace CppEngine

/-- The function `computeLaplacian`. -/
def computeLaplacian {F : Type} [Field F] (arr : Arr F) (index : Int) (strides : Fin 3 → Int)
    (r2 : Fin 3 → F) (dim : Int) : F :=
  -- X-direction
  let lap := (arr.get (index + strides 0) - 2 * arr.get index + arr.get (index - strides 0)) * r2 0
  -- Y-direction
  let lap := lap
    + (arr.get (index + strides 1) - 2 * arr.get index + arr.get (index - strides 1)) * r2 1
  -- Z-direction if 3D
  let lap :=
    if dim = 3 then
      lap + (arr.get (index + strides 2) - 2 * arr.get index + arr.get (index - strides 2)) * r2 2
    else lap
  lap

/-- Body of the loops of the explicit `updateTemp` (lines 35-41) for the cell with
flattened index `idx`. -/
def updateTempCell {F : Type} [Field F] (temp : Arr F) (params : SimParams F)
    (strides : Fin 3 → Int) (r2 : Fin 3 → F) (idx : Int) (fb : FieldBuffers F) : FieldBuffers F :=
  let lap := computeLaplacian temp idx strides r2 params.DIM
  let dtemp_dt := lap + params.K * fb.dphi_dt.get idx
  { fb with temp_new := fb.temp_new.set idx (temp.get idx + params.dt * dtemp_dt) }

/-- The explicit `updateTemp` of the C++ engine. -/
def updateTemp {F : Type} [Field F] (temp : Arr F) (fb : FieldBuffers F) (params : SimParams F)
    (strides : Fin 3 → Int) (r2 : Fin 3 → F) : FieldBuffers F :=
  let NX := params.Num_X
  let NY := params.Num_Y
  let NZ := params.Num_Z
  let dim := params.DIM
  let kstart : Int := if dim = 3 then 1 else 0
  let kend : Int := if dim = 3 then NZ - 1 else 1
  forLoop 1 (NX - 1) (fun i fb =>
    forLoop 1 (NY - 1) (fun j fb =>
      forLoop kstart kend (fun k fb =>
        let idx := IDX strides i j k
        updateTempCell temp params strides r2 idx fb) fb) fb) fb

end CppEngine

/-! ## One time step of the explicit engine (main.cpp, lines 149-169) -/

/-- The arrays that live across time steps and the number of `rand()` calls made
so far. -/
structure SimState (F : Type) where
  phi : Arr F
  temp : Arr F
  fb : FieldBuffers F
  calls : Nat

namespace CppEngine

/-- Steps b) and c) of the time loop (lines 155-158): `computedfdphi`,
`computeGradientPhi`, `computeAnisotropy`. -/
def phiBuffers {F : Type} [Field F] (lib : MathLib F) (phi temp : Arr F) (fb : FieldBuffers F)
    (params : SimParams F) (r : Fin 3 → F) (strides : Fin 3 → Int) : FieldBuffers F :=
  let fb := { fb with dfdphi := computedfdphi lib phi fb.dfdphi temp params strides }
  let fb := computeGradientPhi phi fb params r strides
  computeAnisotropy lib fb params strides

/-- Steps b) to d) of the time loop (lines 155-160): `computedfdphi`,
`computeGradientPhi`, `computeAnisotropy`, `updatePhi`. -/
def phiUpdate {F : Type} [Field F] (lib : MathLib F) (phi temp : Arr F) (fb : FieldBuffers F)
    (params : SimParams F) (r : Fin 3 → F) (strides : Fin 3 → Int) (RAND_MAX : Int)
    (rng : Nat → Int) (calls : Nat) : FieldBuffers F × Nat :=
  updatePhi phi (phiBuffers lib phi temp fb params r strides) params r strides RAND_MAX rng calls

/-- The body of the time loop, steps a) to g), with `r`, `r2` and `strides` as
`main` builds them (lines 81-83). -/
def timeStep {F : Type} [Field F] (lib : MathLib F) (params : SimParams F) (RAND_MAX : Int)
    (rng : Nat → Int) (st : SimState F) : SimState F :=
  let r := mainR params
  let r2 := mainR2 params
  let strides := mainStrides params
  -- a) boundary conditions on phi
  let phi := applyBCIfFound (findVariableBoundary "phi" params) st.phi params strides
  -- b), c), d)
  let res := phiUpdate lib phi st.temp st.fb params r strides RAND_MAX rng st.calls
  -- e) boundary conditions on temp
  let temp := applyBCIfFound (findVariableBoundary "temp" params) st.temp params strides
  -- f) update temp
  let fb := updateTemp temp res.1 params strides r2
  -- g) copy new values back to the main arrays
  let phi := copyInterior phi fb.phi_new params strides
  let temp := copyInterior temp fb.temp_new params strides
  { phi := phi, temp := temp, fb := fb, calls := res.2 }

end CppEngine

/-! ## The phase-field stage of a time step, C engine (main.c, lines 150-159) -/

namespace CEngine

/-- Steps b) and c) of the C engine's time loop: `computedfdphi`,
`computeGradientPhi`, `computeAnisotropy`. -/
def phiBuffers {F : Type} [Field F] (lib : MathLib F) (phi temp : Arr F) (fb : FieldBuffers F)
    (params : SimParams F) (r : Fin 3 → F) (strides : Fin 3 → Int) : FieldBuffers F :=
  let fb := { fb with dfdphi := computedfdphi lib phi fb.dfdphi temp params strides }
  let fb := computeGradientPhi phi fb params r strides
  computeAnisotropy lib fb params strides

/-- Steps b) to d) of the C engine's time loop: `computedfdphi`,
`computeGradientPhi`, `computeAnisotropy`, `updatePhi`. -/
def phiUpdate {F : Type} [Field F] (lib : MathLib F) (phi temp : Arr F) (fb : FieldBuffers F)
    (params : SimParams F) (r : Fin 3 → F) (strides : Fin 3 → Int) (RAND_MAX : Int)
    (rng : Nat → Int) (calls : Nat) : FieldBuffers F × Nat :=
  updatePhi phi (phiBuffers lib phi temp fb params r strides) params r strides RAND_MAX rng calls

end CEngine

/-! ## Array subscripts of the stencils (gradient.cpp, temperature.cpp) -/

/-- The subscripts of `phi` that appear in the ten assignments of
`computeGradientPhi` for the cell `idx`. -/
def gradientReads (strides : Fin 3 → Int) (idx : Int) : List Int :=
  let s0 := strides 0
  let s1 := strides 1
  [idx + s0, idx, idx - s0, idx + s1, idx - s1,
   idx + s0 + s1, idx - s0 + s1, idx + s0 - s1, idx - s0 - s1]

/-- The subscripts of `arr` that appear in `computeLaplacian` for the cell
`index`: the X and Y neighbours, and the Z neighbours when `dim == 3`. -/
def laplacianReads (strides : Fin 3 → Int) (index : Int) (dim : Int) : List Int :=
  [index + strides 0, index, index - strides 0, index + strides 1, index - strides 1]
    ++ (if dim = 3 then [index + strides 2, index - strides 2] else [])

/-! ## The random sample of the noise term (phasefield.cpp, phasefield.c) -/

/-- The expression `(double)rand() / RAND_MAX` for the return value `n` of
`rand()`. -/
def randSample {F : Type} [Field F] (RAND_MAX : Int) (n : Int) : F :=
  ((n : Int) : F) / ((RAND_MAX : Int) : F)

/-! ## Initial fills (header.hpp / header.h, fill_domain.cpp / fill_domain.c) -/

/-- The enum `FillType`. -/
inductive FillType where
  | FILL_NONE
  | FILL_CUBE
  | FILL_SPHERE
  | FILL_CONSTANT
  deriving DecidableEq

/-- The struct `cube`. -/
structure cube where
  x_start : Int
  y_start : Int
  z_start : Int
  x_end : Int
  y_end : Int
  z_end : Int
  deriving DecidableEq

/-- The struct `sphere`. -/
structure sphere where
  x_center : Int
  y_center : Int
  z_center : Int
  radius : Int
  deriving DecidableEq

/-- The fill members of the struct `VariableBoundary`: `fillType`, the members
`c` and `s` of the union `fill`, and `fillValue` (the name and the face policies
of the variable are the record `VariableBoundary`).  The two members of the
union are kept as two fields: every function reads the member that was written
for the fill type it handles. -/
structure VariableFill (F : Type) where
  fillType : FillType
  c : cube
  s : sphere
  fillValue : F

namespace CppEngine

/-- The C++ engine's `FillCube`. -/
def FillCube {F : Type} [Field F] (arr : Arr F) (vb : VariableFill F) (params : SimParams F)
    (strides : Fin 3 → Int) : Arr F :=
  let NX := params.Num_X
  let NY := params.Num_Y
  let NZ := params.Num_Z
  let dim := params.DIM
  let kstart : Int := if dim = 3 then 1 else 0
  let kend : Int := if dim = 3 then NZ - 1 else 1
  forLoop 1 (NX - 1) (fun i arr =>
    forLoop 1 (NY - 1) (fun j arr =>
      forLoop kstart kend (fun k arr =>
        let idx := IDX strides i j k
        let inside : Bool :=
          (decide (i ≥ vb.c.x_start) && decide (i ≤ vb.c.x_end)) &&
          (decide (j ≥ vb.c.y_start) && decide (j ≤ vb.c.y_end)) &&
          (decide (dim = 2) || (decide (k ≥ vb.c.z_start) && decide (k ≤ vb.c.z_end)))
        arr.set idx (if inside then vb.fillValue else 1 - vb.fillValue)) arr) arr) arr

end CppEngine

namespace CEngine

/-- The C engine's `FillCube`. -/
def FillCube {F : Type} [Field F] (arr : Arr F) (vb : VariableFill F) (params : SimParams F)
    (strides : Fin 3 → Int) : Arr F :=
  let NX := params.Num_X
  let NY := params.Num_Y
  let NZ := params.Num_Z
  let dim := params.DIM
  let kstart : Int := if dim = 3 then 1 else 0
  let kend : Int := if dim = 3 then NZ - 1 else 1
  forLoop 1 (NX - 1) (fun i arr =>
    forLoop 1 (NY - 1) (fun j arr =>
      forLoop kstart kend (fun k arr =>
        let index := IDX strides i j k
        if decide (i ≥ vb.c.x_start) && decide (i ≤ vb.c.x_end) &&
            decide (j ≥ vb.c.y_start) && decide (j ≤ vb.c.y_end) &&
            (decide (dim = 2) || (decide (k ≥ vb.c.x_start) && decide (k ≤ vb.c.z_end)))
        then arr.set index vb.fillValue
        else arr.set index (1 - vb.fillValue)) arr) arr) arr

end CEngine

/-- The inside test of the specification for `FillCube`: `x_start <= i <= x_end`,
`y_start <= j <= y_end`, and `DIM = 2` or `z_start <= k <= z_end`. -/
@[reducible] def specInsideCube (c : cube) (dim : Int) (i j k : Int) : Prop :=
  c.x_start ≤ i ∧ i ≤ c.x_end ∧ c.y_start ≤ j ∧ j ≤ c.y_end ∧
    (dim = 2 ∨ (c.z_start ≤ k ∧ k ≤ c.z_end))

/-! ## Output files and restart (write_output.cpp, respawn.cpp)

An output file is modelled by the sequence of the data records that the
`fprintf` calls of the writer emit, in the order of emission.  A field printed
from the value `v` with `%.8lf` and read back with `%lf` yields `rt v`, where
`rt : F → F` is the round trip through the 8-decimal text, a parameter of the
readers.  An integer printed with `%d` and read back with `%d` is unchanged, and
read back with `%lf` it is that integer as a `double`.  The header lines of a VTK
file (fixed text and the grid sizes, the last of them `LOOKUP_TABLE default`,
which is the line at which the skip loop of the reader stops) are not part of
the model: the model of a VTK file starts at its first data line. -/

/-- The values taken by the index of `for (int i = lo; i < hi; i++)`, in order. -/
def loopRange (lo hi : Int) : List Int :=
  (List.range (hi - lo).toNat).map (fun (n : Nat) => lo + (n : Int))

/-- One piece of a CSV file: a record `"%d,%d,%.8lf\n"` of a 2D file, a record
`"%d,%d,%d,%.8lf\n"` of a 3D file, or the part `",%.8lf\n"` of a 3D record that is
left in the stream when its first three fields have been consumed. -/
inductive CsvItem (F : Type) where
  | line2 (i j : Int) (v : F)
  | line3 (i j k : Int) (v : F)
  | rest3 (v : F)

/-- State of a reader: the array being filled, the part of the file not yet
consumed, and whether `exit(EXIT_FAILURE)` has been called. -/
structure ReadState (α F : Type) where
  arr : Arr F
  fp : List α
  exited : Bool

/-- The call `fscanf(fp, "%lf", &x)` on the data lines of a VTK file: the value
stored and the rest of the stream when the call returns 1, `none` at the end of
the file. -/
def fscanf_lf {F : Type} (rt : F → F) : List F → Option (F × List F)
  | v :: rest => some (rt v, rest)
  | [] => none

/-- The call `fscanf(fp, "%d,%d,%lf", &ii, &jj, &value)` on a CSV file: the value
stored in `value` and the rest of the stream when the call returns 3, `none`
otherwise.  On a 3D record `i,j,k,v` the conversion `%lf` consumes the field `k`
and the stream is left at `,v`; on a stream that starts with a comma the first
conversion fails. -/
def fscanf_csv {F : Type} [Field F] (rt : F → F) :
    List (CsvItem F) → Option (F × List (CsvItem F))
  | CsvItem.line2 _ _ v :: rest => some (rt v, rest)
  | CsvItem.line3 _ _ k v :: rest => some (((k : Int) : F), CsvItem.rest3 v :: rest)
  | CsvItem.rest3 _ :: _ => none
  | [] => none

/-- One iteration of the loop nest of a reader: the call `rd` of `fscanf` stores
its value in `arr[idx]`; when the call does not convert every field the process
exits, and nothing is executed after that. -/
def readCell {α F : Type} (rd : List α → Option (F × List α)) (idx : Int)
    (st : ReadState α F) : ReadState α F :=
  if st.exited then st
  else
    match rd st.fp with
    | some (x, rest) => { arr := st.arr.set idx x, fp := rest, exited := false }
    | none => { st with exited := true }

namespace CppEngine

/-- The data lines written by `write_output_vtk`: one value per interior cell,
`k` outermost, then `j`, then `i`. -/
def write_output_vtk {F : Type} (arr : Arr F) (params : SimParams F)
    (strides : Fin 3 → Int) : List F :=
  let NX := params.Num_X
  let NY := params.Num_Y
  let NZ := params.Num_Z
  let dim := params.DIM
  let kstart : Int := if dim = 3 then 1 else 0
  let kend : Int := if dim = 3 then NZ - 1 else 1
  forLoop kstart kend (fun k out =>
    forLoop 1 (NY - 1) (fun j out =>
      forLoop 1 (NX - 1) (fun i out =>
        let idx := IDX strides i j k
        out ++ [arr.get idx]) out) out) []

/-- The C++ engine's `read_input_vtk`, from the first data line on. -/
def read_input_vtk {F : Type} (rt : F → F) (file : List F) (arr : Arr F)
    (params : SimParams F) (strides : Fin 3 → Int) : ReadState F F :=
  let NX := params.Num_X
  let NY := params.Num_Y
  let dim := params.DIM
  let kstart : Int := if dim = 3 then 1 else 0
  forLoop 1 (NX - 1) (fun i st =>
    forLoop 1 (NY - 1) (fun j st =>
      let idx := IDX strides i j kstart
      readCell (fscanf_lf rt) idx st) st) { arr := arr, fp := file, exited := false }

/-- The records written by `write_output_csv`: one per interior cell, `i`
outermost, then `j`, then `k`; three fields when `dim == 2`, four otherwise. -/
def write_output_csv {F : Type} (arr : Arr F) (params : SimParams F)
    (strides : Fin 3 → Int) : List (CsvItem F) :=
  let NX := params.Num_X
  let NY := params.Num_Y
  let NZ := params.Num_Z
  let dim := params.DIM
  let kstart : Int := if dim = 3 then 1 else 0
  let kend : Int := if dim = 3 then NZ - 1 else 1
  forLoop 1 (NX - 1) (fun i out =>
    forLoop 1 (NY - 1) (fun j out =>
      forLoop kstart kend (fun k out =>
        let idx := IDX strides i j k
        if dim = 2 then out ++ [CsvItem.line2 i j (arr.get idx)]
        else out ++ [CsvItem.line3 i j k (arr.get idx)]) out) out) []

/-- The C++ engine's `read_input_csv`. -/
def read_input_csv {F : Type} [Field F] (rt : F → F) (file : List (CsvItem F)) (arr : Arr F)
    (params : SimParams F) (strides : Fin 3 → Int) : ReadState (CsvItem F) F :=
  let NX := params.Num_X
  let NY := params.Num_Y
  let dim := params.DIM
  let kstart : Int := if dim = 3 then 1 else 0
  forLoop 1 (NX - 1) (fun i st =>
    forLoop 1 (NY - 1) (fun j st =>
      let idx := IDX strides i j kstart
      readCell (fscanf_csv rt) idx st) st) { arr := arr, fp := file, exited := false }

end CppEngine

/-! ## Input file (read_infile.cpp / read_infile.c, write_infile.cpp)

A C string is the list of its characters (no NUL among them), and so is the
text of a file.  The conversions `atoi`, `atof` and `double` to `int` are a
parameter `lib : Stdlib F`, and so is the output `g` of `printf("%g")`; the
output of `printf("%d")` is `printf_d`.  The `char name[MAX_VAR_NAME]` buffers of
the fill parsers are not initialised by the code: `name0` is what such a buffer
holds before the first token is copied into it. -/

/-- The conversions of `<stdlib.h>`: `atoi`, `atof`, and the conversion of a
`double` to `int`. -/
structure Stdlib (F : Type) where
  atoi : List Char → Int
  atof : List Char → F
  toInt : F → Int

/-- The members of the struct `SimParams` as a whole: the numerical parameters
and the names and policies of the variables (`params`), the fill members of the
entries of `variables` (in the same order), and the restart and output options. -/
structure ParamSet (F : Type) where
  params : SimParams F
  fills : List (VariableFill F)
  RESPAWN : Int
  restart_time : Int
  WRITE_TO_CSV : Int
  WRITE_TO_VTK : Int

/-- State of `readParameters` while it reads the file: the struct it fills and
its `found_` flags. -/
structure ParseState (F : Type) extends ParamSet F where
  found_DIM : Bool
  found_Num_X : Bool
  found_Num_Y : Bool
  found_Num_Z : Bool
  found_dx : Bool
  found_dy : Bool
  found_dz : Bool
  found_dt : Bool
  found_total_steps : Bool
  found_timebreak : Bool
  found_epsilon : Bool
  found_tau : Bool
  found_delta : Bool
  found_j : Bool
  found_theta_0 : Bool
  found_alpha : Bool
  found_gamma : Bool
  found_a : Bool
  found_K : Bool
  found_T_e : Bool
  found_boundary : Bool
  found_fill_cube : Bool
  found_fill_sphere : Bool
  found_fill_constant : Bool
  found_RESPAWN : Bool
  found_restarttime : Bool
  found_write_to_csv : Bool
  found_write_to_vtk : Bool

/-- The state at the entry of `readParameters`: every flag is `0`. -/
def ParseState.init {F : Type} (ps : ParamSet F) : ParseState F :=
  { toParamSet := ps,
    found_DIM := false, found_Num_X := false, found_Num_Y := false, found_Num_Z := false,
    found_dx := false, found_dy := false, found_dz := false, found_dt := false,
    found_total_steps := false, found_timebreak := false, found_epsilon := false,
    found_tau := false, found_delta := false, found_j := false, found_theta_0 := false,
    found_alpha := false, found_gamma := false, found_a := false, found_K := false,
    found_T_e := false, found_boundary := false, found_fill_cube := false,
    found_fill_sphere := false, found_fill_constant := false, found_RESPAWN := false,
    found_restarttime := false, found_write_to_csv := false, found_write_to_vtk := false }

/-- How the handling of a line, or the whole of `readParameters`, ends: it goes
on with the state `s` (for `readParameters`: `return 0`), it executes
`return 1`, it calls `exit(EXIT_FAILURE)`, or it stores through the null pointer
returned by `findVariableBoundary`. -/
inductive ReadResult (σ : Type) where
  | ok (s : σ)
  | error
  | exit_failure
  | null_dereference

/-- The constant `MAX_VAR_NAME`. -/
def MAX_VAR_NAME : Nat := 32

/-- The constant `MAX_VARIABLES`. -/
def MAX_VARIABLES : Nat := 10

/-- The function `isspace` in the C locale. -/
def isspace (c : Char) : Bool :=
  c == ' ' || c == '\t' || c == '\n' || c == Char.ofNat 11 || c == Char.ofNat 12 || c == '\r'

/-- The function `trim`: leading and trailing whitespace removed. -/
def trim (str : List Char) : List Char :=
  ((str.dropWhile isspace).reverse.dropWhile isspace).reverse

/-- The test `strcmp(a, b) == 0`. -/
def strcmp (a b : List Char) : Bool :=
  a == b

/-- The test `strcasecmp(a, b) == 0`. -/
def strcasecmp (a b : List Char) : Bool :=
  a.map Char.toLower == b.map Char.toLower

/-- The tokens that successive calls of `strtok(s, delim)` return: the maximal
runs of characters other than the delimiter, the empty runs left out.  The
second argument is the run being read, last character first. -/
def strtokFrom (delim : Char) : List Char → List Char → List (List Char)
  | [], cur => if cur = [] then [] else [cur.reverse]
  | c :: cs, cur =>
    if c = delim then
      (if cur = [] then strtokFrom delim cs [] else cur.reverse :: strtokFrom delim cs [])
    else strtokFrom delim cs (c :: cur)

/-- The tokens of `s` for the delimiter `delim`. -/
def strtok (delim : Char) (s : List Char) : List (List Char) :=
  strtokFrom delim s []

/-- The successive results of `fgets(line, size, fp)` on the text of a file: a
line ends after its newline, or when it holds `size - 1` characters.  The second
argument is the line being read, last character first. -/
def fgetsLines (size : Nat) : List Char → List Char → List (List Char)
  | [], cur => if cur = [] then [] else [cur.reverse]
  | c :: cs, cur =>
    if c = '\n' ∨ cur.length + 2 = size then (c :: cur).reverse :: fgetsLines size cs []
    else fgetsLines size cs (c :: cur)

/-- The call `sscanf(line, " %63[^=]=%63[^;];", key, value)`: the two strings
when it returns 2.  Leading whitespace is skipped, `key` is a non-empty run of
at most 63 characters other than `=`, it is followed by `=`, and `value` is a
non-empty run of at most 63 characters other than `;`. -/
def sscanfKeyValue (line : List Char) : Option (List Char × List Char) :=
  let s := line.dropWhile isspace
  let key := (s.takeWhile (fun c => c != '=')).take 63
  if key = [] then none
  else
    match s.drop key.length with
    | [] => none
    | c :: t =>
      if c = '=' then
        let value := (t.takeWhile (fun c => c != ';')).take 63
        if value = [] then none else some (key, value)
      else none

/-- The digits of `printf("%d")`. -/
def digitChars : List Char :=
  ['0', '1', '2', '3', '4', '5', '6', '7', '8', '9']

/-- The decimal digits of `n` in front of `ds`; `fuel` bounds their number. -/
def printDigits : Nat → Nat → List Char → List Char
  | 0, _, ds => ds
  | fuel + 1, n, ds =>
    let d := digitChars.getD (n % 10) '0'
    if n / 10 = 0 then d :: ds else printDigits fuel (n / 10) (d :: ds)

/-- The output of `printf("%d", n)`. -/
def printf_d (n : Int) : List Char :=
  (if n < 0 then ['-'] else []) ++ printDigits (n.natAbs + 1) n.natAbs []

/-- The `FaceBoundary` with every face `BOUNDARY_UNDEFINED`. -/
def undefinedBC : FaceBoundary :=
  { top := BoundaryType.BOUNDARY_UNDEFINED, bottom := BoundaryType.BOUNDARY_UNDEFINED,
    left := BoundaryType.BOUNDARY_UNDEFINED, right := BoundaryType.BOUNDARY_UNDEFINED,
    front := BoundaryType.BOUNDARY_UNDEFINED, back := BoundaryType.BOUNDARY_UNDEFINED }

/-- The fill members of a zero-initialised entry of `variables`. -/
def zeroFill {F : Type} [Field F] : VariableFill F :=
  { fillType := FillType.FILL_NONE,
    c := { x_start := 0, y_start := 0, z_start := 0, x_end := 0, y_end := 0, z_end := 0 },
    s := { x_center := 0, y_center := 0, z_center := 0, radius := 0 },
    fillValue := 0 }

/-- The `switch (tokenCount)` of the boundary parser: the face that the token
number `tokenCount` sets. -/
def assignFace (dim : Int) (tokenCount : Nat) (bcType : BoundaryType) (tempBC : FaceBoundary) :
    FaceBoundary :=
  match tokenCount with
  | 2 => { tempBC with top := bcType }
  | 3 => { tempBC with bottom := bcType }
  | 4 => { tempBC with left := bcType }
  | 5 => { tempBC with right := bcType }
  | 6 => if dim = 3 then { tempBC with front := bcType } else tempBC
  | 7 => if dim = 3 then { tempBC with back := bcType } else tempBC
  | _ => tempBC

/-- The `while (token != NULL)` loop of the boundary parser on the tokens after
the variable name; `tokenCount` tokens have been counted so far.  `none` when a
token is not a known policy (`return 1`). -/
def boundaryTokens (bcOf : List Char → Option BoundaryType) (dim : Int) :
    List (List Char) → Nat → FaceBoundary → Option FaceBoundary
  | [], _, tempBC => some tempBC
  | token :: rest, tokenCount, tempBC =>
    match bcOf (trim token) with
    | none => none
    | some bcType =>
      boundaryTokens bcOf dim rest (tokenCount + 1) (assignFace dim (tokenCount + 1) bcType tempBC)

/-- The assignment `variables[i].bc = tempBC` for the first entry whose name
matches. -/
def setBoundary (eq : List Char → List Char → Bool) (varName : List Char) (tempBC : FaceBoundary) :
    List VariableBoundary → List VariableBoundary
  | [] => []
  | vb :: vbs =>
    if eq vb.varName.toList varName then { vb with bc := tempBC } :: vbs
    else vb :: setBoundary eq varName tempBC vbs

/-- The branch `boundary` of `readParameters`; `eq` is the comparison of names
and `bcOf` the recognition of a policy token. -/
def parseBoundary {F : Type} [Field F] (eq : List Char → List Char → Bool)
    (bcOf : List Char → Option BoundaryType) (value : List Char) (st : ParseState F) :
    ReadResult (ParseState F) :=
  let tokens := strtok ',' value
  let varName : List Char :=
    match tokens with
    | [] => []
    | token :: _ => (trim token).take (MAX_VAR_NAME - 1)
  match boundaryTokens bcOf st.params.DIM tokens.tail 1 undefinedBC with
  | none => ReadResult.error
  | some tempBC =>
    let tokenCount := tokens.length
    if (st.params.DIM = 2 ∧ tokenCount ≠ 5) ∨ (st.params.DIM = 3 ∧ tokenCount ≠ 7) then
      ReadResult.error
    else if st.params.variables_.any (fun vb => eq vb.varName.toList varName) then
      ReadResult.ok { st with
        params := { st.params with
          variables_ := setBoundary eq varName tempBC st.params.variables_ },
        found_boundary := true }
    else if st.params.variables_.length ≥ MAX_VARIABLES then ReadResult.error
    else
      ReadResult.ok { st with
        params := { st.params with
          variables_ := st.params.variables_ ++ [{ varName := String.mk varName, bc := tempBC }] },
        fills := st.fills ++ [zeroFill],
        found_boundary := true }

/-- The stores `vb->... = ...` through the pointer returned by
`findVariableBoundary(name, params)`: the fill members of the first entry named
`name` are replaced by `f` of them. -/
def setFill {F : Type} (name : String) (f : VariableFill F → VariableFill F) :
    List VariableBoundary → List (VariableFill F) → List (VariableFill F)
  | vb :: vbs, fl :: fls =>
    if vb.varName == name then f fl :: fls else fl :: setFill name f vbs fls
  | _, fls => fls

/-- The token number `n` of a fill line converted by `conv`, or `dflt` (the
initial value of the local variable) when the line has no such token. -/
def tokenOr {β : Type} (tokens : List (List Char)) (n : Nat) (conv : List Char → β) (dflt : β) :
    β :=
  match tokens.get? n with
  | some t => conv t
  | none => dflt

/-- The number of tokens that the C engine counts in a fill line: the number of
commas plus one. -/
def commaTokenCount (value : List Char) : Nat :=
  value.count ',' + 1

namespace CppEngine

/-- The recognition of a policy token in the C++ engine. -/
def bcOf (token : List Char) : Option BoundaryType :=
  if strcasecmp token "NOFLUX".toList then some BoundaryType.BOUNDARY_NOFLUX
  else if strcasecmp token "PERIODIC".toList then some BoundaryType.BOUNDARY_PERIODIC
  else if strcasecmp token "UNDEFINED".toList then some BoundaryType.BOUNDARY_UNDEFINED
  else none

/-- The branch `Fill_Cube` of the C++ `readParameters`. -/
def parseFillCube {F : Type} [Field F] (lib : Stdlib F) (name0 : List Char) (value : List Char)
    (st : ParseState F) : ReadResult (ParseState F) :=
  let tokens := (strtok ',' value).map trim
  let name := tokenOr tokens 0 (fun t => t.take (MAX_VAR_NAME - 1)) name0
  let v := tokenOr tokens 1 lib.atof 0
  let x0 := tokenOr tokens 2 lib.atoi 0
  let x1 := tokenOr tokens 3 lib.atoi 0
  let y0 := tokenOr tokens 4 lib.atoi 0
  let y1 := tokenOr tokens 5 lib.atoi 0
  let z0 := if st.params.DIM = 3 then tokenOr tokens 6 lib.atoi 0 else 0
  let z1 := if st.params.DIM = 3 then tokenOr tokens 7 lib.atoi 0 else 0
  match findVariableBoundary (String.mk name) st.params with
  | none => ReadResult.null_dereference
  | some _ =>
    ReadResult.ok { st with
      fills := setFill (String.mk name) (fun fl => { fl with
        fillType := FillType.FILL_CUBE, fillValue := v,
        c := { x_start := x0, y_start := y0, z_start := z0,
               x_end := x1, y_end := y1, z_end := z1 } }) st.params.variables_ st.fills,
      found_fill_cube := true }

/-- The branch `Fill_Sphere` of the C++ `readParameters`. -/
def parseFillSphere {F : Type} [Field F] (lib : Stdlib F) (name0 : List Char)
    (value : List Char) (st : ParseState F) : ReadResult (ParseState F) :=
  let tokens := (strtok ',' value).map trim
  let name := tokenOr tokens 0 (fun t => t.take (MAX_VAR_NAME - 1)) name0
  let v := tokenOr tokens 1 lib.atof 0
  let r := tokenOr tokens 2 lib.atoi 0
  let cx := tokenOr tokens 3 lib.atoi 0
  let cy := tokenOr tokens 4 lib.atoi 0
  let cz := if st.params.DIM = 3 then tokenOr tokens 5 lib.atoi 0 else 0
  match findVariableBoundary (String.mk name) st.params with
  | none => ReadResult.null_dereference
  | some _ =>
    ReadResult.ok { st with
      fills := setFill (String.mk name) (fun fl => { fl with
        fillType := FillType.FILL_SPHERE, fillValue := v,
        s := { x_center := cx, y_center := cy, z_center := cz, radius := r } })
        st.params.variables_ st.fills,
      found_fill_sphere := true }

/-- The branch `Fill_Constant` of the C++ `readParameters`. -/
def parseFillConstant {F : Type} [Field F] (lib : Stdlib F) (name0 : List Char)
    (value : List Char) (st : ParseState F) : ReadResult (ParseState F) :=
  let tokens := (strtok ',' value).map trim
  let name := tokenOr tokens 0 (fun t => t.take (MAX_VAR_NAME - 1)) name0
  let v := tokenOr tokens 1 lib.atof 0
  match findVariableBoundary (String.mk name) st.params with
  | none => ReadResult.null_dereference
  | some _ =>
    ReadResult.ok { st with
      fills := setFill (String.mk name) (fun fl => { fl with
        fillType := FillType.FILL_CONSTANT, fillValue := v }) st.params.variables_ st.fills,
      found_fill_constant := true }

/-- The chain of key comparisons of the C++ `readParameters`, for the trimmed
`key` and `value` of a line. -/
def parseKey {F : Type} [Field F] (lib : Stdlib F) (name0 : List Char) (key value : List Char)
    (st : ParseState F) : ReadResult (ParseState F) :=
  if strcasecmp key "DIM".toList then
    ReadResult.ok { st with params := { st.params with DIM := lib.atoi value }, found_DIM := true }
  else if strcasecmp key "Num_X".toList then
    ReadResult.ok { st with
      params := { st.params with Num_X := lib.atoi value }, found_Num_X := true }
  else if strcasecmp key "Num_Y".toList then
    ReadResult.ok { st with
      params := { st.params with Num_Y := lib.atoi value }, found_Num_Y := true }
  else if strcasecmp key "Num_Z".toList then
    ReadResult.ok { st with
      params := { st.params with Num_Z := lib.atoi value }, found_Num_Z := true }
  else if strcasecmp key "dx".toList then
    ReadResult.ok { st with params := { st.params with dx := lib.atof value }, found_dx := true }
  else if strcasecmp key "dy".toList then
    ReadResult.ok { st with params := { st.params with dy := lib.atof value }, found_dy := true }
  else if strcasecmp key "dz".toList then
    ReadResult.ok { st with params := { st.params with dz := lib.atof value }, found_dz := true }
  else if strcasecmp key "dt".toList then
    ReadResult.ok { st with params := { st.params with dt := lib.atof value }, found_dt := true }
  else if strcasecmp key "total_steps".toList then
    ReadResult.ok { st with
      params := { st.params with total_timesteps := lib.atoi value }, found_total_steps := true }
  else if strcasecmp key "timebreak".toList then
    ReadResult.ok { st with
      params := { st.params with timebreak := lib.atoi value }, found_timebreak := true }
  else if strcasecmp key "epsilon".toList then
    ReadResult.ok { st with
      params := { st.params with epsilon := lib.atof value }, found_epsilon := true }
  else if strcasecmp key "tau".toList then
    ReadResult.ok { st with params := { st.params with tau := lib.atof value }, found_tau := true }
  else if strcasecmp key "delta".toList then
    ReadResult.ok { st with
      params := { st.params with delta := lib.atof value }, found_delta := true }
  else if strcasecmp key "j".toList then
    ReadResult.ok { st with
      params := { st.params with j := lib.toInt (lib.atof value) }, found_j := true }
  else if strcasecmp key "theta_0".toList then
    ReadResult.ok { st with
      params := { st.params with theta_0 := lib.atof value }, found_theta_0 := true }
  else if strcasecmp key "alpha".toList then
    ReadResult.ok { st with
      params := { st.params with alpha := lib.atof value }, found_alpha := true }
  else if strcasecmp key "gamma".toList then
    ReadResult.ok { st with
      params := { st.params with gamma := lib.atof value }, found_gamma := true }
  else if strcasecmp key "a".toList then
    ReadResult.ok { st with params := { st.params with a := lib.atof value }, found_a := true }
  else if strcasecmp key "K".toList then
    ReadResult.ok { st with params := { st.params with K := lib.atof value }, found_K := true }
  else if strcasecmp key "T_e".toList then
    ReadResult.ok { st with params := { st.params with T_e := lib.atof value }, found_T_e := true }
  else if strcasecmp key "boundary".toList then parseBoundary strcasecmp bcOf value st
  else if strcasecmp key "Fill_Cube".toList then parseFillCube lib name0 value st
  else if strcasecmp key "Fill_Sphere".toList then parseFillSphere lib name0 value st
  else if strcasecmp key "Fill_Constant".toList then parseFillConstant lib name0 value st
  else if strcasecmp key "RESPAWN".toList then
    ReadResult.ok { st with RESPAWN := lib.atoi value, found_RESPAWN := true }
  else if strcasecmp key "restart_time".toList then
    ReadResult.ok { st with restart_time := lib.atoi value, found_restarttime := true }
  else if strcasecmp key "WRITE_TO_CSV".toList then
    ReadResult.ok { st with WRITE_TO_CSV := lib.atoi value, found_write_to_csv := true }
  else if strcasecmp key "WRITE_TO_VTK".toList then
    ReadResult.ok { st with WRITE_TO_VTK := lib.atoi value, found_write_to_vtk := true }
  else ReadResult.ok st

end CppEngine

/-- The body of the `while (fgets(...))` loop of `readParameters` for one line:
comment and empty lines are skipped, a line without `;` or on which `sscanf`
does not return 2 ends the process, and otherwise the trimmed key and value go
through the chain of key comparisons `parseKey` of the engine. -/
def parseLine {σ : Type} (parseKey : List Char → List Char → σ → ReadResult σ)
    (line : List Char) (st : σ) : ReadResult σ :=
  if line.head? = some '#' ∨ line.head? = some '\n' then ReadResult.ok st
  else if ¬ (';' ∈ line) then ReadResult.exit_failure
  else
    match sscanfKeyValue line with
    | none => ReadResult.exit_failure
    | some (key, value) => parseKey (trim key) (trim value) st

/-- The `while (fgets(...))` loop of `readParameters` on the lines of the file. -/
def readLines {σ : Type} (handle : List Char → σ → ReadResult σ) :
    List (List Char) → σ → ReadResult σ
  | [], st => ReadResult.ok st
  | line :: rest, st =>
    match handle line st with
    | ReadResult.ok st' => readLines handle rest st'
    | ReadResult.error => ReadResult.error
    | ReadResult.exit_failure => ReadResult.exit_failure
    | ReadResult.null_dereference => ReadResult.null_dereference

/-- The checks for missing parameters at the end of `readParameters`: the value
of `error`. -/
def missingParameter {F : Type} (st : ParseState F) : Bool :=
  !st.found_DIM || !st.found_Num_X || !st.found_Num_Y ||
  (decide (st.params.DIM = 3) && !st.found_Num_Z) ||
  !st.found_dx || !st.found_dy ||
  (decide (st.params.DIM = 3) && !st.found_dz) ||
  !st.found_dt || !st.found_total_steps || !st.found_timebreak ||
  !st.found_epsilon || !st.found_tau || !st.found_delta || !st.found_j ||
  !st.found_theta_0 || !st.found_alpha || !st.found_gamma ||
  !st.found_a || !st.found_K || !st.found_T_e ||
  !st.found_boundary ||
  (!st.found_fill_cube && !st.found_fill_sphere && !st.found_fill_constant) ||
  (st.found_RESPAWN && !st.found_restarttime) ||
  (!st.found_write_to_csv && !st.found_write_to_vtk)

/-- The part of `readParameters` after the loop: the 2D defaults, the 3D sanity
check and the checks for missing parameters. -/
def finishParameters {F : Type} [LinearOrderedField F] (st : ParseState F) :
    ReadResult (ParamSet F) :=
  if st.params.DIM = 2 then
    let st2 : ParseState F := { st with params := { st.params with Num_Z := 1, dz := 1 } }
    if missingParameter st2 then ReadResult.error else ReadResult.ok st2.toParamSet
  else if st.params.DIM = 3 ∧ (st.params.Num_Z ≤ 1 ∨ st.params.dz ≤ 0) then ReadResult.error
  else if missingParameter st then ReadResult.error
  else ReadResult.ok st.toParamSet

/-- The function `readParameters`, for the chain of key comparisons `parseKey`
of the engine, on the text `file` of the input file (the file is taken to
exist). -/
def readParametersWith {F : Type} [LinearOrderedField F]
    (parseKey : List Char → List Char → ParseState F → ReadResult (ParseState F))
    (file : List Char) (ps : ParamSet F) : ReadResult (ParamSet F) :=
  match readLines (parseLine parseKey) (fgetsLines 256 file []) (ParseState.init ps) with
  | ReadResult.ok st => finishParameters st
  | ReadResult.error => ReadResult.error
  | ReadResult.exit_failure => ReadResult.exit_failure
  | ReadResult.null_dereference => ReadResult.null_dereference

namespace CppEngine

/-- The C++ engine's `readParameters`. -/
def readParameters {F : Type} [LinearOrderedField F] (lib : Stdlib F) (name0 : List Char)
    (file : List Char) (ps : ParamSet F) : ReadResult (ParamSet F) :=
  readParametersWith (parseKey lib name0) file ps

end CppEngine

namespace CEngine

/-- The recognition of a policy token in the C engine. -/
def bcOf (token : List Char) : Option BoundaryType :=
  if strcmp token "NOFLUX".toList then some BoundaryType.BOUNDARY_NOFLUX
  else if strcmp token "PERIODIC".toList then some BoundaryType.BOUNDARY_PERIODIC
  else none

/-- The branch `Fill_Cube` of the C `readParameters`. -/
def parseFillCube {F : Type} [Field F] (lib : Stdlib F) (name0 : List Char) (value : List Char)
    (st : ParseState F) : ReadResult (ParseState F) :=
  let tokenCount := commaTokenCount value
  let expected : Nat := if st.params.DIM = 3 then 8 else 6
  if tokenCount ≠ expected then ReadResult.error
  else
    let tokens := (strtok ',' value).map trim
    let name := tokenOr tokens 0 (fun t => t.take (MAX_VAR_NAME - 1)) name0
    let fval := tokenOr tokens 1 lib.atof 0
    let x0 := tokenOr tokens 2 lib.atoi 0
    let x1 := tokenOr tokens 3 lib.atoi 0
    let y0 := tokenOr tokens 4 lib.atoi 0
    let y1 := tokenOr tokens 5 lib.atoi 0
    let z0 := if st.params.DIM = 3 then tokenOr tokens 6 lib.atoi 0 else 0
    let z1 := if st.params.DIM = 3 then tokenOr tokens 7 lib.atoi 0 else 0
    match findVariableBoundary (String.mk name) st.params with
    | none => ReadResult.error
    | some _ =>
      ReadResult.ok { st with
        fills := setFill (String.mk name) (fun fl => { fl with
          fillType := FillType.FILL_CUBE, fillValue := fval,
          c := { x_start := x0, y_start := y0, z_start := z0,
                 x_end := x1, y_end := y1, z_end := z1 } }) st.params.variables_ st.fills,
        found_fill_cube := true }

/-- The branch `Fill_Sphere` of the C `readParameters`. -/
def parseFillSphere {F : Type} [Field F] (lib : Stdlib F) (name0 : List Char)
    (value : List Char) (st : ParseState F) : ReadResult (ParseState F) :=
  let tokenCount := commaTokenCount value
  let expected : Nat := if st.params.DIM = 3 then 6 else 5
  if tokenCount ≠ expected then ReadResult.error
  else
    let tokens := (strtok ',' value).map trim
    let name := tokenOr tokens 0 (fun t => t.take (MAX_VAR_NAME - 1)) name0
    let fval := tokenOr tokens 1 lib.atof 0
    let radius := tokenOr tokens 2 lib.atof 0
    let cx := tokenOr tokens 3 lib.atoi 0
    let cy := tokenOr tokens 4 lib.atoi 0
    let cz := if st.params.DIM = 3 then tokenOr tokens 5 lib.atoi 0 else 0
    match findVariableBoundary (String.mk name) st.params with
    | none => ReadResult.error
    | some _ =>
      ReadResult.ok { st with
        fills := setFill (String.mk name) (fun fl => { fl with
          fillType := FillType.FILL_SPHERE, fillValue := fval,
          s := { x_center := cx, y_center := cy, z_center := cz, radius := lib.toInt radius } })
          st.params.variables_ st.fills,
        found_fill_sphere := true }

/-- The branch `Fill_Constant` of the C `readParameters`. -/
def parseFillConstant {F : Type} [Field F] (lib : Stdlib F) (name0 : List Char)
    (value : List Char) (st : ParseState F) : ReadResult (ParseState F) :=
  let tokenCount := commaTokenCount value
  if tokenCount ≠ 2 then ReadResult.error
  else
    let tokens := (strtok ',' value).map trim
    let name := tokenOr tokens 0 (fun t => t.take (MAX_VAR_NAME - 1)) name0
    let fval := tokenOr tokens 1 lib.atof 0
    match findVariableBoundary (String.mk name) st.params with
    | none => ReadResult.error
    | some _ =>
      ReadResult.ok { st with
        fills := setFill (String.mk name) (fun fl => { fl with
          fillType := FillType.FILL_CONSTANT, fillValue := fval }) st.params.variables_ st.fills,
        found_fill_constant := true }

/-- The chain of key comparisons of the C `readParameters`, for the trimmed
`key` and `value` of a line. -/
def parseKey {F : Type} [Field F] (lib : Stdlib F) (name0 : List Char) (key value : List Char)
    (st : ParseState F) : ReadResult (ParseState F) :=
  if strcmp key "DIM".toList then
    ReadResult.ok { st with params := { st.params with DIM := lib.atoi value }, found_DIM := true }
  else if strcmp key "Num_X".toList then
    ReadResult.ok { st with
      params := { st.params with Num_X := lib.atoi value }, found_Num_X := true }
  else if strcmp key "Num_Y".toList then
    ReadResult.ok { st with
      params := { st.params with Num_Y := lib.atoi value }, found_Num_Y := true }
  else if strcmp key "Num_Z".toList then
    ReadResult.ok { st with
      params := { st.params with Num_Z := lib.atoi value }, found_Num_Z := true }
  else if strcmp key "dx".toList then
    ReadResult.ok { st with params := { st.params with dx := lib.atof value }, found_dx := true }
  else if strcmp key "dy".toList then
    ReadResult.ok { st with params := { st.params with dy := lib.atof value }, found_dy := true }
  else if strcmp key "dz".toList then
    ReadResult.ok { st with params := { st.params with dz := lib.atof value }, found_dz := true }
  else if strcmp key "dt".toList then
    ReadResult.ok { st with params := { st.params with dt := lib.atof value }, found_dt := true }
  else if strcmp key "total_steps".toList then
    ReadResult.ok { st with
      params := { st.params with total_timesteps := lib.atoi value }, found_total_steps := true }
  else if strcmp key "timebreak".toList then
    ReadResult.ok { st with
      params := { st.params with timebreak := lib.atoi value }, found_timebreak := true }
  else if strcmp key "epsilon".toList then
    ReadResult.ok { st with
      params := { st.params with epsilon := lib.atof value }, found_epsilon := true }
  else if strcmp key "tau".toList then
    ReadResult.ok { st with params := { st.params with tau := lib.atof value }, found_tau := true }
  else if strcmp key "delta".toList then
    ReadResult.ok { st with
      params := { st.params with delta := lib.atof value }, found_delta := true }
  else if strcmp key "j".toList then
    ReadResult.ok { st with
      params := { st.params with j := lib.toInt (lib.atof value) }, found_j := true }
  else if strcmp key "theta_0".toList then
    ReadResult.ok { st with
      params := { st.params with theta_0 := lib.atof value }, found_theta_0 := true }
  else if strcmp key "alpha".toList then
    ReadResult.ok { st with
      params := { st.params with alpha := lib.atof value }, found_alpha := true }
  else if strcmp key "gamma".toList then
    ReadResult.ok { st with
      params := { st.params with gamma := lib.atof value }, found_gamma := true }
  else if strcmp key "a".toList then
    ReadResult.ok { st with params := { st.params with a := lib.atof value }, found_a := true }
  else if strcmp key "K".toList then
    ReadResult.ok { st with params := { st.params with K := lib.atof value }, found_K := true }
  else if strcmp key "T_e".toList then
    ReadResult.ok { st with params := { st.params with T_e := lib.atof value }, found_T_e := true }
  else if strcmp key "boundary".toList then parseBoundary strcmp bcOf value st
  else if strcasecmp key "Fill_Cube".toList then parseFillCube lib name0 value st
  else if strcasecmp key "Fill_Sphere".toList then parseFillSphere lib name0 value st
  else if strcasecmp key "Fill_Constant".toList then parseFillConstant lib name0 value st
  else if strcasecmp key "RESPAWN".toList then
    ReadResult.ok { st with RESPAWN := lib.atoi value, found_RESPAWN := true }
  else if strcmp key "restart_time".toList then
    ReadResult.ok { st with restart_time := lib.atoi value, found_restarttime := true }
  else if strcasecmp key "WRITE_TO_CSV".toList then
    ReadResult.ok { st with WRITE_TO_CSV := lib.atoi value, found_write_to_csv := true }
  else if strcasecmp key "WRITE_TO_VTK".toList then
    ReadResult.ok { st with WRITE_TO_VTK := lib.atoi value, found_write_to_vtk := true }
  else ReadResult.ok st

/-- The C engine's `readParameters`. -/
def readParameters {F : Type} [LinearOrderedField F] (lib : Stdlib F) (name0 : List Char)
    (file : List Char) (ps : ParamSet F) : ReadResult (ParamSet F) :=
  readParametersWith (parseKey lib name0) file ps

end CEngine

/-- The entry of the table `bcNames` of `writeParameters` for a policy. -/
def bcNames (b : BoundaryType) : List Char :=
  match b with
  | BoundaryType.BOUNDARY_UNDEFINED => "UNDEFINED".toList
  | BoundaryType.BOUNDARY_NOFLUX => "NOFLUX".toList
  | BoundaryType.BOUNDARY_PERIODIC => "PERIODIC".toList

namespace CppEngine

/-- The text that the loop over the fill definitions of `writeParameters` writes
for one variable. -/
def writeFill {F : Type} (g : F → List Char) (dim : Int) (vb : VariableBoundary)
    (fl : VariableFill F) : List Char :=
  match fl.fillType with
  | FillType.FILL_CUBE =>
    if dim = 2 then
      "Fill_Cube = ".toList ++ vb.varName.toList ++ ",".toList ++ g fl.fillValue ++ ",".toList ++
        printf_d fl.c.x_start ++ ",".toList ++ printf_d fl.c.x_end ++ ",".toList ++
        printf_d fl.c.y_start ++ ",".toList ++ printf_d fl.c.y_end ++ ";\n".toList
    else
      "Fill_Cube = ".toList ++ vb.varName.toList ++ ",".toList ++ g fl.fillValue ++ ",".toList ++
        printf_d fl.c.x_start ++ ",".toList ++ printf_d fl.c.x_end ++ ",".toList ++
        printf_d fl.c.y_start ++ ",".toList ++ printf_d fl.c.y_end ++ ",".toList ++
        printf_d fl.c.z_start ++ ",".toList ++ printf_d fl.c.z_end ++ ";\n".toList
  | FillType.FILL_SPHERE =>
    if dim = 2 then
      "Fill_Sphere = ".toList ++ vb.varName.toList ++ ",".toList ++ g fl.fillValue ++
        ",".toList ++ printf_d fl.s.radius ++ ",".toList ++ printf_d fl.s.x_center ++
        ",".toList ++ printf_d fl.s.y_center ++ ";\n".toList
    else
      "Fill_Sphere = ".toList ++ vb.varName.toList ++ ",".toList ++ g fl.fillValue ++
        ",".toList ++ printf_d fl.s.radius ++ ",".toList ++ printf_d fl.s.x_center ++
        ",".toList ++ printf_d fl.s.y_center ++ ",".toList ++ printf_d fl.s.z_center ++
        ";\n".toList
  | FillType.FILL_CONSTANT =>
    "Fill_Constant = ".toList ++ vb.varName.toList ++ ",".toList ++ g fl.fillValue ++
      ";\n".toList
  | FillType.FILL_NONE => []

/-- The text that the loop over the boundary conditions of `writeParameters`
writes for one variable. -/
def writeBoundary (dim : Int) (vb : VariableBoundary) : List Char :=
  "boundary = ".toList ++ vb.varName.toList ++ ",".toList ++ bcNames vb.bc.top ++ ",".toList ++
    bcNames vb.bc.bottom ++ ",".toList ++ bcNames vb.bc.left ++ ",".toList ++
    bcNames vb.bc.right ++
    (if dim = 3 then ",".toList ++ bcNames vb.bc.front ++ ",".toList ++ bcNames vb.bc.back
      else []) ++
    "\n".toList

/-- The text that the calls of `fprintf` after the first one write, in
order. -/
def writeParametersTail {F : Type} (g : F → List Char) (ps : ParamSet F) : List (List Char) :=
  [ "Num_X = ".toList ++ printf_d ps.params.Num_X ++ "\n".toList,
    "Num_Y = ".toList ++ printf_d ps.params.Num_Y ++ "\n".toList,
    if ps.params.DIM = 3 then "Num_Z = ".toList ++ printf_d ps.params.Num_Z ++ "\n".toList
    else [],
    "dx = ".toList ++ g ps.params.dx ++ "\n".toList,
    "dy = ".toList ++ g ps.params.dy ++ "\n".toList,
    if ps.params.DIM = 3 then "dz = ".toList ++ g ps.params.dz ++ "\n".toList else [],
    "dt = ".toList ++ g ps.params.dt ++ "\n".toList,
    "total_steps = ".toList ++ printf_d ps.params.total_timesteps ++ "\n".toList,
    "timebreak = ".toList ++ printf_d ps.params.timebreak ++ "\n".toList,
    "epsilon = ".toList ++ g ps.params.epsilon ++ "\n".toList,
    "tau = ".toList ++ g ps.params.tau ++ "\n".toList,
    "delta = ".toList ++ g ps.params.delta ++ "\n".toList,
    "j = ".toList ++ printf_d ps.params.j ++ "\n".toList,
    "alpha = ".toList ++ g ps.params.alpha ++ "\n".toList,
    "gamma = ".toList ++ g ps.params.gamma ++ "\n".toList,
    "a = ".toList ++ g ps.params.a ++ "\n".toList,
    "K = ".toList ++ g ps.params.K ++ "\n".toList,
    "T_e = ".toList ++ g ps.params.T_e ++ "\n".toList,
    (List.zipWith (writeFill g ps.params.DIM) ps.params.variables_ ps.fills).foldr
      (fun piece out => piece ++ out) [],
    (ps.params.variables_.map (writeBoundary ps.params.DIM)).foldr
      (fun piece out => piece ++ out) [],
    if ps.RESPAWN ≠ 0 then
      "RESPAWN = ".toList ++ printf_d ps.RESPAWN ++ "\n".toList ++
        "restart_time = ".toList ++ printf_d ps.restart_time ++ "\n".toList
    else [],
    if ps.WRITE_TO_VTK ≠ 0 then
      "WRITE_TO_VTK = ".toList ++ printf_d ps.WRITE_TO_VTK ++ "\n".toList
    else [],
    if ps.WRITE_TO_CSV ≠ 0 then
      "WRITE_TO_CSV = ".toList ++ printf_d ps.WRITE_TO_CSV ++ "\n".toList
    else [] ]

/-- The text of the file written by the C++ engine's `writeParameters` (the file
is taken to open): the output of `fprintf(fp, "DIM = %d\n", params->DIM)`
followed by the output of the later calls. -/
def writeParameters {F : Type} (g : F → List Char) (ps : ParamSet F) : List Char :=
  "DIM = ".toList ++ printf_d ps.params.DIM ++
    '\n' :: (writeParametersTail g ps).foldr (fun piece out => piece ++ out) []

end CppEngine

/-- The variable that a fill line names: its first token, cut to
`MAX_VAR_NAME - 1` characters, or the content `name0` of the buffer when the line
has no token. -/
def fillName (name0 : List Char) (value : List Char) : List Char :=
  tokenOr ((strtok ',' value).map trim) 0 (fun t => t.take (MAX_VAR_NAME - 1)) name0

/-! ## The function `main` of the C++ engine (main.cpp, memory_allocation.cpp)

What `main` meets outside the program is the record `MainEnv`: the state of the
folder `output`, the answer typed by the user, the results of `system`, `mkdir`
and `malloc`, the contents of the memory that `malloc` returns, and the restart
files.  The input file named on the command line is taken to exist, as in
`readParameters`.  The files that `main` writes (`writeParameters`,
`write_output_vtk`, `write_output_csv`) are not part of its result: the three
functions return to their caller whether or not the file could be opened, and
they modify no array. -/

/-- How a run of `main` ends: `return EXIT_SUCCESS` after the time loop with the
arrays in the state `s`; `return EXIT_FAILURE`, `return 1` or
`exit(EXIT_FAILURE)`; `exit(EXIT_SUCCESS)` before the time loop; a store through
a null pointer; or the evaluation of `t % params.timebreak` with
`params.timebreak == 0` in the time step `t`, reached in the state `s`. -/
inductive MainResult (σ : Type) where
  | returned (s : σ)
  | failure
  | exit_success
  | null_dereference
  | division_by_zero (t : Int) (s : σ)

/-- What a run of `main` meets outside the program: `folder_exists` is the test
`access(folder, F_OK) != -1`; `response` the word stored by
`scanf("%3s", response)`, `none` when the call does not return 1; `rm_ok` the
test `system("rm -rf output") == 0`; `mkdir_ok` the test
`mkdir(folder, 0777) != -1`; `malloc_ok` whether the calls of `malloc` return a
block; `variables0 i` the contents of the block allocated for the variable
number `i`, and `buffers0` those of the blocks of the field buffers; `rt` the
round trip of a value through its `%.8lf` text; `vtk_files name` the data lines
of the VTK file `name` and `csv_files name` the records of the CSV file `name`,
`none` when `fopen` fails. -/
structure MainEnv (F : Type) where
  folder_exists : Bool
  response : Option (List Char)
  rm_ok : Bool
  mkdir_ok : Bool
  malloc_ok : Bool
  variables0 : Nat → Arr F
  buffers0 : FieldBuffers F
  rt : F → F
  vtk_files : List Char → Option (List F)
  csv_files : List Char → Option (List (CsvItem F))

/-- The zero-initialised struct `SimParams params{}` of `main`, with
`numVariables = 0`. -/
def ParamSet.zero {F : Type} [Field F] : ParamSet F :=
  { params :=
      { DIM := 0, Num_X := 0, Num_Y := 0, Num_Z := 0, dx := 0, dy := 0, dz := 0, dt := 0,
        total_timesteps := 0, timebreak := 0, epsilon := 0, tau := 0, delta := 0, j := 0,
        theta_0 := 0, alpha := 0, gamma := 0, a := 0, K := 0, T_e := 0, variables_ := [] },
    fills := [], RESPAWN := 0, restart_time := 0, WRITE_TO_CSV := 0, WRITE_TO_VTK := 0 }

/-- The table `globalVars` after `setupVariables`: one entry per variable, in
order, made of the name (`strncpy` keeps `MAX_VAR_NAME - 1` characters) and the
freshly allocated array; `addVariableData` registers the first `MAX_VARIABLES`
entries only. -/
def setupVariables {F : Type} (env : MainEnv F) (params : SimParams F) :
    List (List Char × Arr F) :=
  (params.variables_.enum.take MAX_VARIABLES).map
    (fun p => (p.2.varName.toList.take (MAX_VAR_NAME - 1), env.variables0 p.1))

/-- The function `getDataArray`: the array of the first entry of `globalVars`
with the given name, `none` for the null pointer. -/
def getDataArray {F : Type} (globalVars : List (List Char × Arr F)) (varName : List Char) :
    Option (Arr F) :=
  (globalVars.find? (fun g => strcmp g.1 varName)).map (fun g => g.2)

/-- The table `globalVars` once the array that `getDataArray(varName)` points to
holds `arr`. -/
def setDataArray {F : Type} (varName : List Char) (arr : Arr F) :
    List (List Char × Arr F) → List (List Char × Arr F)
  | [] => []
  | g :: gs =>
    if strcmp g.1 varName then (g.1, arr) :: gs else g :: setDataArray varName arr gs

/-- The test `t % params.timebreak == 0` of the time loop: `none` when the
divisor is zero, where the remainder has no value (integer division by zero). -/
def periodicOutputTest (t timebreak : Int) : Option Bool :=
  if timebreak = 0 then none else some (Int.tmod t timebreak == 0)

/-- The time loop `for (int t = 1; t <= params.total_timesteps; ++t)` of `main`
with `n` iterations left, the next of them for the time step `t`: the steps a)
to g) are `step`, then the test of the periodic output is evaluated (the output
itself writes files only). -/
def timeLoop {σ : Type} (step : σ → σ) (timebreak : Int) : Nat → Int → σ → MainResult σ
  | 0, _, s => MainResult.returned s
  | n + 1, t, s =>
    match periodicOutputTest t timebreak with
    | none => MainResult.division_by_zero t (step s)
    | some _ => timeLoop step timebreak n (t + 1) (step s)

namespace CppEngine

/-- The C++ engine's `FillSphere` (the `double` values `dx2`, `dy2`, `dz2`,
`dist2` and `rad2` are integers and are kept as such). -/
def FillSphere {F : Type} [Field F] (arr : Arr F) (vb : VariableFill F) (params : SimParams F)
    (strides : Fin 3 → Int) : Arr F :=
  let NX := params.Num_X
  let NY := params.Num_Y
  let NZ := params.Num_Z
  let dim := params.DIM
  let kstart : Int := if dim = 3 then 1 else 0
  let kend : Int := if dim = 3 then NZ - 1 else 1
  forLoop 1 (NX - 1) (fun i arr =>
    forLoop 1 (NY - 1) (fun j arr =>
      forLoop kstart kend (fun k arr =>
        let idx := IDX strides i j k
        let dx2 : Int := (i - vb.s.x_center) * (i - vb.s.x_center)
        let dy2 : Int := (j - vb.s.y_center) * (j - vb.s.y_center)
        let dz2 : Int := if dim = 2 then 0 else (k - vb.s.z_center) * (k - vb.s.z_center)
        let dist2 : Int := dx2 + dy2 + dz2
        let rad2 : Int := vb.s.radius * vb.s.radius
        arr.set idx (if dist2 ≤ rad2 then vb.fillValue else 1 - vb.fillValue)) arr) arr) arr

/-- The C++ engine's `FillConstant`. -/
def FillConstant {F : Type} (arr : Arr F) (vb : VariableFill F) (params : SimParams F)
    (strides : Fin 3 → Int) : Arr F :=
  let NX := params.Num_X
  let NY := params.Num_Y
  let NZ := params.Num_Z
  let dim := params.DIM
  let kstart : Int := if dim = 3 then 1 else 0
  let kend : Int := if dim = 3 then NZ - 1 else 1
  forLoop 1 (NX - 1) (fun i arr =>
    forLoop 1 (NY - 1) (fun j arr =>
      forLoop kstart kend (fun k arr =>
        let idx := IDX strides i j k
        arr.set idx vb.fillValue) arr) arr) arr

/-- Lines 44-75 of `main`, the folder `output`: `some r` when the run ends there
with the result `r`, `none` when it goes on. -/
def outputFolder {F σ : Type} (env : MainEnv F) (RESPAWN : Int) : Option (MainResult σ) :=
  if RESPAWN = 0 then
    let asked : Option (MainResult σ) :=
      if env.folder_exists then
        match env.response with
        | none => some MainResult.failure
        | some response =>
          if strcmp response "yes".toList then
            if env.rm_ok then none else some MainResult.failure
          else some MainResult.exit_success
      else none
    match asked with
    | some r => some r
    | none => if env.mkdir_ok then none else some MainResult.failure
  else none

/-- Whether the loop nest over the interior cells has an iteration. -/
def hasInteriorCell {F : Type} (params : SimParams F) : Bool :=
  decide (1 < params.Num_X - 1) && decide (1 < params.Num_Y - 1) &&
    decide ((if params.DIM = 3 then (1 : Int) else 0)
      < (if params.DIM = 3 then params.Num_Z - 1 else 1))

/-- One iteration of the fill loop of `main` (lines 107-116), for the variable
`vb` with the fill members `fl`; `none` when a fill function stores through the
null pointer that `getDataArray` returned. -/
def fillVariable {F : Type} [Field F] (params : SimParams F) (strides : Fin 3 → Int)
    (globalVars : Option (List (List Char × Arr F))) (v : VariableBoundary × VariableFill F) :
    Option (List (List Char × Arr F)) :=
  match globalVars with
  | none => none
  | some gv =>
    let fill : Option (Arr F → Arr F) :=
      match v.2.fillType with
      | FillType.FILL_CUBE => some (fun arr => FillCube arr v.2 params strides)
      | FillType.FILL_SPHERE => some (fun arr => FillSphere arr v.2 params strides)
      | FillType.FILL_CONSTANT => some (fun arr => FillConstant arr v.2 params strides)
      | FillType.FILL_NONE => none
    match fill with
    | none => some gv
    | some f =>
      match getDataArray gv v.1.varName.toList with
      | none => if hasInteriorCell params then none else some gv
      | some arr => some (setDataArray v.1.varName.toList (f arr) gv)

/-- The name `output/<field>_<restart_time>.<ext>` of a restart file. -/
def restartName (field : String) (restart_time : Int) (ext : String) : List Char :=
  "output/".toList ++ field.toList ++ "_".toList ++ printf_d restart_time ++ ".".toList
    ++ ext.toList

/-- Lines 118-134 of `main`, the restart: the arrays `phi` and `temp` after the
calls of `read_input_vtk` or `read_input_csv`, `none` when one of them calls
`exit(EXIT_FAILURE)`. -/
def restartFields {F : Type} [Field F] (env : MainEnv F) (ps : ParamSet F)
    (strides : Fin 3 → Int) (phi temp : Arr F) : Option (Arr F × Arr F) :=
  if ps.WRITE_TO_VTK ≠ 0 then
    match env.vtk_files (restartName "phi" ps.restart_time "vtk") with
    | none => none
    | some file =>
      let st := read_input_vtk env.rt file phi ps.params strides
      if st.exited then none
      else
        match env.vtk_files (restartName "temp" ps.restart_time "vtk") with
        | none => none
        | some file2 =>
          let st2 := read_input_vtk env.rt file2 temp ps.params strides
          if st2.exited then none else some (st.arr, st2.arr)
  else if ps.WRITE_TO_CSV ≠ 0 then
    match env.csv_files (restartName "phi" ps.restart_time "csv") with
    | none => none
    | some file =>
      let st := read_input_csv env.rt file phi ps.params strides
      if st.exited then none
      else
        match env.csv_files (restartName "temp" ps.restart_time "csv") with
        | none => none
        | some file2 =>
          let st2 := read_input_csv env.rt file2 temp ps.params strides
          if st2.exited then none else some (st.arr, st2.arr)
  else some (phi, temp)

/-- The part of `main` after the output folder (lines 77-193), for the parameter
set `ps` that `readParameters` returned. -/
def mainFrom {F : Type} [Field F] (mlib : MathLib F) (RAND_MAX : Int) (rng : Nat → Int)
    (env : MainEnv F) (ps : ParamSet F) : MainResult (SimState F) :=
  let strides := mainStrides ps.params
  -- setupVariables: allocate_vector exits when malloc fails
  if !ps.params.variables_.isEmpty && !env.malloc_ok then MainResult.failure
  else
    let globalVars := setupVariables env ps.params
    -- the pointers phi and temp
    match getDataArray globalVars "phi".toList with
    | none => MainResult.failure
    | some phi0 =>
      match getDataArray globalVars "temp".toList with
      | none => MainResult.failure
      | some temp0 =>
        -- allocateFieldBuffers
        if !env.malloc_ok then MainResult.failure
        else if ps.RESPAWN = 0 then
          -- initial condition: the fill loop
          match (ps.params.variables_.zip ps.fills).foldl (fillVariable ps.params strides)
              (some globalVars) with
          | none => MainResult.null_dereference
          | some gv =>
            -- the initial output writes files only; then the time loop
            timeLoop (timeStep mlib ps.params RAND_MAX rng) ps.params.timebreak
              ps.params.total_timesteps.toNat 1
              { phi := (getDataArray gv "phi".toList).getD phi0,
                temp := (getDataArray gv "temp".toList).getD temp0,
                fb := env.buffers0, calls := 0 }
        else
          -- initial condition: the restart files
          match restartFields env ps strides phi0 temp0 with
          | none => MainResult.failure
          | some fields =>
            timeLoop (timeStep mlib ps.params RAND_MAX rng) ps.params.timebreak
              ps.params.total_timesteps.toNat 1
              { phi := fields.1, temp := fields.2, fb := env.buffers0, calls := 0 }

/-- The function `main` of the C++ engine on the text `file` of the input file
named on the command line. -/
def main {F : Type} [LinearOrderedField F] (slib : Stdlib F) (name0 : List Char)
    (mlib : MathLib F) (RAND_MAX : Int) (rng : Nat → Int) (env : MainEnv F)
    (file : List Char) : MainResult (SimState F) :=
  match readParameters slib name0 file ParamSet.zero with
  | ReadResult.error => MainResult.failure
  | ReadResult.exit_failure => MainResult.failure
  | ReadResult.null_dereference => MainResult.null_dereference
  | ReadResult.ok ps =>
    match outputFolder env ps.RESPAWN with
    | some r => r
    | none => mainFrom mlib RAND_MAX rng env ps

end CppEngine

/-! ## The formulas of the specification, in grid coordinates -/

/-- The ten derivatives of the cell `(i, j)` of layer `k` as the specification
states them (section 4.2), in the order of `FieldBuffers.gradCell`: `DERX_right`,
`DERX_left`, `DERY_top`, `DERY_bottom`, `DERX_c`, `DERY_c`, `DERX_top`,
`DERX_bottom`, `DERY_right`, `DERY_left`. -/
def specGradient {F : Type} [Field F] (phi : Arr F) (params : SimParams F) (i j k : Int) :
    List F :=
  let P : Int → Int → F := fun a b => phi.get (IDX (mainStrides params) a b k)
  [(P (i + 1) j - P i j) / params.dx,
   (P i j - P (i - 1) j) / params.dx,
   (P i (j + 1) - P i j) / params.dy,
   (P i j - P i (j - 1)) / params.dy,
   (1 / 2) * (P (i + 1) j - P (i - 1) j) / params.dx,
   (1 / 2) * (P i (j + 1) - P i (j - 1)) / params.dy,
   (1 / 4) * ((P (i + 1) j + P (i + 1) (j + 1) + P i j + P i (j + 1))
      - (P (i - 1) j + P (i - 1) (j + 1) + P i j + P i (j + 1))) / params.dx,
   (1 / 4) * ((P (i + 1) j + P (i + 1) (j - 1) + P i j + P i (j - 1))
      - (P (i - 1) j + P (i - 1) (j - 1) + P i j + P i (j - 1))) / params.dx,
   (1 / 4) * ((P i (j + 1) + P (i + 1) (j + 1) + P i j + P (i + 1) j)
      - (P i (j - 1) + P (i + 1) (j - 1) + P i j + P (i + 1) j)) / params.dy,
   (1 / 4) * ((P i (j + 1) + P (i - 1) (j + 1) + P i j + P (i - 1) j)
      - (P i (j - 1) + P (i - 1) (j - 1) + P i j + P (i - 1) j)) / params.dy]

/-- The anisotropy coefficient of the specification (section 4.3):
`a(theta) = epsilon (1 + delta cos(j (theta - theta0)))`. -/
def specA {F : Type} [Field F] (lib : MathLib F) (params : SimParams F) (theta : F) : F :=
  params.epsilon * (1 + params.delta * lib.cos (((params.j : Int) : F) * (theta - params.theta_0)))

/-- The angular derivative of the anisotropy coefficient of the specification
(section 4.3): `a'(theta) = -epsilon delta j sin(j (theta - theta0))`. -/
def specAp {F : Type} [Field F] (lib : MathLib F) (params : SimParams F) (theta : F) : F :=
  -params.epsilon * params.delta * ((params.j : Int) : F)
    * lib.sin (((params.j : Int) : F) * (theta - params.theta_0))

/-- The ten anisotropy values of a cell as the specification states them
(section 4.3), in the order of `FieldBuffers.anisoCell`: `a` and `a'` at the
angle `theta = atan2(dphi/dy, dphi/dx)` of the centre, then of the right, left,
top and bottom positions, each from its own pair of derivative buffers. -/
def specAnisotropy {F : Type} [Field F] (lib : MathLib F) (params : SimParams F)
    (fb : FieldBuffers F) (idx : Int) : List F :=
  let theta : Arr F → Arr F → F := fun dery derx => lib.atan2 (dery.get idx) (derx.get idx)
  [specA lib params (theta fb.DERY_c fb.DERX_c), specAp lib params (theta fb.DERY_c fb.DERX_c),
   specA lib params (theta fb.DERY_right fb.DERX_right),
   specAp lib params (theta fb.DERY_right fb.DERX_right),
   specA lib params (theta fb.DERY_left fb.DERX_left),
   specAp lib params (theta fb.DERY_left fb.DERX_left),
   specA lib params (theta fb.DERY_top fb.DERX_top),
   specAp lib params (theta fb.DERY_top fb.DERX_top),
   specA lib params (theta fb.DERY_bottom fb.DERX_bottom),
   specAp lib params (theta fb.DERY_bottom fb.DERX_bottom)]

/-- The Laplacian of the specification (section 4.6) at the cell `(i, j, k)`:
the sum over the active axes of `(T[+1] - 2 T[0] + T[-1]) / spacing^2`, two terms
when `DIM` is not 3 and three terms when it is. -/
def specLaplacian {F : Type} [Field F] (T : Arr F) (params : SimParams F) (i j k : Int) : F :=
  let P : Int → Int → Int → F := fun a b c => T.get (IDX (mainStrides params) a b c)
  let lx := (P (i + 1) j k - 2 * P i j k + P (i - 1) j k) / params.dx ^ 2
  let ly := (P i (j + 1) k - 2 * P i j k + P i (j - 1) k) / params.dy ^ 2
  let lz := (P i j (k + 1) - 2 * P i j k + P i j (k - 1)) / params.dz ^ 2
  if params.DIM = 3 then lx + ly + lz else lx + ly

/-- The four mixed derivatives of the cell `(i, j)` of layer `k` with the two
cancelling terms of their 4-point averages removed, in the order `DERX_top`,
`DERX_bottom`, `DERY_right`, `DERY_left`. -/
def specMixed {F : Type} [Field F] (phi : Arr F) (params : SimParams F) (i j k : Int) :
    List F :=
  let P : Int → Int → F := fun a b => phi.get (IDX (mainStrides params) a b k)
  [(1 / 4) * (P (i + 1) j + P (i + 1) (j + 1) - P (i - 1) j - P (i - 1) (j + 1)) / params.dx,
   (1 / 4) * (P (i + 1) j + P (i + 1) (j - 1) - P (i - 1) j - P (i - 1) (j - 1)) / params.dx,
   (1 / 4) * (P i (j + 1) + P (i + 1) (j + 1) - P i (j - 1) - P (i + 1) (j - 1)) / params.dy,
   (1 / 4) * (P i (j + 1) + P (i - 1) (j + 1) - P i (j - 1) - P (i - 1) (j - 1)) / params.dy]

/-- The central x-difference `0.5 (phi[i+1,j] - phi[i-1,j]) / dx` at the cell
`(i, j)` of layer `k`. -/
def specCentralX {F : Type} [Field F] (phi : Arr F) (params : SimParams F) (i j k : Int) : F :=
  (1 / 2) * (phi.get (IDX (mainStrides params) (i + 1) j k)
    - phi.get (IDX (mainStrides params) (i - 1) j k)) / params.dx

/-- The central y-difference `0.5 (phi[i,j+1] - phi[i,j-1]) / dy` at the cell
`(i, j)` of layer `k`. -/
def specCentralY {F : Type} [Field F] (phi : Arr F) (params : SimParams F) (i j k : Int) : F :=
  (1 / 2) * (phi.get (IDX (mainStrides params) i (j + 1) k)
    - phi.get (IDX (mainStrides params) i (j - 1) k)) / params.dy

/-! ## The passes of the boundary enforcement, in a chosen order -/

/-- The three loop nests of `applyBoundaryConditions`. -/
inductive BcAxis where
  | X
  | Y
  | Z
  deriving DecidableEq, Repr

/-- The loop nest of `applyBoundaryConditions` for one axis. -/
def bcPassOf {F : Type} (params : SimParams F) (strides : Fin 3 → Int) (bc : FaceBoundary)
    (arr : Arr F) (axis : BcAxis) : Arr F :=
  match axis with
  | BcAxis.X => bcPassX arr params strides bc
  | BcAxis.Y => bcPassY arr params strides bc
  | BcAxis.Z => bcPassZ arr params strides bc

/-- The loop nests of `applyBoundaryConditions` run one after the other in the
order of the list `order`. -/
def bcPassesInOrder {F : Type} (order : List BcAxis) (arr : Arr F) (params : SimParams F)
    (strides : Fin 3 → Int) (bc : FaceBoundary) : Arr F :=
  order.foldl (bcPassOf params strides bc) arr

/-- The loop nests that `applyBoundaryConditions` runs, in the order of the
source: X, Y, and Z when `dim == 3`. -/
def bcAxes {F : Type} (params : SimParams F) : List BcAxis :=
  if params.DIM = 3 then [BcAxis.X, BcAxis.Y, BcAxis.Z] else [BcAxis.X, BcAxis.Y]

/-- The sum of `f i` over `lo <= i < hi`. -/
def sumRange {F : Type} [Field F] (lo hi : Int) (f : Int → F) : F :=
  Finset.sum (Finset.range (hi - lo).toNat) (fun (n : Nat) => f (lo + (n : Int)))

/-- The sum of the values of `A` over the interior cells of a 2D grid. -/
def interiorSum2D {F : Type} [Field F] (params : SimParams F) (A : Arr F) : F :=
  sumRange 1 (params.Num_X - 1) (fun i =>
    sumRange 1 (params.Num_Y - 1) (fun j => A.get (IDX (mainStrides params) i j 0)))

/-! ## Concrete inputs used to exercise the theorems -/

/-- Every face `BOUNDARY_NOFLUX`. -/
def allNoFlux : FaceBoundary :=
  { top := BoundaryType.BOUNDARY_NOFLUX, bottom := BoundaryType.BOUNDARY_NOFLUX,
    left := BoundaryType.BOUNDARY_NOFLUX, right := BoundaryType.BOUNDARY_NOFLUX,
    front := BoundaryType.BOUNDARY_NOFLUX, back := BoundaryType.BOUNDARY_NOFLUX }

/-- Every face `BOUNDARY_PERIODIC`. -/
def allPeriodic : FaceBoundary :=
  { top := BoundaryType.BOUNDARY_PERIODIC, bottom := BoundaryType.BOUNDARY_PERIODIC,
    left := BoundaryType.BOUNDARY_PERIODIC, right := BoundaryType.BOUNDARY_PERIODIC,
    front := BoundaryType.BOUNDARY_PERIODIC, back := BoundaryType.BOUNDARY_PERIODIC }

/-- A parameter set over `ℚ` with unit spacings, `dt = 1`, `tau = 1`, no noise,
`K = 1`, and the variables `phi` and `temp` registered with the policies `bc`. -/
def sampleParams (dim nx ny nz : Int) (bc : FaceBoundary) : SimParams ℚ :=
  { DIM := dim, Num_X := nx, Num_Y := ny, Num_Z := nz,
    dx := 1, dy := 1, dz := 1, dt := 1,
    total_timesteps := 1, timebreak := 1,
    epsilon := 1, tau := 1, delta := 0, j := 4, theta_0 := 0,
    alpha := 0, gamma := 0, a := 0, K := 1, T_e := 0,
    variables_ := [⟨"phi", bc⟩, ⟨"temp", bc⟩] }

/-- The array holding its own flattened index in every cell. -/
def rampArr : Arr ℚ :=
  ⟨fun p => (p : ℚ)⟩

/-- Field buffers holding `v` everywhere. -/
def constBuffers {F : Type} (v : F) : FieldBuffers F :=
  { phi_new := Arr.const v, temp_new := Arr.const v, dphi_dt := Arr.const v,
    dfdphi := Arr.const v, ac := Arr.const v, ac_right := Arr.const v,
    ac_left := Arr.const v, ac_top := Arr.const v, ac_bottom := Arr.const v,
    ac_p := Arr.const v, ac_p_right := Arr.const v, ac_p_left := Arr.const v,
    ac_p_top := Arr.const v, ac_p_bottom := Arr.const v, DERX_c := Arr.const v,
    DERY_c := Arr.const v, DERX_right := Arr.const v, DERX_left := Arr.const v,
    DERY_top := Arr.const v, DERY_bottom := Arr.const v, DERY_right := Arr.const v,
    DERY_left := Arr.const v, DERX_top := Arr.const v, DERX_bottom := Arr.const v,
    temp_buf1 := Arr.const v, temp_buf2 := Arr.const v }

/-- A math library over `ℚ` for running the embedding on concrete inputs:
low-order rational approximations of the real functions, exact at `0`
(`atan 0 = 0`, `atan2 0 0 = 0`, `cos 0 = 1`, `sin 0 = 0`). -/
def approxMath : MathLib ℚ :=
  { atan := fun x => x / (1 + |x|),
    atan2 := fun y x =>
      if 0 < x then y / (x + |y|)
      else if x < 0 then (if 0 ≤ y then 22 / 7 + y / (|y| - x) else -(22 / 7) + y / (|y| - x))
      else if 0 < y then 11 / 7 else if y < 0 then -(11 / 7) else 0,
    cos := fun x => 1 - x ^ 2 / 2,
    sin := fun x => x,
    M_PI := 22 / 7 }

/-- A cube fill over `ℚ`: the box `x0..x1`, `y0..y1`, `z0..z1` with fill value `v`. -/
def sampleCubeFill (v : ℚ) (x0 x1 y0 y1 z0 z1 : Int) : VariableFill ℚ :=
  { fillType := FillType.FILL_CUBE,
    c := { x_start := x0, y_start := y0, z_start := z0, x_end := x1, y_end := y1, z_end := z1 },
    s := { x_center := 0, y_center := 0, z_center := 0, radius := 0 },
    fillValue := v }

/-- The round trip of a rational through the text of `%.8lf`: rounding to 8
decimals. -/
def round8 (v : ℚ) : ℚ :=
  (round (v * 10 ^ 8) : ℚ) / 10 ^ 8

/-- The array holding one third of its flattened index in every cell. -/
def thirdsArr : Arr ℚ :=
  ⟨fun p => (p : ℚ) / 3⟩

/-- The digits at the head of a string read as a decimal number that continues
`acc`, and the number of digits read. -/
def readDigits : List Char → Nat → Nat → Nat × Nat
  | [], acc, len => (acc, len)
  | c :: cs, acc, len =>
    match digitChars.indexOf? c with
    | some d => readDigits cs (10 * acc + d) (len + 1)
    | none => (acc, len)

/-- A decimal `atoi`: leading whitespace, an optional sign, digits. -/
def atoiDecimal (s : List Char) : Int :=
  match s.dropWhile isspace with
  | [] => 0
  | c :: t =>
    if c = '-' then -((readDigits t 0 0).1 : Int)
    else if c = '+' then ((readDigits t 0 0).1 : Int)
    else ((readDigits (c :: t) 0 0).1 : Int)

/-- The value of an unsigned decimal text `ddd` or `ddd.ddd`. -/
def unsignedDecimal (s : List Char) : ℚ :=
  let ip := readDigits s 0 0
  match s.drop ip.2 with
  | [] => (ip.1 : ℚ)
  | c :: t =>
    if c = '.' then
      let fp := readDigits t 0 0
      (ip.1 : ℚ) + (fp.1 : ℚ) / 10 ^ fp.2
    else (ip.1 : ℚ)

/-- A decimal `atof`: leading whitespace, an optional sign, digits with an
optional fraction (no exponent). -/
def atofDecimal (s : List Char) : ℚ :=
  match s.dropWhile isspace with
  | [] => 0
  | c :: t =>
    if c = '-' then -unsignedDecimal t
    else if c = '+' then unsignedDecimal t
    else unsignedDecimal (c :: t)

/-- Conversions over `ℚ` for running the parser on concrete files: decimal
`atoi` and `atof`, and truncation toward zero. -/
def decimalStdlib : Stdlib ℚ :=
  { atoi := atoiDecimal,
    atof := atofDecimal,
    toInt := fun q => if 0 ≤ q then ⌊q⌋ else ⌈q⌉ }

/-- The zero-initialised struct `SimParams` that `main` passes to
`readParameters` (`numVariables = 0`). -/
def zeroParamSet : ParamSet ℚ :=
  { params :=
      { DIM := 0, Num_X := 0, Num_Y := 0, Num_Z := 0, dx := 0, dy := 0, dz := 0, dt := 0,
        total_timesteps := 0, timebreak := 0, epsilon := 0, tau := 0, delta := 0, j := 0,
        theta_0 := 0, alpha := 0, gamma := 0, a := 0, K := 0, T_e := 0, variables_ := [] },
    fills := [], RESPAWN := 0, restart_time := 0, WRITE_TO_CSV := 0, WRITE_TO_VTK := 0 }

/-- An input file that declares `phi` only and then fills `temp`. -/
def undeclaredFillFile : List Char :=
  ("DIM = 2;\n" ++ "boundary = phi,NOFLUX,NOFLUX,NOFLUX,NOFLUX;\n" ++
    "Fill_Constant = temp,1.0;\n").toList

/-- A complete 2D input file whose `Fill_Cube` line has four tokens (the 2D
layout has six: name, value, `x0`, `x1`, `y0`, `y1`). -/
def shortFillFile : List Char :=
  ("DIM = 2;\n" ++ "Num_X = 4;\n" ++ "Num_Y = 4;\n" ++ "dx = 1;\n" ++ "dy = 1;\n" ++
    "dt = 1;\n" ++ "total_steps = 1;\n" ++ "timebreak = 1;\n" ++ "epsilon = 1;\n" ++
    "tau = 1;\n" ++ "delta = 0;\n" ++ "j = 4;\n" ++ "theta_0 = 0;\n" ++ "alpha = 0;\n" ++
    "gamma = 0;\n" ++ "a = 0;\n" ++ "K = 1;\n" ++ "T_e = 0;\n" ++
    "boundary = phi,NOFLUX,NOFLUX,NOFLUX,NOFLUX;\n" ++ "Fill_Cube = phi,1.0,2,3;\n" ++
    "WRITE_TO_CSV = 1;\n").toList

/-- The array holding the square of its flattened index in every cell. -/
def squareArr : Arr ℚ :=
  ⟨fun p => (p : ℚ) ^ 2⟩

/-- A complete 2D input file that declares and fills `phi` and `temp`, with
`timebreak = 0` and one time step. -/
def zeroTimebreakFile : List Char :=
  ("DIM = 2;\n" ++ "Num_X = 4;\n" ++ "Num_Y = 4;\n" ++ "dx = 1;\n" ++ "dy = 1;\n" ++
    "dt = 1;\n" ++ "total_steps = 1;\n" ++ "timebreak = 0;\n" ++ "epsilon = 1;\n" ++
    "tau = 1;\n" ++ "delta = 0;\n" ++ "j = 4;\n" ++ "theta_0 = 0;\n" ++ "alpha = 0;\n" ++
    "gamma = 0;\n" ++ "a = 0;\n" ++ "K = 1;\n" ++ "T_e = 0;\n" ++
    "boundary = phi,NOFLUX,NOFLUX,NOFLUX,NOFLUX;\n" ++
    "boundary = temp,NOFLUX,NOFLUX,NOFLUX,NOFLUX;\n" ++ "Fill_Constant = phi,1.0;\n" ++
    "Fill_Constant = temp,0.0;\n" ++ "WRITE_TO_CSV = 1;\n").toList

/-- An environment of `main` over `ℚ`: no folder `output` yet, `mkdir` and
`malloc` succeed, the allocated memory holds `7` everywhere, and there is no
restart file. -/
def freshEnv : MainEnv ℚ :=
  { folder_exists := false, response := none, rm_ok := true, mkdir_ok := true,
    malloc_ok := true, variables0 := fun _ => Arr.const 7, buffers0 := constBuffers 7,
    rt := round8, vtk_files := fun _ => none, csv_files := fun _ => none }

/-! # Theorems -/

/-! ## Arrays -/

@[simp] theorem Arr.get_set {F : Type} (arr : Arr F) (p q : Int) (v : F) :
    (arr.set p v).get q = if q = p then v else arr.get q := by
  simp [Arr.set, Function.update_apply]

theorem Arr.get_set_self {F : Type} (arr : Arr F) (p : Int) (v : F) :
    (arr.set p v).get p = v := by simp

theorem Arr.get_set_ne {F : Type} (arr : Arr F) {p q : Int} (v : F) (h : q ≠ p) :
    (arr.set p v).get q = arr.get q := by simp [h]

@[simp] theorem Arr.get_const {F : Type} (v : F) (p : Int) : (Arr.const v).get p = v := rfl

/-! ## Loop rules -/

theorem forLoop_of_ge {σ : Type} (lo hi : Int) (body : Int → σ → σ) (s : σ) (h : hi ≤ lo) :
    forLoop lo hi body s = s := by
  unfold forLoop
  have : (hi - lo).toNat = 0 := by omega
  rw [this]; rfl

/-- Invariant rule for the counting-up loop. -/
theorem loopFrom_inv {σ : Type} (body : Int → σ → σ) (I : Int → σ → Prop) :
    ∀ (n : Nat) (lo : Int) (s : σ), I lo s →
      (∀ i s, lo ≤ i → i < lo + n → I i s → I (i + 1) (body i s)) →
      I (lo + n) (loopFrom body n lo s) := by
  intro n
  induction n with
  | zero => intro lo s h _; simpa [loopFrom] using h
  | succ n ih =>
    intro lo s h hstep
    have h1 : I (lo + 1) (body lo s) := hstep lo s (le_refl _) (by push_cast; omega) h
    have := ih (lo + 1) (body lo s) h1 (fun i s hi1 hi2 hI =>
      hstep i s (by omega) (by push_cast; omega) hI)
    have e : lo + ((n + 1 : Nat) : Int) = lo + 1 + (n : Int) := by push_cast; ring
    rw [e]
    simpa [loopFrom] using this

/-- Invariant rule for `forLoop`. -/
theorem forLoop_inv {σ : Type} (body : Int → σ → σ) (I : Int → σ → Prop) (lo hi : Int) (s : σ)
    (hle : lo ≤ hi) (h0 : I lo s)
    (hstep : ∀ i s, lo ≤ i → i < hi → I i s → I (i + 1) (body i s)) :
    I hi (forLoop lo hi body s) := by
  have := loopFrom_inv body I (hi - lo).toNat lo s h0 (fun i s h1 h2 hI =>
    hstep i s h1 (by omega) hI)
  have e : lo + (((hi - lo).toNat : Nat) : Int) = hi := by omega
  rw [e] at this
  exact this

/-- Invariant rule for the counting-down loop. -/
theorem loopDownFrom_inv {σ : Type} (body : Int → σ → σ) (I : Int → σ → Prop) :
    ∀ (n : Nat) (hi : Int) (s : σ), I hi s →
      (∀ i s, i ≤ hi → hi - n < i → I i s → I (i - 1) (body i s)) →
      I (hi - n) (loopDownFrom body n hi s) := by
  intro n
  induction n with
  | zero => intro hi s h _; simpa [loopDownFrom] using h
  | succ n ih =>
    intro hi s h hstep
    have h1 : I (hi - 1) (body hi s) := hstep hi s (le_refl _) (by push_cast; omega) h
    have := ih (hi - 1) (body hi s) h1 (fun i s hi1 hi2 hI =>
      hstep i s (by omega) (by push_cast; omega) hI)
    have e : hi - ((n + 1 : Nat) : Int) = hi - 1 - (n : Int) := by push_cast; ring
    rw [e]
    simpa [loopDownFrom] using this

/-- Invariant rule for `forLoopDown`. -/
theorem forLoopDown_inv {σ : Type} (body : Int → σ → σ) (I : Int → σ → Prop) (hi lo : Int)
    (s : σ) (hle : lo - 1 ≤ hi) (h0 : I hi s)
    (hstep : ∀ i s, lo ≤ i → i ≤ hi → I i s → I (i - 1) (body i s)) :
    I (lo - 1) (forLoopDown hi lo body s) := by
  have := loopDownFrom_inv body I (hi - lo + 1).toNat hi s h0 (fun i s h1 h2 hI =>
    hstep i s (by omega) h1 hI)
  have e : hi - (((hi - lo + 1).toNat : Nat) : Int) = lo - 1 := by omega
  rw [e] at this
  exact this

/-- Scatter rule: a loop whose iterations write disjoint sets of cells `W j`, and
whose written values depend only on cells outside the set `Wall` of cells written
by the whole loop nest (and on the written cell itself and the call counter),
acts on each cell as the single iteration that owns it. -/
theorem loopFrom_scatter {σ β : Type} (obs : σ → Int → β) (cnt : σ → Nat) (w : Nat)
    (body : Int → σ → σ) (W : Int → Int → Prop) (Wall : Int → Prop) :
    ∀ (n : Nat) (lo : Int),
    (∀ j, lo ≤ j → j < lo + n → ∀ p, W j p → Wall p) →
    (∀ j, lo ≤ j → j < lo + n → ∀ s, cnt (body j s) = cnt s + w) →
    (∀ j, lo ≤ j → j < lo + n → ∀ s p, ¬ W j p → obs (body j s) p = obs s p) →
    (∀ j, lo ≤ j → j < lo + n → ∀ s s' p, W j p → (∀ q, ¬ Wall q → obs s q = obs s' q) →
        obs s p = obs s' p → cnt s = cnt s' → obs (body j s) p = obs (body j s') p) →
    (∀ j j', lo ≤ j → j < lo + n → lo ≤ j' → j' < lo + n → j ≠ j' →
        ∀ p, W j p → ¬ W j' p) →
    ∀ s0,
      cnt (loopFrom body n lo s0) = cnt s0 + n * w ∧
      (∀ p, (∀ j, lo ≤ j → j < lo + n → ¬ W j p) → obs (loopFrom body n lo s0) p = obs s0 p) ∧
      (∀ j, lo ≤ j → j < lo + n → ∀ p, W j p → ∀ s', (∀ q, ¬ Wall q → obs s' q = obs s0 q) →
          obs s' p = obs s0 p → cnt s' = cnt s0 + (j - lo).toNat * w →
          obs (loopFrom body n lo s0) p = obs (body j s') p) := by
  intro n
  induction n with
  | zero =>
    intro lo _ _ _ _ _ s0
    refine ⟨by simp [loopFrom], fun p _ => by simp [loopFrom], ?_⟩
    intro j h1 h2
    exfalso; simp at h2; omega
  | succ n ih =>
    intro lo hW hcnt hframe hdep hdisj s0
    have hlo : lo < lo + ((n + 1 : Nat) : Int) := by push_cast; omega
    have up : ∀ j, lo + 1 ≤ j → j < lo + 1 + (n : Int) →
        lo ≤ j ∧ j < lo + ((n + 1 : Nat) : Int) := by
      intro j h1 h2; constructor
      · omega
      · push_cast; omega
    obtain ⟨ihc, ihf, ihv⟩ := ih (lo + 1)
      (fun j h1 h2 => hW j (up j h1 h2).1 (up j h1 h2).2)
      (fun j h1 h2 => hcnt j (up j h1 h2).1 (up j h1 h2).2)
      (fun j h1 h2 => hframe j (up j h1 h2).1 (up j h1 h2).2)
      (fun j h1 h2 => hdep j (up j h1 h2).1 (up j h1 h2).2)
      (fun j j' h1 h2 h3 h4 => hdisj j j' (up j h1 h2).1 (up j h1 h2).2
        (up j' h3 h4).1 (up j' h3 h4).2)
      (body lo s0)
    have hc1 : cnt (body lo s0) = cnt s0 + w := hcnt lo (le_refl _) hlo s0
    refine ⟨?_, ?_, ?_⟩
    · simp only [loopFrom]; rw [ihc, hc1]; ring
    · intro p hp
      simp only [loopFrom]
      rw [ihf p (fun j h1 h2 => hp j (up j h1 h2).1 (up j h1 h2).2)]
      exact hframe lo (le_refl _) hlo s0 p (hp lo (le_refl _) hlo)
    · intro j h1 h2 p hWp s' hoff hat hcs
      simp only [loopFrom]
      by_cases hj : j = lo
      · subst hj
        rw [ihf p (fun j' h3 h4 => hdisj j j' (le_refl _) hlo (up j' h3 h4).1 (up j' h3 h4).2
          (by omega) p hWp)]
        refine hdep j (le_refl _) hlo s0 s' p hWp (fun q hq => (hoff q hq).symm) hat.symm ?_
        rw [hcs]; simp
      · have h1' : lo + 1 ≤ j := by omega
        have h2' : j < lo + 1 + (n : Int) := by push_cast at h2; omega
        have hnW : ¬ W lo p := fun hc => hdisj lo j (le_refl _) hlo h1 h2 (Ne.symm hj) p hc hWp
        refine ihv j h1' h2' p hWp s' ?_ ?_ ?_
        · intro q hq
          rw [hoff q hq]
          exact (hframe lo (le_refl _) hlo s0 q (fun hc => hq (hW lo (le_refl _) hlo q hc))).symm
        · rw [hat]; exact (hframe lo (le_refl _) hlo s0 p hnW).symm
        · rw [hcs, hc1]
          have : (j - lo).toNat = (j - (lo + 1)).toNat + 1 := by omega
          rw [this]; ring

/-- Scatter rule for `forLoop`. -/
theorem forLoop_scatter {σ β : Type} (obs : σ → Int → β) (cnt : σ → Nat) (w : Nat)
    (body : Int → σ → σ) (W : Int → Int → Prop) (Wall : Int → Prop) (lo hi : Int)
    (hW : ∀ j, lo ≤ j → j < hi → ∀ p, W j p → Wall p)
    (hcnt : ∀ j, lo ≤ j → j < hi → ∀ s, cnt (body j s) = cnt s + w)
    (hframe : ∀ j, lo ≤ j → j < hi → ∀ s p, ¬ W j p → obs (body j s) p = obs s p)
    (hdep : ∀ j, lo ≤ j → j < hi → ∀ s s' p, W j p → (∀ q, ¬ Wall q → obs s q = obs s' q) →
        obs s p = obs s' p → cnt s = cnt s' → obs (body j s) p = obs (body j s') p)
    (hdisj : ∀ j j', lo ≤ j → j < hi → lo ≤ j' → j' < hi → j ≠ j' → ∀ p, W j p → ¬ W j' p)
    (s0 : σ) :
    cnt (forLoop lo hi body s0) = cnt s0 + (hi - lo).toNat * w ∧
    (∀ p, (∀ j, lo ≤ j → j < hi → ¬ W j p) → obs (forLoop lo hi body s0) p = obs s0 p) ∧
    (∀ j, lo ≤ j → j < hi → ∀ p, W j p → ∀ s', (∀ q, ¬ Wall q → obs s' q = obs s0 q) →
        obs s' p = obs s0 p → cnt s' = cnt s0 + (j - lo).toNat * w →
        obs (forLoop lo hi body s0) p = obs (body j s') p) := by
  have up : ∀ j, lo ≤ j → j < lo + (((hi - lo).toNat : Nat) : Int) → j < hi := by
    intro j h1 h2; omega
  obtain ⟨hc, hf, hv⟩ := loopFrom_scatter obs cnt w body W Wall (hi - lo).toNat lo
    (fun j h1 h2 => hW j h1 (up j h1 h2))
    (fun j h1 h2 => hcnt j h1 (up j h1 h2))
    (fun j h1 h2 => hframe j h1 (up j h1 h2))
    (fun j h1 h2 => hdep j h1 (up j h1 h2))
    (fun j j' h1 h2 h3 h4 => hdisj j j' h1 (up j h1 h2) h3 (up j' h3 h4)) s0
  refine ⟨hc, ?_, ?_⟩
  · intro p hp
    exact hf p (fun j h1 h2 => hp j h1 (up j h1 h2))
  · intro j h1 h2 p hWp s' hoff hat hcs
    exact hv j h1 (by omega) p hWp s' hoff hat hcs


/-- Scatter rule for a loop nest of depth two. -/
theorem forLoop2_scatter {σ β : Type} (obs : σ → Int → β) (cnt : σ → Nat) (w : Nat)
    (bump : σ → Nat → σ) (body : Int → Int → σ → σ) (W : Int → Int → Int → Prop)
    (Wall : Int → Prop) (a0 a1 b0 b1 : Int)
    (hbo : ∀ s m p, obs (bump s m) p = obs s p)
    (hbc : ∀ s m, cnt (bump s m) = cnt s + m * w)
    (hW : ∀ u v, a0 ≤ u → u < a1 → b0 ≤ v → v < b1 → ∀ p, W u v p → Wall p)
    (hcnt : ∀ u v, a0 ≤ u → u < a1 → b0 ≤ v → v < b1 → ∀ s, cnt (body u v s) = cnt s + w)
    (hframe : ∀ u v, a0 ≤ u → u < a1 → b0 ≤ v → v < b1 → ∀ s p, ¬ W u v p →
        obs (body u v s) p = obs s p)
    (hdep : ∀ u v, a0 ≤ u → u < a1 → b0 ≤ v → v < b1 → ∀ s s' p, W u v p →
        (∀ q, ¬ Wall q → obs s q = obs s' q) → obs s p = obs s' p → cnt s = cnt s' →
        obs (body u v s) p = obs (body u v s') p)
    (hdisj : ∀ u v u' v', a0 ≤ u → u < a1 → b0 ≤ v → v < b1 → a0 ≤ u' → u' < a1 → b0 ≤ v' →
        v' < b1 → (u ≠ u' ∨ v ≠ v') → ∀ p, W u v p → ¬ W u' v' p)
    (s0 : σ) :
    cnt (forLoop a0 a1 (fun u s => forLoop b0 b1 (fun v s => body u v s) s) s0)
      = cnt s0 + (a1 - a0).toNat * ((b1 - b0).toNat * w) ∧
    (∀ p, (∀ u v, a0 ≤ u → u < a1 → b0 ≤ v → v < b1 → ¬ W u v p) →
      obs (forLoop a0 a1 (fun u s => forLoop b0 b1 (fun v s => body u v s) s) s0) p
        = obs s0 p) ∧
    (∀ u v, a0 ≤ u → u < a1 → b0 ≤ v → v < b1 → ∀ p, W u v p → ∀ s',
      (∀ q, ¬ Wall q → obs s' q = obs s0 q) → obs s' p = obs s0 p →
      cnt s' = cnt s0 + ((u - a0).toNat * (b1 - b0).toNat + (v - b0).toNat) * w →
      obs (forLoop a0 a1 (fun u s => forLoop b0 b1 (fun v s => body u v s) s) s0) p
        = obs (body u v s') p) := by
  have inner : ∀ u, a0 ≤ u → u < a1 → ∀ s, _ :=
    fun u h1 h2 s => forLoop_scatter obs cnt w (fun v s => body u v s) (W u) Wall b0 b1
      (fun v h3 h4 => hW u v h1 h2 h3 h4)
      (fun v h3 h4 => hcnt u v h1 h2 h3 h4)
      (fun v h3 h4 => hframe u v h1 h2 h3 h4)
      (fun v h3 h4 => hdep u v h1 h2 h3 h4)
      (fun v v' h3 h4 h5 h6 hne => hdisj u v u v' h1 h2 h3 h4 h1 h2 h5 h6 (Or.inr hne)) s
  obtain ⟨hc, hf, hv⟩ := forLoop_scatter obs cnt ((b1 - b0).toNat * w)
    (fun u s => forLoop b0 b1 (fun v s => body u v s) s)
    (fun u p => ∃ v, b0 ≤ v ∧ v < b1 ∧ W u v p) Wall a0 a1
    (fun u h1 h2 p ⟨v, h3, h4, hWp⟩ => hW u v h1 h2 h3 h4 p hWp)
    (fun u h1 h2 s => (inner u h1 h2 s).1)
    (fun u h1 h2 s p hp => (inner u h1 h2 s).2.1 p (fun v h3 h4 hc => hp ⟨v, h3, h4, hc⟩))
    (by
      rintro u h1 h2 s s' p ⟨v, h3, h4, hWp⟩ hoff hat hcs
      rw [(inner u h1 h2 s).2.2 v h3 h4 p hWp (bump s (v - b0).toNat)
          (fun q _ => hbo _ _ _) (hbo _ _ _) (hbc _ _),
        (inner u h1 h2 s').2.2 v h3 h4 p hWp (bump s (v - b0).toNat)
          (fun q hq => by rw [hbo]; exact hoff q hq) (by rw [hbo]; exact hat)
          (by rw [hbc, hcs])])
    (by
      rintro u u' h1 h2 h3 h4 hne p ⟨v, h5, h6, hWp⟩ ⟨v', h7, h8, hWp'⟩
      exact hdisj u v u' v' h1 h2 h5 h6 h3 h4 h7 h8 (Or.inl hne) p hWp hWp')
    s0
  refine ⟨hc, ?_, ?_⟩
  · intro p hp
    exact hf p (fun u h1 h2 ⟨v, h3, h4, hc⟩ => hp u v h1 h2 h3 h4 hc)
  · intro u v h1 h2 h3 h4 p hWp s' hoff hat hcs
    rw [hv u h1 h2 p ⟨v, h3, h4, hWp⟩ (bump s0 ((u - a0).toNat * (b1 - b0).toNat))
      (fun q _ => hbo _ _ _) (hbo _ _ _) (by rw [hbc]; ring)]
    exact (inner u h1 h2 _).2.2 v h3 h4 p hWp s'
      (fun q hq => by rw [hbo]; exact hoff q hq) (by rw [hbo]; exact hat)
      (by rw [hbc, hcs]; ring)

/-- Scatter rule for a loop nest of depth three. -/
theorem forLoop3_scatter {σ β : Type} (obs : σ → Int → β) (cnt : σ → Nat) (w : Nat)
    (bump : σ → Nat → σ) (body : Int → Int → Int → σ → σ)
    (W : Int → Int → Int → Int → Prop) (Wall : Int → Prop) (a0 a1 b0 b1 c0 c1 : Int)
    (hbo : ∀ s m p, obs (bump s m) p = obs s p)
    (hbc : ∀ s m, cnt (bump s m) = cnt s + m * w)
    (hW : ∀ u v t, a0 ≤ u → u < a1 → b0 ≤ v → v < b1 → c0 ≤ t → t < c1 →
        ∀ p, W u v t p → Wall p)
    (hcnt : ∀ u v t, a0 ≤ u → u < a1 → b0 ≤ v → v < b1 → c0 ≤ t → t < c1 →
        ∀ s, cnt (body u v t s) = cnt s + w)
    (hframe : ∀ u v t, a0 ≤ u → u < a1 → b0 ≤ v → v < b1 → c0 ≤ t → t < c1 → ∀ s p,
        ¬ W u v t p → obs (body u v t s) p = obs s p)
    (hdep : ∀ u v t, a0 ≤ u → u < a1 → b0 ≤ v → v < b1 → c0 ≤ t → t < c1 → ∀ s s' p,
        W u v t p → (∀ q, ¬ Wall q → obs s q = obs s' q) → obs s p = obs s' p →
        cnt s = cnt s' → obs (body u v t s) p = obs (body u v t s') p)
    (hdisj : ∀ u v t u' v' t', a0 ≤ u → u < a1 → b0 ≤ v → v < b1 → c0 ≤ t → t < c1 →
        a0 ≤ u' → u' < a1 → b0 ≤ v' → v' < b1 → c0 ≤ t' → t' < c1 →
        (u ≠ u' ∨ v ≠ v' ∨ t ≠ t') → ∀ p, W u v t p → ¬ W u' v' t' p)
    (s0 : σ) :
    cnt (forLoop a0 a1 (fun u s => forLoop b0 b1 (fun v s =>
        forLoop c0 c1 (fun t s => body u v t s) s) s) s0)
      = cnt s0 + (a1 - a0).toNat * ((b1 - b0).toNat * ((c1 - c0).toNat * w)) ∧
    (∀ p, (∀ u v t, a0 ≤ u → u < a1 → b0 ≤ v → v < b1 → c0 ≤ t → t < c1 → ¬ W u v t p) →
      obs (forLoop a0 a1 (fun u s => forLoop b0 b1 (fun v s =>
        forLoop c0 c1 (fun t s => body u v t s) s) s) s0) p = obs s0 p) ∧
    (∀ u v t, a0 ≤ u → u < a1 → b0 ≤ v → v < b1 → c0 ≤ t → t < c1 → ∀ p, W u v t p → ∀ s',
      (∀ q, ¬ Wall q → obs s' q = obs s0 q) → obs s' p = obs s0 p →
      cnt s' = cnt s0 + (((u - a0).toNat * (b1 - b0).toNat + (v - b0).toNat) * (c1 - c0).toNat
        + (t - c0).toNat) * w →
      obs (forLoop a0 a1 (fun u s => forLoop b0 b1 (fun v s =>
        forLoop c0 c1 (fun t s => body u v t s) s) s) s0) p = obs (body u v t s') p) := by
  have inner : ∀ u, a0 ≤ u → u < a1 → ∀ s, _ :=
    fun u h1 h2 s => forLoop2_scatter obs cnt w bump (fun v t s => body u v t s) (W u) Wall
      b0 b1 c0 c1 hbo hbc
      (fun v t h3 h4 h5 h6 => hW u v t h1 h2 h3 h4 h5 h6)
      (fun v t h3 h4 h5 h6 => hcnt u v t h1 h2 h3 h4 h5 h6)
      (fun v t h3 h4 h5 h6 => hframe u v t h1 h2 h3 h4 h5 h6)
      (fun v t h3 h4 h5 h6 => hdep u v t h1 h2 h3 h4 h5 h6)
      (fun v t v' t' h3 h4 h5 h6 h7 h8 h9 h10 hne =>
        hdisj u v t u v' t' h1 h2 h3 h4 h5 h6 h1 h2 h7 h8 h9 h10 (Or.inr hne)) s
  obtain ⟨hc, hf, hv⟩ := forLoop_scatter obs cnt ((b1 - b0).toNat * ((c1 - c0).toNat * w))
    (fun u s => forLoop b0 b1 (fun v s => forLoop c0 c1 (fun t s => body u v t s) s) s)
    (fun u p => ∃ v t, b0 ≤ v ∧ v < b1 ∧ c0 ≤ t ∧ t < c1 ∧ W u v t p) Wall a0 a1
    (fun u h1 h2 p ⟨v, t, h3, h4, h5, h6, hWp⟩ => hW u v t h1 h2 h3 h4 h5 h6 p hWp)
    (fun u h1 h2 s => (inner u h1 h2 s).1)
    (fun u h1 h2 s p hp => (inner u h1 h2 s).2.1 p
      (fun v t h3 h4 h5 h6 hc => hp ⟨v, t, h3, h4, h5, h6, hc⟩))
    (by
      rintro u h1 h2 s s' p ⟨v, t, h3, h4, h5, h6, hWp⟩ hoff hat hcs
      rw [(inner u h1 h2 s).2.2 v t h3 h4 h5 h6 p hWp
          (bump s ((v - b0).toNat * (c1 - c0).toNat + (t - c0).toNat))
          (fun q _ => hbo _ _ _) (hbo _ _ _) (hbc _ _),
        (inner u h1 h2 s').2.2 v t h3 h4 h5 h6 p hWp
          (bump s ((v - b0).toNat * (c1 - c0).toNat + (t - c0).toNat))
          (fun q hq => by rw [hbo]; exact hoff q hq) (by rw [hbo]; exact hat)
          (by rw [hbc, hcs])])
    (by
      rintro u u' h1 h2 h3 h4 hne p ⟨v, t, h5, h6, h7, h8, hWp⟩ ⟨v', t', h9, h10, h11, h12, hWp'⟩
      exact hdisj u v t u' v' t' h1 h2 h5 h6 h7 h8 h3 h4 h9 h10 h11 h12 (Or.inl hne) p hWp hWp')
    s0
  refine ⟨hc, ?_, ?_⟩
  · intro p hp
    exact hf p (fun u h1 h2 ⟨v, t, h3, h4, h5, h6, hc⟩ => hp u v t h1 h2 h3 h4 h5 h6 hc)
  · intro u v t h1 h2 h3 h4 h5 h6 p hWp s' hoff hat hcs
    rw [hv u h1 h2 p ⟨v, t, h3, h4, h5, h6, hWp⟩
      (bump s0 ((u - a0).toNat * ((b1 - b0).toNat * (c1 - c0).toNat)))
      (fun q _ => hbo _ _ _) (hbo _ _ _) (by rw [hbc]; ring)]
    exact (inner u h1 h2 _).2.2 v t h3 h4 h5 h6 p hWp s'
      (fun q hq => by rw [hbo]; exact hoff q hq) (by rw [hbo]; exact hat)
      (by rw [hbc, hcs]; ring)

/-! ## Flattened index -/

theorem divmod_unique {N a b a' b' : Int} (hb : 0 ≤ b) (hbN : b < N) (hb' : 0 ≤ b')
    (hbN' : b' < N) (h : a * N + b = a' * N + b') : a = a' ∧ b = b' := by
  have hN : 0 < N := by omega
  have e1 := (Int.ediv_emod_unique (a := a * N + b) (r := b) (q := a) hN).2
    ⟨by ring, hb, hbN⟩
  have e2 := (Int.ediv_emod_unique (a := a * N + b) (r := b') (q := a') hN).2
    ⟨by rw [h]; ring, hb', hbN'⟩
  exact ⟨e1.1.symm.trans e2.1, e1.2.symm.trans e2.2⟩

theorem IDX_mainStrides {F : Type} (params : SimParams F) (i j k : Int) :
    IDX (mainStrides params) i j k
      = (i * params.Num_Y + j) * params.Num_Z + k := by
  simp [IDX, mainStrides]; ring

/-- The flattened index is injective on the cells whose `j` and `k` lie in the
allocated box. -/
theorem IDX_inj {F : Type} (params : SimParams F) {i j k i' j' k' : Int}
    (hj : 0 ≤ j) (hjN : j < params.Num_Y) (hk : 0 ≤ k) (hkN : k < params.Num_Z)
    (hj' : 0 ≤ j') (hjN' : j' < params.Num_Y) (hk' : 0 ≤ k') (hkN' : k' < params.Num_Z)
    (h : IDX (mainStrides params) i j k = IDX (mainStrides params) i' j' k') :
    i = i' ∧ j = j' ∧ k = k' := by
  rw [IDX_mainStrides, IDX_mainStrides] at h
  obtain ⟨h1, h2⟩ := divmod_unique hk hkN hk' hkN' h
  obtain ⟨h3, h4⟩ := divmod_unique hj hjN hj' hjN' h1
  exact ⟨h3, h4, h2⟩

theorem bcIndex_eq (dim : Int) (strides : Fin 3 → Int) (i j k : Int) (h : dim = 2 → k = 0) :
    bcIndex dim strides i j k = IDX strides i j k := by
  unfold bcIndex
  split
  · rename_i hd; rw [h hd]; simp [IDX]
  · rfl

/-! ## Boundary enforcement -/

theorem bcValue_congr {F : Type} (bc : BoundaryType) {a b c a' b' c' : F} (ha : a = a')
    (hb : b = b') (hc : c = c') : bcValue bc a b c = bcValue bc a' b' c' := by
  rw [ha, hb, hc]

theorem bcPair_get_other {F : Type} (bcLo bcHi : BoundaryType) (lo hi loRef hiRef : Int)
    (arr : Arr F) (p : Int) (h1 : p ≠ lo) (h2 : p ≠ hi) :
    (bcPair bcLo bcHi lo hi loRef hiRef arr).get p = arr.get p := by
  unfold bcPair
  cases bcLo <;> cases bcHi <;> simp [h1, h2]

theorem bcPair_get_lo {F : Type} (bcLo bcHi : BoundaryType) (lo hi loRef hiRef : Int)
    (arr : Arr F) (h : lo ≠ hi) :
    (bcPair bcLo bcHi lo hi loRef hiRef arr).get lo
      = bcValue bcLo (arr.get hiRef) (arr.get loRef) (arr.get lo) := by
  unfold bcPair bcValue
  cases bcLo <;> cases bcHi <;> simp [h]

theorem bcPair_get_hi {F : Type} (bcLo bcHi : BoundaryType) (lo hi loRef hiRef : Int)
    (arr : Arr F) (h : lo ≠ hi) (h1 : loRef ≠ lo) (h2 : hiRef ≠ lo) :
    (bcPair bcLo bcHi lo hi loRef hiRef arr).get hi
      = bcValue bcHi (arr.get loRef) (arr.get hiRef) (arr.get hi) := by
  unfold bcPair bcValue
  cases bcLo <;> cases bcHi <;> simp [h, h1, h2, Ne.symm h]

/-- One pass of the boundary enforcement (a loop nest of depth two over pairs of
opposite ghost cells): ghost cells receive the value selected by the face
policy, computed from the array as it was before the pass; no other cell
changes. -/
theorem bcPass_spec {F : Type} (bcLo bcHi : BoundaryType) (a0 a1 b0 b1 : Int)
    (lo hi loRef hiRef : Int → Int → Int)
    (hlo : ∀ u v u' v', a0 ≤ u → u < a1 → b0 ≤ v → v < b1 → a0 ≤ u' → u' < a1 → b0 ≤ v' →
      v' < b1 → lo u v = lo u' v' → u = u' ∧ v = v')
    (hhi : ∀ u v u' v', a0 ≤ u → u < a1 → b0 ≤ v → v < b1 → a0 ≤ u' → u' < a1 → b0 ≤ v' →
      v' < b1 → hi u v = hi u' v' → u = u' ∧ v = v')
    (hlh : ∀ u v u' v', a0 ≤ u → u < a1 → b0 ≤ v → v < b1 → a0 ≤ u' → u' < a1 → b0 ≤ v' →
      v' < b1 → lo u v ≠ hi u' v')
    (href : ∀ u v u' v', a0 ≤ u → u < a1 → b0 ≤ v → v < b1 → a0 ≤ u' → u' < a1 → b0 ≤ v' →
      v' < b1 → loRef u v ≠ lo u' v' ∧ loRef u v ≠ hi u' v' ∧ hiRef u v ≠ lo u' v' ∧
        hiRef u v ≠ hi u' v')
    (arr : Arr F) :
    (∀ p, (∀ u v, a0 ≤ u → u < a1 → b0 ≤ v → v < b1 → p ≠ lo u v ∧ p ≠ hi u v) →
      (forLoop a0 a1 (fun u arr => forLoop b0 b1 (fun v arr =>
        bcPair bcLo bcHi (lo u v) (hi u v) (loRef u v) (hiRef u v) arr) arr) arr).get p
        = arr.get p) ∧
    (∀ u v, a0 ≤ u → u < a1 → b0 ≤ v → v < b1 →
      (forLoop a0 a1 (fun u arr => forLoop b0 b1 (fun v arr =>
        bcPair bcLo bcHi (lo u v) (hi u v) (loRef u v) (hiRef u v) arr) arr) arr).get (lo u v)
        = bcValue bcLo (arr.get (hiRef u v)) (arr.get (loRef u v)) (arr.get (lo u v)) ∧
      (forLoop a0 a1 (fun u arr => forLoop b0 b1 (fun v arr =>
        bcPair bcLo bcHi (lo u v) (hi u v) (loRef u v) (hiRef u v) arr) arr) arr).get (hi u v)
        = bcValue bcHi (arr.get (loRef u v)) (arr.get (hiRef u v)) (arr.get (hi u v))) := by
  have key := forLoop2_scatter (σ := Arr F) (fun s p => s.get p) (fun _ => 0) 0 (fun s _ => s)
    (fun u v arr => bcPair bcLo bcHi (lo u v) (hi u v) (loRef u v) (hiRef u v) arr)
    (fun u v p => p = lo u v ∨ p = hi u v)
    (fun p => ∃ u v, a0 ≤ u ∧ u < a1 ∧ b0 ≤ v ∧ v < b1 ∧ (p = lo u v ∨ p = hi u v))
    a0 a1 b0 b1 (fun _ _ _ => rfl) (fun _ _ => by simp)
    (fun u v h1 h2 h3 h4 p hp => ⟨u, v, h1, h2, h3, h4, hp⟩)
    (fun _ _ _ _ _ _ _ => rfl)
    (fun u v _ _ _ _ s p hp => by
      simp only [not_or] at hp
      exact bcPair_get_other _ _ _ _ _ _ s p hp.1 hp.2)
    (by
      intro u v h1 h2 h3 h4 s s' p hp hoff hat _
      have r := href u v
      have nl : ∀ q, (∀ u' v', a0 ≤ u' → u' < a1 → b0 ≤ v' → v' < b1 →
          q ≠ lo u' v' ∧ q ≠ hi u' v') → s.get q = s'.get q := by
        intro q hq
        apply hoff q
        rintro ⟨u', v', g1, g2, g3, g4, hc⟩
        rcases hc with hc | hc
        · exact (hq u' v' g1 g2 g3 g4).1 hc
        · exact (hq u' v' g1 g2 g3 g4).2 hc
      have e1 : s.get (loRef u v) = s'.get (loRef u v) :=
        nl _ (fun u' v' g1 g2 g3 g4 =>
          ⟨(r u' v' h1 h2 h3 h4 g1 g2 g3 g4).1, (r u' v' h1 h2 h3 h4 g1 g2 g3 g4).2.1⟩)
      have e2 : s.get (hiRef u v) = s'.get (hiRef u v) :=
        nl _ (fun u' v' g1 g2 g3 g4 =>
          ⟨(r u' v' h1 h2 h3 h4 g1 g2 g3 g4).2.2.1, (r u' v' h1 h2 h3 h4 g1 g2 g3 g4).2.2.2⟩)
      have hne := hlh u v u v h1 h2 h3 h4 h1 h2 h3 h4
      have r0 := r u v h1 h2 h3 h4 h1 h2 h3 h4
      rcases hp with hp | hp
      · subst hp
        simp only
        rw [bcPair_get_lo _ _ _ _ _ _ _ hne, bcPair_get_lo _ _ _ _ _ _ _ hne]
        exact bcValue_congr _ e2 e1 hat
      · subst hp
        simp only
        rw [bcPair_get_hi _ _ _ _ _ _ _ hne r0.1 r0.2.2.1,
          bcPair_get_hi _ _ _ _ _ _ _ hne r0.1 r0.2.2.1]
        exact bcValue_congr _ e1 e2 hat)
    (by
      intro u v u' v' h1 h2 h3 h4 h5 h6 h7 h8 hne p hp hp'
      rcases hp with hp | hp <;> rcases hp' with hp' | hp'
      · have := hlo u v u' v' h1 h2 h3 h4 h5 h6 h7 h8 (hp.symm.trans hp')
        rcases hne with hne | hne
        · exact hne this.1
        · exact hne this.2
      · exact hlh u v u' v' h1 h2 h3 h4 h5 h6 h7 h8 (hp.symm.trans hp')
      · exact hlh u' v' u v h5 h6 h7 h8 h1 h2 h3 h4 (hp'.symm.trans hp)
      · have := hhi u v u' v' h1 h2 h3 h4 h5 h6 h7 h8 (hp.symm.trans hp')
        rcases hne with hne | hne
        · exact hne this.1
        · exact hne this.2)
    arr
  obtain ⟨-, hf, hv⟩ := key
  refine ⟨fun p hp => hf p (fun u v h1 h2 h3 h4 hc => ?_), fun u v h1 h2 h3 h4 => ⟨?_, ?_⟩⟩
  · rcases hc with hc | hc
    · exact (hp u v h1 h2 h3 h4).1 hc
    · exact (hp u v h1 h2 h3 h4).2 hc
  · have hne := hlh u v u v h1 h2 h3 h4 h1 h2 h3 h4
    have := hv u v h1 h2 h3 h4 (lo u v) (Or.inl rfl) arr (fun _ _ => rfl) rfl (by simp)
    simp only at this
    rw [this, bcPair_get_lo _ _ _ _ _ _ _ hne]
  · have hne := hlh u v u v h1 h2 h3 h4 h1 h2 h3 h4
    have r0 := href u v u v h1 h2 h3 h4 h1 h2 h3 h4
    have := hv u v h1 h2 h3 h4 (hi u v) (Or.inr rfl) arr (fun _ _ => rfl) rfl (by simp)
    simp only at this
    rw [this, bcPair_get_hi _ _ _ _ _ _ _ hne r0.1 r0.2.2.1]

theorem applyBoundaryConditions_eq_passes {F : Type} (arr : Arr F) (params : SimParams F)
    (strides : Fin 3 → Int) (bc : FaceBoundary) :
    applyBoundaryConditions arr params strides bc
      = if params.DIM = 3 then
          bcPassZ (bcPassY (bcPassX arr params strides bc) params strides bc) params strides bc
        else bcPassY (bcPassX arr params strides bc) params strides bc := rfl

theorem krange_of_interiorK {F : Type} {params : SimParams F} (hg : validGrid params) {k : Int}
    (hk : interiorK params k) :
    (if params.DIM = 3 then 1 else 0) ≤ k ∧ k < (if params.DIM = 3 then params.Num_Z - 1 else 1)
      ∧ 0 ≤ k ∧ k < params.Num_Z ∧ (params.DIM = 2 → k = 0) := by
  unfold interiorK at hk
  obtain ⟨_, _, h | h⟩ := hg
  · have h3 : params.DIM ≠ 3 := by omega
    simp only [h3, if_false] at hk ⊢
    omega
  · simp only [h.1, if_true] at hk ⊢
    omega

theorem interiorK_of_krange {F : Type} {params : SimParams F} (hg : validGrid params) {k : Int}
    (h1 : (if params.DIM = 3 then 1 else 0) ≤ k)
    (h2 : k < (if params.DIM = 3 then params.Num_Z - 1 else 1)) : interiorK params k := by
  unfold interiorK
  obtain ⟨_, _, h | h⟩ := hg
  · have h3 : params.DIM ≠ 3 := by omega
    simp only [h3, if_false] at h1 h2 ⊢
    omega
  · simp only [h.1, if_true] at h1 h2 ⊢
    omega

/-- Distinct cells of the allocated box have distinct flattened indices. -/
theorem IDX_ne {F : Type} (params : SimParams F) {i j k i' j' k' : Int}
    (hj : 0 ≤ j ∧ j < params.Num_Y) (hk : 0 ≤ k ∧ k < params.Num_Z)
    (hj' : 0 ≤ j' ∧ j' < params.Num_Y) (hk' : 0 ≤ k' ∧ k' < params.Num_Z)
    (h : i ≠ i' ∨ j ≠ j' ∨ k ≠ k') :
    IDX (mainStrides params) i j k ≠ IDX (mainStrides params) i' j' k' := by
  intro he
  obtain ⟨h1, h2, h3⟩ := IDX_inj params hj.1 hj.2 hk.1 hk.2 hj'.1 hj'.2 hk'.1 hk'.2 he
  rcases h with h | h | h
  · exact h h1
  · exact h h2
  · exact h h3

/-- The X pass in grid coordinates. -/
theorem bcPassX_spec {F : Type} (arr : Arr F) (params : SimParams F) (bc : FaceBoundary)
    (hg : validGrid params) :
    (∀ i j k, 0 ≤ j → j < params.Num_Y → 0 ≤ k → k < params.Num_Z →
      ¬ ((i = 0 ∨ i = params.Num_X - 1) ∧ 1 ≤ j ∧ j ≤ params.Num_Y - 2 ∧ interiorK params k) →
      (bcPassX arr params (mainStrides params) bc).get (IDX (mainStrides params) i j k)
        = arr.get (IDX (mainStrides params) i j k)) ∧
    (∀ j k, 1 ≤ j → j ≤ params.Num_Y - 2 → interiorK params k →
      (bcPassX arr params (mainStrides params) bc).get (IDX (mainStrides params) 0 j k)
        = bcValue bc.left (arr.get (IDX (mainStrides params) (params.Num_X - 2) j k))
            (arr.get (IDX (mainStrides params) 1 j k))
            (arr.get (IDX (mainStrides params) 0 j k)) ∧
      (bcPassX arr params (mainStrides params) bc).get
          (IDX (mainStrides params) (params.Num_X - 1) j k)
        = bcValue bc.right (arr.get (IDX (mainStrides params) 1 j k))
            (arr.get (IDX (mainStrides params) (params.Num_X - 2) j k))
            (arr.get (IDX (mainStrides params) (params.Num_X - 1) j k))) := by
  have hNX := hg.1
  have hNY := hg.2.1
  have kr : ∀ k, (if params.DIM = 3 then 1 else 0) ≤ k →
      k < (if params.DIM = 3 then params.Num_Z - 1 else 1) →
      0 ≤ k ∧ k < params.Num_Z ∧ (params.DIM = 2 → k = 0) := fun k h1 h2 =>
    (krange_of_interiorK hg (interiorK_of_krange hg h1 h2)).2.2
  have be : ∀ i j k, (if params.DIM = 3 then 1 else 0) ≤ k →
      k < (if params.DIM = 3 then params.Num_Z - 1 else 1) →
      bcIndex params.DIM (mainStrides params) i j k = IDX (mainStrides params) i j k :=
    fun i j k h1 h2 => bcIndex_eq _ _ _ _ _ (kr k h1 h2).2.2
  obtain ⟨hf, hv⟩ := bcPass_spec bc.left bc.right 1 (params.Num_Y - 1)
    (if params.DIM = 3 then 1 else 0) (if params.DIM = 3 then params.Num_Z - 1 else 1)
    (fun j k => bcIndex params.DIM (mainStrides params) 0 j k)
    (fun j k => bcIndex params.DIM (mainStrides params) (params.Num_X - 1) j k)
    (fun j k => bcIndex params.DIM (mainStrides params) 1 j k)
    (fun j k => bcIndex params.DIM (mainStrides params) (params.Num_X - 2) j k)
    (by
      intro u v u' v' h1 h2 h3 h4 h5 h6 h7 h8 he
      simp only [be _ _ _ h3 h4, be _ _ _ h7 h8] at he
      have := IDX_inj params (by omega) (by omega) (kr v h3 h4).1 (kr v h3 h4).2.1
        (by omega) (by omega) (kr v' h7 h8).1 (kr v' h7 h8).2.1 he
      exact this.2)
    (by
      intro u v u' v' h1 h2 h3 h4 h5 h6 h7 h8 he
      simp only [be _ _ _ h3 h4, be _ _ _ h7 h8] at he
      have := IDX_inj params (by omega) (by omega) (kr v h3 h4).1 (kr v h3 h4).2.1
        (by omega) (by omega) (kr v' h7 h8).1 (kr v' h7 h8).2.1 he
      exact this.2)
    (by
      intro u v u' v' h1 h2 h3 h4 h5 h6 h7 h8
      simp only [be _ _ _ h3 h4, be _ _ _ h7 h8]
      exact IDX_ne params ⟨by omega, by omega⟩ ⟨(kr v h3 h4).1, (kr v h3 h4).2.1⟩
        ⟨by omega, by omega⟩ ⟨(kr v' h7 h8).1, (kr v' h7 h8).2.1⟩ (Or.inl (by omega)))
    (by
      intro u v u' v' h1 h2 h3 h4 h5 h6 h7 h8
      simp only [be _ _ _ h3 h4, be _ _ _ h7 h8]
      refine ⟨?_, ?_, ?_, ?_⟩ <;>
      exact IDX_ne params ⟨by omega, by omega⟩ ⟨(kr v h3 h4).1, (kr v h3 h4).2.1⟩
        ⟨by omega, by omega⟩ ⟨(kr v' h7 h8).1, (kr v' h7 h8).2.1⟩ (Or.inl (by omega)))
    arr
  refine ⟨?_, ?_⟩
  · intro i j k hj0 hj1 hk0 hk1 hnot
    refine hf _ (fun u v h1 h2 h3 h4 => ?_)
    simp only [be _ _ _ h3 h4]
    have hik := interiorK_of_krange hg h3 h4
    have hkv := kr v h3 h4
    constructor
    · apply IDX_ne params ⟨hj0, hj1⟩ ⟨hk0, hk1⟩ ⟨by omega, by omega⟩ ⟨hkv.1, hkv.2.1⟩
      by_contra hc
      simp only [not_or, not_not] at hc
      obtain ⟨e1, e2, e3⟩ := hc
      subst e1 e2 e3
      exact hnot ⟨Or.inl rfl, by omega, by omega, hik⟩
    · apply IDX_ne params ⟨hj0, hj1⟩ ⟨hk0, hk1⟩ ⟨by omega, by omega⟩ ⟨hkv.1, hkv.2.1⟩
      by_contra hc
      simp only [not_or, not_not] at hc
      obtain ⟨e1, e2, e3⟩ := hc
      subst e1 e2 e3
      exact hnot ⟨Or.inr rfl, by omega, by omega, hik⟩
  · intro j k hj0 hj1 hk
    obtain ⟨h3, h4, -⟩ := krange_of_interiorK hg hk
    have := hv j k hj0 (by omega) h3 h4
    simp only [be _ _ _ h3 h4] at this
    exact this

/-- The Y pass in grid coordinates. -/
theorem bcPassY_spec {F : Type} (arr : Arr F) (params : SimParams F) (bc : FaceBoundary)
    (hg : validGrid params) :
    (∀ i j k, 0 ≤ j → j < params.Num_Y → 0 ≤ k → k < params.Num_Z →
      ¬ ((j = 0 ∨ j = params.Num_Y - 1) ∧ 1 ≤ i ∧ i ≤ params.Num_X - 2 ∧ interiorK params k) →
      (bcPassY arr params (mainStrides params) bc).get (IDX (mainStrides params) i j k)
        = arr.get (IDX (mainStrides params) i j k)) ∧
    (∀ i k, 1 ≤ i → i ≤ params.Num_X - 2 → interiorK params k →
      (bcPassY arr params (mainStrides params) bc).get (IDX (mainStrides params) i 0 k)
        = bcValue bc.bottom (arr.get (IDX (mainStrides params) i (params.Num_Y - 2) k))
            (arr.get (IDX (mainStrides params) i 1 k))
            (arr.get (IDX (mainStrides params) i 0 k)) ∧
      (bcPassY arr params (mainStrides params) bc).get
          (IDX (mainStrides params) i (params.Num_Y - 1) k)
        = bcValue bc.top (arr.get (IDX (mainStrides params) i 1 k))
            (arr.get (IDX (mainStrides params) i (params.Num_Y - 2) k))
            (arr.get (IDX (mainStrides params) i (params.Num_Y - 1) k))) := by
  have hNX := hg.1
  have hNY := hg.2.1
  have kr : ∀ k, (if params.DIM = 3 then 1 else 0) ≤ k →
      k < (if params.DIM = 3 then params.Num_Z - 1 else 1) →
      0 ≤ k ∧ k < params.Num_Z ∧ (params.DIM = 2 → k = 0) := fun k h1 h2 =>
    (krange_of_interiorK hg (interiorK_of_krange hg h1 h2)).2.2
  have be : ∀ i j k, (if params.DIM = 3 then 1 else 0) ≤ k →
      k < (if params.DIM = 3 then params.Num_Z - 1 else 1) →
      bcIndex params.DIM (mainStrides params) i j k = IDX (mainStrides params) i j k :=
    fun i j k h1 h2 => bcIndex_eq _ _ _ _ _ (kr k h1 h2).2.2
  obtain ⟨hf, hv⟩ := bcPass_spec bc.bottom bc.top 1 (params.Num_X - 1)
    (if params.DIM = 3 then 1 else 0) (if params.DIM = 3 then params.Num_Z - 1 else 1)
    (fun i k => bcIndex params.DIM (mainStrides params) i 0 k)
    (fun i k => bcIndex params.DIM (mainStrides params) i (params.Num_Y - 1) k)
    (fun i k => bcIndex params.DIM (mainStrides params) i 1 k)
    (fun i k => bcIndex params.DIM (mainStrides params) i (params.Num_Y - 2) k)
    (by
      intro u v u' v' h1 h2 h3 h4 h5 h6 h7 h8 he
      simp only [be _ _ _ h3 h4, be _ _ _ h7 h8] at he
      have := IDX_inj params (by omega) (by omega) (kr v h3 h4).1 (kr v h3 h4).2.1
        (by omega) (by omega) (kr v' h7 h8).1 (kr v' h7 h8).2.1 he
      exact ⟨this.1, this.2.2⟩)
    (by
      intro u v u' v' h1 h2 h3 h4 h5 h6 h7 h8 he
      simp only [be _ _ _ h3 h4, be _ _ _ h7 h8] at he
      have := IDX_inj params (by omega) (by omega) (kr v h3 h4).1 (kr v h3 h4).2.1
        (by omega) (by omega) (kr v' h7 h8).1 (kr v' h7 h8).2.1 he
      exact ⟨this.1, this.2.2⟩)
    (by
      intro u v u' v' h1 h2 h3 h4 h5 h6 h7 h8
      simp only [be _ _ _ h3 h4, be _ _ _ h7 h8]
      exact IDX_ne params ⟨by omega, by omega⟩ ⟨(kr v h3 h4).1, (kr v h3 h4).2.1⟩
        ⟨by omega, by omega⟩ ⟨(kr v' h7 h8).1, (kr v' h7 h8).2.1⟩ (Or.inr (Or.inl (by omega))))
    (by
      intro u v u' v' h1 h2 h3 h4 h5 h6 h7 h8
      simp only [be _ _ _ h3 h4, be _ _ _ h7 h8]
      refine ⟨?_, ?_, ?_, ?_⟩ <;>
      exact IDX_ne params ⟨by omega, by omega⟩ ⟨(kr v h3 h4).1, (kr v h3 h4).2.1⟩
        ⟨by omega, by omega⟩ ⟨(kr v' h7 h8).1, (kr v' h7 h8).2.1⟩ (Or.inr (Or.inl (by omega))))
    arr
  refine ⟨?_, ?_⟩
  · intro i j k hj0 hj1 hk0 hk1 hnot
    refine hf _ (fun u v h1 h2 h3 h4 => ?_)
    simp only [be _ _ _ h3 h4]
    have hik := interiorK_of_krange hg h3 h4
    have hkv := kr v h3 h4
    constructor
    · apply IDX_ne params ⟨hj0, hj1⟩ ⟨hk0, hk1⟩ ⟨by omega, by omega⟩ ⟨hkv.1, hkv.2.1⟩
      by_contra hc
      simp only [not_or, not_not] at hc
      obtain ⟨e1, e2, e3⟩ := hc
      subst e1 e2 e3
      exact hnot ⟨Or.inl rfl, by omega, by omega, hik⟩
    · apply IDX_ne params ⟨hj0, hj1⟩ ⟨hk0, hk1⟩ ⟨by omega, by omega⟩ ⟨hkv.1, hkv.2.1⟩
      by_contra hc
      simp only [not_or, not_not] at hc
      obtain ⟨e1, e2, e3⟩ := hc
      subst e1 e2 e3
      exact hnot ⟨Or.inr rfl, by omega, by omega, hik⟩
  · intro i k hi0 hi1 hk
    obtain ⟨h3, h4, -⟩ := krange_of_interiorK hg hk
    have := hv i k hi0 (by omega) h3 h4
    simp only [be _ _ _ h3 h4] at this
    exact this

/-- The Z pass in grid coordinates (3D grids). -/
theorem bcPassZ_spec {F : Type} (arr : Arr F) (params : SimParams F) (bc : FaceBoundary)
    (hNZ : 3 ≤ params.Num_Z) :
    (∀ i j k, 0 ≤ j → j < params.Num_Y → 0 ≤ k → k < params.Num_Z →
      ¬ ((k = 0 ∨ k = params.Num_Z - 1) ∧ 1 ≤ i ∧ i ≤ params.Num_X - 2 ∧
          1 ≤ j ∧ j ≤ params.Num_Y - 2) →
      (bcPassZ arr params (mainStrides params) bc).get (IDX (mainStrides params) i j k)
        = arr.get (IDX (mainStrides params) i j k)) ∧
    (∀ i j, 1 ≤ i → i ≤ params.Num_X - 2 → 1 ≤ j → j ≤ params.Num_Y - 2 →
      (bcPassZ arr params (mainStrides params) bc).get (IDX (mainStrides params) i j 0)
        = bcValue bc.back (arr.get (IDX (mainStrides params) i j (params.Num_Z - 2)))
            (arr.get (IDX (mainStrides params) i j 1))
            (arr.get (IDX (mainStrides params) i j 0)) ∧
      (bcPassZ arr params (mainStrides params) bc).get
          (IDX (mainStrides params) i j (params.Num_Z - 1))
        = bcValue bc.front (arr.get (IDX (mainStrides params) i j 1))
            (arr.get (IDX (mainStrides params) i j (params.Num_Z - 2)))
            (arr.get (IDX (mainStrides params) i j (params.Num_Z - 1)))) := by
  obtain ⟨hf, hv⟩ := bcPass_spec bc.back bc.front 1 (params.Num_X - 1) 1 (params.Num_Y - 1)
    (fun i j => IDX (mainStrides params) i j 0)
    (fun i j => IDX (mainStrides params) i j (params.Num_Z - 1))
    (fun i j => IDX (mainStrides params) i j 1)
    (fun i j => IDX (mainStrides params) i j (params.Num_Z - 2))
    (by
      intro u v u' v' h1 h2 h3 h4 h5 h6 h7 h8 he
      have := IDX_inj params (by omega) (by omega) (by omega) (by omega)
        (by omega) (by omega) (by omega) (by omega) he
      exact ⟨this.1, this.2.1⟩)
    (by
      intro u v u' v' h1 h2 h3 h4 h5 h6 h7 h8 he
      have := IDX_inj params (by omega) (by omega) (by omega) (by omega)
        (by omega) (by omega) (by omega) (by omega) he
      exact ⟨this.1, this.2.1⟩)
    (by
      intro u v u' v' h1 h2 h3 h4 h5 h6 h7 h8
      exact IDX_ne params ⟨by omega, by omega⟩ ⟨by omega, by omega⟩
        ⟨by omega, by omega⟩ ⟨by omega, by omega⟩ (Or.inr (Or.inr (by omega))))
    (by
      intro u v u' v' h1 h2 h3 h4 h5 h6 h7 h8
      refine ⟨?_, ?_, ?_, ?_⟩ <;>
      exact IDX_ne params ⟨by omega, by omega⟩ ⟨by omega, by omega⟩
        ⟨by omega, by omega⟩ ⟨by omega, by omega⟩ (Or.inr (Or.inr (by omega))))
    arr
  refine ⟨?_, ?_⟩
  · intro i j k hj0 hj1 hk0 hk1 hnot
    refine hf _ (fun u v h1 h2 h3 h4 => ?_)
    constructor
    · apply IDX_ne params ⟨hj0, hj1⟩ ⟨hk0, hk1⟩ ⟨by omega, by omega⟩ ⟨by omega, by omega⟩
      by_contra hc
      simp only [not_or, not_not] at hc
      obtain ⟨e1, e2, e3⟩ := hc
      subst e1 e2 e3
      exact hnot ⟨Or.inl rfl, by omega, by omega, by omega, by omega⟩
    · apply IDX_ne params ⟨hj0, hj1⟩ ⟨hk0, hk1⟩ ⟨by omega, by omega⟩ ⟨by omega, by omega⟩
      by_contra hc
      simp only [not_or, not_not] at hc
      obtain ⟨e1, e2, e3⟩ := hc
      subst e1 e2 e3
      exact hnot ⟨Or.inr rfl, by omega, by omega, by omega, by omega⟩
  · intro i j hi0 hi1 hj0 hj1
    exact hv i j hi0 (by omega) hj0 (by omega)

/-- Cells that no pass targets keep their value. -/
theorem applyBC_frame {F : Type} (arr : Arr F) (params : SimParams F) (bc : FaceBoundary)
    (hg : validGrid params) (i j k : Int) (hj0 : 0 ≤ j) (hj1 : j < params.Num_Y) (hk0 : 0 ≤ k)
    (hk1 : k < params.Num_Z)
    (hX : ¬ ((i = 0 ∨ i = params.Num_X - 1) ∧ 1 ≤ j ∧ j ≤ params.Num_Y - 2 ∧ interiorK params k))
    (hY : ¬ ((j = 0 ∨ j = params.Num_Y - 1) ∧ 1 ≤ i ∧ i ≤ params.Num_X - 2 ∧ interiorK params k))
    (hZ : ¬ (params.DIM = 3 ∧ (k = 0 ∨ k = params.Num_Z - 1) ∧ 1 ≤ i ∧ i ≤ params.Num_X - 2 ∧
          1 ≤ j ∧ j ≤ params.Num_Y - 2)) :
    (applyBoundaryConditions arr params (mainStrides params) bc).get
        (IDX (mainStrides params) i j k) = arr.get (IDX (mainStrides params) i j k) := by
  rw [applyBoundaryConditions_eq_passes]
  have hXf := (bcPassX_spec arr params bc hg).1 i j k hj0 hj1 hk0 hk1 hX
  have hYf := (bcPassY_spec (bcPassX arr params (mainStrides params) bc) params bc hg).1
    i j k hj0 hj1 hk0 hk1 hY
  split
  · rename_i h3
    have hNZ : 3 ≤ params.Num_Z := by
      obtain ⟨_, _, h | h⟩ := hg
      · omega
      · exact h.2
    rw [(bcPassZ_spec _ params bc hNZ).1 i j k hj0 hj1 hk0 hk1 (fun hc => hZ ⟨h3, hc⟩),
      hYf, hXf]
  · rw [hYf, hXf]

/-- Interior cells keep their value. -/
theorem applyBC_interior {F : Type} (arr : Arr F) (params : SimParams F) (bc : FaceBoundary)
    (hg : validGrid params) (i j k : Int) (hi0 : 1 ≤ i) (hi1 : i ≤ params.Num_X - 2)
    (hj0 : 1 ≤ j) (hj1 : j ≤ params.Num_Y - 2) (hk : interiorK params k) :
    (applyBoundaryConditions arr params (mainStrides params) bc).get
        (IDX (mainStrides params) i j k) = arr.get (IDX (mainStrides params) i j k) := by
  obtain ⟨-, -, hk0, hk1, -⟩ := krange_of_interiorK hg hk
  have hk' : params.DIM = 3 → 1 ≤ k ∧ k ≤ params.Num_Z - 2 := by
    intro h3; unfold interiorK at hk; simpa [h3] using hk
  refine applyBC_frame arr params bc hg i j k (by omega) (by omega) hk0 hk1 ?_ ?_ ?_
  · rintro ⟨h, -⟩; omega
  · rintro ⟨h, -⟩; omega
  · rintro ⟨h3, h, -⟩; have := hk' h3; omega

/-- Ghost cells of the X faces after `applyBoundaryConditions`. -/
theorem applyBC_xface {F : Type} (arr : Arr F) (params : SimParams F) (bc : FaceBoundary)
    (hg : validGrid params) (j k : Int) (hj0 : 1 ≤ j) (hj1 : j ≤ params.Num_Y - 2)
    (hk : interiorK params k) :
    (applyBoundaryConditions arr params (mainStrides params) bc).get
        (IDX (mainStrides params) 0 j k)
      = bcValue bc.left (arr.get (IDX (mainStrides params) (params.Num_X - 2) j k))
          (arr.get (IDX (mainStrides params) 1 j k))
          (arr.get (IDX (mainStrides params) 0 j k)) ∧
    (applyBoundaryConditions arr params (mainStrides params) bc).get
        (IDX (mainStrides params) (params.Num_X - 1) j k)
      = bcValue bc.right (arr.get (IDX (mainStrides params) 1 j k))
          (arr.get (IDX (mainStrides params) (params.Num_X - 2) j k))
          (arr.get (IDX (mainStrides params) (params.Num_X - 1) j k)) := by
  obtain ⟨-, -, hk0, hk1, -⟩ := krange_of_interiorK hg hk
  have hNX := hg.1
  have hv := (bcPassX_spec arr params bc hg).2 j k hj0 hj1 hk
  have fr : ∀ i, (i = 0 ∨ i = params.Num_X - 1) →
      (applyBoundaryConditions arr params (mainStrides params) bc).get
        (IDX (mainStrides params) i j k)
      = (bcPassX arr params (mainStrides params) bc).get (IDX (mainStrides params) i j k) := by
    intro i hi
    rw [applyBoundaryConditions_eq_passes]
    have hYf := (bcPassY_spec (bcPassX arr params (mainStrides params) bc) params bc hg).1
      i j k (by omega) (by omega) hk0 hk1 (by rintro ⟨h, -⟩; omega)
    split
    · have hNZ : 3 ≤ params.Num_Z := by
        obtain ⟨_, _, h | h⟩ := hg
        · omega
        · exact h.2
      rw [(bcPassZ_spec _ params bc hNZ).1 i j k (by omega) (by omega) hk0 hk1
        (by rintro ⟨-, h, h', -⟩; omega), hYf]
    · rw [hYf]
  rw [fr 0 (Or.inl rfl), fr _ (Or.inr rfl)]
  exact hv

/-- Ghost cells of the Y faces after `applyBoundaryConditions`. -/
theorem applyBC_yface {F : Type} (arr : Arr F) (params : SimParams F) (bc : FaceBoundary)
    (hg : validGrid params) (i k : Int) (hi0 : 1 ≤ i) (hi1 : i ≤ params.Num_X - 2)
    (hk : interiorK params k) :
    (applyBoundaryConditions arr params (mainStrides params) bc).get
        (IDX (mainStrides params) i 0 k)
      = bcValue bc.bottom (arr.get (IDX (mainStrides params) i (params.Num_Y - 2) k))
          (arr.get (IDX (mainStrides params) i 1 k))
          (arr.get (IDX (mainStrides params) i 0 k)) ∧
    (applyBoundaryConditions arr params (mainStrides params) bc).get
        (IDX (mainStrides params) i (params.Num_Y - 1) k)
      = bcValue bc.top (arr.get (IDX (mainStrides params) i 1 k))
          (arr.get (IDX (mainStrides params) i (params.Num_Y - 2) k))
          (arr.get (IDX (mainStrides params) i (params.Num_Y - 1) k)) := by
  obtain ⟨-, -, hk0, hk1, -⟩ := krange_of_interiorK hg hk
  have hNX := hg.1
  have hNY := hg.2.1
  have hv := (bcPassY_spec (bcPassX arr params (mainStrides params) bc) params bc hg).2
    i k hi0 hi1 hk
  have hx : ∀ j, 0 ≤ j → j < params.Num_Y →
      (bcPassX arr params (mainStrides params) bc).get (IDX (mainStrides params) i j k)
        = arr.get (IDX (mainStrides params) i j k) := fun j h0 h1 =>
    (bcPassX_spec arr params bc hg).1 i j k h0 h1 hk0 hk1 (by rintro ⟨h, -⟩; omega)
  rw [hx _ (by omega) (by omega), hx 1 (by omega) (by omega), hx 0 (by omega) (by omega),
    hx (params.Num_Y - 1) (by omega) (by omega)] at hv
  have fr : ∀ j, (j = 0 ∨ j = params.Num_Y - 1) →
      (applyBoundaryConditions arr params (mainStrides params) bc).get
        (IDX (mainStrides params) i j k)
      = (bcPassY (bcPassX arr params (mainStrides params) bc) params (mainStrides params) bc).get
          (IDX (mainStrides params) i j k) := by
    intro j hj
    rw [applyBoundaryConditions_eq_passes]
    split
    · have hNZ : 3 ≤ params.Num_Z := by
        obtain ⟨_, _, h | h⟩ := hg
        · omega
        · exact h.2
      rw [(bcPassZ_spec _ params bc hNZ).1 i j k (by omega) (by omega) hk0 hk1
        (by rintro ⟨-, -, -, h, h'⟩; omega)]
    · rfl
  rw [fr 0 (Or.inl rfl), fr _ (Or.inr rfl)]
  exact hv

/-- Ghost cells of the Z faces after `applyBoundaryConditions` (3D grids). -/
theorem applyBC_zface {F : Type} (arr : Arr F) (params : SimParams F) (bc : FaceBoundary)
    (hg : validGrid params) (h3 : params.DIM = 3) (i j : Int) (hi0 : 1 ≤ i)
    (hi1 : i ≤ params.Num_X - 2) (hj0 : 1 ≤ j) (hj1 : j ≤ params.Num_Y - 2) :
    (applyBoundaryConditions arr params (mainStrides params) bc).get
        (IDX (mainStrides params) i j 0)
      = bcValue bc.back (arr.get (IDX (mainStrides params) i j (params.Num_Z - 2)))
          (arr.get (IDX (mainStrides params) i j 1))
          (arr.get (IDX (mainStrides params) i j 0)) ∧
    (applyBoundaryConditions arr params (mainStrides params) bc).get
        (IDX (mainStrides params) i j (params.Num_Z - 1))
      = bcValue bc.front (arr.get (IDX (mainStrides params) i j 1))
          (arr.get (IDX (mainStrides params) i j (params.Num_Z - 2)))
          (arr.get (IDX (mainStrides params) i j (params.Num_Z - 1))) := by
  have hNZ : 3 ≤ params.Num_Z := by
    obtain ⟨_, _, h | h⟩ := hg
    · omega
    · exact h.2
  have hv := (bcPassZ_spec (bcPassY (bcPassX arr params (mainStrides params) bc) params
    (mainStrides params) bc) params bc hNZ).2 i j hi0 hi1 hj0 hj1
  have hxy : ∀ k, 0 ≤ k → k < params.Num_Z →
      (bcPassY (bcPassX arr params (mainStrides params) bc) params (mainStrides params) bc).get
          (IDX (mainStrides params) i j k) = arr.get (IDX (mainStrides params) i j k) := by
    intro k h0 h1
    rw [(bcPassY_spec _ params bc hg).1 i j k (by omega) (by omega) h0 h1
        (by rintro ⟨h, -⟩; omega),
      (bcPassX_spec arr params bc hg).1 i j k (by omega) (by omega) h0 h1
        (by rintro ⟨h, -⟩; omega)]
  rw [hxy _ (by omega) (by omega), hxy 1 (by omega) (by omega), hxy 0 (by omega) (by omega),
    hxy (params.Num_Z - 1) (by omega) (by omega)] at hv
  rw [applyBoundaryConditions_eq_passes, if_pos h3]
  exact hv

theorem bcValue_noflux {F : Type} (a b c : F) :
    bcValue BoundaryType.BOUNDARY_NOFLUX a b c = b := by
  simp [bcValue]

theorem bcValue_periodic {F : Type} (a b c : F) :
    bcValue BoundaryType.BOUNDARY_PERIODIC a b c = a := by
  simp [bcValue]

theorem bcValue_undefined {F : Type} (a b c : F) :
    bcValue BoundaryType.BOUNDARY_UNDEFINED a b c = c := by
  simp [bcValue]

theorem bcValue_congr_defined {F : Type} (bc : BoundaryType)
    (h : bc ≠ BoundaryType.BOUNDARY_UNDEFINED) {a b a' b' : F} (c c' : F) (ha : a = a')
    (hb : b = b') : bcValue bc a b c = bcValue bc a' b' c' := by
  cases bc
  · exact absurd rfl h
  · simp [bcValue, hb]
  · simp [bcValue, ha]

/-! ## Claims on boundary enforcement -/

/-- C2. For every grid with `NX, NY >= 3` (`Num_Z = 1` in 2D, `NZ >= 3` in 3D), every
array and every combination of face policies, after `applyBoundaryConditions`
each ghost cell on a face marked NoFlux, over the interior range of the other
axes, equals the adjacent interior cell along the normal of that face. -/
theorem noflux_ghost_eq_adjacent_interior {F : Type} (arr : Arr F) (params : SimParams F)
    (bc : FaceBoundary) (hg : validGrid params) :
    (bc.left = BoundaryType.BOUNDARY_NOFLUX → ∀ j k, 1 ≤ j → j ≤ params.Num_Y - 2 →
      interiorK params k →
      (applyBoundaryConditions arr params (mainStrides params) bc).get
          (IDX (mainStrides params) 0 j k)
        = (applyBoundaryConditions arr params (mainStrides params) bc).get
          (IDX (mainStrides params) 1 j k)) ∧
    (bc.right = BoundaryType.BOUNDARY_NOFLUX → ∀ j k, 1 ≤ j → j ≤ params.Num_Y - 2 →
      interiorK params k →
      (applyBoundaryConditions arr params (mainStrides params) bc).get
          (IDX (mainStrides params) (params.Num_X - 1) j k)
        = (applyBoundaryConditions arr params (mainStrides params) bc).get
          (IDX (mainStrides params) (params.Num_X - 2) j k)) ∧
    (bc.bottom = BoundaryType.BOUNDARY_NOFLUX → ∀ i k, 1 ≤ i → i ≤ params.Num_X - 2 →
      interiorK params k →
      (applyBoundaryConditions arr params (mainStrides params) bc).get
          (IDX (mainStrides params) i 0 k)
        = (applyBoundaryConditions arr params (mainStrides params) bc).get
          (IDX (mainStrides params) i 1 k)) ∧
    (bc.top = BoundaryType.BOUNDARY_NOFLUX → ∀ i k, 1 ≤ i → i ≤ params.Num_X - 2 →
      interiorK params k →
      (applyBoundaryConditions arr params (mainStrides params) bc).get
          (IDX (mainStrides params) i (params.Num_Y - 1) k)
        = (applyBoundaryConditions arr params (mainStrides params) bc).get
          (IDX (mainStrides params) i (params.Num_Y - 2) k)) ∧
    (params.DIM = 3 → bc.back = BoundaryType.BOUNDARY_NOFLUX → ∀ i j, 1 ≤ i →
      i ≤ params.Num_X - 2 → 1 ≤ j → j ≤ params.Num_Y - 2 →
      (applyBoundaryConditions arr params (mainStrides params) bc).get
          (IDX (mainStrides params) i j 0)
        = (applyBoundaryConditions arr params (mainStrides params) bc).get
          (IDX (mainStrides params) i j 1)) ∧
    (params.DIM = 3 → bc.front = BoundaryType.BOUNDARY_NOFLUX → ∀ i j, 1 ≤ i →
      i ≤ params.Num_X - 2 → 1 ≤ j → j ≤ params.Num_Y - 2 →
      (applyBoundaryConditions arr params (mainStrides params) bc).get
          (IDX (mainStrides params) i j (params.Num_Z - 1))
        = (applyBoundaryConditions arr params (mainStrides params) bc).get
          (IDX (mainStrides params) i j (params.Num_Z - 2))) := by
  have hNX := hg.1
  have hNY := hg.2.1
  have hk3 : params.DIM = 3 → 3 ≤ params.Num_Z ∧ ∀ k, 1 ≤ k → k ≤ params.Num_Z - 2 →
      interiorK params k := by
    intro h3
    obtain ⟨_, _, h | h⟩ := hg
    · omega
    · exact ⟨h.2, fun k h1 h2 => by unfold interiorK; simp [h3, h1, h2]⟩
  refine ⟨?_, ?_, ?_, ?_, ?_, ?_⟩
  · intro hbc j k hj0 hj1 hk
    rw [(applyBC_xface arr params bc hg j k hj0 hj1 hk).1, hbc, bcValue_noflux,
      applyBC_interior arr params bc hg 1 j k (by omega) (by omega) hj0 hj1 hk]
  · intro hbc j k hj0 hj1 hk
    rw [(applyBC_xface arr params bc hg j k hj0 hj1 hk).2, hbc, bcValue_noflux,
      applyBC_interior arr params bc hg _ j k (by omega) (by omega) hj0 hj1 hk]
  · intro hbc i k hi0 hi1 hk
    rw [(applyBC_yface arr params bc hg i k hi0 hi1 hk).1, hbc, bcValue_noflux,
      applyBC_interior arr params bc hg i 1 k hi0 hi1 (by omega) (by omega) hk]
  · intro hbc i k hi0 hi1 hk
    rw [(applyBC_yface arr params bc hg i k hi0 hi1 hk).2, hbc, bcValue_noflux,
      applyBC_interior arr params bc hg i _ k hi0 hi1 (by omega) (by omega) hk]
  · intro h3 hbc i j hi0 hi1 hj0 hj1
    obtain ⟨hNZ, hik⟩ := hk3 h3
    rw [(applyBC_zface arr params bc hg h3 i j hi0 hi1 hj0 hj1).1, hbc, bcValue_noflux,
      applyBC_interior arr params bc hg i j 1 hi0 hi1 hj0 hj1 (hik 1 (by omega) (by omega))]
  · intro h3 hbc i j hi0 hi1 hj0 hj1
    obtain ⟨hNZ, hik⟩ := hk3 h3
    rw [(applyBC_zface arr params bc hg h3 i j hi0 hi1 hj0 hj1).2, hbc, bcValue_noflux,
      applyBC_interior arr params bc hg i j _ hi0 hi1 hj0 hj1 (hik _ (by omega) (by omega))]

/-- C3. For every grid with `NX, NY >= 3` (`Num_Z = 1` in 2D, `NZ >= 3` in 3D), every
array and every combination of face policies, after `applyBoundaryConditions`
each ghost cell on a face marked Periodic, over the interior range of the other
axes, equals the interior cell one layer in from the opposite face. -/
theorem periodic_ghost_eq_opposite_interior {F : Type} (arr : Arr F) (params : SimParams F)
    (bc : FaceBoundary) (hg : validGrid params) :
    (bc.left = BoundaryType.BOUNDARY_PERIODIC → ∀ j k, 1 ≤ j → j ≤ params.Num_Y - 2 →
      interiorK params k →
      (applyBoundaryConditions arr params (mainStrides params) bc).get
          (IDX (mainStrides params) 0 j k)
        = (applyBoundaryConditions arr params (mainStrides params) bc).get
          (IDX (mainStrides params) (params.Num_X - 2) j k)) ∧
    (bc.right = BoundaryType.BOUNDARY_PERIODIC → ∀ j k, 1 ≤ j → j ≤ params.Num_Y - 2 →
      interiorK params k →
      (applyBoundaryConditions arr params (mainStrides params) bc).get
          (IDX (mainStrides params) (params.Num_X - 1) j k)
        = (applyBoundaryConditions arr params (mainStrides params) bc).get
          (IDX (mainStrides params) 1 j k)) ∧
    (bc.bottom = BoundaryType.BOUNDARY_PERIODIC → ∀ i k, 1 ≤ i → i ≤ params.Num_X - 2 →
      interiorK params k →
      (applyBoundaryConditions arr params (mainStrides params) bc).get
          (IDX (mainStrides params) i 0 k)
        = (applyBoundaryConditions arr params (mainStrides params) bc).get
          (IDX (mainStrides params) i (params.Num_Y - 2) k)) ∧
    (bc.top = BoundaryType.BOUNDARY_PERIODIC → ∀ i k, 1 ≤ i → i ≤ params.Num_X - 2 →
      interiorK params k →
      (applyBoundaryConditions arr params (mainStrides params) bc).get
          (IDX (mainStrides params) i (params.Num_Y - 1) k)
        = (applyBoundaryConditions arr params (mainStrides params) bc).get
          (IDX (mainStrides params) i 1 k)) ∧
    (params.DIM = 3 → bc.back = BoundaryType.BOUNDARY_PERIODIC → ∀ i j, 1 ≤ i →
      i ≤ params.Num_X - 2 → 1 ≤ j → j ≤ params.Num_Y - 2 →
      (applyBoundaryConditions arr params (mainStrides params) bc).get
          (IDX (mainStrides params) i j 0)
        = (applyBoundaryConditions arr params (mainStrides params) bc).get
          (IDX (mainStrides params) i j (params.Num_Z - 2))) ∧
    (params.DIM = 3 → bc.front = BoundaryType.BOUNDARY_PERIODIC → ∀ i j, 1 ≤ i →
      i ≤ params.Num_X - 2 → 1 ≤ j → j ≤ params.Num_Y - 2 →
      (applyBoundaryConditions arr params (mainStrides params) bc).get
          (IDX (mainStrides params) i j (params.Num_Z - 1))
        = (applyBoundaryConditions arr params (mainStrides params) bc).get
          (IDX (mainStrides params) i j 1)) := by
  have hNX := hg.1
  have hNY := hg.2.1
  have hk3 : params.DIM = 3 → 3 ≤ params.Num_Z ∧ ∀ k, 1 ≤ k → k ≤ params.Num_Z - 2 →
      interiorK params k := by
    intro h3
    obtain ⟨_, _, h | h⟩ := hg
    · omega
    · exact ⟨h.2, fun k h1 h2 => by unfold interiorK; simp [h3, h1, h2]⟩
  refine ⟨?_, ?_, ?_, ?_, ?_, ?_⟩
  · intro hbc j k hj0 hj1 hk
    rw [(applyBC_xface arr params bc hg j k hj0 hj1 hk).1, hbc, bcValue_periodic,
      applyBC_interior arr params bc hg _ j k (by omega) (by omega) hj0 hj1 hk]
  · intro hbc j k hj0 hj1 hk
    rw [(applyBC_xface arr params bc hg j k hj0 hj1 hk).2, hbc, bcValue_periodic,
      applyBC_interior arr params bc hg 1 j k (by omega) (by omega) hj0 hj1 hk]
  · intro hbc i k hi0 hi1 hk
    rw [(applyBC_yface arr params bc hg i k hi0 hi1 hk).1, hbc, bcValue_periodic,
      applyBC_interior arr params bc hg i _ k hi0 hi1 (by omega) (by omega) hk]
  · intro hbc i k hi0 hi1 hk
    rw [(applyBC_yface arr params bc hg i k hi0 hi1 hk).2, hbc, bcValue_periodic,
      applyBC_interior arr params bc hg i 1 k hi0 hi1 (by omega) (by omega) hk]
  · intro h3 hbc i j hi0 hi1 hj0 hj1
    obtain ⟨hNZ, hik⟩ := hk3 h3
    rw [(applyBC_zface arr params bc hg h3 i j hi0 hi1 hj0 hj1).1, hbc, bcValue_periodic,
      applyBC_interior arr params bc hg i j _ hi0 hi1 hj0 hj1 (hik _ (by omega) (by omega))]
  · intro h3 hbc i j hi0 hi1 hj0 hj1
    obtain ⟨hNZ, hik⟩ := hk3 h3
    rw [(applyBC_zface arr params bc hg h3 i j hi0 hi1 hj0 hj1).2, hbc, bcValue_periodic,
      applyBC_interior arr params bc hg i j 1 hi0 hi1 hj0 hj1 (hik 1 (by omega) (by omega))]

/-- Witness for C2: the 4 x 4 x 4 grid with every face NoFlux, left ghost cell
`(0,1,1)`. -/
theorem noflux_ghost_eq_adjacent_interior_witness :
    validGrid (sampleParams 3 4 4 4 allNoFlux) ∧
    (applyBoundaryConditions rampArr (sampleParams 3 4 4 4 allNoFlux)
        (mainStrides (sampleParams 3 4 4 4 allNoFlux)) allNoFlux).get
        (IDX (mainStrides (sampleParams 3 4 4 4 allNoFlux)) 0 1 1)
      = (applyBoundaryConditions rampArr (sampleParams 3 4 4 4 allNoFlux)
        (mainStrides (sampleParams 3 4 4 4 allNoFlux)) allNoFlux).get
        (IDX (mainStrides (sampleParams 3 4 4 4 allNoFlux)) 1 1 1) :=
  ⟨by simp [validGrid, sampleParams],
    (noflux_ghost_eq_adjacent_interior rampArr (sampleParams 3 4 4 4 allNoFlux) allNoFlux
      (by simp [validGrid, sampleParams])).1 rfl 1 1 (by decide) (by decide)
      (by simp [interiorK, sampleParams])⟩

/-- Witness for C3: the 4 x 4 grid (2D) with every face Periodic, bottom ghost
cell `(2,0)`. -/
theorem periodic_ghost_eq_opposite_interior_witness :
    validGrid (sampleParams 2 4 4 1 allPeriodic) ∧
    (applyBoundaryConditions rampArr (sampleParams 2 4 4 1 allPeriodic)
        (mainStrides (sampleParams 2 4 4 1 allPeriodic)) allPeriodic).get
        (IDX (mainStrides (sampleParams 2 4 4 1 allPeriodic)) 2 0 0)
      = (applyBoundaryConditions rampArr (sampleParams 2 4 4 1 allPeriodic)
        (mainStrides (sampleParams 2 4 4 1 allPeriodic)) allPeriodic).get
        (IDX (mainStrides (sampleParams 2 4 4 1 allPeriodic)) 2 2 0) :=
  ⟨by simp [validGrid, sampleParams],
    (periodic_ghost_eq_opposite_interior rampArr (sampleParams 2 4 4 1 allPeriodic) allPeriodic
      (by simp [validGrid, sampleParams])).2.2.1 rfl 2 0 (by decide) (by decide)
      (by simp [interiorK, sampleParams])⟩

/-- C4, as stated, fails: on the 4 x 4 grid (2D) with every face NoFlux, two
arrays that agree on every interior cell (they differ only at the corner
`(0,0)`) give arrays that still differ at that corner after
`applyBoundaryConditions`: the corner is not overwritten. -/
theorem corner_not_overwritten_counterexample :
    (∀ i j : Int, 1 ≤ i → i ≤ 2 → 1 ≤ j → j ≤ 2 →
      (Arr.const (0 : ℚ)).get (IDX (mainStrides (sampleParams 2 4 4 1 allNoFlux)) i j 0)
        = ((Arr.const (0 : ℚ)).set 0 1).get
            (IDX (mainStrides (sampleParams 2 4 4 1 allNoFlux)) i j 0)) ∧
    (applyBoundaryConditions (Arr.const (0 : ℚ)) (sampleParams 2 4 4 1 allNoFlux)
        (mainStrides (sampleParams 2 4 4 1 allNoFlux)) allNoFlux).get
        (IDX (mainStrides (sampleParams 2 4 4 1 allNoFlux)) 0 0 0)
      ≠ (applyBoundaryConditions ((Arr.const (0 : ℚ)).set 0 1) (sampleParams 2 4 4 1 allNoFlux)
        (mainStrides (sampleParams 2 4 4 1 allNoFlux)) allNoFlux).get
        (IDX (mainStrides (sampleParams 2 4 4 1 allNoFlux)) 0 0 0) := by
  have hg : validGrid (sampleParams 2 4 4 1 allNoFlux) := by simp [validGrid, sampleParams]
  constructor
  · intro i j hi0 hi1 hj0 hj1
    have : IDX (mainStrides (sampleParams 2 4 4 1 allNoFlux)) i j 0 ≠ 0 := by
      simp [IDX, mainStrides, sampleParams]; omega
    simp [this]
  · rw [applyBC_frame _ _ _ hg 0 0 0 (by decide) (by decide) (by decide) (by decide)
        (by simp [sampleParams]) (by simp [sampleParams]) (by simp [sampleParams]),
      applyBC_frame _ _ _ hg 0 0 0 (by decide) (by decide) (by decide) (by decide)
        (by simp [sampleParams]) (by simp [sampleParams]) (by simp [sampleParams])]
    simp [IDX]

/-- C4, amended. In 2D, when all four face policies are NoFlux or Periodic,
`applyBoundaryConditions` overwrites every ghost cell other than the four
corners with a value taken from the interior: two arrays that agree on every
interior cell give, after the call, arrays that agree on every cell of the grid
other than the four corners. -/
theorem applyBC_2D_determined_by_interior {F : Type} (arr arr' : Arr F) (params : SimParams F)
    (bc : FaceBoundary) (hg : validGrid params) (h2 : params.DIM = 2)
    (hl : bc.left ≠ BoundaryType.BOUNDARY_UNDEFINED)
    (hr : bc.right ≠ BoundaryType.BOUNDARY_UNDEFINED)
    (hb : bc.bottom ≠ BoundaryType.BOUNDARY_UNDEFINED)
    (ht : bc.top ≠ BoundaryType.BOUNDARY_UNDEFINED)
    (hagree : ∀ i j, 1 ≤ i → i ≤ params.Num_X - 2 → 1 ≤ j → j ≤ params.Num_Y - 2 →
      arr.get (IDX (mainStrides params) i j 0) = arr'.get (IDX (mainStrides params) i j 0))
    (i j : Int) (hi0 : 0 ≤ i) (hi1 : i ≤ params.Num_X - 1) (hj0 : 0 ≤ j)
    (hj1 : j ≤ params.Num_Y - 1)
    (hcorner : ¬ ((i = 0 ∨ i = params.Num_X - 1) ∧ (j = 0 ∨ j = params.Num_Y - 1))) :
    (applyBoundaryConditions arr params (mainStrides params) bc).get
        (IDX (mainStrides params) i j 0)
      = (applyBoundaryConditions arr' params (mainStrides params) bc).get
        (IDX (mainStrides params) i j 0) := by
  have hNX := hg.1
  have hNY := hg.2.1
  have hk : interiorK params 0 := by unfold interiorK; simp [h2]
  by_cases hi : i = 0 ∨ i = params.Num_X - 1
  · have hj : 1 ≤ j ∧ j ≤ params.Num_Y - 2 := by
      constructor <;> by_contra hc <;> exact hcorner ⟨hi, by omega⟩
    have ha := applyBC_xface arr params bc hg j 0 hj.1 hj.2 hk
    have ha' := applyBC_xface arr' params bc hg j 0 hj.1 hj.2 hk
    have e1 := hagree 1 j (by omega) (by omega) hj.1 hj.2
    have e2 := hagree (params.Num_X - 2) j (by omega) (by omega) hj.1 hj.2
    rcases hi with hi | hi
    · subst hi
      rw [ha.1, ha'.1]
      exact bcValue_congr_defined _ hl _ _ e2 e1
    · subst hi
      rw [ha.2, ha'.2]
      exact bcValue_congr_defined _ hr _ _ e1 e2
  · have hi' : 1 ≤ i ∧ i ≤ params.Num_X - 2 := by omega
    by_cases hj : j = 0 ∨ j = params.Num_Y - 1
    · have ha := applyBC_yface arr params bc hg i 0 hi'.1 hi'.2 hk
      have ha' := applyBC_yface arr' params bc hg i 0 hi'.1 hi'.2 hk
      have e1 := hagree i 1 hi'.1 hi'.2 (by omega) (by omega)
      have e2 := hagree i (params.Num_Y - 2) hi'.1 hi'.2 (by omega) (by omega)
      rcases hj with hj | hj
      · subst hj
        rw [ha.1, ha'.1]
        exact bcValue_congr_defined _ hb _ _ e2 e1
      · subst hj
        rw [ha.2, ha'.2]
        exact bcValue_congr_defined _ ht _ _ e1 e2
    · have hj' : 1 ≤ j ∧ j ≤ params.Num_Y - 2 := by omega
      rw [applyBC_interior arr params bc hg i j 0 hi'.1 hi'.2 hj'.1 hj'.2 hk,
        applyBC_interior arr' params bc hg i j 0 hi'.1 hi'.2 hj'.1 hj'.2 hk]
      exact hagree i j hi'.1 hi'.2 hj'.1 hj'.2

/-- Witness for the amended C4: the 4 x 4 grid with every face NoFlux, two arrays
that differ only at the corner `(0,0)`, left ghost cell `(0,1)`. -/
theorem applyBC_2D_determined_by_interior_witness :
    validGrid (sampleParams 2 4 4 1 allNoFlux) ∧
    (applyBoundaryConditions (Arr.const (0 : ℚ)) (sampleParams 2 4 4 1 allNoFlux)
        (mainStrides (sampleParams 2 4 4 1 allNoFlux)) allNoFlux).get
        (IDX (mainStrides (sampleParams 2 4 4 1 allNoFlux)) 0 1 0)
      = (applyBoundaryConditions ((Arr.const (0 : ℚ)).set 0 1) (sampleParams 2 4 4 1 allNoFlux)
        (mainStrides (sampleParams 2 4 4 1 allNoFlux)) allNoFlux).get
        (IDX (mainStrides (sampleParams 2 4 4 1 allNoFlux)) 0 1 0) :=
  ⟨by simp [validGrid, sampleParams],
    applyBC_2D_determined_by_interior (Arr.const (0 : ℚ)) ((Arr.const (0 : ℚ)).set 0 1)
      (sampleParams 2 4 4 1 allNoFlux) allNoFlux (by simp [validGrid, sampleParams]) rfl
      (by decide) (by decide) (by decide) (by decide)
      (by
        intro i j hi0 hi1 hj0 hj1
        have : IDX (mainStrides (sampleParams 2 4 4 1 allNoFlux)) i j 0 ≠ 0 := by
          simp [IDX, mainStrides, sampleParams]; omega
        simp [this])
      0 1 (by decide) (by decide) (by decide) (by decide) (by simp [sampleParams])⟩

/-! ## Tridiagonal solver -/

/-- Forward elimination: the recurrences satisfied by the scratch arrays. -/
theorem thomasForward_spec {F : Type} [Field F] (M : Int) (a b c d : Arr F) (hM : 1 ≤ M) :
    (thomasForward M a b c d).1.get 0 = c.get 0 / b.get 0 ∧
    (thomasForward M a b c d).2.get 0 = d.get 0 / b.get 0 ∧
    ∀ p, 1 ≤ p → p < M →
      (thomasForward M a b c d).1.get p
        = c.get p / (b.get p - a.get p * (thomasForward M a b c d).1.get (p - 1)) ∧
      (thomasForward M a b c d).2.get p
        = (d.get p - a.get p * (thomasForward M a b c d).2.get (p - 1))
            / (b.get p - a.get p * (thomasForward M a b c d).1.get (p - 1)) := by
  unfold thomasForward
  refine forLoop_inv _ (fun p (st : Arr F × Arr F) =>
    st.1.get 0 = c.get 0 / b.get 0 ∧ st.2.get 0 = d.get 0 / b.get 0 ∧
    ∀ q, 1 ≤ q → q < p →
      st.1.get q = c.get q / (b.get q - a.get q * st.1.get (q - 1)) ∧
      st.2.get q = (d.get q - a.get q * st.2.get (q - 1))
        / (b.get q - a.get q * st.1.get (q - 1))) 1 M _ hM ?_ ?_
  · refine ⟨by simp, by simp, ?_⟩
    intro q h1 h2; omega
  · rintro i ⟨s1, s2⟩ hi0 hi1 ⟨h0, h0', hq⟩
    dsimp only at h0 h0' hq ⊢
    have hi : (0 : Int) ≠ i := by omega
    refine ⟨by simp [hi, h0], by simp [hi, h0'], ?_⟩
    intro q hq1 hq2
    by_cases hqi : q = i
    · subst hqi
      have : q - 1 ≠ q := by omega
      simp [this]
    · have hlt : q < i := by omega
      have e1 : q - 1 ≠ i := by omega
      obtain ⟨g1, g2⟩ := hq q hq1 hlt
      simp only [Arr.get_set, hqi, e1, if_false]
      exact ⟨g1, g2⟩

/-- Back substitution: the recurrences satisfied by the returned vector. -/
theorem thomas_spec {F : Type} [Field F] (M : Int) (a b c d x : Arr F) (hM : 1 ≤ M) :
    (thomas M a b c d x).get (M - 1) = (thomasForward M a b c d).2.get (M - 1) ∧
    ∀ p, 0 ≤ p → p ≤ M - 2 →
      (thomas M a b c d x).get p
        = (thomasForward M a b c d).2.get p
          - (thomasForward M a b c d).1.get p * (thomas M a b c d x).get (p + 1) := by
  unfold thomas
  have := forLoopDown_inv (fun p (x : Arr F) =>
      x.set p ((thomasForward M a b c d).2.get p
        - (thomasForward M a b c d).1.get p * x.get (p + 1)))
    (fun p (x : Arr F) =>
      x.get (M - 1) = (thomasForward M a b c d).2.get (M - 1) ∧
      ∀ q, p < q → q ≤ M - 2 →
        x.get q = (thomasForward M a b c d).2.get q
          - (thomasForward M a b c d).1.get q * x.get (q + 1))
    (M - 2) 0 (x.set (M - 1) ((thomasForward M a b c d).2.get (M - 1))) (by omega)
    ⟨by simp, fun q h1 h2 => by omega⟩
    (by
      rintro i s hi0 hi1 ⟨h0, hq⟩
      have e0 : M - 1 ≠ i := by omega
      refine ⟨by simp [e0, h0], ?_⟩
      intro q hq1 hq2
      have e1 : q + 1 ≠ i := by omega
      by_cases hqi : q = i
      · subst hqi
        simp [e1]
      · have := hq q (by omega) hq2
        simp only [Arr.get_set, hqi, e1, if_false]
        exact this)
  exact ⟨this.1, fun p h1 h2 => this.2 p (by omega) h2⟩

/-- The vector returned by `thomas` satisfies every row of the tridiagonal system
when no pivot of the forward elimination is zero. -/
theorem thomas_rows {F : Type} [Field F] (M : Int) (a b c d x : Arr F) (hM : 1 ≤ M)
    (hb0 : b.get 0 ≠ 0)
    (hpiv : ∀ p, 1 ≤ p → p < M →
      b.get p - a.get p * (thomasForward M a b c d).1.get (p - 1) ≠ 0) :
    (M = 1 → b.get 0 * (thomas M a b c d x).get 0 = d.get 0) ∧
    (2 ≤ M →
      b.get 0 * (thomas M a b c d x).get 0 + c.get 0 * (thomas M a b c d x).get 1 = d.get 0 ∧
      (∀ p, 0 < p → p < M - 1 →
        a.get p * (thomas M a b c d x).get (p - 1) + b.get p * (thomas M a b c d x).get p
          + c.get p * (thomas M a b c d x).get (p + 1) = d.get p) ∧
      a.get (M - 1) * (thomas M a b c d x).get (M - 2)
        + b.get (M - 1) * (thomas M a b c d x).get (M - 1) = d.get (M - 1)) := by
  obtain ⟨fc0, fd0, fstep⟩ := thomasForward_spec M a b c d hM
  obtain ⟨xl, xstep⟩ := thomas_spec M a b c d x hM
  -- the products `pivot * c'[p]` and `pivot * d'[p]`
  have piv : ∀ p, 1 ≤ p → p < M →
      (b.get p - a.get p * (thomasForward M a b c d).1.get (p - 1))
          * (thomasForward M a b c d).1.get p = c.get p ∧
      (b.get p - a.get p * (thomasForward M a b c d).1.get (p - 1))
          * (thomasForward M a b c d).2.get p
        = d.get p - a.get p * (thomasForward M a b c d).2.get (p - 1) := by
    intro p h1 h2
    obtain ⟨g1, g2⟩ := fstep p h1 h2
    have hm := hpiv p h1 h2
    constructor
    · rw [g1]; field_simp
    · rw [g2]; field_simp
  have e0c : b.get 0 * (thomasForward M a b c d).1.get 0 = c.get 0 := by
    rw [fc0]; field_simp
  have e0d : b.get 0 * (thomasForward M a b c d).2.get 0 = d.get 0 := by
    rw [fd0]; field_simp
  refine ⟨?_, ?_⟩
  · intro h1
    subst h1
    have : (thomas 1 a b c d x).get 0 = (thomasForward 1 a b c d).2.get 0 := by
      simpa using xl
    rw [this]; exact e0d
  · intro h2
    refine ⟨?_, ?_, ?_⟩
    · have h := xstep 0 (le_refl _) (by omega)
      simp only [zero_add] at h
      rw [h]
      linear_combination e0d - (thomas M a b c d x).get 1 * e0c
    · intro p hp0 hp1
      have h1 := xstep (p - 1) (by omega) (by omega)
      have h2' := xstep p (by omega) (by omega)
      rw [sub_add_cancel] at h1
      obtain ⟨e1, e2⟩ := piv p (by omega) (by omega)
      rw [h1]
      linear_combination
        (b.get p - a.get p * (thomasForward M a b c d).1.get (p - 1)) * h2' + e2
          - (thomas M a b c d x).get (p + 1) * e1
    · have h1 := xstep (M - 2) (by omega) (le_refl _)
      have e : M - 2 + 1 = M - 1 := by ring
      rw [e] at h1
      obtain ⟨-, e2⟩ := piv (M - 1) (by omega) (by omega)
      have e' : M - 1 - 1 = M - 2 := by ring
      rw [e'] at e2
      rw [h1]
      linear_combination
        (b.get (M - 1) - a.get (M - 1) * (thomasForward M a b c d).1.get (M - 2)) * xl + e2

/-- Diagonal dominance keeps the forward elimination away from zero: when
`a = c = -r` with `r >= 0` and every diagonal entry is at least `1 + 2r`, the
modified super-diagonal stays in `(-1, 0]` and every pivot is at least `1 + r`. -/
theorem thomas_pivots_pos {F : Type} [LinearOrderedField F] (M : Int) (a b c d : Arr F) (r : F)
    (hM : 1 ≤ M) (hr : 0 ≤ r)
    (ha : ∀ p, 0 ≤ p → p < M → a.get p = -r) (hc : ∀ p, 0 ≤ p → p < M → c.get p = -r)
    (hb : ∀ p, 0 ≤ p → p < M → 1 + 2 * r ≤ b.get p) :
    (∀ p, 0 ≤ p → p < M → -1 < (thomasForward M a b c d).1.get p ∧
      (thomasForward M a b c d).1.get p ≤ 0) ∧
    0 < b.get 0 ∧
    (∀ p, 1 ≤ p → p < M →
      1 + r ≤ b.get p - a.get p * (thomasForward M a b c d).1.get (p - 1)) := by
  obtain ⟨fc0, -, fstep⟩ := thomasForward_spec M a b c d hM
  have hb0 : 0 < b.get 0 := by
    have := hb 0 (le_refl _) (by omega)
    linarith
  have bound : ∀ m : F, 1 + r ≤ m → -1 < -r / m ∧ -r / m ≤ 0 := by
    intro m hm
    have hmpos : 0 < m := by linarith
    constructor
    · rw [lt_div_iff₀ hmpos]; linarith
    · exact div_nonpos_of_nonpos_of_nonneg (by linarith) hmpos.le
  have key : ∀ n : Nat, (n : Int) < M → -1 < (thomasForward M a b c d).1.get n ∧
      (thomasForward M a b c d).1.get n ≤ 0 := by
    intro n
    induction n with
    | zero =>
      intro _
      simp only [Nat.cast_zero]
      rw [fc0, hc 0 (le_refl _) (by omega)]
      exact bound _ (by have := hb 0 (le_refl _) (by omega); linarith)
    | succ n ih =>
      intro hn
      have hn' : (n : Int) < M := by push_cast at hn; omega
      obtain ⟨l, u⟩ := ih hn'
      have hp0 : (0 : Int) ≤ (n : Int) + 1 := by omega
      have hpM : (n : Int) + 1 < M := by push_cast at hn; omega
      obtain ⟨g1, -⟩ := fstep ((n : Int) + 1) (by omega) hpM
      rw [add_sub_cancel_right] at g1
      push_cast
      rw [g1, hc _ hp0 hpM, ha _ hp0 hpM]
      apply bound
      have := hb _ hp0 hpM
      nlinarith
  refine ⟨?_, hb0, ?_⟩
  · intro p h0 h1
    have := key p.toNat (by omega)
    have e : ((p.toNat : Nat) : Int) = p := by omega
    rw [e] at this
    exact this
  · intro p h1 h2
    have := key (p - 1).toNat (by omega)
    have e : (((p - 1).toNat : Nat) : Int) = p - 1 := by omega
    rw [e] at this
    rw [ha p (by omega) h2]
    have := hb p (by omega) h2
    nlinarith

/-! ## ADI sweeps -/

theorem adi_step1_X_row_eq {F : Type} [Field F] (NX : Int) (rx ry : F) (inp : Arr F)
    (strides : Fin 3 → Int) (j : Int) (st : AdiState F) :
    adi_step1_X_row NX rx ry inp strides j st
      = adiLine NX rx (fun i => inp.get (IDX strides i j 0) + ry * lapY inp i j strides)
          (fun i => IDX strides i j 0) st := rfl

theorem adi_step2_Y_col_eq {F : Type} [Field F] (NY : Int) (rx ry : F) (inp : Arr F)
    (strides : Fin 3 → Int) (i : Int) (st : AdiState F) :
    adi_step2_Y_col NY rx ry inp strides i st
      = adiLine NY ry (fun j => inp.get (IDX strides i j 0) + rx * lapX inp i j strides)
          (fun j => IDX strides i j 0) st := rfl

/-- The coefficient-building loop of a line solve. -/
theorem adiBuild_spec {F : Type} [Field F] (N : Int) (r : F) (rhs : Int → F)
    (st : AdiState F) (hN : 2 ≤ N) :
    (∀ k, 0 ≤ k → k < N - 2 →
      (adiBuild N r rhs st).a.get k = -r ∧
      (adiBuild N r rhs st).b.get k
        = 1 + 2 * r ∧
      (adiBuild N r rhs st).c.get k = -r ∧
      (adiBuild N r rhs st).d.get k
        = rhs (k + 1)) ∧
    (adiBuild N r rhs st).out = st.out ∧
    (adiBuild N r rhs st).x = st.x := by
  unfold adiBuild
  have := forLoop_inv (fun i (st : AdiState F) =>
        { st with a := st.a.set (i - 1) (-r), b := st.b.set (i - 1) (1 + 2 * r),
                  c := st.c.set (i - 1) (-r), d := st.d.set (i - 1) (rhs i) })
    (fun i (s : AdiState F) => (∀ k, 0 ≤ k → k < i - 1 →
      s.a.get k = -r ∧ s.b.get k = 1 + 2 * r ∧ s.c.get k = -r ∧ s.d.get k = rhs (k + 1)) ∧
      s.out = st.out ∧ s.x = st.x)
    1 (N - 1) st (by omega) ⟨fun k h1 h2 => by omega, rfl, rfl⟩
    (by
      rintro i s hi0 hi1 ⟨hk, ho, hx⟩
      refine ⟨?_, ho, hx⟩
      intro k hk0 hk1
      by_cases e : k = i - 1
      · subst e
        simp
      · have := hk k hk0 (by omega)
        simp only [Arr.get_set, e, if_false]
        exact this)
  obtain ⟨h1, h2, h3⟩ := this
  exact ⟨fun k hk0 hk1 => h1 k hk0 (by omega), h2, h3⟩

/-- The write-back loop of a line solve. -/
theorem adiWriteBack_spec {F : Type} [Field F] (N : Int) (cell : Int → Int) (st : AdiState F)
    (hN : 2 ≤ N)
    (hinj : ∀ i i', 1 ≤ i → i < N - 1 → 1 ≤ i' → i' < N - 1 → cell i = cell i' → i = i') :
    (∀ i, 1 ≤ i → i < N - 1 →
      (adiWriteBack N cell st).out.get (cell i)
        = st.x.get (i - 1)) ∧
    (∀ p, (∀ i, 1 ≤ i → i < N - 1 → p ≠ cell i) →
      (adiWriteBack N cell st).out.get p
        = st.out.get p) := by
  unfold adiWriteBack
  have := forLoop_inv (fun i (st : AdiState F) =>
        { st with out := st.out.set (cell i) (st.x.get (i - 1)) })
    (fun i (s : AdiState F) => s.x = st.x ∧
      (∀ i', 1 ≤ i' → i' < i → s.out.get (cell i') = st.x.get (i' - 1)) ∧
      (∀ p, (∀ i', 1 ≤ i' → i' < N - 1 → p ≠ cell i') → s.out.get p = st.out.get p))
    1 (N - 1) st (by omega) ⟨rfl, fun i' h1 h2 => by omega, fun p _ => rfl⟩
    (by
      rintro i s hi0 hi1 ⟨hx, hv, hf⟩
      refine ⟨hx, ?_, ?_⟩
      · intro i' h1 h2
        by_cases e : i' = i
        · subst e
          simp [hx]
        · have hne : cell i' ≠ cell i := fun hc =>
            e (hinj i' i h1 (by omega) hi0 hi1 hc)
          simp only [Arr.get_set, hne, if_false]
          exact hv i' h1 (by omega)
      · intro p hp
        have hne : p ≠ cell i := hp i hi0 hi1
        simp only [Arr.get_set, hne, if_false]
        exact hf p hp)
  exact ⟨fun i h1 h2 => this.2.1 i h1 h2, this.2.2⟩

/-- A line solve: the values written to the output satisfy the tridiagonal
system assembled by the code, and only the cells of the line are written. -/
theorem adiLine_spec {F : Type} [LinearOrderedField F] (N : Int) (r : F) (rhs : Int → F)
    (cell : Int → Int) (st : AdiState F) (hN : 3 ≤ N) (hr : 0 ≤ r)
    (hinj : ∀ i i', 1 ≤ i → i < N - 1 → 1 ≤ i' → i' < N - 1 → cell i = cell i' → i = i') :
    lineSystem N r rhs (fun i => (adiLine N r rhs cell st).out.get (cell i)) ∧
    (∀ p, (∀ i, 1 ≤ i → i < N - 1 → p ≠ cell i) →
      (adiLine N r rhs cell st).out.get p = st.out.get p) := by
  obtain ⟨hcoef, hout1, -⟩ := adiBuild_spec N r rhs st (by omega)
  -- name the stages
  obtain ⟨s1, hs1⟩ : ∃ s1, s1 = adiBuild N r rhs st := ⟨_, rfl⟩
  obtain ⟨s2, hs2⟩ : ∃ s2, s2 = adiAdjust (N - 2) s1 := ⟨_, rfl⟩
  obtain ⟨s3, hs3⟩ : ∃ s3, s3 = adiSolve (N - 2) s2 := ⟨_, rfl⟩
  have hline : adiLine N r rhs cell st = adiWriteBack N cell s3 := by
    rw [hs3, hs2, hs1]; rfl
  rw [← hs1] at hcoef hout1
  obtain ⟨hwv, hwf⟩ := adiWriteBack_spec N cell s3 (by omega) hinj
  rw [← hline] at hwv hwf
  -- coefficients after the adjustments
  have ha2 : s2.a = s1.a := by rw [hs2]; rfl
  have hc2 : s2.c = s1.c := by rw [hs2]; rfl
  have hd2 : s2.d = s1.d := by rw [hs2]; rfl
  have ho2 : s2.out = s1.out := by rw [hs2]; rfl
  have hb2 : ∀ p, s2.b.get p
      = if p = N - 2 - 1 then
          (if N - 2 - 1 = 0 then s1.b.get 0 - s1.a.get 0 else s1.b.get (N - 2 - 1))
            - s1.c.get (N - 2 - 1)
        else if p = 0 then s1.b.get 0 - s1.a.get 0 else s1.b.get p := by
    intro p; rw [hs2]; simp [adiAdjust]
  have h0 := hcoef 0 (le_refl _) (by omega)
  have hl := hcoef (N - 2 - 1) (by omega) (by omega)
  have hb2ge : ∀ p, 0 ≤ p → p < N - 2 → 1 + 2 * r ≤ s2.b.get p := by
    intro p hp0 hp1
    have hp := hcoef p hp0 hp1
    rw [hb2 p]
    split_ifs <;> first | linarith [h0.1, h0.2.1, hl.1, hl.2.1, hl.2.2.1, hp.2.1]
  have ha : ∀ p, 0 ≤ p → p < N - 2 → s2.a.get p = -r := fun p h1 h2 => by
    rw [ha2]; exact (hcoef p h1 h2).1
  have hc : ∀ p, 0 ≤ p → p < N - 2 → s2.c.get p = -r := fun p h1 h2 => by
    rw [hc2]; exact (hcoef p h1 h2).2.2.1
  have hd : ∀ p, 0 ≤ p → p < N - 2 → s2.d.get p = rhs (p + 1) := fun p h1 h2 => by
    rw [hd2]; exact (hcoef p h1 h2).2.2.2
  obtain ⟨-, hb0pos, hpivpos⟩ := thomas_pivots_pos (N - 2) s2.a s2.b s2.c s2.d r (by omega) hr
    ha hc hb2ge
  have hsys := thomas_rows (N - 2) s2.a s2.b s2.c s2.d s2.x (by omega)
    (ne_of_gt hb0pos) (fun p h1 h2 => ne_of_gt (by have := hpivpos p h1 h2; linarith))
  have hx3 : s3.x = thomas (N - 2) s2.a s2.b s2.c s2.d s2.x := by rw [hs3]; rfl
  have ho3 : s3.out = st.out := by rw [hs3]; show s2.out = st.out; rw [ho2, hout1]
  rw [← hx3] at hsys
  refine ⟨⟨?_, ?_⟩, ?_⟩
  · intro h3
    beta_reduce
    have e := hsys.1 (by omega)
    have hb : s2.b.get 0 = 1 + 4 * r := by
      rw [hb2 0]
      have : (0 : Int) = N - 2 - 1 := by omega
      rw [if_pos this, if_pos this.symm, h0.1, h0.2.1, ← this, h0.2.2.1]; ring
    rw [hb, hd 0 (le_refl _) (by omega)] at e
    rw [hwv 1 (le_refl _) (by omega)]
    simpa using e
  · intro h4
    beta_reduce
    obtain ⟨e0, em, el⟩ := hsys.2 (by omega)
    refine ⟨?_, ?_, ?_⟩
    · have hb : s2.b.get 0 = 1 + 3 * r := by
        rw [hb2 0]
        have : (0 : Int) ≠ N - 2 - 1 := by omega
        rw [if_neg this, if_pos rfl, h0.1, h0.2.1]; ring
      rw [hb, hc 0 (le_refl _) (by omega), hd 0 (le_refl _) (by omega)] at e0
      rw [hwv 1 (le_refl _) (by omega), hwv 2 (by omega) (by omega)]
      simp only [sub_self, zero_add] at e0 ⊢
      have e2 : (2 : Int) - 1 = 1 := by norm_num
      rw [e2]
      linear_combination e0
    · intro i hi0 hi1
      have e := em (i - 1) (by omega) (by omega)
      have hb : s2.b.get (i - 1) = 1 + 2 * r := by
        rw [hb2 (i - 1)]
        have n1 : i - 1 ≠ N - 2 - 1 := by omega
        have n2 : i - 1 ≠ 0 := by omega
        rw [if_neg n1, if_neg n2]
        exact (hcoef (i - 1) (by omega) (by omega)).2.1
      rw [hb, ha (i - 1) (by omega) (by omega), hc (i - 1) (by omega) (by omega),
        hd (i - 1) (by omega) (by omega)] at e
      rw [hwv (i - 1) (by omega) (by omega), hwv i (by omega) (by omega),
        hwv (i + 1) (by omega) (by omega)]
      simp only [sub_add_cancel, add_sub_cancel_right] at e ⊢
      linear_combination e
    · have hb : s2.b.get (N - 2 - 1) = 1 + 3 * r := by
        rw [hb2 (N - 2 - 1)]
        have : N - 2 - 1 ≠ 0 := by omega
        rw [if_pos rfl, if_neg this, hl.2.1, hl.2.2.1]; ring
      rw [hb, ha (N - 2 - 1) (by omega) (by omega), hd (N - 2 - 1) (by omega) (by omega)] at el
      rw [hwv (N - 3) (by omega) (by omega), hwv (N - 2) (by omega) (by omega)]
      have e1 : N - 2 - 2 = N - 3 - 1 := by ring
      have e2 : N - 2 - 1 + 1 = N - 2 := by ring
      rw [e1, e2] at el
      linear_combination el
  · intro p hp
    rw [hwf p hp, ho3]

theorem lineSystem_congr {F : Type} [Field F] (N : Int) (r : F) (rhs g g' : Int → F)
    (h : ∀ i, 1 ≤ i → i ≤ N - 2 → g i = g' i) (hs : lineSystem N r rhs g) :
    lineSystem N r rhs g' := by
  obtain ⟨h3, h4⟩ := hs
  refine ⟨?_, ?_⟩
  · intro e
    rw [← h 1 (le_refl _) (by omega)]
    exact h3 e
  · intro e
    obtain ⟨e0, em, el⟩ := h4 e
    refine ⟨?_, ?_, ?_⟩
    · rw [← h 1 (le_refl _) (by omega), ← h 2 (by omega) (by omega)]; exact e0
    · intro i hi0 hi1
      rw [← h (i - 1) (by omega) (by omega), ← h i (by omega) (by omega),
        ← h (i + 1) (by omega) (by omega)]
      exact em i hi0 hi1
    · rw [← h (N - 3) (by omega) (by omega), ← h (N - 2) (by omega) (by omega)]; exact el

/-- A sweep: one line solve per line `u = 1 .. L-2`; every line of the output
satisfies its tridiagonal system, and only the cells of those lines change. -/
theorem adiSweep_spec {F : Type} [LinearOrderedField F] (L N : Int) (r : F)
    (rhs : Int → Int → F) (cell : Int → Int → Int) (st : AdiState F) (hN : 3 ≤ N)
    (hr : 0 ≤ r)
    (hinj : ∀ u i u' i', 1 ≤ u → u < L - 1 → 1 ≤ i → i < N - 1 → 1 ≤ u' → u' < L - 1 →
      1 ≤ i' → i' < N - 1 → cell u i = cell u' i' → u = u' ∧ i = i') :
    (∀ u, 1 ≤ u → u < L - 1 →
      lineSystem N r (rhs u) (fun i =>
        (forLoop 1 (L - 1) (fun u st => adiLine N r (rhs u) (cell u) st) st).out.get
          (cell u i))) ∧
    (∀ p, (∀ u i, 1 ≤ u → u < L - 1 → 1 ≤ i → i < N - 1 → p ≠ cell u i) →
      (forLoop 1 (L - 1) (fun u st => adiLine N r (rhs u) (cell u) st) st).out.get p
        = st.out.get p) := by
  by_cases hL : L - 1 < 1
  · rw [forLoop_of_ge _ _ _ _ (by omega)]
    exact ⟨fun u h1 h2 => by omega, fun p _ => rfl⟩
  have := forLoop_inv (fun u st => adiLine N r (rhs u) (cell u) st)
    (fun v (s : AdiState F) =>
      (∀ u, 1 ≤ u → u < v → lineSystem N r (rhs u) (fun i => s.out.get (cell u i))) ∧
      (∀ p, (∀ u i, 1 ≤ u → u < L - 1 → 1 ≤ i → i < N - 1 → p ≠ cell u i) →
        s.out.get p = st.out.get p))
    1 (L - 1) st (by omega) ⟨fun u h1 h2 => by omega, fun p _ => rfl⟩
    (by
      rintro v s hv0 hv1 ⟨hsys, hfr⟩
      obtain ⟨l1, l2⟩ := adiLine_spec N r (rhs v) (cell v) s hN hr
        (fun i i' h1 h2 h3 h4 he => (hinj v i v i' hv0 hv1 h1 h2 hv0 hv1 h3 h4 he).2)
      refine ⟨?_, ?_⟩
      · intro u hu0 hu1
        by_cases e : u = v
        · subst e; exact l1
        · refine lineSystem_congr N r (rhs u) _ _ ?_ (hsys u hu0 (by omega))
          intro i hi0 hi1
          refine (l2 _ ?_).symm
          intro i' h1 h2 hc
          exact e (hinj u i v i' hu0 (by omega) hi0 (by omega) hv0 hv1 h1 h2 hc).1
      · intro p hp
        rw [l2 p (fun i h1 h2 => hp v i hv0 hv1 h1 h2)]
        exact hfr p hp)
  exact ⟨fun u h1 h2 => this.1 u h1 h2, this.2⟩

/-- Cells of the layer `k = 0` have distinct flattened indices. -/
theorem IDX_inj_layer0 {F : Type} (params : SimParams F) (hNZ : 1 ≤ params.Num_Z)
    {i j i' j' : Int} (hj : 0 ≤ j) (hjN : j < params.Num_Y) (hj' : 0 ≤ j')
    (hjN' : j' < params.Num_Y)
    (h : IDX (mainStrides params) i j 0 = IDX (mainStrides params) i' j' 0) :
    i = i' ∧ j = j' := by
  have := IDX_inj params hj hjN (le_refl _) (by omega) hj' hjN' (le_refl _) (by omega) h
  exact ⟨this.1, this.2.1⟩

/-- The X sweep: every interior row of the output satisfies the tridiagonal
system assembled for it, and cells outside the interior are not written. -/
theorem adi_step1_X_spec {F : Type} [LinearOrderedField F] (params : SimParams F) (rx ry : F)
    (T1 T2 : Arr F) (hNX : 3 ≤ params.Num_X) (hNZ : 1 ≤ params.Num_Z) (hrx : 0 ≤ rx) :
    (∀ j, 1 ≤ j → j ≤ params.Num_Y - 2 →
      lineSystem params.Num_X rx
        (fun i => T1.get (IDX (mainStrides params) i j 0)
          + ry * lapY T1 i j (mainStrides params))
        (fun i => (adi_step1_X params.Num_X params.Num_Y rx ry T1 T2
          (mainStrides params)).get (IDX (mainStrides params) i j 0))) ∧
    (∀ p, (∀ i j, 1 ≤ i → i ≤ params.Num_X - 2 → 1 ≤ j → j ≤ params.Num_Y - 2 →
        p ≠ IDX (mainStrides params) i j 0) →
      (adi_step1_X params.Num_X params.Num_Y rx ry T1 T2 (mainStrides params)).get p
        = T2.get p) := by
  obtain ⟨h1, h2⟩ := adiSweep_spec params.Num_Y params.Num_X rx
    (fun j i => T1.get (IDX (mainStrides params) i j 0) + ry * lapY T1 i j (mainStrides params))
    (fun j i => IDX (mainStrides params) i j 0)
    { a := Arr.const 0, b := Arr.const 0, c := Arr.const 0, d := Arr.const 0,
      x := Arr.const 0, out := T2 } hNX hrx
    (by
      intro u i u' i' hu0 hu1 hi0 hi1 hu0' hu1' hi0' hi1' he
      have := IDX_inj_layer0 params hNZ (by omega) (by omega) (by omega) (by omega) he
      exact ⟨this.2, this.1⟩)
  refine ⟨fun j hj0 hj1 => h1 j hj0 (by omega), fun p hp => h2 p ?_⟩
  intro u i hu0 hu1 hi0 hi1
  exact hp i u hi0 (by omega) hu0 (by omega)

/-- The Y sweep: every interior column of the output satisfies the tridiagonal
system assembled for it, and cells outside the interior are not written. -/
theorem adi_step2_Y_spec {F : Type} [LinearOrderedField F] (params : SimParams F) (rx ry : F)
    (T2 T1 : Arr F) (hNY : 3 ≤ params.Num_Y) (hNZ : 1 ≤ params.Num_Z) (hry : 0 ≤ ry) :
    (∀ i, 1 ≤ i → i ≤ params.Num_X - 2 →
      lineSystem params.Num_Y ry
        (fun j => T2.get (IDX (mainStrides params) i j 0)
          + rx * lapX T2 i j (mainStrides params))
        (fun j => (adi_step2_Y params.Num_X params.Num_Y rx ry T2 T1
          (mainStrides params)).get (IDX (mainStrides params) i j 0))) ∧
    (∀ p, (∀ i j, 1 ≤ i → i ≤ params.Num_X - 2 → 1 ≤ j → j ≤ params.Num_Y - 2 →
        p ≠ IDX (mainStrides params) i j 0) →
      (adi_step2_Y params.Num_X params.Num_Y rx ry T2 T1 (mainStrides params)).get p
        = T1.get p) := by
  obtain ⟨h1, h2⟩ := adiSweep_spec params.Num_X params.Num_Y ry
    (fun i j => T2.get (IDX (mainStrides params) i j 0) + rx * lapX T2 i j (mainStrides params))
    (fun i j => IDX (mainStrides params) i j 0)
    { a := Arr.const 0, b := Arr.const 0, c := Arr.const 0, d := Arr.const 0,
      x := Arr.const 0, out := T1 } hNY hry
    (by
      intro u i u' i' hu0 hu1 hi0 hi1 hu0' hu1' hi0' hi1' he
      exact IDX_inj_layer0 params hNZ (by omega) (by omega) (by omega) (by omega) he)
  refine ⟨fun i hi0 hi1 => h1 i hi0 (by omega), fun p hp => h2 p ?_⟩
  intro u i hu0 hu1 hi0 hi1
  exact hp u i hu0 (by omega) hi0 (by omega)

/-! ## Stages of the ADI temperature update -/

theorem CEngine.updateTempBeforeStep2_temp_buf2 {F : Type} [Field F] (T : Arr F)
    (fb : FieldBuffers F) (params : SimParams F) (strides : Fin 3 → Int) (r2 : Fin 3 → F) :
    (CEngine.updateTempBeforeStep2 T fb params strides r2).temp_buf2
      = CEngine.stageT2 T fb params strides r2 := rfl

theorem CEngine.updateTemp_temp_new {F : Type} [Field F] (T : Arr F)
    (fb : FieldBuffers F) (params : SimParams F) (strides : Fin 3 → Int) (r2 : Fin 3 → F) :
    (CEngine.updateTemp T fb params strides r2).temp_new
      = interiorUpdate2D params strides
          (fun index _ => (CEngine.stageT1Final T fb params strides r2).get index)
          fb.temp_new := rfl

theorem CEngine.copyInterior_eq {F : Type} (dst src : Arr F) (params : SimParams F)
    (strides : Fin 3 → Int) :
    CEngine.copyInterior dst src params strides
      = interiorUpdate2D params strides (fun index _ => src.get index) dst := rfl

/-- The interior update loop nest on the layer `k = 0`: every interior cell
receives its new value, computed from the value it held; no other cell changes. -/
theorem interiorUpdate2D_spec {F : Type} (params : SimParams F) (hNZ : 1 ≤ params.Num_Z)
    (g : Int → F → F) (A : Arr F) :
    (∀ i j, 1 ≤ i → i ≤ params.Num_X - 2 → 1 ≤ j → j ≤ params.Num_Y - 2 →
      (interiorUpdate2D params (mainStrides params) g A).get (IDX (mainStrides params) i j 0)
        = g (IDX (mainStrides params) i j 0) (A.get (IDX (mainStrides params) i j 0))) ∧
    (∀ p, (∀ i j, 1 ≤ i → i ≤ params.Num_X - 2 → 1 ≤ j → j ≤ params.Num_Y - 2 →
        p ≠ IDX (mainStrides params) i j 0) →
      (interiorUpdate2D params (mainStrides params) g A).get p = A.get p) := by
  obtain ⟨-, hf, hv⟩ := forLoop2_scatter (σ := Arr F) (fun s p => s.get p) (fun _ => 0) 0
    (fun s _ => s)
    (fun i j A => A.set (IDX (mainStrides params) i j 0)
      (g (IDX (mainStrides params) i j 0) (A.get (IDX (mainStrides params) i j 0))))
    (fun i j p => p = IDX (mainStrides params) i j 0)
    (fun p => ∃ i j, 1 ≤ i ∧ i < params.Num_X - 1 ∧ 1 ≤ j ∧ j < params.Num_Y - 1 ∧
      p = IDX (mainStrides params) i j 0)
    1 (params.Num_X - 1) 1 (params.Num_Y - 1) (fun _ _ _ => rfl) (fun _ _ => by simp)
    (fun i j h1 h2 h3 h4 p hp => ⟨i, j, h1, h2, h3, h4, hp⟩)
    (fun _ _ _ _ _ _ _ => rfl)
    (fun i j _ _ _ _ s p hp => by simp [hp])
    (by
      intro i j _ _ _ _ s s' p hp _ hat _
      subst hp
      simp only [Arr.get_set, if_true]
      beta_reduce at hat
      rw [hat])
    (by
      intro i j i' j' h1 h2 h3 h4 h5 h6 h7 h8 hne p hp hp'
      have := IDX_inj_layer0 params hNZ (by omega) (by omega) (by omega) (by omega)
        (hp.symm.trans hp')
      rcases hne with hne | hne
      · exact hne this.1
      · exact hne this.2)
    A
  refine ⟨?_, ?_⟩
  · intro i j hi0 hi1 hj0 hj1
    have := hv i j hi0 (by omega) hj0 (by omega) _ rfl A (fun _ _ => rfl) rfl (by simp)
    simp only [Arr.get_set, if_true] at this
    exact this
  · intro p hp
    exact hf p (fun i j h1 h2 h3 h4 => hp i j h1 (by omega) h3 (by omega))

/-! ## Claims on the tridiagonal solver and the ADI sweeps -/

/-- C6. For every system size `M >= 1` and coefficient arrays for which no pivot is
zero (`b[0] != 0` and `b[p] - a[p]*c'[p-1] != 0` for `1 <= p < M`, with `c'` the
array built by the forward elimination), the vector returned by `thomas`
satisfies the tridiagonal system exactly: `b[0]x[0] + c[0]x[1] = d[0]`,
`a[p]x[p-1] + b[p]x[p] + c[p]x[p+1] = d[p]` for `0 < p < M-1`, and
`a[M-1]x[M-2] + b[M-1]x[M-1] = d[M-1]` (for `M = 1`, `b[0]x[0] = d[0]`). -/
theorem thomas_solves_system {F : Type} [Field F] (M : Int) (a b c d x : Arr F) (hM : 1 ≤ M)
    (hb0 : b.get 0 ≠ 0)
    (hpiv : ∀ p, 1 ≤ p → p < M →
      b.get p - a.get p * (thomasForward M a b c d).1.get (p - 1) ≠ 0) :
    (M = 1 → b.get 0 * (thomas M a b c d x).get 0 = d.get 0) ∧
    (2 ≤ M →
      b.get 0 * (thomas M a b c d x).get 0 + c.get 0 * (thomas M a b c d x).get 1 = d.get 0 ∧
      (∀ p, 0 < p → p < M - 1 →
        a.get p * (thomas M a b c d x).get (p - 1) + b.get p * (thomas M a b c d x).get p
          + c.get p * (thomas M a b c d x).get (p + 1) = d.get p) ∧
      a.get (M - 1) * (thomas M a b c d x).get (M - 2)
        + b.get (M - 1) * (thomas M a b c d x).get (M - 1) = d.get (M - 1)) := by
  obtain ⟨h1, h2⟩ := thomas_rows M a b c d x hM hb0 hpiv
  refine ⟨h1, fun hM2 => ?_⟩
  obtain ⟨first, middle, last⟩ := h2 hM2
  exact ⟨first, middle, last⟩

/-- Witness for C6: the system of size 2 with rows `4 x0 - x1 = 1`,
`-x0 + 4 x1 = 1`. -/
theorem thomas_solves_system_witness :
    (1 : Int) ≤ 2 ∧ (Arr.const (4 : ℚ)).get 0 ≠ 0 ∧
    (Arr.const (4 : ℚ)).get 0
        * (thomas 2 (Arr.const (-1)) (Arr.const 4) (Arr.const (-1)) (Arr.const 1)
            (Arr.const 0)).get 0
      + (Arr.const (-1 : ℚ)).get 0
        * (thomas 2 (Arr.const (-1)) (Arr.const 4) (Arr.const (-1)) (Arr.const 1)
            (Arr.const 0)).get 1
      = (Arr.const (1 : ℚ)).get 0 :=
  ⟨by decide, by simp,
    ((thomas_solves_system 2 (Arr.const (-1 : ℚ)) (Arr.const 4) (Arr.const (-1)) (Arr.const 1)
      (Arr.const 0) (by decide) (by simp)
      (by
        intro p h1 h2
        have hp : p = 1 := by omega
        subst hp
        rw [show (1 : Int) - 1 = 0 from rfl,
          (thomasForward_spec 2 (Arr.const (-1 : ℚ)) (Arr.const 4) (Arr.const (-1))
            (Arr.const 1) (by decide)).1]
        norm_num)).2 (by decide)).1⟩

/-- C7. For `rx >= 0` and every input field `T1`, the output of the ADI X sweep
satisfies, for each interior row `j` and each `i` with `2 <= i <= NX-3`,
`-rx*T2[i-1,j] + (1+2rx)*T2[i,j] - rx*T2[i+1,j]
  = T1[i,j] + ry*(T1[i,j+1] - 2*T1[i,j] + T1[i,j-1])`,
and cells of `T2` outside the interior are not written by the sweep. -/
theorem adi_step1_X_interior_equation {F : Type} [LinearOrderedField F] (params : SimParams F)
    (rx ry : F) (T1 T2 : Arr F) (hNX : 3 ≤ params.Num_X) (hNZ : 1 ≤ params.Num_Z)
    (hrx : 0 ≤ rx) :
    (∀ i j, 2 ≤ i → i ≤ params.Num_X - 3 → 1 ≤ j → j ≤ params.Num_Y - 2 →
      -rx * (adi_step1_X params.Num_X params.Num_Y rx ry T1 T2 (mainStrides params)).get
            (IDX (mainStrides params) (i - 1) j 0)
        + (1 + 2 * rx)
          * (adi_step1_X params.Num_X params.Num_Y rx ry T1 T2 (mainStrides params)).get
            (IDX (mainStrides params) i j 0)
        - rx * (adi_step1_X params.Num_X params.Num_Y rx ry T1 T2 (mainStrides params)).get
            (IDX (mainStrides params) (i + 1) j 0)
      = T1.get (IDX (mainStrides params) i j 0)
        + ry * (T1.get (IDX (mainStrides params) i (j + 1) 0)
          - 2 * T1.get (IDX (mainStrides params) i j 0)
          + T1.get (IDX (mainStrides params) i (j - 1) 0))) ∧
    (∀ p, (∀ i j, 1 ≤ i → i ≤ params.Num_X - 2 → 1 ≤ j → j ≤ params.Num_Y - 2 →
        p ≠ IDX (mainStrides params) i j 0) →
      (adi_step1_X params.Num_X params.Num_Y rx ry T1 T2 (mainStrides params)).get p
        = T2.get p) := by
  obtain ⟨hsys, hframe⟩ := adi_step1_X_spec params rx ry T1 T2 hNX hNZ hrx
  refine ⟨?_, hframe⟩
  intro i j hi0 hi1 hj0 hj1
  have h := (hsys j hj0 hj1).2 (by omega)
  have := h.2.1 i hi0 hi1
  simpa [lapY] using this

/-- Witness for C7: the 5 x 3 grid, `rx = ry = 1`, row `j = 1`, cell `i = 2`. -/
theorem adi_step1_X_interior_equation_witness :
    (3 : Int) ≤ (sampleParams 2 5 3 1 allNoFlux).Num_X ∧
    (1 : Int) ≤ (sampleParams 2 5 3 1 allNoFlux).Num_Z ∧ (0 : ℚ) ≤ 1 ∧
    -1 * (adi_step1_X 5 3 1 1 rampArr (Arr.const 0)
            (mainStrides (sampleParams 2 5 3 1 allNoFlux))).get
          (IDX (mainStrides (sampleParams 2 5 3 1 allNoFlux)) (2 - 1) 1 0)
      + (1 + 2 * 1) * (adi_step1_X 5 3 1 1 rampArr (Arr.const 0)
            (mainStrides (sampleParams 2 5 3 1 allNoFlux))).get
          (IDX (mainStrides (sampleParams 2 5 3 1 allNoFlux)) 2 1 0)
      - 1 * (adi_step1_X 5 3 1 1 rampArr (Arr.const 0)
            (mainStrides (sampleParams 2 5 3 1 allNoFlux))).get
          (IDX (mainStrides (sampleParams 2 5 3 1 allNoFlux)) (2 + 1) 1 0)
    = rampArr.get (IDX (mainStrides (sampleParams 2 5 3 1 allNoFlux)) 2 1 0)
      + 1 * (rampArr.get (IDX (mainStrides (sampleParams 2 5 3 1 allNoFlux)) 2 (1 + 1) 0)
        - 2 * rampArr.get (IDX (mainStrides (sampleParams 2 5 3 1 allNoFlux)) 2 1 0)
        + rampArr.get (IDX (mainStrides (sampleParams 2 5 3 1 allNoFlux)) 2 (1 - 1) 0)) :=
  ⟨by decide, by decide, by norm_num,
    (adi_step1_X_interior_equation (sampleParams 2 5 3 1 allNoFlux) 1 1 rampArr (Arr.const 0)
      (by decide) (by decide) (by norm_num)).1 2 1 (by decide) (by decide) (by decide)
      (by decide)⟩

/-- C8, evaluated on the code: `M = 2` (a line of `N = 4` cells), `r = 1`,
constant right-hand side `1`.  The coefficients are built as the sweeps build them
(`a = c = -1`, `b = 3`, then `b[0] -= a[0]`, `b[M-1] -= c[M-1]`, which makes both
diagonal entries `4`); `thomas` returns `x = (1/3, 1/3)`, not the constant
profile `(1, 1)`. -/
theorem thomas_neumann_const_rhs_not_const :
    (adiAdjust 2 (adiBuild 4 (1 : ℚ) (fun _ => 1)
      ⟨Arr.const 0, Arr.const 0, Arr.const 0, Arr.const 0, Arr.const 0, Arr.const 0⟩)).b.get 0
      = 4 ∧
    (adiAdjust 2 (adiBuild 4 (1 : ℚ) (fun _ => 1)
      ⟨Arr.const 0, Arr.const 0, Arr.const 0, Arr.const 0, Arr.const 0, Arr.const 0⟩)).b.get 1
      = 4 ∧
    (adiSolve 2 (adiAdjust 2 (adiBuild 4 (1 : ℚ) (fun _ => 1)
      ⟨Arr.const 0, Arr.const 0, Arr.const 0, Arr.const 0, Arr.const 0, Arr.const 0⟩))).x.get 0
      = 1 / 3 ∧
    (adiSolve 2 (adiAdjust 2 (adiBuild 4 (1 : ℚ) (fun _ => 1)
      ⟨Arr.const 0, Arr.const 0, Arr.const 0, Arr.const 0, Arr.const 0, Arr.const 0⟩))).x.get 1
      = 1 / 3 := by
  refine ⟨?_, ?_, ?_, ?_⟩
  · simp [adiAdjust, adiBuild, forLoop, loopFrom]; norm_num
  · simp [adiAdjust, adiBuild, forLoop, loopFrom]; norm_num
  · simp [adiSolve, adiAdjust, adiBuild, thomas, thomasForward, forLoop, loopFrom, forLoopDown,
      loopDownFrom]
    norm_num
  · simp [adiSolve, adiAdjust, adiBuild, thomas, thomasForward, forLoop, loopFrom, forLoopDown,
      loopDownFrom]
    norm_num

/-! ## The ADI temperature update, stage by stage -/

theorem validGrid_2D {F : Type} {params : SimParams F} (hg : validGrid params)
    (h2 : params.DIM = 2) : params.Num_Z = 1 ∧ interiorK params 0 := by
  obtain ⟨_, _, h | h⟩ := hg
  · exact ⟨h.2, by unfold interiorK; simp [h2]⟩
  · omega

theorem applyBCIfFound_interior {F : Type} (vb : Option VariableBoundary) (arr : Arr F)
    (params : SimParams F) (hg : validGrid params) (i j k : Int) (hi0 : 1 ≤ i)
    (hi1 : i ≤ params.Num_X - 2) (hj0 : 1 ≤ j) (hj1 : j ≤ params.Num_Y - 2)
    (hk : interiorK params k) :
    (applyBCIfFound vb arr params (mainStrides params)).get (IDX (mainStrides params) i j k)
      = arr.get (IDX (mainStrides params) i j k) := by
  cases vb with
  | none => rfl
  | some v => exact applyBC_interior arr params v.bc hg i j k hi0 hi1 hj0 hj1 hk

/-- In 2D with the four faces NoFlux or Periodic, an array that holds `v` at
every interior cell holds `v` at every cell other than the corners once the
boundary conditions are enforced. -/
theorem applyBC_uniform_noncorner {F : Type} (arr : Arr F) (params : SimParams F)
    (bc : FaceBoundary) (hg : validGrid params) (h2 : params.DIM = 2)
    (hl : bc.left ≠ BoundaryType.BOUNDARY_UNDEFINED)
    (hr : bc.right ≠ BoundaryType.BOUNDARY_UNDEFINED)
    (hb : bc.bottom ≠ BoundaryType.BOUNDARY_UNDEFINED)
    (ht : bc.top ≠ BoundaryType.BOUNDARY_UNDEFINED) (v : F)
    (hv : ∀ i j, 1 ≤ i → i ≤ params.Num_X - 2 → 1 ≤ j → j ≤ params.Num_Y - 2 →
      arr.get (IDX (mainStrides params) i j 0) = v)
    (i j : Int) (hi0 : 0 ≤ i) (hi1 : i ≤ params.Num_X - 1) (hj0 : 0 ≤ j)
    (hj1 : j ≤ params.Num_Y - 1)
    (hcorner : ¬ ((i = 0 ∨ i = params.Num_X - 1) ∧ (j = 0 ∨ j = params.Num_Y - 1))) :
    (applyBoundaryConditions arr params (mainStrides params) bc).get
        (IDX (mainStrides params) i j 0) = v := by
  have hNX := hg.1
  have hNY := hg.2.1
  have hk := (validGrid_2D hg h2).2
  have sel : ∀ (b : BoundaryType) (c : F), b ≠ BoundaryType.BOUNDARY_UNDEFINED →
      bcValue b v v c = v := by
    intro b c hb
    cases b
    · exact absurd rfl hb
    · simp [bcValue]
    · simp [bcValue]
  by_cases hi : i = 0 ∨ i = params.Num_X - 1
  · have hj : 1 ≤ j ∧ j ≤ params.Num_Y - 2 := by
      constructor <;> by_contra hc <;> exact hcorner ⟨hi, by omega⟩
    have ha := applyBC_xface arr params bc hg j 0 hj.1 hj.2 hk
    rw [hv 1 j (by omega) (by omega) hj.1 hj.2,
      hv (params.Num_X - 2) j (by omega) (by omega) hj.1 hj.2] at ha
    rcases hi with hi | hi
    · subst hi; rw [ha.1]; exact sel _ _ hl
    · subst hi; rw [ha.2]; exact sel _ _ hr
  · have hi' : 1 ≤ i ∧ i ≤ params.Num_X - 2 := by omega
    by_cases hj : j = 0 ∨ j = params.Num_Y - 1
    · have ha := applyBC_yface arr params bc hg i 0 hi'.1 hi'.2 hk
      rw [hv i 1 hi'.1 hi'.2 (by omega) (by omega),
        hv i (params.Num_Y - 2) hi'.1 hi'.2 (by omega) (by omega)] at ha
      rcases hj with hj | hj
      · subst hj; rw [ha.1]; exact sel _ _ hb
      · subst hj; rw [ha.2]; exact sel _ _ ht
    · have hj' : 1 ≤ j ∧ j ≤ params.Num_Y - 2 := by omega
      rw [applyBC_interior arr params bc hg i j 0 hi'.1 hi'.2 hj'.1 hj'.2 hk]
      exact hv i j hi'.1 hi'.2 hj'.1 hj'.2

theorem CEngine.stageDphi_interior {F : Type} (fb : FieldBuffers F) (params : SimParams F)
    (hg : validGrid params) (h2 : params.DIM = 2) (i j : Int) (hi0 : 1 ≤ i)
    (hi1 : i ≤ params.Num_X - 2) (hj0 : 1 ≤ j) (hj1 : j ≤ params.Num_Y - 2) :
    (CEngine.stageDphi fb params (mainStrides params)).get (IDX (mainStrides params) i j 0)
      = fb.dphi_dt.get (IDX (mainStrides params) i j 0) :=
  applyBCIfFound_interior _ _ params hg i j 0 hi0 hi1 hj0 hj1 (validGrid_2D hg h2).2

/-- A cell of the layer `k = 0` that is not interior differs from every interior
cell. -/
theorem IDX_ne_interior {F : Type} (params : SimParams F) (hNZ : 1 ≤ params.Num_Z)
    (i j : Int) (hj0 : 0 ≤ j) (hj1 : j ≤ params.Num_Y - 1)
    (h : ¬ (1 ≤ i ∧ i ≤ params.Num_X - 2 ∧ 1 ≤ j ∧ j ≤ params.Num_Y - 2)) :
    ∀ i' j', 1 ≤ i' → i' ≤ params.Num_X - 2 → 1 ≤ j' → j' ≤ params.Num_Y - 2 →
      IDX (mainStrides params) i j 0 ≠ IDX (mainStrides params) i' j' 0 := by
  intro i' j' h1 h2 h3 h4 he
  have := IDX_inj_layer0 params hNZ hj0 (by omega) (by omega) (by omega) he
  apply h
  rw [this.1, this.2]
  exact ⟨h1, h2, h3, h4⟩

theorem lineSystem_four_const {F : Type} [LinearOrderedField F] (r v : F) (rhs g : Int → F)
    (hr : 0 ≤ r) (h1 : rhs 1 = v) (h2 : rhs 2 = v) (hs : lineSystem 4 r rhs g) :
    g 1 = v / (1 + 2 * r) ∧ g 2 = v / (1 + 2 * r) := by
  obtain ⟨e0, -, el⟩ := hs.2 (le_refl _)
  have e3 : (4 : Int) - 3 = 1 := by norm_num
  have e2 : (4 : Int) - 2 = 2 := by norm_num
  rw [e3, e2, h2] at el
  rw [h1] at e0
  have hpos : (0 : F) < 1 + 4 * r := by linarith
  have hpos2 : (0 : F) < 1 + 2 * r := by linarith
  have hd : (1 + 4 * r) * (g 1 - g 2) = 0 := by linear_combination e0 - el
  have heq : g 1 = g 2 := by
    rcases mul_eq_zero.1 hd with h | h
    · linarith
    · linarith
  constructor
  · rw [eq_div_iff (ne_of_gt hpos2)]
    linear_combination e0 - r * heq
  · rw [eq_div_iff (ne_of_gt hpos2)]
    linear_combination el + r * heq

/-- In the ADI `updateTemp` with a NoFlux left face, the left ghost cells of the
field `T2` handed to `adi_step2_Y` still hold the value the adjacent interior
cell had before the second source injection. -/
theorem CEngine.stageT2_left_ghost {F : Type} [Field F] (T : Arr F) (fb : FieldBuffers F)
    (params : SimParams F) (r2 : Fin 3 → F) (vb : VariableBoundary) (hg : validGrid params)
    (h2 : params.DIM = 2) (hvb : findVariableBoundary "temp" params = some vb)
    (hl : vb.bc.left = BoundaryType.BOUNDARY_NOFLUX) (j : Int) (hj0 : 1 ≤ j)
    (hj1 : j ≤ params.Num_Y - 2) :
    (CEngine.stageT2 T fb params (mainStrides params) r2).get (IDX (mainStrides params) 1 j 0)
      = (CEngine.stageT2 T fb params (mainStrides params) r2).get
          (IDX (mainStrides params) 0 j 0)
        + (1 / 2) * params.dt * params.K * fb.dphi_dt.get (IDX (mainStrides params) 1 j 0) := by
  have hNX := hg.1
  have hNY := hg.2.1
  obtain ⟨hNZ, hk⟩ := validGrid_2D hg h2
  obtain ⟨hv, hf⟩ := interiorUpdate2D_spec params (by omega)
    (fun index v => v + (1 / 2) * params.dt * params.K
      * (CEngine.stageDphi fb params (mainStrides params)).get index)
    (CEngine.stageT2Enforced T fb params (mainStrides params) r2)
  have e1 : (CEngine.stageT2 T fb params (mainStrides params) r2).get
      (IDX (mainStrides params) 1 j 0)
      = (CEngine.stageT2Enforced T fb params (mainStrides params) r2).get
          (IDX (mainStrides params) 1 j 0)
        + (1 / 2) * params.dt * params.K * fb.dphi_dt.get (IDX (mainStrides params) 1 j 0) := by
    have := hv 1 j (by omega) (by omega) hj0 hj1
    rw [CEngine.stageDphi_interior fb params hg h2 1 j (by omega) (by omega) hj0 hj1] at this
    exact this
  have e0 : (CEngine.stageT2 T fb params (mainStrides params) r2).get
      (IDX (mainStrides params) 0 j 0)
      = (CEngine.stageT2Enforced T fb params (mainStrides params) r2).get
          (IDX (mainStrides params) 0 j 0) :=
    hf _ (IDX_ne_interior params (by omega) 0 j (by omega) (by omega) (by omega))
  rw [e1, e0]
  unfold CEngine.stageT2Enforced
  rw [hvb]
  simp only [applyBCIfFound]
  rw [(applyBC_xface _ params vb.bc hg j 0 hj0 hj1 hk).1, hl, bcValue_noflux,
    applyBC_interior _ params vb.bc hg 1 j 0 (by omega) (by omega) hj0 hj1 hk]

theorem findVariableBoundary_sample_temp (dim nx ny nz : Int) (bc : FaceBoundary) :
    findVariableBoundary "temp" (sampleParams dim nx ny nz bc) = some ⟨"temp", bc⟩ := by
  simp [findVariableBoundary, sampleParams, List.find?]

theorem findVariableBoundary_sample_phi (dim nx ny nz : Int) (bc : FaceBoundary) :
    findVariableBoundary "phi" (sampleParams dim nx ny nz bc) = some ⟨"phi", bc⟩ := by
  simp [findVariableBoundary, sampleParams, List.find?]

/-- C9, evaluated on the code: 4 x 4 grid, every temp face NoFlux, `K = dt = 1`,
`dphi_dt = 1` everywhere.  When `adi_step2_Y` is called, the interior value
`T2[1,1]` exceeds the ghost value `T2[0,1]` by the injected source `1/2`: the
ghost cell was set before the injection and not refreshed after it. -/
theorem adi_step2_ghost_stale :
    (CEngine.updateTempBeforeStep2 rampArr (constBuffers 1) (sampleParams 2 4 4 1 allNoFlux)
        (mainStrides (sampleParams 2 4 4 1 allNoFlux))
        (mainR2 (sampleParams 2 4 4 1 allNoFlux))).temp_buf2.get
        (IDX (mainStrides (sampleParams 2 4 4 1 allNoFlux)) 1 1 0)
      = (CEngine.updateTempBeforeStep2 rampArr (constBuffers 1) (sampleParams 2 4 4 1 allNoFlux)
        (mainStrides (sampleParams 2 4 4 1 allNoFlux))
        (mainR2 (sampleParams 2 4 4 1 allNoFlux))).temp_buf2.get
        (IDX (mainStrides (sampleParams 2 4 4 1 allNoFlux)) 0 1 0) + 1 / 2 := by
  rw [CEngine.updateTempBeforeStep2_temp_buf2,
    CEngine.stageT2_left_ghost rampArr (constBuffers 1) (sampleParams 2 4 4 1 allNoFlux) _
      ⟨"temp", allNoFlux⟩ (by simp [validGrid, sampleParams]) rfl
      (findVariableBoundary_sample_temp _ _ _ _ _) rfl 1 (by decide) (by decide)]
  simp [sampleParams, constBuffers]

/-- The ADI `updateTemp` on a 4 x 4 grid (2 x 2 interior) with a uniform interior
temperature `c` and no source: every interior cell of `temp_new` holds
`c / (1 + 2 rx) / (1 + 2 ry)`. -/
theorem CEngine.updateTemp_uniform_4x4 {F : Type} [LinearOrderedField F] (T : Arr F)
    (fb : FieldBuffers F) (params : SimParams F) (r2 : Fin 3 → F) (vb : VariableBoundary)
    (hNX : params.Num_X = 4) (hNY : params.Num_Y = 4) (h2 : params.DIM = 2)
    (hNZ : params.Num_Z = 1) (hvb : findVariableBoundary "temp" params = some vb)
    (hl : vb.bc.left ≠ BoundaryType.BOUNDARY_UNDEFINED)
    (hr : vb.bc.right ≠ BoundaryType.BOUNDARY_UNDEFINED)
    (hb : vb.bc.bottom ≠ BoundaryType.BOUNDARY_UNDEFINED)
    (ht : vb.bc.top ≠ BoundaryType.BOUNDARY_UNDEFINED) (c : F)
    (hT : ∀ i j, 1 ≤ i → i ≤ params.Num_X - 2 → 1 ≤ j → j ≤ params.Num_Y - 2 →
      T.get (IDX (mainStrides params) i j 0) = c)
    (hD : ∀ i j, 1 ≤ i → i ≤ params.Num_X - 2 → 1 ≤ j → j ≤ params.Num_Y - 2 →
      fb.dphi_dt.get (IDX (mainStrides params) i j 0) = 0)
    (hrx : 0 ≤ (1 / 2) * params.K * params.dt * r2 0)
    (hry : 0 ≤ (1 / 2) * params.K * params.dt * r2 1)
    (i j : Int) (hi0 : 1 ≤ i) (hi1 : i ≤ params.Num_X - 2) (hj0 : 1 ≤ j)
    (hj1 : j ≤ params.Num_Y - 2) :
    (CEngine.updateTemp T fb params (mainStrides params) r2).temp_new.get
        (IDX (mainStrides params) i j 0)
      = c / (1 + 2 * ((1 / 2) * params.K * params.dt * r2 0))
          / (1 + 2 * ((1 / 2) * params.K * params.dt * r2 1)) := by
  have hg : validGrid params := ⟨by omega, by omega, Or.inl ⟨h2, hNZ⟩⟩
  have hk := (validGrid_2D hg h2).2
  -- the field T1 handed to the X sweep is `c` away from the corners
  have hT1 : ∀ i j, 0 ≤ i → i ≤ params.Num_X - 1 → 0 ≤ j → j ≤ params.Num_Y - 1 →
      ¬ ((i = 0 ∨ i = params.Num_X - 1) ∧ (j = 0 ∨ j = params.Num_Y - 1)) →
      (CEngine.stageT1 T fb params (mainStrides params)).get (IDX (mainStrides params) i j 0)
        = c := by
    unfold CEngine.stageT1
    rw [hvb]
    simp only [applyBCIfFound]
    refine applyBC_uniform_noncorner _ params vb.bc hg h2 hl hr hb ht c ?_
    intro i j h1 h2' h3 h4
    rw [(interiorUpdate2D_spec params (by omega) _ _).1 i j h1 h2' h3 h4, hT i j h1 h2' h3 h4,
      CEngine.stageDphi_interior fb params hg h2 i j h1 h2' h3 h4, hD i j h1 h2' h3 h4]
    ring
  -- X sweep
  have hX : ∀ i j, 1 ≤ i → i ≤ params.Num_X - 2 → 1 ≤ j → j ≤ params.Num_Y - 2 →
      (adi_step1_X params.Num_X params.Num_Y ((1 / 2) * params.K * params.dt * r2 0)
        ((1 / 2) * params.K * params.dt * r2 1) (CEngine.stageT1 T fb params (mainStrides params))
        fb.temp_buf2 (mainStrides params)).get (IDX (mainStrides params) i j 0)
        = c / (1 + 2 * ((1 / 2) * params.K * params.dt * r2 0)) := by
    intro i j h1 h2' h3 h4
    have hs := (adi_step1_X_spec params ((1 / 2) * params.K * params.dt * r2 0)
      ((1 / 2) * params.K * params.dt * r2 1) (CEngine.stageT1 T fb params (mainStrides params))
      fb.temp_buf2 (by omega) (by omega) hrx).1 j h3 h4
    have hrhs : ∀ i', 1 ≤ i' → i' ≤ 2 →
        (CEngine.stageT1 T fb params (mainStrides params)).get (IDX (mainStrides params) i' j 0)
          + (1 / 2) * params.K * params.dt * r2 1
            * lapY (CEngine.stageT1 T fb params (mainStrides params)) i' j (mainStrides params)
          = c := by
      intro i' g1 g2
      unfold lapY
      rw [hT1 i' j (by omega) (by omega) (by omega) (by omega) (by omega),
        hT1 i' (j + 1) (by omega) (by omega) (by omega) (by omega) (by omega),
        hT1 i' (j - 1) (by omega) (by omega) (by omega) (by omega) (by omega)]
      ring
    rw [hNX] at hs
    have := lineSystem_four_const _ c _ _ hrx (hrhs 1 (by omega) (by omega))
      (hrhs 2 (by omega) (by omega)) hs
    have hi : i = 1 ∨ i = 2 := by omega
    rcases hi with hi | hi
    · subst hi; rw [hNX]; exact this.1
    · subst hi; rw [hNX]; exact this.2
  -- the field T2 handed to the Y sweep is uniform away from the corners
  have hT2 : ∀ i j, 0 ≤ i → i ≤ params.Num_X - 1 → 0 ≤ j → j ≤ params.Num_Y - 1 →
      ¬ ((i = 0 ∨ i = params.Num_X - 1) ∧ (j = 0 ∨ j = params.Num_Y - 1)) →
      (CEngine.stageT2 T fb params (mainStrides params) r2).get (IDX (mainStrides params) i j 0)
        = c / (1 + 2 * ((1 / 2) * params.K * params.dt * r2 0)) := by
    have hE : ∀ i j, 0 ≤ i → i ≤ params.Num_X - 1 → 0 ≤ j → j ≤ params.Num_Y - 1 →
        ¬ ((i = 0 ∨ i = params.Num_X - 1) ∧ (j = 0 ∨ j = params.Num_Y - 1)) →
        (CEngine.stageT2Enforced T fb params (mainStrides params) r2).get
          (IDX (mainStrides params) i j 0)
          = c / (1 + 2 * ((1 / 2) * params.K * params.dt * r2 0)) := by
      unfold CEngine.stageT2Enforced
      rw [hvb]
      simp only [applyBCIfFound]
      exact applyBC_uniform_noncorner _ params vb.bc hg h2 hl hr hb ht _ hX
    intro i j h1 h2' h3 h4 hc
    obtain ⟨hv, hf⟩ := interiorUpdate2D_spec params (by omega)
      (fun index v => v + (1 / 2) * params.dt * params.K
        * (CEngine.stageDphi fb params (mainStrides params)).get index)
      (CEngine.stageT2Enforced T fb params (mainStrides params) r2)
    by_cases hin : 1 ≤ i ∧ i ≤ params.Num_X - 2 ∧ 1 ≤ j ∧ j ≤ params.Num_Y - 2
    · obtain ⟨g1, g2, g3, g4⟩ := hin
      have := hv i j g1 g2 g3 g4
      rw [CEngine.stageDphi_interior fb params hg h2 i j g1 g2 g3 g4, hD i j g1 g2 g3 g4,
        hE i j h1 h2' h3 h4 hc] at this
      unfold CEngine.stageT2
      rw [this]; ring
    · unfold CEngine.stageT2
      rw [hf _ (IDX_ne_interior params (by omega) i j h3 h4 hin)]
      exact hE i j h1 h2' h3 h4 hc
  -- Y sweep
  have hY : (adi_step2_Y params.Num_X params.Num_Y ((1 / 2) * params.K * params.dt * r2 0)
        ((1 / 2) * params.K * params.dt * r2 1)
        (CEngine.stageT2 T fb params (mainStrides params) r2)
        (CEngine.stageT1 T fb params (mainStrides params)) (mainStrides params)).get
        (IDX (mainStrides params) i j 0)
        = c / (1 + 2 * ((1 / 2) * params.K * params.dt * r2 0))
          / (1 + 2 * ((1 / 2) * params.K * params.dt * r2 1)) := by
    have hs := (adi_step2_Y_spec params ((1 / 2) * params.K * params.dt * r2 0)
      ((1 / 2) * params.K * params.dt * r2 1)
      (CEngine.stageT2 T fb params (mainStrides params) r2)
      (CEngine.stageT1 T fb params (mainStrides params)) (by omega) (by omega) hry).1 i hi0 hi1
    have hrhs : ∀ j', 1 ≤ j' → j' ≤ 2 →
        (CEngine.stageT2 T fb params (mainStrides params) r2).get
            (IDX (mainStrides params) i j' 0)
          + (1 / 2) * params.K * params.dt * r2 0
            * lapX (CEngine.stageT2 T fb params (mainStrides params) r2) i j'
                (mainStrides params)
          = c / (1 + 2 * ((1 / 2) * params.K * params.dt * r2 0)) := by
      intro j' g1 g2
      unfold lapX
      rw [hT2 i j' (by omega) (by omega) (by omega) (by omega) (by omega),
        hT2 (i + 1) j' (by omega) (by omega) (by omega) (by omega) (by omega),
        hT2 (i - 1) j' (by omega) (by omega) (by omega) (by omega) (by omega)]
      ring
    rw [hNY] at hs
    have := lineSystem_four_const _ _ _ _ hry (hrhs 1 (by omega) (by omega))
      (hrhs 2 (by omega) (by omega)) hs
    have hj : j = 1 ∨ j = 2 := by omega
    rcases hj with hj | hj
    · subst hj; rw [hNY]; exact this.1
    · subst hj; rw [hNY]; exact this.2
  rw [CEngine.updateTemp_temp_new,
    (interiorUpdate2D_spec params (by omega) _ _).1 i j hi0 hi1 hj0 hj1]
  unfold CEngine.stageT1Final
  rw [hvb]
  simp only [applyBCIfFound]
  rw [applyBC_interior _ params vb.bc hg i j 0 hi0 hi1 hj0 hj1 hk]
  exact hY

/-- C1, evaluated on the code: 4 x 4 grid (2 x 2 interior), every temp face NoFlux,
`temp = 1` everywhere, `dphi_dt = 0`, `K = dt = dx = dy = 1`.  After `updateTemp`
followed by `copyInterior` the interior cell `(1,1)` holds `1/4`, not `1`. -/
theorem adi_uniform_temperature_not_preserved :
    (CEngine.copyInterior (Arr.const 1)
        (CEngine.updateTemp (Arr.const 1) (constBuffers 0) (sampleParams 2 4 4 1 allNoFlux)
          (mainStrides (sampleParams 2 4 4 1 allNoFlux))
          (mainR2 (sampleParams 2 4 4 1 allNoFlux))).temp_new
        (sampleParams 2 4 4 1 allNoFlux) (mainStrides (sampleParams 2 4 4 1 allNoFlux))).get
        (IDX (mainStrides (sampleParams 2 4 4 1 allNoFlux)) 1 1 0) = 1 / 4 := by
  rw [CEngine.copyInterior_eq,
    (interiorUpdate2D_spec (sampleParams 2 4 4 1 allNoFlux) (by decide) _ _).1 1 1
      (by decide) (by decide) (by decide) (by decide),
    CEngine.updateTemp_uniform_4x4 (Arr.const 1) (constBuffers 0)
      (sampleParams 2 4 4 1 allNoFlux) _ ⟨"temp", allNoFlux⟩ rfl rfl rfl rfl
      (findVariableBoundary_sample_temp _ _ _ _ _) (by decide) (by decide) (by decide)
      (by decide) 1 (fun _ _ _ _ _ _ => rfl) (fun _ _ _ _ _ _ => rfl)
      (by simp [sampleParams, mainR2]) (by simp [sampleParams, mainR2])
      1 1 (by decide) (by decide) (by decide) (by decide)]
  simp [sampleParams, mainR2]
  norm_num

/-! ## Loop nests over the interior whose body acts on one cell -/

/-- A loop nest of depth three over cells `(i, j, k)` whose body reads and writes
the state at the flattened index of its own cell only. -/
theorem cellLoop3_spec {F σ β : Type} (obs : σ → Int → β) (cnt : σ → Nat) (w : Nat)
    (bump : σ → Nat → σ) (params : SimParams F) (cellf : Int → σ → σ) (c0 c1 : Int)
    (hc0 : 0 ≤ c0) (hc1 : c1 ≤ params.Num_Z)
    (hbo : ∀ s m p, obs (bump s m) p = obs s p)
    (hbc : ∀ s m, cnt (bump s m) = cnt s + m * w)
    (hcnt : ∀ idx s, cnt (cellf idx s) = cnt s + w)
    (hframe : ∀ idx s p, p ≠ idx → obs (cellf idx s) p = obs s p)
    (hdep : ∀ idx s s', obs s idx = obs s' idx → cnt s = cnt s' →
      obs (cellf idx s) idx = obs (cellf idx s') idx)
    (s0 : σ) :
    cnt (forLoop 1 (params.Num_X - 1) (fun i s => forLoop 1 (params.Num_Y - 1) (fun j s =>
        forLoop c0 c1 (fun k s => cellf (IDX (mainStrides params) i j k) s) s) s) s0)
      = cnt s0 + (params.Num_X - 1 - 1).toNat
          * ((params.Num_Y - 1 - 1).toNat * ((c1 - c0).toNat * w)) ∧
    (∀ p, (∀ i j k, 1 ≤ i → i < params.Num_X - 1 → 1 ≤ j → j < params.Num_Y - 1 → c0 ≤ k →
        k < c1 → p ≠ IDX (mainStrides params) i j k) →
      obs (forLoop 1 (params.Num_X - 1) (fun i s => forLoop 1 (params.Num_Y - 1) (fun j s =>
        forLoop c0 c1 (fun k s => cellf (IDX (mainStrides params) i j k) s) s) s) s0) p
        = obs s0 p) ∧
    (∀ i j k, 1 ≤ i → i < params.Num_X - 1 → 1 ≤ j → j < params.Num_Y - 1 → c0 ≤ k → k < c1 →
      ∀ s', obs s' (IDX (mainStrides params) i j k) = obs s0 (IDX (mainStrides params) i j k) →
      cnt s' = cnt s0 + (((i - 1).toNat * (params.Num_Y - 1 - 1).toNat + (j - 1).toNat)
          * (c1 - c0).toNat + (k - c0).toNat) * w →
      obs (forLoop 1 (params.Num_X - 1) (fun i s => forLoop 1 (params.Num_Y - 1) (fun j s =>
        forLoop c0 c1 (fun k s => cellf (IDX (mainStrides params) i j k) s) s) s) s0)
          (IDX (mainStrides params) i j k)
        = obs (cellf (IDX (mainStrides params) i j k) s') (IDX (mainStrides params) i j k)) := by
  obtain ⟨hc, hf, hv⟩ := forLoop3_scatter obs cnt w bump
    (fun i j k s => cellf (IDX (mainStrides params) i j k) s)
    (fun i j k p => p = IDX (mainStrides params) i j k) (fun _ => True)
    1 (params.Num_X - 1) 1 (params.Num_Y - 1) c0 c1 hbo hbc
    (fun _ _ _ _ _ _ _ _ _ _ _ => trivial)
    (fun i j k _ _ _ _ _ _ s => hcnt _ s)
    (fun i j k _ _ _ _ _ _ s p hp => hframe _ s p hp)
    (by
      intro i j k _ _ _ _ _ _ s s' p hp _ hat hcs
      subst hp
      exact hdep _ s s' hat hcs)
    (by
      intro i j k i' j' k' h1 h2 h3 h4 h5 h6 h7 h8 h9 h10 h11 h12 hne p hp hp'
      have := IDX_inj params (by omega) (by omega) (by omega) (by omega) (by omega) (by omega)
        (by omega) (by omega) (hp.symm.trans hp')
      rcases hne with hne | hne | hne
      · exact hne this.1
      · exact hne this.2.1
      · exact hne this.2.2)
    s0
  refine ⟨hc, hf, ?_⟩
  intro i j k h1 h2 h3 h4 h5 h6 s' hat hcs
  exact hv i j k h1 h2 h3 h4 h5 h6 _ rfl s' (fun q hq => absurd trivial hq) hat hcs

/-- A loop nest of depth two over the cells `(i, j, 0)` whose body reads and
writes the state at the flattened index of its own cell only. -/
theorem cellLoop2_spec {F σ β : Type} (obs : σ → Int → β) (cnt : σ → Nat) (w : Nat)
    (bump : σ → Nat → σ) (params : SimParams F) (cellf : Int → σ → σ)
    (hNZ : 1 ≤ params.Num_Z)
    (hbo : ∀ s m p, obs (bump s m) p = obs s p)
    (hbc : ∀ s m, cnt (bump s m) = cnt s + m * w)
    (hcnt : ∀ idx s, cnt (cellf idx s) = cnt s + w)
    (hframe : ∀ idx s p, p ≠ idx → obs (cellf idx s) p = obs s p)
    (hdep : ∀ idx s s', obs s idx = obs s' idx → cnt s = cnt s' →
      obs (cellf idx s) idx = obs (cellf idx s') idx)
    (s0 : σ) :
    cnt (forLoop 1 (params.Num_X - 1) (fun i s => forLoop 1 (params.Num_Y - 1) (fun j s =>
        cellf (IDX (mainStrides params) i j 0) s) s) s0)
      = cnt s0 + (params.Num_X - 1 - 1).toNat * ((params.Num_Y - 1 - 1).toNat * w) ∧
    (∀ p, (∀ i j, 1 ≤ i → i < params.Num_X - 1 → 1 ≤ j → j < params.Num_Y - 1 →
        p ≠ IDX (mainStrides params) i j 0) →
      obs (forLoop 1 (params.Num_X - 1) (fun i s => forLoop 1 (params.Num_Y - 1) (fun j s =>
        cellf (IDX (mainStrides params) i j 0) s) s) s0) p = obs s0 p) ∧
    (∀ i j, 1 ≤ i → i < params.Num_X - 1 → 1 ≤ j → j < params.Num_Y - 1 →
      ∀ s', obs s' (IDX (mainStrides params) i j 0) = obs s0 (IDX (mainStrides params) i j 0) →
      cnt s' = cnt s0 + ((i - 1).toNat * (params.Num_Y - 1 - 1).toNat + (j - 1).toNat) * w →
      obs (forLoop 1 (params.Num_X - 1) (fun i s => forLoop 1 (params.Num_Y - 1) (fun j s =>
        cellf (IDX (mainStrides params) i j 0) s) s) s0) (IDX (mainStrides params) i j 0)
        = obs (cellf (IDX (mainStrides params) i j 0) s') (IDX (mainStrides params) i j 0)) := by
  obtain ⟨hc, hf, hv⟩ := forLoop2_scatter obs cnt w bump
    (fun i j s => cellf (IDX (mainStrides params) i j 0) s)
    (fun i j p => p = IDX (mainStrides params) i j 0) (fun _ => True)
    1 (params.Num_X - 1) 1 (params.Num_Y - 1) hbo hbc
    (fun _ _ _ _ _ _ _ _ => trivial)
    (fun i j _ _ _ _ s => hcnt _ s)
    (fun i j _ _ _ _ s p hp => hframe _ s p hp)
    (by
      intro i j _ _ _ _ s s' p hp _ hat hcs
      subst hp
      exact hdep _ s s' hat hcs)
    (by
      intro i j i' j' h1 h2 h3 h4 h5 h6 h7 h8 hne p hp hp'
      have := IDX_inj_layer0 params hNZ (by omega) (by omega) (by omega) (by omega)
        (hp.symm.trans hp')
      rcases hne with hne | hne
      · exact hne this.1
      · exact hne this.2)
    s0
  refine ⟨hc, hf, ?_⟩
  intro i j h1 h2 h3 h4 s' hat hcs
  exact hv i j h1 h2 h3 h4 _ rfl s' (fun q hq => absurd trivial hq) hat hcs

/-! ## Gradients -/

theorem gradientCell_gradCell_ne {F : Type} [Field F] (phi : Arr F) (r : Fin 3 → F)
    (strides : Fin 3 → Int) (idx : Int) (fb : FieldBuffers F) (p : Int) (hp : p ≠ idx) :
    (gradientCell phi r strides idx fb).gradCell p = fb.gradCell p := by
  simp [gradientCell, FieldBuffers.gradCell, hp]

theorem gradientCell_gradCell_self {F : Type} [Field F] (phi : Arr F) (r : Fin 3 → F)
    (strides : Fin 3 → Int) (idx : Int) (fb fb' : FieldBuffers F) :
    (gradientCell phi r strides idx fb).gradCell idx
      = (gradientCell phi r strides idx fb').gradCell idx := by
  simp [gradientCell, FieldBuffers.gradCell]

/-- The C++ `computeGradientPhi`: at every interior cell the ten derivative
buffers hold what the cell's own assignments store. -/
theorem CppEngine.computeGradientPhi_cell {F : Type} [Field F] (phi : Arr F)
    (fb : FieldBuffers F) (params : SimParams F) (r : Fin 3 → F) (hg : validGrid params)
    (i j k : Int) (hi0 : 1 ≤ i) (hi1 : i ≤ params.Num_X - 2) (hj0 : 1 ≤ j)
    (hj1 : j ≤ params.Num_Y - 2) (hk : interiorK params k) :
    (CppEngine.computeGradientPhi phi fb params r (mainStrides params)).gradCell
        (IDX (mainStrides params) i j k)
      = (gradientCell phi r (mainStrides params) (IDX (mainStrides params) i j k) fb).gradCell
        (IDX (mainStrides params) i j k) := by
  obtain ⟨hk0, hk1, -, -, -⟩ := krange_of_interiorK hg hk
  have hks : (0 : Int) ≤ (if params.DIM = 3 then 1 else 0) := by split <;> omega
  have hke : (if params.DIM = 3 then params.Num_Z - 1 else 1) ≤ params.Num_Z := by
    obtain ⟨_, _, h | h⟩ := hg
    · have : params.DIM ≠ 3 := by omega
      simp only [this, if_false]; omega
    · simp only [h.1, if_true]; omega
  obtain ⟨-, -, hv⟩ := cellLoop3_spec (σ := FieldBuffers F) (fun s p => s.gradCell p)
    (fun _ => 0) 0 (fun s _ => s) params (fun idx s => gradientCell phi r (mainStrides params) idx s)
    (if params.DIM = 3 then 1 else 0) (if params.DIM = 3 then params.Num_Z - 1 else 1)
    hks hke (fun _ _ _ => rfl) (fun _ _ => by simp) (fun _ _ => rfl)
    (fun idx s p hp => gradientCell_gradCell_ne phi r _ idx s p hp)
    (fun idx s s' _ _ => gradientCell_gradCell_self phi r _ idx s s') fb
  exact hv i j k hi0 (by omega) hj0 (by omega) hk0 hk1 fb rfl (by simp)

theorem IDX_shift {F : Type} (params : SimParams F) (i j k : Int) (di dj : Int) :
    IDX (mainStrides params) i j k + di * mainStrides params 0 + dj * mainStrides params 1
      = IDX (mainStrides params) (i + di) (j + dj) k := by
  simp [IDX, mainStrides]; ring

/-- The C++ `computeGradientPhi` in grid coordinates: the value stored in
`DERX_bottom` at an interior cell. -/
theorem CppEngine.computeGradientPhi_DERX_bottom {F : Type} [Field F] (phi : Arr F)
    (fb : FieldBuffers F) (params : SimParams F) (r : Fin 3 → F) (hg : validGrid params)
    (i j k : Int) (hi0 : 1 ≤ i) (hi1 : i ≤ params.Num_X - 2) (hj0 : 1 ≤ j)
    (hj1 : j ≤ params.Num_Y - 2) (hk : interiorK params k) :
    (CppEngine.computeGradientPhi phi fb params r (mainStrides params)).DERX_bottom.get
        (IDX (mainStrides params) i j k)
      = (1 / 4) * ((phi.get (IDX (mainStrides params) (i + 1) j k)
            + phi.get (IDX (mainStrides params) (i + 1) (j - 1) k)
            + phi.get (IDX (mainStrides params) i j k)
            + phi.get (IDX (mainStrides params) i (j - 1) k))
          - (phi.get (IDX (mainStrides params) (i - 1) j k)
            + phi.get (IDX (mainStrides params) (i - 1) (j - 1) k)
            + phi.get (IDX (mainStrides params) i j k)
            + phi.get (IDX (mainStrides params) i (j - 1) k))) * r 0 := by
  have h := CppEngine.computeGradientPhi_cell phi fb params r hg i j k hi0 hi1 hj0 hj1 hk
  simp only [FieldBuffers.gradCell, List.cons.injEq] at h
  have h8 := h.2.2.2.2.2.2.2.1
  rw [h8]
  have e1 := IDX_shift params i j k 1 0
  have e2 := IDX_shift params i j k 1 (-1)
  have e3 := IDX_shift params i j k 0 (-1)
  have e4 := IDX_shift params i j k (-1) 0
  have e5 := IDX_shift params i j k (-1) (-1)
  simp only [one_mul, zero_mul, add_zero, neg_mul, zero_add, ← sub_eq_add_neg] at e1 e2 e3 e4 e5
  simp only [gradientCell, Arr.get_set, if_true]
  rw [e2, e5, e1, e3, e4]

/-- C5, evaluated on the code (C++ engine): 4 x 4 grid, every phi face NoFlux.
Two phi arrays that differ only at the corner ghost cell `(0,0)` (flattened index
`0`) are passed through `applyBoundaryConditions` and `computeGradientPhi`; the
value of `DERX_bottom` at the interior cell `(1,1)` is `0` for one and `-1/4` for
the other: the stencil reads the corner, and the corner still holds the value it
had before the boundary call. -/
theorem gradient_reads_unwritten_corner :
    (∀ p : Int, p ≠ 0 → (Arr.const (0 : ℚ)).get p = ((Arr.const (0 : ℚ)).set 0 1).get p) ∧
    (CppEngine.computeGradientPhi
        (applyBoundaryConditions (Arr.const 0) (sampleParams 2 4 4 1 allNoFlux)
          (mainStrides (sampleParams 2 4 4 1 allNoFlux)) allNoFlux)
        (constBuffers 0) (sampleParams 2 4 4 1 allNoFlux)
        (mainR (sampleParams 2 4 4 1 allNoFlux))
        (mainStrides (sampleParams 2 4 4 1 allNoFlux))).DERX_bottom.get
        (IDX (mainStrides (sampleParams 2 4 4 1 allNoFlux)) 1 1 0) = 0 ∧
    (CppEngine.computeGradientPhi
        (applyBoundaryConditions ((Arr.const 0).set 0 1) (sampleParams 2 4 4 1 allNoFlux)
          (mainStrides (sampleParams 2 4 4 1 allNoFlux)) allNoFlux)
        (constBuffers 0) (sampleParams 2 4 4 1 allNoFlux)
        (mainR (sampleParams 2 4 4 1 allNoFlux))
        (mainStrides (sampleParams 2 4 4 1 allNoFlux))).DERX_bottom.get
        (IDX (mainStrides (sampleParams 2 4 4 1 allNoFlux)) 1 1 0) = -1 / 4 := by
  have hg : validGrid (sampleParams 2 4 4 1 allNoFlux) := by simp [validGrid, sampleParams]
  have hk : interiorK (sampleParams 2 4 4 1 allNoFlux) 0 := by simp [interiorK, sampleParams]
  -- the six cells read by the stencil of `DERX_bottom` at `(1,1)`, after the boundary call
  have cells : ∀ phi : Arr ℚ,
      (applyBoundaryConditions phi (sampleParams 2 4 4 1 allNoFlux)
          (mainStrides (sampleParams 2 4 4 1 allNoFlux)) allNoFlux).get
          (IDX (mainStrides (sampleParams 2 4 4 1 allNoFlux)) (1 + 1) 1 0) = phi.get 9 ∧
      (applyBoundaryConditions phi (sampleParams 2 4 4 1 allNoFlux)
          (mainStrides (sampleParams 2 4 4 1 allNoFlux)) allNoFlux).get
          (IDX (mainStrides (sampleParams 2 4 4 1 allNoFlux)) (1 + 1) (1 - 1) 0) = phi.get 9 ∧
      (applyBoundaryConditions phi (sampleParams 2 4 4 1 allNoFlux)
          (mainStrides (sampleParams 2 4 4 1 allNoFlux)) allNoFlux).get
          (IDX (mainStrides (sampleParams 2 4 4 1 allNoFlux)) 1 1 0) = phi.get 5 ∧
      (applyBoundaryConditions phi (sampleParams 2 4 4 1 allNoFlux)
          (mainStrides (sampleParams 2 4 4 1 allNoFlux)) allNoFlux).get
          (IDX (mainStrides (sampleParams 2 4 4 1 allNoFlux)) 1 (1 - 1) 0) = phi.get 5 ∧
      (applyBoundaryConditions phi (sampleParams 2 4 4 1 allNoFlux)
          (mainStrides (sampleParams 2 4 4 1 allNoFlux)) allNoFlux).get
          (IDX (mainStrides (sampleParams 2 4 4 1 allNoFlux)) (1 - 1) 1 0) = phi.get 5 ∧
      (applyBoundaryConditions phi (sampleParams 2 4 4 1 allNoFlux)
          (mainStrides (sampleParams 2 4 4 1 allNoFlux)) allNoFlux).get
          (IDX (mainStrides (sampleParams 2 4 4 1 allNoFlux)) (1 - 1) (1 - 1) 0) = phi.get 0 := by
    intro phi
    refine ⟨?_, ?_, ?_, ?_, ?_, ?_⟩
    · exact applyBC_interior phi _ allNoFlux hg 2 1 0 (by decide) (by decide) (by decide)
        (by decide) hk
    · rw [show ((1 : Int) - 1) = 0 from rfl,
        (applyBC_yface phi _ allNoFlux hg (1 + 1) 0 (by decide) (by decide) hk).1]
      rfl
    · exact applyBC_interior phi _ allNoFlux hg 1 1 0 (by decide) (by decide) (by decide)
        (by decide) hk
    · rw [show ((1 : Int) - 1) = 0 from rfl,
        (applyBC_yface phi _ allNoFlux hg 1 0 (by decide) (by decide) hk).1]
      rfl
    · rw [show ((1 : Int) - 1) = 0 from rfl,
        (applyBC_xface phi _ allNoFlux hg 1 0 (by decide) (by decide) hk).1]
      rfl
    · exact applyBC_frame phi _ allNoFlux hg 0 0 0 (by decide) (by decide) (by decide)
        (by decide) (by simp [sampleParams]) (by simp [sampleParams]) (by simp [sampleParams])
  refine ⟨?_, ?_, ?_⟩
  · intro p hp
    simp [hp]
  · rw [CppEngine.computeGradientPhi_DERX_bottom _ _ _ _ hg 1 1 0 (by decide) (by decide)
      (by decide) (by decide) hk]
    obtain ⟨c1, c2, c3, c4, c5, c6⟩ := cells (Arr.const 0)
    rw [c1, c2, c3, c4, c5, c6]
    simp
  · rw [CppEngine.computeGradientPhi_DERX_bottom _ _ _ _ hg 1 1 0 (by decide) (by decide)
      (by decide) (by decide) hk]
    obtain ⟨c1, c2, c3, c4, c5, c6⟩ := cells ((Arr.const 0).set 0 1)
    rw [c1, c2, c3, c4, c5, c6]
    simp [mainR, sampleParams]
    norm_num

/-! ## Phase-field update -/

theorem CppEngine.cpp_updatePhiCell_frame {F : Type} [Field F] (phi : Arr F) (params : SimParams F)
    (r : Fin 3 → F) (RAND_MAX : Int) (rng : Nat → Int) (idx : Int) (st : FieldBuffers F × Nat)
    (p : Int) (hp : p ≠ idx) :
    (CppEngine.updatePhiCell phi params r RAND_MAX rng idx st).1.phiCell p = st.1.phiCell p := by
  simp [CppEngine.updatePhiCell, FieldBuffers.phiCell, hp]

theorem CEngine.c_updatePhiCell_frame {F : Type} [Field F] (phi : Arr F) (params : SimParams F)
    (r : Fin 3 → F) (RAND_MAX : Int) (rng : Nat → Int) (idx : Int) (st : FieldBuffers F × Nat)
    (p : Int) (hp : p ≠ idx) :
    (CEngine.updatePhiCell phi params r RAND_MAX rng idx st).1.phiCell p = st.1.phiCell p := by
  simp [CEngine.updatePhiCell, FieldBuffers.phiCell, hp]

theorem CppEngine.cpp_updatePhiCell_dep {F : Type} [Field F] (phi : Arr F) (params : SimParams F)
    (r : Fin 3 → F) (RAND_MAX : Int) (rng : Nat → Int) (idx : Int)
    (st st' : FieldBuffers F × Nat) (h : st.1.phiCell idx = st'.1.phiCell idx)
    (hc : st.2 = st'.2) :
    (CppEngine.updatePhiCell phi params r RAND_MAX rng idx st).1.phiCell idx
      = (CppEngine.updatePhiCell phi params r RAND_MAX rng idx st').1.phiCell idx := by
  simp only [FieldBuffers.phiCell, List.cons.injEq, and_true] at h
  obtain ⟨-, -, h3, h4, h5, h6, h7, h8, h9, h10, h11, h12, h13, h14, h15, h16, h17, h18, h19⟩ := h
  simp [CppEngine.updatePhiCell, FieldBuffers.phiCell, hc, h3, h4, h5, h6, h7, h8, h9, h10, h11,
    h12, h13, h14, h15, h16, h17, h18, h19]

theorem CEngine.c_updatePhiCell_dep {F : Type} [Field F] (phi : Arr F) (params : SimParams F)
    (r : Fin 3 → F) (RAND_MAX : Int) (rng : Nat → Int) (idx : Int)
    (st st' : FieldBuffers F × Nat) (h : st.1.phiCell idx = st'.1.phiCell idx)
    (hc : st.2 = st'.2) :
    (CEngine.updatePhiCell phi params r RAND_MAX rng idx st).1.phiCell idx
      = (CEngine.updatePhiCell phi params r RAND_MAX rng idx st').1.phiCell idx := by
  simp only [FieldBuffers.phiCell, List.cons.injEq, and_true] at h
  obtain ⟨-, -, h3, h4, h5, h6, h7, h8, h9, h10, h11, h12, h13, h14, h15, h16, h17, h18, h19⟩ := h
  simp [CEngine.updatePhiCell, FieldBuffers.phiCell, hc, h3, h4, h5, h6, h7, h8, h9, h10, h11,
    h12, h13, h14, h15, h16, h17, h18, h19]

/-- What one cell of the C++ `updatePhi` stores, with `r` as `main` builds it. -/
theorem CppEngine.cpp_updatePhiCell_value {F : Type} [Field F] (phi : Arr F) (params : SimParams F)
    (RAND_MAX : Int) (rng : Nat → Int) (idx : Int) (fb : FieldBuffers F) (n : Nat) :
    (CppEngine.updatePhiCell phi params (mainR params) RAND_MAX rng idx (fb, n)).1.dphi_dt.get idx
      = specDphiDt fb phi params (((rng n : Int) : F) / ((RAND_MAX : Int) : F)) idx ∧
    (CppEngine.updatePhiCell phi params (mainR params) RAND_MAX rng idx (fb, n)).1.phi_new.get idx
      = phi.get idx + params.dt
          * specDphiDt fb phi params (((rng n : Int) : F) / ((RAND_MAX : Int) : F)) idx := by
  have h1 : (CppEngine.updatePhiCell phi params (mainR params) RAND_MAX rng idx
      (fb, n)).1.dphi_dt.get idx
      = specDphiDt fb phi params (((rng n : Int) : F) / ((RAND_MAX : Int) : F)) idx := by
    simp [CppEngine.updatePhiCell, specDphiDt, mainR]
    ring
  have h2 : (CppEngine.updatePhiCell phi params (mainR params) RAND_MAX rng idx
      (fb, n)).1.phi_new.get idx
      = phi.get idx + params.dt * (CppEngine.updatePhiCell phi params (mainR params) RAND_MAX rng
          idx (fb, n)).1.dphi_dt.get idx := by
    simp [CppEngine.updatePhiCell]
  exact ⟨h1, by rw [h2, h1]⟩

/-- What one cell of the C `updatePhi` stores, with `r` as `main` builds it. -/
theorem CEngine.c_updatePhiCell_value {F : Type} [Field F] (phi : Arr F) (params : SimParams F)
    (RAND_MAX : Int) (rng : Nat → Int) (idx : Int) (fb : FieldBuffers F) (n : Nat) :
    (CEngine.updatePhiCell phi params (mainR params) RAND_MAX rng idx (fb, n)).1.dphi_dt.get idx
      = specDphiDt fb phi params (((rng n : Int) : F) / ((RAND_MAX : Int) : F)) idx ∧
    (CEngine.updatePhiCell phi params (mainR params) RAND_MAX rng idx (fb, n)).1.phi_new.get idx
      = phi.get idx + params.dt
          * specDphiDt fb phi params (((rng n : Int) : F) / ((RAND_MAX : Int) : F)) idx := by
  have h1 : (CEngine.updatePhiCell phi params (mainR params) RAND_MAX rng idx
      (fb, n)).1.dphi_dt.get idx
      = specDphiDt fb phi params (((rng n : Int) : F) / ((RAND_MAX : Int) : F)) idx := by
    simp [CEngine.updatePhiCell, specDphiDt, mainR]
    ring
  have h2 : (CEngine.updatePhiCell phi params (mainR params) RAND_MAX rng idx
      (fb, n)).1.phi_new.get idx
      = phi.get idx + params.dt * (CEngine.updatePhiCell phi params (mainR params) RAND_MAX rng
          idx (fb, n)).1.dphi_dt.get idx := by
    simp [CEngine.updatePhiCell]
  exact ⟨h1, by rw [h2, h1]⟩

/-- The C++ `updatePhi`: the buffers at an interior cell after the call are those
its own iteration stores, run on the initial buffers with the call counter of
that iteration. -/
theorem CppEngine.cpp_updatePhi_cell {F : Type} [Field F] (phi : Arr F) (fb : FieldBuffers F)
    (params : SimParams F) (r : Fin 3 → F) (RAND_MAX : Int) (rng : Nat → Int) (calls : Nat)
    (hg : validGrid params) (i j k : Int) (hi0 : 1 ≤ i) (hi1 : i ≤ params.Num_X - 2)
    (hj0 : 1 ≤ j) (hj1 : j ≤ params.Num_Y - 2) (hk : interiorK params k) :
    (CppEngine.updatePhi phi fb params r (mainStrides params) RAND_MAX rng calls).1.phiCell
        (IDX (mainStrides params) i j k)
      = (CppEngine.updatePhiCell phi params r RAND_MAX rng (IDX (mainStrides params) i j k)
          (fb, calls + (((i - 1).toNat * (params.Num_Y - 1 - 1).toNat + (j - 1).toNat)
            * ((if params.DIM = 3 then params.Num_Z - 1 else 1)
                - (if params.DIM = 3 then 1 else 0)).toNat
            + (k - (if params.DIM = 3 then 1 else 0)).toNat))).1.phiCell
        (IDX (mainStrides params) i j k) := by
  obtain ⟨hk0, hk1, -, -, -⟩ := krange_of_interiorK hg hk
  have hks : (0 : Int) ≤ (if params.DIM = 3 then 1 else 0) := by split <;> omega
  have hke : (if params.DIM = 3 then params.Num_Z - 1 else 1) ≤ params.Num_Z := by
    obtain ⟨_, _, h | h⟩ := hg
    · have : params.DIM ≠ 3 := by omega
      simp only [this, if_false]; omega
    · simp only [h.1, if_true]; omega
  obtain ⟨-, -, hv⟩ := cellLoop3_spec (σ := FieldBuffers F × Nat) (fun s p => s.1.phiCell p)
    (fun s => s.2) 1 (fun s m => (s.1, s.2 + m)) params
    (fun idx s => CppEngine.updatePhiCell phi params r RAND_MAX rng idx s)
    (if params.DIM = 3 then 1 else 0) (if params.DIM = 3 then params.Num_Z - 1 else 1)
    hks hke (fun _ _ _ => rfl) (fun _ _ => by simp) (fun _ _ => rfl)
    (fun idx s p hp => CppEngine.cpp_updatePhiCell_frame phi params r RAND_MAX rng idx s p hp)
    (fun idx s s' h hc => CppEngine.cpp_updatePhiCell_dep phi params r RAND_MAX rng idx s s' h hc)
    (fb, calls)
  exact hv i j k hi0 (by omega) hj0 (by omega) hk0 hk1 _ rfl (by simp)

/-- The C `updatePhi`: the buffers at a cell `(i, j, 0)` with `i, j` interior, and
the cells it leaves untouched. -/
theorem CEngine.c_updatePhi_cell {F : Type} [Field F] (phi : Arr F) (fb : FieldBuffers F)
    (params : SimParams F) (r : Fin 3 → F) (RAND_MAX : Int) (rng : Nat → Int) (calls : Nat)
    (hNZ : 1 ≤ params.Num_Z) :
    (∀ i j, 1 ≤ i → i ≤ params.Num_X - 2 → 1 ≤ j → j ≤ params.Num_Y - 2 →
      (CEngine.updatePhi phi fb params r (mainStrides params) RAND_MAX rng calls).1.phiCell
          (IDX (mainStrides params) i j 0)
        = (CEngine.updatePhiCell phi params r RAND_MAX rng (IDX (mainStrides params) i j 0)
            (fb, calls + ((i - 1).toNat * (params.Num_Y - 1 - 1).toNat
              + (j - 1).toNat))).1.phiCell (IDX (mainStrides params) i j 0)) ∧
    (∀ p, (∀ i j, 1 ≤ i → i ≤ params.Num_X - 2 → 1 ≤ j → j ≤ params.Num_Y - 2 →
        p ≠ IDX (mainStrides params) i j 0) →
      (CEngine.updatePhi phi fb params r (mainStrides params) RAND_MAX rng calls).1.phiCell p
        = fb.phiCell p) := by
  obtain ⟨-, hf, hv⟩ := cellLoop2_spec (σ := FieldBuffers F × Nat) (fun s p => s.1.phiCell p)
    (fun s => s.2) 1 (fun s m => (s.1, s.2 + m)) params
    (fun idx s => CEngine.updatePhiCell phi params r RAND_MAX rng idx s)
    hNZ (fun _ _ _ => rfl) (fun _ _ => by simp) (fun _ _ => rfl)
    (fun idx s p hp => CEngine.c_updatePhiCell_frame phi params r RAND_MAX rng idx s p hp)
    (fun idx s s' h hc => CEngine.c_updatePhiCell_dep phi params r RAND_MAX rng idx s s' h hc)
    (fb, calls)
  refine ⟨?_, ?_⟩
  · intro i j hi0 hi1 hj0 hj1
    exact hv i j hi0 (by omega) hj0 (by omega) _ rfl (by simp)
  · intro p hp
    exact hf p (fun i j h1 h2 h3 h4 => hp i j h1 (by omega) h3 (by omega))

/-- C10, as stated, fails for the C engine on a 3D grid: 3 x 3 x 3 grid, `dfdphi = 1`
and every other buffer `0`, `phi = 0`, `tau = dt = 1`, `a = 0`.  At the interior
cell `(1,1,1)` the formula of the claim gives `dphi_dt = 1` (whatever the sample
`U`) and `phi_new = 1`, while the C engine's `updatePhi` leaves both buffers at
`0` there: it processes the layer `k = 0` only. -/
theorem updatePhi_C_engine_3D_counterexample :
    (∀ U : ℚ, specDphiDt { constBuffers (0 : ℚ) with dfdphi := Arr.const 1 } (Arr.const 0)
        (sampleParams 3 3 3 3 allNoFlux) U
        (IDX (mainStrides (sampleParams 3 3 3 3 allNoFlux)) 1 1 1) = 1) ∧
    (CEngine.updatePhi (Arr.const 0) { constBuffers (0 : ℚ) with dfdphi := Arr.const 1 }
        (sampleParams 3 3 3 3 allNoFlux) (mainR (sampleParams 3 3 3 3 allNoFlux))
        (mainStrides (sampleParams 3 3 3 3 allNoFlux)) 2147483647 (fun _ => 0) 0).1.dphi_dt.get
        (IDX (mainStrides (sampleParams 3 3 3 3 allNoFlux)) 1 1 1) = 0 ∧
    (CEngine.updatePhi (Arr.const 0) { constBuffers (0 : ℚ) with dfdphi := Arr.const 1 }
        (sampleParams 3 3 3 3 allNoFlux) (mainR (sampleParams 3 3 3 3 allNoFlux))
        (mainStrides (sampleParams 3 3 3 3 allNoFlux)) 2147483647 (fun _ => 0) 0).1.phi_new.get
        (IDX (mainStrides (sampleParams 3 3 3 3 allNoFlux)) 1 1 1) = 0 := by
  have hf := (CEngine.c_updatePhi_cell (Arr.const 0)
    { constBuffers (0 : ℚ) with dfdphi := Arr.const 1 } (sampleParams 3 3 3 3 allNoFlux)
    (mainR (sampleParams 3 3 3 3 allNoFlux)) 2147483647 (fun _ => 0) 0 (by decide)).2
    (IDX (mainStrides (sampleParams 3 3 3 3 allNoFlux)) 1 1 1)
    (fun i j _ _ _ _ => IDX_ne _ ⟨by decide, by decide⟩ ⟨by decide, by decide⟩
      ⟨by omega, by omega⟩ ⟨by decide, by decide⟩
      (Or.inr (Or.inr (by decide))))
  simp only [FieldBuffers.phiCell, List.cons.injEq] at hf
  refine ⟨?_, ?_, ?_⟩
  · intro U
    simp [specDphiDt, constBuffers, sampleParams]
  · rw [hf.2.1]; rfl
  · rw [hf.1]; rfl

/-- C10, amended. In the C++ engine for every interior cell (2D and 3D), and in the C
engine for every interior cell of a 2D grid, `updatePhi` stores
`dphi_dt = ((rj-lj)/dx + (tj-bj)/dy + dfdphi + a*(U-0.5)*phi*(1-phi))/tau` and
`phi_new = phi + dt*dphi_dt`, with the fluxes `rj, lj, tj, bj` of the claim and `U`
the sample drawn by `rand()` in the iteration of that cell (`r` as `main` builds
it).  The function writes buffers only: the phi array is an input of the model
and is not part of what it returns. -/
theorem updatePhi_stores_claimed_values {F : Type} [Field F] (phi : Arr F)
    (fb : FieldBuffers F) (params : SimParams F) (RAND_MAX : Int) (rng : Nat → Int)
    (calls : Nat) (hg : validGrid params) :
    (∀ i j k, 1 ≤ i → i ≤ params.Num_X - 2 → 1 ≤ j → j ≤ params.Num_Y - 2 →
      interiorK params k →
      (CppEngine.updatePhi phi fb params (mainR params) (mainStrides params) RAND_MAX rng
          calls).1.dphi_dt.get (IDX (mainStrides params) i j k)
        = specDphiDt fb phi params
            (((rng (calls + (((i - 1).toNat * (params.Num_Y - 1 - 1).toNat + (j - 1).toNat)
                * ((if params.DIM = 3 then params.Num_Z - 1 else 1)
                    - (if params.DIM = 3 then 1 else 0)).toNat
                + (k - (if params.DIM = 3 then 1 else 0)).toNat)) : Int) : F)
              / ((RAND_MAX : Int) : F))
            (IDX (mainStrides params) i j k) ∧
      (CppEngine.updatePhi phi fb params (mainR params) (mainStrides params) RAND_MAX rng
          calls).1.phi_new.get (IDX (mainStrides params) i j k)
        = phi.get (IDX (mainStrides params) i j k) + params.dt
          * specDphiDt fb phi params
            (((rng (calls + (((i - 1).toNat * (params.Num_Y - 1 - 1).toNat + (j - 1).toNat)
                * ((if params.DIM = 3 then params.Num_Z - 1 else 1)
                    - (if params.DIM = 3 then 1 else 0)).toNat
                + (k - (if params.DIM = 3 then 1 else 0)).toNat)) : Int) : F)
              / ((RAND_MAX : Int) : F))
            (IDX (mainStrides params) i j k)) ∧
    (params.DIM = 2 → ∀ i j, 1 ≤ i → i ≤ params.Num_X - 2 → 1 ≤ j → j ≤ params.Num_Y - 2 →
      (CEngine.updatePhi phi fb params (mainR params) (mainStrides params) RAND_MAX rng
          calls).1.dphi_dt.get (IDX (mainStrides params) i j 0)
        = specDphiDt fb phi params
            (((rng (calls + ((i - 1).toNat * (params.Num_Y - 1 - 1).toNat
                + (j - 1).toNat)) : Int) : F) / ((RAND_MAX : Int) : F))
            (IDX (mainStrides params) i j 0) ∧
      (CEngine.updatePhi phi fb params (mainR params) (mainStrides params) RAND_MAX rng
          calls).1.phi_new.get (IDX (mainStrides params) i j 0)
        = phi.get (IDX (mainStrides params) i j 0) + params.dt
          * specDphiDt fb phi params
            (((rng (calls + ((i - 1).toNat * (params.Num_Y - 1 - 1).toNat
                + (j - 1).toNat)) : Int) : F) / ((RAND_MAX : Int) : F))
            (IDX (mainStrides params) i j 0)) := by
  refine ⟨?_, ?_⟩
  · intro i j k hi0 hi1 hj0 hj1 hk
    have h := CppEngine.cpp_updatePhi_cell phi fb params (mainR params) RAND_MAX rng calls hg
      i j k hi0 hi1 hj0 hj1 hk
    simp only [FieldBuffers.phiCell, List.cons.injEq] at h
    obtain ⟨v1, v2⟩ := CppEngine.cpp_updatePhiCell_value phi params RAND_MAX rng
      (IDX (mainStrides params) i j k) fb
      (calls + (((i - 1).toNat * (params.Num_Y - 1 - 1).toNat + (j - 1).toNat)
        * ((if params.DIM = 3 then params.Num_Z - 1 else 1)
            - (if params.DIM = 3 then 1 else 0)).toNat
        + (k - (if params.DIM = 3 then 1 else 0)).toNat))
    exact ⟨h.2.1.trans v1, h.1.trans v2⟩
  · intro h2 i j hi0 hi1 hj0 hj1
    have hNZ : 1 ≤ params.Num_Z := by
      have := (validGrid_2D hg h2).1
      omega
    have h := (CEngine.c_updatePhi_cell phi fb params (mainR params) RAND_MAX rng calls hNZ).1
      i j hi0 hi1 hj0 hj1
    simp only [FieldBuffers.phiCell, List.cons.injEq] at h
    obtain ⟨v1, v2⟩ := CEngine.c_updatePhiCell_value phi params RAND_MAX rng
      (IDX (mainStrides params) i j 0) fb
      (calls + ((i - 1).toNat * (params.Num_Y - 1 - 1).toNat + (j - 1).toNat))
    exact ⟨h.2.1.trans v1, h.1.trans v2⟩

/-- Witness for the amended C10: C engine, 4 x 4 grid (2D), cell `(2,1)`; its
iteration is the third of the loop nest, so its sample is `rng 2`
(`(2 - 1) * 2 + (1 - 1) = 2`). -/
theorem updatePhi_stores_claimed_values_witness :
    validGrid (sampleParams 2 4 4 1 allNoFlux) ∧
    (CEngine.updatePhi rampArr (constBuffers 1) (sampleParams 2 4 4 1 allNoFlux)
        (mainR (sampleParams 2 4 4 1 allNoFlux)) (mainStrides (sampleParams 2 4 4 1 allNoFlux))
        2147483647 (fun n => (n : Int)) 0).1.dphi_dt.get
        (IDX (mainStrides (sampleParams 2 4 4 1 allNoFlux)) 2 1 0)
      = specDphiDt (constBuffers 1) rampArr (sampleParams 2 4 4 1 allNoFlux)
          ((((fun n : Nat => (n : Int)) (0 + (((2 : Int) - 1).toNat
              * ((sampleParams 2 4 4 1 allNoFlux).Num_Y - 1 - 1).toNat
              + ((1 : Int) - 1).toNat)) : Int) : ℚ) / ((2147483647 : Int) : ℚ))
          (IDX (mainStrides (sampleParams 2 4 4 1 allNoFlux)) 2 1 0) :=
  ⟨by simp [validGrid, sampleParams],
    (((updatePhi_stores_claimed_values rampArr (constBuffers 1)
      (sampleParams 2 4 4 1 allNoFlux) 2147483647 (fun n => (n : Int)) 0
      (by simp [validGrid, sampleParams])).2 rfl) 2 1 (by decide) (by decide) (by decide)
      (by decide)).1⟩

/-! ## Loops that leave a component of the state unchanged -/

theorem loopFrom_preserve {σ β : Type} (f : σ → β) (body : Int → σ → σ)
    (h : ∀ i s, f (body i s) = f s) :
    ∀ (n : Nat) (i : Int) (s : σ), f (loopFrom body n i s) = f s := by
  intro n
  induction n with
  | zero => intro i s; rfl
  | succ n ih =>
    intro i s
    simp only [loopFrom]
    rw [ih, h]

theorem forLoop_preserve {σ β : Type} (f : σ → β) (body : Int → σ → σ)
    (h : ∀ i s, f (body i s) = f s) (lo hi : Int) (s : σ) :
    f (forLoop lo hi body s) = f s :=
  loopFrom_preserve f body h _ _ _

/-- A loop nest of depth two over the cells `(i, j, c)` of one layer `c` whose
body reads and writes the state at the flattened index of its own cell only. -/
theorem cellLoop2_layer_spec {F σ β : Type} (obs : σ → Int → β) (cnt : σ → Nat) (w : Nat)
    (bump : σ → Nat → σ) (params : SimParams F) (cellf : Int → σ → σ) (c : Int)
    (hc0 : 0 ≤ c) (hc1 : c < params.Num_Z)
    (hbo : ∀ s m p, obs (bump s m) p = obs s p)
    (hbc : ∀ s m, cnt (bump s m) = cnt s + m * w)
    (hcnt : ∀ idx s, cnt (cellf idx s) = cnt s + w)
    (hframe : ∀ idx s p, p ≠ idx → obs (cellf idx s) p = obs s p)
    (hdep : ∀ idx s s', obs s idx = obs s' idx → cnt s = cnt s' →
      obs (cellf idx s) idx = obs (cellf idx s') idx)
    (s0 : σ) :
    cnt (forLoop 1 (params.Num_X - 1) (fun i s => forLoop 1 (params.Num_Y - 1) (fun j s =>
        cellf (IDX (mainStrides params) i j c) s) s) s0)
      = cnt s0 + (params.Num_X - 1 - 1).toNat * ((params.Num_Y - 1 - 1).toNat * w) ∧
    (∀ p, (∀ i j, 1 ≤ i → i < params.Num_X - 1 → 1 ≤ j → j < params.Num_Y - 1 →
        p ≠ IDX (mainStrides params) i j c) →
      obs (forLoop 1 (params.Num_X - 1) (fun i s => forLoop 1 (params.Num_Y - 1) (fun j s =>
        cellf (IDX (mainStrides params) i j c) s) s) s0) p = obs s0 p) ∧
    (∀ i j, 1 ≤ i → i < params.Num_X - 1 → 1 ≤ j → j < params.Num_Y - 1 →
      ∀ s', obs s' (IDX (mainStrides params) i j c) = obs s0 (IDX (mainStrides params) i j c) →
      cnt s' = cnt s0 + ((i - 1).toNat * (params.Num_Y - 1 - 1).toNat + (j - 1).toNat) * w →
      obs (forLoop 1 (params.Num_X - 1) (fun i s => forLoop 1 (params.Num_Y - 1) (fun j s =>
        cellf (IDX (mainStrides params) i j c) s) s) s0) (IDX (mainStrides params) i j c)
        = obs (cellf (IDX (mainStrides params) i j c) s') (IDX (mainStrides params) i j c)) := by
  obtain ⟨hc, hf, hv⟩ := forLoop2_scatter obs cnt w bump
    (fun i j s => cellf (IDX (mainStrides params) i j c) s)
    (fun i j p => p = IDX (mainStrides params) i j c) (fun _ => True)
    1 (params.Num_X - 1) 1 (params.Num_Y - 1) hbo hbc
    (fun _ _ _ _ _ _ _ _ => trivial)
    (fun i j _ _ _ _ s => hcnt _ s)
    (fun i j _ _ _ _ s p hp => hframe _ s p hp)
    (by
      intro i j _ _ _ _ s s' p hp _ hat hcs
      subst hp
      exact hdep _ s s' hat hcs)
    (by
      intro i j i' j' h1 h2 h3 h4 h5 h6 h7 h8 hne p hp hp'
      have := IDX_inj params (by omega) (by omega) hc0 hc1 (by omega) (by omega) hc0 hc1
        (hp.symm.trans hp')
      rcases hne with hne | hne
      · exact hne this.1
      · exact hne this.2.1)
    s0
  refine ⟨hc, hf, ?_⟩
  intro i j h1 h2 h3 h4 s' hat hcs
  exact hv i j h1 h2 h3 h4 _ rfl s' (fun q hq => absurd trivial hq) hat hcs

/-! ## Gradients in grid coordinates -/

/-- The ten values that the assignments of one cell store, with `r` and
`strides` as `main` builds them, are the stencils of the specification. -/
theorem gradientCell_specGradient {F : Type} [Field F] (phi : Arr F) (params : SimParams F)
    (fb : FieldBuffers F) (i j k : Int) :
    (gradientCell phi (mainR params) (mainStrides params) (IDX (mainStrides params) i j k)
        fb).gradCell (IDX (mainStrides params) i j k)
      = specGradient phi params i j k := by
  have e1 := IDX_shift params i j k 1 0
  have e2 := IDX_shift params i j k 1 (-1)
  have e3 := IDX_shift params i j k 0 (-1)
  have e4 := IDX_shift params i j k (-1) 0
  have e5 := IDX_shift params i j k (-1) (-1)
  have e6 := IDX_shift params i j k 1 1
  have e7 := IDX_shift params i j k (-1) 1
  have e8 := IDX_shift params i j k 0 1
  simp only [one_mul, zero_mul, add_zero, neg_mul, zero_add, ← sub_eq_add_neg]
    at e1 e2 e3 e4 e5 e6 e7 e8
  simp only [gradientCell, FieldBuffers.gradCell, specGradient, Arr.get_set, if_true]
  rw [e2, e5, e6, e7, e1, e3, e4, e8]
  simp only [mainR, Matrix.cons_val_zero, Matrix.cons_val_one, Matrix.head_cons, mul_one_div]

/-- The bounds of the loop over `k` lie in the allocated range. -/
theorem kloop_bounds {F : Type} {params : SimParams F} (hg : validGrid params) :
    (0 : Int) ≤ (if params.DIM = 3 then 1 else 0) ∧
    (if params.DIM = 3 then params.Num_Z - 1 else 1) ≤ params.Num_Z := by
  refine ⟨by split <;> omega, ?_⟩
  obtain ⟨_, _, h | h⟩ := hg
  · have : params.DIM ≠ 3 := by omega
    simp only [this, if_false]; omega
  · simp only [h.1, if_true]; omega

/-- The C++ `computeGradientPhi` writes no derivative-buffer entry outside the
interior cells. -/
theorem CppEngine.cpp_computeGradientPhi_frame {F : Type} [Field F] (phi : Arr F)
    (fb : FieldBuffers F) (params : SimParams F) (r : Fin 3 → F) (hg : validGrid params)
    (p : Int)
    (hp : ∀ i j k, 1 ≤ i → i ≤ params.Num_X - 2 → 1 ≤ j → j ≤ params.Num_Y - 2 →
      interiorK params k → p ≠ IDX (mainStrides params) i j k) :
    (CppEngine.computeGradientPhi phi fb params r (mainStrides params)).gradCell p
      = fb.gradCell p := by
  obtain ⟨hks, hke⟩ := kloop_bounds hg
  obtain ⟨-, hf, -⟩ := cellLoop3_spec (σ := FieldBuffers F) (fun s p => s.gradCell p)
    (fun _ => 0) 0 (fun s _ => s) params (fun idx s => gradientCell phi r (mainStrides params) idx s)
    (if params.DIM = 3 then 1 else 0) (if params.DIM = 3 then params.Num_Z - 1 else 1)
    hks hke (fun _ _ _ => rfl) (fun _ _ => by simp) (fun _ _ => rfl)
    (fun idx s p hp => gradientCell_gradCell_ne phi r _ idx s p hp)
    (fun idx s s' _ _ => gradientCell_gradCell_self phi r _ idx s s') fb
  exact hf p (fun i j k h1 h2 h3 h4 h5 h6 =>
    hp i j k h1 (by omega) h3 (by omega) (interiorK_of_krange hg h5 h6))

/-- The C `computeGradientPhi`: the cells `(i, j, 0)` with `i, j` interior hold
what their own assignments store, and no other entry is written. -/
theorem CEngine.c_computeGradientPhi_cell {F : Type} [Field F] (phi : Arr F)
    (fb : FieldBuffers F) (params : SimParams F) (r : Fin 3 → F) (hNZ : 1 ≤ params.Num_Z) :
    (∀ i j, 1 ≤ i → i ≤ params.Num_X - 2 → 1 ≤ j → j ≤ params.Num_Y - 2 →
      (CEngine.computeGradientPhi phi fb params r (mainStrides params)).gradCell
          (IDX (mainStrides params) i j 0)
        = (gradientCell phi r (mainStrides params) (IDX (mainStrides params) i j 0) fb).gradCell
          (IDX (mainStrides params) i j 0)) ∧
    (∀ p, (∀ i j, 1 ≤ i → i ≤ params.Num_X - 2 → 1 ≤ j → j ≤ params.Num_Y - 2 →
        p ≠ IDX (mainStrides params) i j 0) →
      (CEngine.computeGradientPhi phi fb params r (mainStrides params)).gradCell p
        = fb.gradCell p) := by
  obtain ⟨-, hf, hv⟩ := cellLoop2_spec (σ := FieldBuffers F) (fun s p => s.gradCell p)
    (fun _ => 0) 0 (fun s _ => s) params (fun idx s => gradientCell phi r (mainStrides params) idx s)
    hNZ (fun _ _ _ => rfl) (fun _ _ => by simp) (fun _ _ => rfl)
    (fun idx s p hp => gradientCell_gradCell_ne phi r _ idx s p hp)
    (fun idx s s' _ _ => gradientCell_gradCell_self phi r _ idx s s') fb
  refine ⟨?_, ?_⟩
  · intro i j hi0 hi1 hj0 hj1
    exact hv i j hi0 (by omega) hj0 (by omega) fb rfl (by simp)
  · intro p hp
    exact hf p (fun i j h1 h2 h3 h4 => hp i j h1 (by omega) h3 (by omega))

/-- The C++ `computeGradientPhi` in grid coordinates, `r` as `main` builds it. -/
theorem CppEngine.cpp_computeGradientPhi_spec {F : Type} [Field F] (phi : Arr F)
    (fb : FieldBuffers F) (params : SimParams F) (hg : validGrid params)
    (i j k : Int) (hi0 : 1 ≤ i) (hi1 : i ≤ params.Num_X - 2) (hj0 : 1 ≤ j)
    (hj1 : j ≤ params.Num_Y - 2) (hk : interiorK params k) :
    (CppEngine.computeGradientPhi phi fb params (mainR params) (mainStrides params)).gradCell
        (IDX (mainStrides params) i j k)
      = specGradient phi params i j k :=
  (CppEngine.computeGradientPhi_cell phi fb params (mainR params) hg i j k hi0 hi1 hj0 hj1
    hk).trans (gradientCell_specGradient phi params fb i j k)

/-- The C `computeGradientPhi` in grid coordinates, `r` as `main` builds it. -/
theorem CEngine.c_computeGradientPhi_spec {F : Type} [Field F] (phi : Arr F)
    (fb : FieldBuffers F) (params : SimParams F) (hNZ : 1 ≤ params.Num_Z)
    (i j : Int) (hi0 : 1 ≤ i) (hi1 : i ≤ params.Num_X - 2) (hj0 : 1 ≤ j)
    (hj1 : j ≤ params.Num_Y - 2) :
    (CEngine.computeGradientPhi phi fb params (mainR params) (mainStrides params)).gradCell
        (IDX (mainStrides params) i j 0)
      = specGradient phi params i j 0 :=
  ((CEngine.c_computeGradientPhi_cell phi fb params (mainR params) hNZ).1 i j hi0 hi1 hj0
    hj1).trans (gradientCell_specGradient phi params fb i j 0)

/-- C11. For every interior cell `(i, j)` of a 2D grid, `computeGradientPhi` (both
engines, `r = [1/dx, 1/dy, 1/dz]` and `strides` as `main` builds them) leaves in
the ten derivative buffers the stencils of the specification:
`DERX_right = (phi[i+1,j] - phi[i,j])/dx`, `DERX_left = (phi[i,j] - phi[i-1,j])/dx`,
`DERY_top`, `DERY_bottom` likewise in `y`, the central differences `DERX_c`,
`DERY_c`, and the four 4-point averaged mixed stencils (the list `specGradient`).
The function returns buffers only: the phi array is an input and is not part of
what it returns. -/
theorem computeGradientPhi_2D_stencils {F : Type} [Field F] (phi : Arr F)
    (fb : FieldBuffers F) (params : SimParams F) (hg : validGrid params) (h2 : params.DIM = 2)
    (i j : Int) (hi0 : 1 ≤ i) (hi1 : i ≤ params.Num_X - 2) (hj0 : 1 ≤ j)
    (hj1 : j ≤ params.Num_Y - 2) :
    (CppEngine.computeGradientPhi phi fb params (mainR params) (mainStrides params)).gradCell
        (IDX (mainStrides params) i j 0)
      = specGradient phi params i j 0 ∧
    (CEngine.computeGradientPhi phi fb params (mainR params) (mainStrides params)).gradCell
        (IDX (mainStrides params) i j 0)
      = specGradient phi params i j 0 := by
  obtain ⟨hNZ, hk⟩ := validGrid_2D hg h2
  exact ⟨CppEngine.cpp_computeGradientPhi_spec phi fb params hg i j 0 hi0 hi1 hj0 hj1 hk,
    CEngine.c_computeGradientPhi_spec phi fb params (by omega) i j hi0 hi1 hj0 hj1⟩

/-- Witness for C11: 4 x 4 grid, `phi[p] = p` (so `phi[i,j] = 4 i + j`), unit
spacings, cell `(1,2)`: the X differences are `4`, the Y differences `1`. -/
theorem computeGradientPhi_2D_stencils_witness :
    validGrid (sampleParams 2 4 4 1 allNoFlux) ∧
    (CEngine.computeGradientPhi rampArr (constBuffers 0) (sampleParams 2 4 4 1 allNoFlux)
        (mainR (sampleParams 2 4 4 1 allNoFlux))
        (mainStrides (sampleParams 2 4 4 1 allNoFlux))).gradCell
        (IDX (mainStrides (sampleParams 2 4 4 1 allNoFlux)) 1 2 0)
      = [4, 4, 1, 1, 4, 1, 4, 4, 1, 1] := by
  have hg : validGrid (sampleParams 2 4 4 1 allNoFlux) := by simp [validGrid, sampleParams]
  refine ⟨hg, ?_⟩
  rw [(computeGradientPhi_2D_stencils rampArr (constBuffers 0) (sampleParams 2 4 4 1 allNoFlux)
    hg rfl 1 2 (by decide) (by decide) (by decide) (by decide)).2]
  simp [specGradient, rampArr, IDX, mainStrides, sampleParams]
  norm_num

/-! ## Claims on the gradients in 3D -/

/-- C19, as stated, fails in both engines.  C++ engine, 3 x 3 x 4 grid, `phi[p] = p`,
buffers initially `0`: the entry of `DERX_right` at the cell `(1,1,2)` of the
second interior layer is written (it holds `12`).  C engine, 3 x 3 x 3 grid: the
entry at the cell `(1,1,0)` of the ghost layer `k = 0` is written (it holds `9`),
and the entry at the cell `(1,1,1)` of the first interior layer is not (it still
holds `0`). -/
theorem computeGradientPhi_3D_layers_counterexample :
    (CppEngine.computeGradientPhi rampArr (constBuffers 0) (sampleParams 3 3 3 4 allNoFlux)
        (mainR (sampleParams 3 3 3 4 allNoFlux))
        (mainStrides (sampleParams 3 3 3 4 allNoFlux))).DERX_right.get
        (IDX (mainStrides (sampleParams 3 3 3 4 allNoFlux)) 1 1 2) = 12 ∧
    (CEngine.computeGradientPhi rampArr (constBuffers 0) (sampleParams 3 3 3 3 allNoFlux)
        (mainR (sampleParams 3 3 3 3 allNoFlux))
        (mainStrides (sampleParams 3 3 3 3 allNoFlux))).DERX_right.get
        (IDX (mainStrides (sampleParams 3 3 3 3 allNoFlux)) 1 1 0) = 9 ∧
    (CEngine.computeGradientPhi rampArr (constBuffers 0) (sampleParams 3 3 3 3 allNoFlux)
        (mainR (sampleParams 3 3 3 3 allNoFlux))
        (mainStrides (sampleParams 3 3 3 3 allNoFlux))).DERX_right.get
        (IDX (mainStrides (sampleParams 3 3 3 3 allNoFlux)) 1 1 1) = 0 := by
  refine ⟨?_, ?_, ?_⟩
  · have h := CppEngine.cpp_computeGradientPhi_spec rampArr (constBuffers 0)
      (sampleParams 3 3 3 4 allNoFlux) (by simp [validGrid, sampleParams]) 1 1 2
      (by decide) (by decide) (by decide) (by decide) (by simp [interiorK, sampleParams])
    simp only [FieldBuffers.gradCell, specGradient, List.cons.injEq] at h
    rw [h.1]
    simp [rampArr, IDX, mainStrides, sampleParams]
    norm_num
  · have h := CEngine.c_computeGradientPhi_spec rampArr (constBuffers 0)
      (sampleParams 3 3 3 3 allNoFlux) (by decide) 1 1 (by decide) (by decide) (by decide)
      (by decide)
    simp only [FieldBuffers.gradCell, specGradient, List.cons.injEq] at h
    rw [h.1]
    simp [rampArr, IDX, mainStrides, sampleParams]
    norm_num
  · have h := (CEngine.c_computeGradientPhi_cell rampArr (constBuffers 0)
      (sampleParams 3 3 3 3 allNoFlux) (mainR (sampleParams 3 3 3 3 allNoFlux)) (by decide)).2
      (IDX (mainStrides (sampleParams 3 3 3 3 allNoFlux)) 1 1 1)
      (fun i j _ _ _ _ => IDX_ne _ ⟨by decide, by decide⟩ ⟨by decide, by decide⟩
        ⟨by omega, by omega⟩ ⟨by decide, by decide⟩ (Or.inr (Or.inr (by decide))))
    simp only [FieldBuffers.gradCell, List.cons.injEq] at h
    rw [h.1]
    rfl

/-- C19, amended.  When `DIM = 3`, the C++ `computeGradientPhi` processes every
interior cell, in every interior Z-layer `k = 1 .. NZ-2`, and writes no
derivative-buffer entry at any other index; the C `computeGradientPhi` processes
the cells `(i, j, 0)` of the layer `k = 0` (all interior `i, j`) and writes no
derivative-buffer entry at any other index. -/
theorem computeGradientPhi_3D_cells {F : Type} [Field F] (phi : Arr F) (fb : FieldBuffers F)
    (params : SimParams F) (hg : validGrid params) (h3 : params.DIM = 3) :
    (∀ i j k, 1 ≤ i → i ≤ params.Num_X - 2 → 1 ≤ j → j ≤ params.Num_Y - 2 → 1 ≤ k →
      k ≤ params.Num_Z - 2 →
      (CppEngine.computeGradientPhi phi fb params (mainR params) (mainStrides params)).gradCell
          (IDX (mainStrides params) i j k) = specGradient phi params i j k) ∧
    (∀ p, (∀ i j k, 1 ≤ i → i ≤ params.Num_X - 2 → 1 ≤ j → j ≤ params.Num_Y - 2 → 1 ≤ k →
        k ≤ params.Num_Z - 2 → p ≠ IDX (mainStrides params) i j k) →
      (CppEngine.computeGradientPhi phi fb params (mainR params) (mainStrides params)).gradCell p
        = fb.gradCell p) ∧
    (∀ i j, 1 ≤ i → i ≤ params.Num_X - 2 → 1 ≤ j → j ≤ params.Num_Y - 2 →
      (CEngine.computeGradientPhi phi fb params (mainR params) (mainStrides params)).gradCell
          (IDX (mainStrides params) i j 0) = specGradient phi params i j 0) ∧
    (∀ p, (∀ i j, 1 ≤ i → i ≤ params.Num_X - 2 → 1 ≤ j → j ≤ params.Num_Y - 2 →
        p ≠ IDX (mainStrides params) i j 0) →
      (CEngine.computeGradientPhi phi fb params (mainR params) (mainStrides params)).gradCell p
        = fb.gradCell p) := by
  have hk : ∀ k, interiorK params k ↔ (1 ≤ k ∧ k ≤ params.Num_Z - 2) := by
    intro k; unfold interiorK; simp [h3]
  have hNZ : 1 ≤ params.Num_Z := by
    obtain ⟨_, _, h | h⟩ := hg <;> omega
  refine ⟨?_, ?_, ?_, ?_⟩
  · intro i j k hi0 hi1 hj0 hj1 hk0 hk1
    exact CppEngine.cpp_computeGradientPhi_spec phi fb params hg i j k hi0 hi1 hj0 hj1
      ((hk k).2 ⟨hk0, hk1⟩)
  · intro p hp
    exact CppEngine.cpp_computeGradientPhi_frame phi fb params _ hg p
      (fun i j k h1 h2 h3 h4 h5 => hp i j k h1 h2 h3 h4 ((hk k).1 h5).1 ((hk k).1 h5).2)
  · intro i j hi0 hi1 hj0 hj1
    exact CEngine.c_computeGradientPhi_spec phi fb params hNZ i j hi0 hi1 hj0 hj1
  · intro p hp
    exact (CEngine.c_computeGradientPhi_cell phi fb params _ hNZ).2 p hp

/-- Witness for the amended C19: C++ engine, 3 x 3 x 4 grid, `phi[p] = p`, cell
`(1,1,2)` of the second interior layer (`strides = {12, 4, 1}`). -/
theorem computeGradientPhi_3D_cells_witness :
    validGrid (sampleParams 3 3 3 4 allNoFlux) ∧
    (CppEngine.computeGradientPhi rampArr (constBuffers 0) (sampleParams 3 3 3 4 allNoFlux)
        (mainR (sampleParams 3 3 3 4 allNoFlux))
        (mainStrides (sampleParams 3 3 3 4 allNoFlux))).gradCell
        (IDX (mainStrides (sampleParams 3 3 3 4 allNoFlux)) 1 1 2)
      = [12, 12, 4, 4, 12, 4, 12, 12, 4, 4] := by
  have hg : validGrid (sampleParams 3 3 3 4 allNoFlux) := by simp [validGrid, sampleParams]
  refine ⟨hg, ?_⟩
  rw [(computeGradientPhi_3D_cells rampArr (constBuffers 0) (sampleParams 3 3 3 4 allNoFlux)
    hg rfl).1 1 1 2 (by decide) (by decide) (by decide) (by decide) (by decide) (by decide)]
  simp [specGradient, rampArr, IDX, mainStrides, sampleParams]
  norm_num

/-! ## Gradients of a uniform field -/

/-- When the cell and its eight neighbours hold the same value, all ten
derivatives vanish. -/
theorem gradCell_uniform_all {F : Type} [Field F] (phi : Arr F) (params : SimParams F)
    (fb : FieldBuffers F) (idx : Int) (i j k : Int) (c : F)
    (h : fb.gradCell idx = specGradient phi params i j k)
    (h0 : phi.get (IDX (mainStrides params) i j k) = c)
    (hE : phi.get (IDX (mainStrides params) (i + 1) j k) = c)
    (hW : phi.get (IDX (mainStrides params) (i - 1) j k) = c)
    (hN : phi.get (IDX (mainStrides params) i (j + 1) k) = c)
    (hS : phi.get (IDX (mainStrides params) i (j - 1) k) = c)
    (hNE : phi.get (IDX (mainStrides params) (i + 1) (j + 1) k) = c)
    (hNW : phi.get (IDX (mainStrides params) (i - 1) (j + 1) k) = c)
    (hSE : phi.get (IDX (mainStrides params) (i + 1) (j - 1) k) = c)
    (hSW : phi.get (IDX (mainStrides params) (i - 1) (j - 1) k) = c) :
    fb.gradCell idx = [0, 0, 0, 0, 0, 0, 0, 0, 0, 0] := by
  rw [h]
  simp only [specGradient, h0, hE, hW, hN, hS, hNE, hNW, hSE, hSW, sub_self, zero_div, mul_zero]

/-- In 2D with the four faces NoFlux or Periodic, an array that holds `v` at
every interior cell and at the four corner ghost cells holds `v` at every cell
once the boundary conditions are enforced. -/
theorem applyBC_uniform_all {F : Type} (arr : Arr F) (params : SimParams F)
    (bc : FaceBoundary) (hg : validGrid params) (h2 : params.DIM = 2)
    (hl : bc.left ≠ BoundaryType.BOUNDARY_UNDEFINED)
    (hr : bc.right ≠ BoundaryType.BOUNDARY_UNDEFINED)
    (hb : bc.bottom ≠ BoundaryType.BOUNDARY_UNDEFINED)
    (ht : bc.top ≠ BoundaryType.BOUNDARY_UNDEFINED) (v : F)
    (hv : ∀ i j, 1 ≤ i → i ≤ params.Num_X - 2 → 1 ≤ j → j ≤ params.Num_Y - 2 →
      arr.get (IDX (mainStrides params) i j 0) = v)
    (hc : ∀ i j, (i = 0 ∨ i = params.Num_X - 1) → (j = 0 ∨ j = params.Num_Y - 1) →
      arr.get (IDX (mainStrides params) i j 0) = v)
    (i j : Int) (hi0 : 0 ≤ i) (hi1 : i ≤ params.Num_X - 1) (hj0 : 0 ≤ j)
    (hj1 : j ≤ params.Num_Y - 1) :
    (applyBoundaryConditions arr params (mainStrides params) bc).get
        (IDX (mainStrides params) i j 0) = v := by
  by_cases hcorner : (i = 0 ∨ i = params.Num_X - 1) ∧ (j = 0 ∨ j = params.Num_Y - 1)
  · obtain ⟨hNZ, hk⟩ := validGrid_2D hg h2
    have hNX := hg.1
    have hNY := hg.2.1
    rw [applyBC_frame arr params bc hg i j 0 hj0 (by omega) (le_refl _) (by omega)
      (by rintro ⟨-, h, h', -⟩; omega) (by rintro ⟨-, h, h', -⟩; omega)
      (by rintro ⟨h, -⟩; omega)]
    exact hc i j hcorner.1 hcorner.2
  · exact applyBC_uniform_noncorner arr params bc hg h2 hl hr hb ht v hv i j hi0 hi1 hj0 hj1
      hcorner

/-- C12, evaluated on the code (C++ engine): 4 x 4 grid, `dx = dy = 1`, phi equal to
`1/2` at every cell except the corner ghost cell `(0,3)` (flattened index `3`),
which holds `0`; phi is uniform on the interior.  After `applyBoundaryConditions`
with every face NoFlux, and likewise with every face Periodic,
`computeGradientPhi` stores `DERX_top = 1/8` at the interior cell `(1,2)`, not
`0`: the stencil reads the corner `(0,3)`, which the boundary pass leaves as it
was. -/
theorem uniform_phi_gradient_nonzero_next_to_corner :
    (∀ i j : Int, 1 ≤ i → i ≤ 2 → 1 ≤ j → j ≤ 2 →
      ((Arr.const (1 / 2 : ℚ)).set 3 0).get
        (IDX (mainStrides (sampleParams 2 4 4 1 allNoFlux)) i j 0) = 1 / 2) ∧
    (CppEngine.computeGradientPhi
        (applyBoundaryConditions ((Arr.const (1 / 2 : ℚ)).set 3 0)
          (sampleParams 2 4 4 1 allNoFlux) (mainStrides (sampleParams 2 4 4 1 allNoFlux))
          allNoFlux)
        (constBuffers 0) (sampleParams 2 4 4 1 allNoFlux)
        (mainR (sampleParams 2 4 4 1 allNoFlux))
        (mainStrides (sampleParams 2 4 4 1 allNoFlux))).DERX_top.get
        (IDX (mainStrides (sampleParams 2 4 4 1 allNoFlux)) 1 2 0) = 1 / 8 ∧
    (CppEngine.computeGradientPhi
        (applyBoundaryConditions ((Arr.const (1 / 2 : ℚ)).set 3 0)
          (sampleParams 2 4 4 1 allNoFlux) (mainStrides (sampleParams 2 4 4 1 allNoFlux))
          allPeriodic)
        (constBuffers 0) (sampleParams 2 4 4 1 allNoFlux)
        (mainR (sampleParams 2 4 4 1 allNoFlux))
        (mainStrides (sampleParams 2 4 4 1 allNoFlux))).DERX_top.get
        (IDX (mainStrides (sampleParams 2 4 4 1 allNoFlux)) 1 2 0) = 1 / 8 := by
  have hg : validGrid (sampleParams 2 4 4 1 allNoFlux) := by simp [validGrid, sampleParams]
  have hk : interiorK (sampleParams 2 4 4 1 allNoFlux) 0 := by simp [interiorK, sampleParams]
  have hint : ∀ i j : Int, 1 ≤ i → i ≤ 2 → 1 ≤ j → j ≤ 2 →
      ((Arr.const (1 / 2 : ℚ)).set 3 0).get
        (IDX (mainStrides (sampleParams 2 4 4 1 allNoFlux)) i j 0) = 1 / 2 := by
    intro i j h1 h2 h3 h4
    have hne : IDX (mainStrides (sampleParams 2 4 4 1 allNoFlux)) i j 0 ≠ 3 := by
      simp [IDX, mainStrides, sampleParams]; omega
    rw [Arr.get_set_ne _ _ hne]
    rfl
  have key : ∀ bc : FaceBoundary, bc.left ≠ BoundaryType.BOUNDARY_UNDEFINED →
      bc.right ≠ BoundaryType.BOUNDARY_UNDEFINED → bc.bottom ≠ BoundaryType.BOUNDARY_UNDEFINED →
      bc.top ≠ BoundaryType.BOUNDARY_UNDEFINED →
      (CppEngine.computeGradientPhi
        (applyBoundaryConditions ((Arr.const (1 / 2 : ℚ)).set 3 0)
          (sampleParams 2 4 4 1 allNoFlux) (mainStrides (sampleParams 2 4 4 1 allNoFlux)) bc)
        (constBuffers 0) (sampleParams 2 4 4 1 allNoFlux)
        (mainR (sampleParams 2 4 4 1 allNoFlux))
        (mainStrides (sampleParams 2 4 4 1 allNoFlux))).DERX_top.get
        (IDX (mainStrides (sampleParams 2 4 4 1 allNoFlux)) 1 2 0) = 1 / 8 := by
    intro bc hl hr hb ht
    have h := CppEngine.cpp_computeGradientPhi_spec
      (applyBoundaryConditions ((Arr.const (1 / 2 : ℚ)).set 3 0)
        (sampleParams 2 4 4 1 allNoFlux) (mainStrides (sampleParams 2 4 4 1 allNoFlux)) bc)
      (constBuffers 0) (sampleParams 2 4 4 1 allNoFlux) hg 1 2 0
      (by decide) (by decide) (by decide) (by decide) hk
    simp only [FieldBuffers.gradCell, specGradient, List.cons.injEq] at h
    rw [h.2.2.2.2.2.2.1]
    have nc : ∀ i j : Int, 0 ≤ i → i ≤ 3 → 0 ≤ j → j ≤ 3 →
        ¬ ((i = 0 ∨ i = 3) ∧ (j = 0 ∨ j = 3)) →
        (applyBoundaryConditions ((Arr.const (1 / 2 : ℚ)).set 3 0)
          (sampleParams 2 4 4 1 allNoFlux) (mainStrides (sampleParams 2 4 4 1 allNoFlux)) bc).get
          (IDX (mainStrides (sampleParams 2 4 4 1 allNoFlux)) i j 0) = 1 / 2 :=
      fun i j h1 h2 h3 h4 h5 =>
        applyBC_uniform_noncorner _ (sampleParams 2 4 4 1 allNoFlux) bc hg rfl hl hr hb ht
          (1 / 2) hint i j h1 h2 h3 h4 h5
    have corner : (applyBoundaryConditions ((Arr.const (1 / 2 : ℚ)).set 3 0)
          (sampleParams 2 4 4 1 allNoFlux) (mainStrides (sampleParams 2 4 4 1 allNoFlux)) bc).get
          (IDX (mainStrides (sampleParams 2 4 4 1 allNoFlux)) (1 - 1) (2 + 1) 0) = 0 := by
      rw [applyBC_frame _ _ bc hg (1 - 1) (2 + 1) 0 (by decide) (by decide) (by decide)
        (by decide) (by simp [sampleParams]) (by simp [sampleParams]) (by simp [sampleParams])]
      rfl
    rw [nc (1 + 1) 2 (by decide) (by decide) (by decide) (by decide) (by decide),
      nc (1 + 1) (2 + 1) (by decide) (by decide) (by decide) (by decide) (by decide),
      nc 1 2 (by decide) (by decide) (by decide) (by decide) (by decide),
      nc 1 (2 + 1) (by decide) (by decide) (by decide) (by decide) (by decide),
      nc (1 - 1) 2 (by decide) (by decide) (by decide) (by decide) (by decide), corner]
    simp [sampleParams]
    norm_num
  exact ⟨hint, key allNoFlux (by decide) (by decide) (by decide) (by decide),
    key allPeriodic (by decide) (by decide) (by decide) (by decide)⟩

/-! ## Anisotropy -/

theorem anisotropyCell_anisoCell_ne {F : Type} [Field F] (lib : MathLib F)
    (params : SimParams F) (idx : Int) (fb : FieldBuffers F) (p : Int) (hp : p ≠ idx) :
    (anisotropyCell lib params idx fb).anisoCell p = fb.anisoCell p := by
  simp [anisotropyCell, FieldBuffers.anisoCell, hp]

/-- The assignments of one cell leave the derivative buffers as they are. -/
theorem anisotropyCell_gradCell {F : Type} [Field F] (lib : MathLib F)
    (params : SimParams F) (idx : Int) (fb : FieldBuffers F) (p : Int) :
    (anisotropyCell lib params idx fb).gradCell p = fb.gradCell p := rfl

/-- What the assignments of one cell store: the ten values of the
specification, with the angles taken from the derivative buffers at that cell. -/
theorem anisotropyCell_value {F : Type} [Field F] (lib : MathLib F)
    (params : SimParams F) (idx : Int) (fb : FieldBuffers F) :
    (anisotropyCell lib params idx fb).anisoCell idx = specAnisotropy lib params fb idx := by
  simp only [anisotropyCell, FieldBuffers.anisoCell, specAnisotropy, specA, specAp, Arr.get_set,
    if_true, neg_mul, mul_assoc]

theorem specAnisotropy_congr {F : Type} [Field F] (lib : MathLib F)
    (params : SimParams F) (idx : Int) (fb fb' : FieldBuffers F)
    (h : fb.gradCell idx = fb'.gradCell idx) :
    specAnisotropy lib params fb idx = specAnisotropy lib params fb' idx := by
  simp only [FieldBuffers.gradCell, List.cons.injEq, and_true] at h
  obtain ⟨h1, h2, h3, h4, h5, h6, h7, h8, h9, h10⟩ := h
  simp only [specAnisotropy, h1, h2, h3, h4, h5, h6, h7, h8, h9, h10]

/-- The loop nest of `computeAnisotropy` over the cells `(i, j, c)` of the layer
`c`: the cells it processes hold the values of the specification, every other
entry of the anisotropy buffers is left as it was, and the derivative buffers
are not modified. -/
theorem anisotropyLoop_spec {F : Type} [Field F] (lib : MathLib F) (fb : FieldBuffers F)
    (params : SimParams F) (c : Int) (hc0 : 0 ≤ c) (hc1 : c < params.Num_Z) :
    (∀ i j, 1 ≤ i → i ≤ params.Num_X - 2 → 1 ≤ j → j ≤ params.Num_Y - 2 →
      (forLoop 1 (params.Num_X - 1) (fun i s => forLoop 1 (params.Num_Y - 1) (fun j s =>
          anisotropyCell lib params (IDX (mainStrides params) i j c) s) s) fb).anisoCell
          (IDX (mainStrides params) i j c)
        = specAnisotropy lib params fb (IDX (mainStrides params) i j c)) ∧
    (∀ p, (∀ i j, 1 ≤ i → i ≤ params.Num_X - 2 → 1 ≤ j → j ≤ params.Num_Y - 2 →
        p ≠ IDX (mainStrides params) i j c) →
      (forLoop 1 (params.Num_X - 1) (fun i s => forLoop 1 (params.Num_Y - 1) (fun j s =>
          anisotropyCell lib params (IDX (mainStrides params) i j c) s) s) fb).anisoCell p
        = fb.anisoCell p) := by
  obtain ⟨-, hf, hv⟩ := cellLoop2_layer_spec (σ := FieldBuffers F)
    (fun s p => (s.anisoCell p, s.gradCell p))
    (fun _ => 0) 0 (fun s _ => s) params (fun idx s => anisotropyCell lib params idx s) c hc0 hc1
    (fun _ _ _ => rfl) (fun _ _ => by simp) (fun _ _ => rfl)
    (fun idx s p hp => by
      beta_reduce
      rw [anisotropyCell_anisoCell_ne lib params idx s p hp, anisotropyCell_gradCell])
    (fun idx s s' h _ => by
      beta_reduce at h ⊢
      rw [anisotropyCell_value, anisotropyCell_value, anisotropyCell_gradCell,
        anisotropyCell_gradCell, specAnisotropy_congr lib params idx s s' (Prod.mk.inj h).2,
        (Prod.mk.inj h).2])
    fb
  refine ⟨?_, ?_⟩
  · intro i j hi0 hi1 hj0 hj1
    have := hv i j hi0 (by omega) hj0 (by omega) fb rfl (by simp)
    rw [← anisotropyCell_value]
    exact (Prod.mk.inj this).1
  · intro p hp
    exact (Prod.mk.inj (hf p (fun i j h1 h2 h3 h4 => hp i j h1 (by omega) h3 (by omega)))).1

/-- The loop nest of `computeAnisotropy` writes the ten anisotropy buffers only. -/
theorem anisotropyLoop_others {F : Type} [Field F] (lib : MathLib F) (fb : FieldBuffers F)
    (params : SimParams F) (strides : Fin 3 → Int) (c : Int) (p : Int) :
    (forLoop 1 (params.Num_X - 1) (fun i s => forLoop 1 (params.Num_Y - 1) (fun j s =>
        anisotropyCell lib params (IDX strides i j c) s) s) fb).gradCell p = fb.gradCell p ∧
    (forLoop 1 (params.Num_X - 1) (fun i s => forLoop 1 (params.Num_Y - 1) (fun j s =>
        anisotropyCell lib params (IDX strides i j c) s) s) fb).dfdphi = fb.dfdphi ∧
    (forLoop 1 (params.Num_X - 1) (fun i s => forLoop 1 (params.Num_Y - 1) (fun j s =>
        anisotropyCell lib params (IDX strides i j c) s) s) fb).phi_new = fb.phi_new ∧
    (forLoop 1 (params.Num_X - 1) (fun i s => forLoop 1 (params.Num_Y - 1) (fun j s =>
        anisotropyCell lib params (IDX strides i j c) s) s) fb).dphi_dt = fb.dphi_dt ∧
    (forLoop 1 (params.Num_X - 1) (fun i s => forLoop 1 (params.Num_Y - 1) (fun j s =>
        anisotropyCell lib params (IDX strides i j c) s) s) fb).temp_new = fb.temp_new := by
  have h := forLoop_preserve
    (fun s : FieldBuffers F => (s.gradCell p, s.dfdphi, s.phi_new, s.dphi_dt, s.temp_new))
    (fun i s => forLoop 1 (params.Num_Y - 1) (fun j s =>
        anisotropyCell lib params (IDX strides i j c) s) s)
    (fun i s => forLoop_preserve
      (fun s : FieldBuffers F => (s.gradCell p, s.dfdphi, s.phi_new, s.dphi_dt, s.temp_new))
      (fun j s => anisotropyCell lib params (IDX strides i j c) s) (fun j s => rfl) _ _ s)
    1 (params.Num_X - 1) fb
  simp only [Prod.mk.injEq] at h
  exact h

/-- The Z index of the layer that the C++ `computeAnisotropy` processes lies in
the allocated range. -/
theorem anisoLayer_bounds {F : Type} {params : SimParams F} (hg : validGrid params) :
    (0 : Int) ≤ (if params.DIM = 3 then 1 else 0) ∧
    (if params.DIM = 3 then 1 else 0) < params.Num_Z := by
  refine ⟨by split <;> omega, ?_⟩
  obtain ⟨_, _, h | h⟩ := hg
  · have : params.DIM ≠ 3 := by omega
    simp only [this, if_false]; omega
  · simp only [h.1, if_true]; omega

/-- The C++ `computeAnisotropy`: the cells `(i, j, c)` of the layer it processes
(`c = 1` when `DIM = 3`, else `c = 0`) hold the values of the specification, and
no other entry of the anisotropy buffers is written. -/
theorem CppEngine.cpp_computeAnisotropy_spec {F : Type} [Field F] (lib : MathLib F)
    (fb : FieldBuffers F) (params : SimParams F) (hg : validGrid params) :
    (∀ i j, 1 ≤ i → i ≤ params.Num_X - 2 → 1 ≤ j → j ≤ params.Num_Y - 2 →
      (CppEngine.computeAnisotropy lib fb params (mainStrides params)).anisoCell
          (IDX (mainStrides params) i j (if params.DIM = 3 then 1 else 0))
        = specAnisotropy lib params fb
          (IDX (mainStrides params) i j (if params.DIM = 3 then 1 else 0))) ∧
    (∀ p, (∀ i j, 1 ≤ i → i ≤ params.Num_X - 2 → 1 ≤ j → j ≤ params.Num_Y - 2 →
        p ≠ IDX (mainStrides params) i j (if params.DIM = 3 then 1 else 0)) →
      (CppEngine.computeAnisotropy lib fb params (mainStrides params)).anisoCell p
        = fb.anisoCell p) :=
  anisotropyLoop_spec lib fb params _ (anisoLayer_bounds hg).1 (anisoLayer_bounds hg).2

/-- The C `computeAnisotropy`: the cells `(i, j, 0)` hold the values of the
specification, and no other entry of the anisotropy buffers is written. -/
theorem CEngine.c_computeAnisotropy_spec {F : Type} [Field F] (lib : MathLib F)
    (fb : FieldBuffers F) (params : SimParams F) (hNZ : 1 ≤ params.Num_Z) :
    (∀ i j, 1 ≤ i → i ≤ params.Num_X - 2 → 1 ≤ j → j ≤ params.Num_Y - 2 →
      (CEngine.computeAnisotropy lib fb params (mainStrides params)).anisoCell
          (IDX (mainStrides params) i j 0)
        = specAnisotropy lib params fb (IDX (mainStrides params) i j 0)) ∧
    (∀ p, (∀ i j, 1 ≤ i → i ≤ params.Num_X - 2 → 1 ≤ j → j ≤ params.Num_Y - 2 →
        p ≠ IDX (mainStrides params) i j 0) →
      (CEngine.computeAnisotropy lib fb params (mainStrides params)).anisoCell p
        = fb.anisoCell p) :=
  anisotropyLoop_spec lib fb params 0 (le_refl _) (by omega)

/-- The C++ `computeAnisotropy` writes the ten anisotropy buffers only. -/
theorem CppEngine.cpp_computeAnisotropy_others {F : Type} [Field F] (lib : MathLib F)
    (fb : FieldBuffers F) (params : SimParams F) (strides : Fin 3 → Int) (p : Int) :
    (CppEngine.computeAnisotropy lib fb params strides).gradCell p = fb.gradCell p ∧
    (CppEngine.computeAnisotropy lib fb params strides).dfdphi = fb.dfdphi ∧
    (CppEngine.computeAnisotropy lib fb params strides).phi_new = fb.phi_new ∧
    (CppEngine.computeAnisotropy lib fb params strides).dphi_dt = fb.dphi_dt ∧
    (CppEngine.computeAnisotropy lib fb params strides).temp_new = fb.temp_new :=
  anisotropyLoop_others lib fb params strides _ p

/-- With `delta = 0` the ten values of the specification are `epsilon` and `0`. -/
theorem specAnisotropy_isotropic {F : Type} [Field F] (lib : MathLib F)
    (params : SimParams F) (fb : FieldBuffers F) (idx : Int) (hd : params.delta = 0) :
    specAnisotropy lib params fb idx
      = [params.epsilon, 0, params.epsilon, 0, params.epsilon, 0, params.epsilon, 0,
         params.epsilon, 0] := by
  simp [specAnisotropy, specA, specAp, hd]

/-! ## Claims on the anisotropy -/

/-- C16. For every interior cell of a 2D grid, `computeAnisotropy` (both engines)
stores `ac = epsilon*(1 + delta*cos(j*(theta - theta_0)))` and
`ac_p = -epsilon*delta*j*sin(j*(theta - theta_0))` with
`theta = atan2(DERY_c, DERX_c)`, and the same two formulas at the right, left, top
and bottom positions with `theta` taken from `(DERY_right, DERX_right)`,
`(DERY_left, DERX_left)`, `(DERY_top, DERX_top)`, `(DERY_bottom, DERX_bottom)`
(the list `specAnisotropy`, read off the derivative buffers passed in). -/
theorem computeAnisotropy_2D_values {F : Type} [Field F] (lib : MathLib F)
    (fb : FieldBuffers F) (params : SimParams F) (hg : validGrid params) (h2 : params.DIM = 2)
    (i j : Int) (hi0 : 1 ≤ i) (hi1 : i ≤ params.Num_X - 2) (hj0 : 1 ≤ j)
    (hj1 : j ≤ params.Num_Y - 2) :
    (CppEngine.computeAnisotropy lib fb params (mainStrides params)).anisoCell
        (IDX (mainStrides params) i j 0)
      = specAnisotropy lib params fb (IDX (mainStrides params) i j 0) ∧
    (CEngine.computeAnisotropy lib fb params (mainStrides params)).anisoCell
        (IDX (mainStrides params) i j 0)
      = specAnisotropy lib params fb (IDX (mainStrides params) i j 0) := by
  obtain ⟨hNZ, -⟩ := validGrid_2D hg h2
  have e : (if params.DIM = 3 then (1 : Int) else 0) = 0 := by simp [h2]
  have h := (CppEngine.cpp_computeAnisotropy_spec lib fb params hg).1 i j hi0 hi1 hj0 hj1
  rw [e] at h
  exact ⟨h, (CEngine.c_computeAnisotropy_spec lib fb params (by omega)).1 i j hi0 hi1 hj0 hj1⟩

/-- Witness for C16: 4 x 4 grid, `epsilon = 1`, `delta = 1/2`, `j = 4`,
`theta_0 = 0`, derivative buffers `0`, cell `(2,1)`: every angle is
`atan2(0, 0) = 0`, so `a = 1 + 1/2 * cos 0 = 3/2` and `a' = -2 * sin 0 = 0`. -/
theorem computeAnisotropy_2D_values_witness :
    validGrid { sampleParams 2 4 4 1 allNoFlux with delta := 1 / 2 } ∧
    (CppEngine.computeAnisotropy approxMath (constBuffers 0)
        { sampleParams 2 4 4 1 allNoFlux with delta := 1 / 2 }
        (mainStrides { sampleParams 2 4 4 1 allNoFlux with delta := 1 / 2 })).anisoCell
        (IDX (mainStrides { sampleParams 2 4 4 1 allNoFlux with delta := 1 / 2 }) 2 1 0)
      = [3 / 2, 0, 3 / 2, 0, 3 / 2, 0, 3 / 2, 0, 3 / 2, 0] := by
  have hg : validGrid { sampleParams 2 4 4 1 allNoFlux with delta := 1 / 2 } := by
    simp [validGrid, sampleParams]
  refine ⟨hg, ?_⟩
  rw [(computeAnisotropy_2D_values approxMath (constBuffers 0)
    { sampleParams 2 4 4 1 allNoFlux with delta := 1 / 2 } hg rfl 2 1 (by decide) (by decide)
    (by decide) (by decide)).1]
  simp [specAnisotropy, specA, specAp, approxMath, constBuffers, Arr.const, sampleParams]
  norm_num

/-- C17. If `delta = 0` then, whatever the derivative buffers hold and whatever
`j`, `theta_0`, `epsilon` and the library functions are, `computeAnisotropy`
stores `ac = ac_right = ac_left = ac_top = ac_bottom = epsilon` and
`ac_p = ac_p_right = ac_p_left = ac_p_top = ac_p_bottom = 0` at every cell it
processes: in the C++ engine the cells `(i, j, c)` with `i, j` interior and
`c = 1` when `DIM = 3`, `c = 0` otherwise (no other entry is written); in the C
engine the cells `(i, j, 0)`. -/
theorem computeAnisotropy_isotropic {F : Type} [Field F] (lib : MathLib F)
    (fb : FieldBuffers F) (params : SimParams F) (hg : validGrid params)
    (hd : params.delta = 0) :
    (∀ i j, 1 ≤ i → i ≤ params.Num_X - 2 → 1 ≤ j → j ≤ params.Num_Y - 2 →
      (CppEngine.computeAnisotropy lib fb params (mainStrides params)).anisoCell
          (IDX (mainStrides params) i j (if params.DIM = 3 then 1 else 0))
        = [params.epsilon, 0, params.epsilon, 0, params.epsilon, 0, params.epsilon, 0,
           params.epsilon, 0]) ∧
    (∀ p, (∀ i j, 1 ≤ i → i ≤ params.Num_X - 2 → 1 ≤ j → j ≤ params.Num_Y - 2 →
        p ≠ IDX (mainStrides params) i j (if params.DIM = 3 then 1 else 0)) →
      (CppEngine.computeAnisotropy lib fb params (mainStrides params)).anisoCell p
        = fb.anisoCell p) ∧
    (∀ i j, 1 ≤ i → i ≤ params.Num_X - 2 → 1 ≤ j → j ≤ params.Num_Y - 2 →
      (CEngine.computeAnisotropy lib fb params (mainStrides params)).anisoCell
          (IDX (mainStrides params) i j 0)
        = [params.epsilon, 0, params.epsilon, 0, params.epsilon, 0, params.epsilon, 0,
           params.epsilon, 0]) := by
  have hNZ : 1 ≤ params.Num_Z := by
    obtain ⟨_, _, h | h⟩ := hg <;> omega
  refine ⟨?_, (CppEngine.cpp_computeAnisotropy_spec lib fb params hg).2, ?_⟩
  · intro i j hi0 hi1 hj0 hj1
    rw [(CppEngine.cpp_computeAnisotropy_spec lib fb params hg).1 i j hi0 hi1 hj0 hj1]
    exact specAnisotropy_isotropic lib params fb _ hd
  · intro i j hi0 hi1 hj0 hj1
    rw [(CEngine.c_computeAnisotropy_spec lib fb params hNZ).1 i j hi0 hi1 hj0 hj1]
    exact specAnisotropy_isotropic lib params fb _ hd

/-- Witness for C17: C++ engine, 3 x 3 x 3 grid, `epsilon = 1`, `delta = 0`, every
buffer holding `5` before the call, cell `(1,1,1)`. -/
theorem computeAnisotropy_isotropic_witness :
    validGrid (sampleParams 3 3 3 3 allNoFlux) ∧ (sampleParams 3 3 3 3 allNoFlux).delta = 0 ∧
    (CppEngine.computeAnisotropy approxMath (constBuffers 5) (sampleParams 3 3 3 3 allNoFlux)
        (mainStrides (sampleParams 3 3 3 3 allNoFlux))).anisoCell
        (IDX (mainStrides (sampleParams 3 3 3 3 allNoFlux)) 1 1 1)
      = [1, 0, 1, 0, 1, 0, 1, 0, 1, 0] :=
  ⟨by simp [validGrid, sampleParams], rfl,
    (computeAnisotropy_isotropic approxMath (constBuffers 5) (sampleParams 3 3 3 3 allNoFlux)
      (by simp [validGrid, sampleParams]) rfl).1 1 1 (by decide) (by decide) (by decide)
      (by decide)⟩

/-- C18, evaluated on the code (C++ engine): 3 x 3 x 4 grid (interior layers
`k = 1, 2`), `epsilon = tau = dt = dx = 1`, `delta = 0`, `a = 0`, `phi = 0`,
`DERX_right = 1` everywhere and every other buffer `0`, except that `ac_right`
holds an arbitrary value `g` before the call.  `computeAnisotropy` writes the
cell `(1,1,1)` of the first interior layer (`ac_right = epsilon = 1` there) and
leaves the ten anisotropy entries at the cell `(1,1,2)` of the second interior
layer as they were; `updatePhi`, run next, evaluates the fluxes at `(1,1,2)` from
those entries and stores `phi_new = g * g` there: the value depends on an entry
that `computeAnisotropy` did not produce. -/
theorem updatePhi_reads_unwritten_anisotropy (g : ℚ) :
    (CppEngine.computeAnisotropy approxMath
        { constBuffers (0 : ℚ) with DERX_right := Arr.const 1, ac_right := Arr.const g }
        (sampleParams 3 3 3 4 allNoFlux)
        (mainStrides (sampleParams 3 3 3 4 allNoFlux))).ac_right.get
        (IDX (mainStrides (sampleParams 3 3 3 4 allNoFlux)) 1 1 1) = 1 ∧
    (CppEngine.computeAnisotropy approxMath
        { constBuffers (0 : ℚ) with DERX_right := Arr.const 1, ac_right := Arr.const g }
        (sampleParams 3 3 3 4 allNoFlux)
        (mainStrides (sampleParams 3 3 3 4 allNoFlux))).anisoCell
        (IDX (mainStrides (sampleParams 3 3 3 4 allNoFlux)) 1 1 2)
      = [0, 0, g, 0, 0, 0, 0, 0, 0, 0] ∧
    (CppEngine.updatePhi (Arr.const 0)
        (CppEngine.computeAnisotropy approxMath
          { constBuffers (0 : ℚ) with DERX_right := Arr.const 1, ac_right := Arr.const g }
          (sampleParams 3 3 3 4 allNoFlux) (mainStrides (sampleParams 3 3 3 4 allNoFlux)))
        (sampleParams 3 3 3 4 allNoFlux) (mainR (sampleParams 3 3 3 4 allNoFlux))
        (mainStrides (sampleParams 3 3 3 4 allNoFlux)) 2147483647 (fun _ => 0) 0).1.phi_new.get
        (IDX (mainStrides (sampleParams 3 3 3 4 allNoFlux)) 1 1 2) = g * g := by
  have hg : validGrid (sampleParams 3 3 3 4 allNoFlux) := by simp [validGrid, sampleParams]
  have hk : interiorK (sampleParams 3 3 3 4 allNoFlux) 2 := by simp [interiorK, sampleParams]
  obtain ⟨hv, hf⟩ := CppEngine.cpp_computeAnisotropy_spec approxMath
    { constBuffers (0 : ℚ) with DERX_right := Arr.const 1, ac_right := Arr.const g }
    (sampleParams 3 3 3 4 allNoFlux) hg
  obtain ⟨hgr, hdf, -, -, -⟩ := CppEngine.cpp_computeAnisotropy_others approxMath
    { constBuffers (0 : ℚ) with DERX_right := Arr.const 1, ac_right := Arr.const g }
    (sampleParams 3 3 3 4 allNoFlux) (mainStrides (sampleParams 3 3 3 4 allNoFlux))
    (IDX (mainStrides (sampleParams 3 3 3 4 allNoFlux)) 1 1 2)
  have h2 := hf (IDX (mainStrides (sampleParams 3 3 3 4 allNoFlux)) 1 1 2)
    (fun i j _ _ _ _ => IDX_ne _ ⟨by decide, by decide⟩ ⟨by decide, by decide⟩
      ⟨by omega, by omega⟩ ⟨by decide, by decide⟩ (Or.inr (Or.inr (by decide))))
  refine ⟨?_, h2, ?_⟩
  · have h1 := hv 1 1 (by decide) (by decide) (by decide) (by decide)
    rw [specAnisotropy_isotropic _ _ _ _ rfl] at h1
    simp only [FieldBuffers.anisoCell, List.cons.injEq] at h1
    exact h1.2.2.1
  · have hc := CppEngine.cpp_updatePhi_cell (Arr.const (0 : ℚ))
      (CppEngine.computeAnisotropy approxMath
        { constBuffers (0 : ℚ) with DERX_right := Arr.const 1, ac_right := Arr.const g }
        (sampleParams 3 3 3 4 allNoFlux) (mainStrides (sampleParams 3 3 3 4 allNoFlux)))
      (sampleParams 3 3 3 4 allNoFlux) (mainR (sampleParams 3 3 3 4 allNoFlux)) 2147483647
      (fun _ => 0) 0 hg 1 1 2 (by decide) (by decide) (by decide) (by decide) hk
    simp only [FieldBuffers.phiCell, List.cons.injEq] at hc
    rw [hc.1, (CppEngine.cpp_updatePhiCell_value _ _ _ _ _ _ _).2]
    simp only [FieldBuffers.anisoCell, FieldBuffers.gradCell, List.cons.injEq] at h2 hgr
    obtain ⟨-, -, a3, a4, a5, a6, a7, a8, a9, a10, -⟩ := h2
    obtain ⟨g1, g2, g3, g4, -, -, g7, g8, g9, g10, -⟩ := hgr
    simp only [specDphiDt, a3, a4, a5, a6, a7, a8, a9, a10, g1, g2, g3, g4, g7, g8, g9, g10, hdf]
    simp [constBuffers, Arr.const, sampleParams]

/-! ## Free-energy forcing -/

theorem dfdphiCell_ne {F : Type} [Field F] (lib : MathLib F) (phi temp : Arr F)
    (params : SimParams F) (idx : Int) (dfdphi : Arr F) (p : Int) (hp : p ≠ idx) :
    (dfdphiCell lib phi temp params idx dfdphi).get p = dfdphi.get p := by
  simp [dfdphiCell, hp]

/-- What the statements of one cell store. -/
theorem dfdphiCell_self {F : Type} [Field F] (lib : MathLib F) (phi temp : Arr F)
    (params : SimParams F) (idx : Int) (dfdphi : Arr F) :
    (dfdphiCell lib phi temp params idx dfdphi).get idx
      = phi.get idx * (1 - phi.get idx)
          * (phi.get idx - 1 / 2 + couplingM lib params (temp.get idx)) := by
  simp [dfdphiCell, couplingM]

/-- The C++ `computedfdphi`: every interior cell holds the forcing term of its own
phi and temp, and no other entry is written. -/
theorem CppEngine.cpp_computedfdphi_spec {F : Type} [Field F] (lib : MathLib F)
    (phi dfdphi temp : Arr F) (params : SimParams F) (hg : validGrid params) :
    (∀ i j k, 1 ≤ i → i ≤ params.Num_X - 2 → 1 ≤ j → j ≤ params.Num_Y - 2 →
      interiorK params k →
      (CppEngine.computedfdphi lib phi dfdphi temp params (mainStrides params)).get
          (IDX (mainStrides params) i j k)
        = phi.get (IDX (mainStrides params) i j k) * (1 - phi.get (IDX (mainStrides params) i j k))
          * (phi.get (IDX (mainStrides params) i j k) - 1 / 2
              + couplingM lib params (temp.get (IDX (mainStrides params) i j k)))) ∧
    (∀ p, (∀ i j k, 1 ≤ i → i ≤ params.Num_X - 2 → 1 ≤ j → j ≤ params.Num_Y - 2 →
        interiorK params k → p ≠ IDX (mainStrides params) i j k) →
      (CppEngine.computedfdphi lib phi dfdphi temp params (mainStrides params)).get p
        = dfdphi.get p) := by
  obtain ⟨hks, hke⟩ := kloop_bounds hg
  obtain ⟨-, hf, hv⟩ := cellLoop3_spec (σ := Arr F) (fun s p => s.get p)
    (fun _ => 0) 0 (fun s _ => s) params (fun idx s => dfdphiCell lib phi temp params idx s)
    (if params.DIM = 3 then 1 else 0) (if params.DIM = 3 then params.Num_Z - 1 else 1)
    hks hke (fun _ _ _ => rfl) (fun _ _ => by simp) (fun _ _ => rfl)
    (fun idx s p hp => dfdphiCell_ne lib phi temp params idx s p hp)
    (fun idx s s' _ _ => by
      beta_reduce
      rw [dfdphiCell_self, dfdphiCell_self]) dfdphi
  refine ⟨?_, ?_⟩
  · intro i j k hi0 hi1 hj0 hj1 hk
    obtain ⟨hk0, hk1, -, -, -⟩ := krange_of_interiorK hg hk
    rw [← dfdphiCell_self lib phi temp params _ dfdphi]
    exact hv i j k hi0 (by omega) hj0 (by omega) hk0 hk1 dfdphi rfl (by simp)
  · intro p hp
    exact hf p (fun i j k h1 h2 h3 h4 h5 h6 =>
      hp i j k h1 (by omega) h3 (by omega) (interiorK_of_krange hg h5 h6))

/-- The C `computedfdphi`: the cells `(i, j, 0)` with `i, j` interior hold the
forcing term of their own phi and temp, and no other entry is written. -/
theorem CEngine.c_computedfdphi_spec {F : Type} [Field F] (lib : MathLib F)
    (phi dfdphi temp : Arr F) (params : SimParams F) (hNZ : 1 ≤ params.Num_Z) :
    (∀ i j, 1 ≤ i → i ≤ params.Num_X - 2 → 1 ≤ j → j ≤ params.Num_Y - 2 →
      (CEngine.computedfdphi lib phi dfdphi temp params (mainStrides params)).get
          (IDX (mainStrides params) i j 0)
        = phi.get (IDX (mainStrides params) i j 0) * (1 - phi.get (IDX (mainStrides params) i j 0))
          * (phi.get (IDX (mainStrides params) i j 0) - 1 / 2
              + couplingM lib params (temp.get (IDX (mainStrides params) i j 0)))) ∧
    (∀ p, (∀ i j, 1 ≤ i → i ≤ params.Num_X - 2 → 1 ≤ j → j ≤ params.Num_Y - 2 →
        p ≠ IDX (mainStrides params) i j 0) →
      (CEngine.computedfdphi lib phi dfdphi temp params (mainStrides params)).get p
        = dfdphi.get p) := by
  obtain ⟨-, hf, hv⟩ := cellLoop2_spec (σ := Arr F) (fun s p => s.get p)
    (fun _ => 0) 0 (fun s _ => s) params (fun idx s => dfdphiCell lib phi temp params idx s)
    hNZ (fun _ _ _ => rfl) (fun _ _ => by simp) (fun _ _ => rfl)
    (fun idx s p hp => dfdphiCell_ne lib phi temp params idx s p hp)
    (fun idx s s' _ _ => by
      beta_reduce
      rw [dfdphiCell_self, dfdphiCell_self]) dfdphi
  refine ⟨?_, ?_⟩
  · intro i j hi0 hi1 hj0 hj1
    rw [← dfdphiCell_self lib phi temp params _ dfdphi]
    exact hv i j hi0 (by omega) hj0 (by omega) dfdphi rfl (by simp)
  · intro p hp
    exact hf p (fun i j h1 h2 h3 h4 => hp i j h1 (by omega) h3 (by omega))

/-- The coupling term vanishes at the equilibrium temperature, for a library
whose `atan` maps `0` to `0`. -/
theorem couplingM_T_e {F : Type} [Field F] (lib : MathLib F) (params : SimParams F)
    (h0 : lib.atan 0 = 0) : couplingM lib params params.T_e = 0 := by
  simp [couplingM, h0]

/-- The real arctangent maps `0` to `0`: the hypothesis on the library holds for
the real functions. -/
theorem couplingM_real_T_e (params : SimParams ℝ) :
    couplingM ⟨Real.arctan, fun y x => Complex.arg ⟨x, y⟩, Real.cos, Real.sin, Real.pi⟩ params
      params.T_e = 0 :=
  couplingM_T_e _ params Real.arctan_zero

/-! ## Claims on the free-energy forcing -/

/-- C20, as stated, fails for the C engine on a 3D grid: 3 x 3 x 3 grid, `phi = 2`
and `temp = 0` everywhere, `alpha = 0`, `dfdphi` initially `0`.  At the interior
cell `(1,1,1)` the formula gives `2 * (1 - 2) * (2 - 1/2 + m) = -3`, while the C
engine's `computedfdphi` leaves `dfdphi = 0` there: it processes the layer
`k = 0` only. -/
theorem computedfdphi_C_engine_3D_counterexample :
    (Arr.const (2 : ℚ)).get (IDX (mainStrides (sampleParams 3 3 3 3 allNoFlux)) 1 1 1)
        * (1 - (Arr.const (2 : ℚ)).get (IDX (mainStrides (sampleParams 3 3 3 3 allNoFlux)) 1 1 1))
        * ((Arr.const (2 : ℚ)).get (IDX (mainStrides (sampleParams 3 3 3 3 allNoFlux)) 1 1 1)
            - 1 / 2
            + couplingM approxMath (sampleParams 3 3 3 3 allNoFlux)
                ((Arr.const (0 : ℚ)).get
                  (IDX (mainStrides (sampleParams 3 3 3 3 allNoFlux)) 1 1 1))) = -3 ∧
    (CEngine.computedfdphi approxMath (Arr.const 2) (Arr.const 0) (Arr.const 0)
        (sampleParams 3 3 3 3 allNoFlux) (mainStrides (sampleParams 3 3 3 3 allNoFlux))).get
        (IDX (mainStrides (sampleParams 3 3 3 3 allNoFlux)) 1 1 1) = 0 := by
  refine ⟨?_, ?_⟩
  · simp [couplingM, Arr.const, sampleParams]
    norm_num
  · rw [(CEngine.c_computedfdphi_spec approxMath (Arr.const 2) (Arr.const 0) (Arr.const 0)
      (sampleParams 3 3 3 3 allNoFlux) (by decide)).2
      (IDX (mainStrides (sampleParams 3 3 3 3 allNoFlux)) 1 1 1)
      (fun i j _ _ _ _ => IDX_ne _ ⟨by decide, by decide⟩ ⟨by decide, by decide⟩
        ⟨by omega, by omega⟩ ⟨by decide, by decide⟩ (Or.inr (Or.inr (by decide))))]
    rfl

/-- C20, amended.  In the C++ engine for every interior cell (2D and 3D), and in
the C engine for every interior cell of a 2D grid, `computedfdphi` stores
`dfdphi = phi*(1-phi)*(phi - 0.5 + m)` with
`m = (alpha/pi)*atan(gamma*(T_e - temp))` (`couplingM`), a function of that
cell's phi and temp only; hence `dfdphi = 0` where phi is `0` or `1`, and `m = 0`
at `temp = T_e` for a library whose `atan` maps `0` to `0`. -/
theorem computedfdphi_stores_forcing {F : Type} [Field F] (lib : MathLib F)
    (phi dfdphi temp : Arr F) (params : SimParams F) (hg : validGrid params) :
    (∀ i j k, 1 ≤ i → i ≤ params.Num_X - 2 → 1 ≤ j → j ≤ params.Num_Y - 2 →
      interiorK params k →
      (CppEngine.computedfdphi lib phi dfdphi temp params (mainStrides params)).get
          (IDX (mainStrides params) i j k)
        = phi.get (IDX (mainStrides params) i j k) * (1 - phi.get (IDX (mainStrides params) i j k))
          * (phi.get (IDX (mainStrides params) i j k) - 1 / 2
              + couplingM lib params (temp.get (IDX (mainStrides params) i j k))) ∧
      ((phi.get (IDX (mainStrides params) i j k) = 0 ∨
          phi.get (IDX (mainStrides params) i j k) = 1) →
        (CppEngine.computedfdphi lib phi dfdphi temp params (mainStrides params)).get
          (IDX (mainStrides params) i j k) = 0)) ∧
    (params.DIM = 2 → ∀ i j, 1 ≤ i → i ≤ params.Num_X - 2 → 1 ≤ j → j ≤ params.Num_Y - 2 →
      (CEngine.computedfdphi lib phi dfdphi temp params (mainStrides params)).get
          (IDX (mainStrides params) i j 0)
        = phi.get (IDX (mainStrides params) i j 0) * (1 - phi.get (IDX (mainStrides params) i j 0))
          * (phi.get (IDX (mainStrides params) i j 0) - 1 / 2
              + couplingM lib params (temp.get (IDX (mainStrides params) i j 0))) ∧
      ((phi.get (IDX (mainStrides params) i j 0) = 0 ∨
          phi.get (IDX (mainStrides params) i j 0) = 1) →
        (CEngine.computedfdphi lib phi dfdphi temp params (mainStrides params)).get
          (IDX (mainStrides params) i j 0) = 0)) ∧
    (∀ T, couplingM lib params T
        = (params.alpha / lib.M_PI) * lib.atan (params.gamma * (params.T_e - T))) ∧
    (lib.atan 0 = 0 → couplingM lib params params.T_e = 0) := by
  have zero : ∀ (x m : F), (x = 0 ∨ x = 1) → x * (1 - x) * (x - 1 / 2 + m) = 0 := by
    intro x m hx
    rcases hx with hx | hx <;> simp [hx]
  refine ⟨?_, ?_, fun _ => rfl, couplingM_T_e lib params⟩
  · intro i j k hi0 hi1 hj0 hj1 hk
    have h := (CppEngine.cpp_computedfdphi_spec lib phi dfdphi temp params hg).1 i j k hi0 hi1
      hj0 hj1 hk
    exact ⟨h, fun hx => by rw [h]; exact zero _ _ hx⟩
  · intro h2 i j hi0 hi1 hj0 hj1
    have hNZ : 1 ≤ params.Num_Z := by
      have := (validGrid_2D hg h2).1
      omega
    have h := (CEngine.c_computedfdphi_spec lib phi dfdphi temp params hNZ).1 i j hi0 hi1
      hj0 hj1
    exact ⟨h, fun hx => by rw [h]; exact zero _ _ hx⟩

/-- Witness for the amended C20: C engine, 4 x 4 grid (2D), `alpha = gamma = 1`,
`T_e = 0`, `phi[p] = p`, `temp = -1`, cell `(1,1)` (index `5`): with the rational
library `m = (1 / (22/7)) * (1/2) = 7/44` and
`dfdphi = 5 * (-4) * (5 - 1/2 + 7/44)`. -/
theorem computedfdphi_stores_forcing_witness :
    validGrid { sampleParams 2 4 4 1 allNoFlux with alpha := 1, gamma := 1 } ∧
    (CEngine.computedfdphi approxMath rampArr (Arr.const 0) (Arr.const (-1))
        { sampleParams 2 4 4 1 allNoFlux with alpha := 1, gamma := 1 }
        (mainStrides { sampleParams 2 4 4 1 allNoFlux with alpha := 1, gamma := 1 })).get
        (IDX (mainStrides { sampleParams 2 4 4 1 allNoFlux with alpha := 1, gamma := 1 }) 1 1 0)
      = -1025 / 11 := by
  have hg : validGrid { sampleParams 2 4 4 1 allNoFlux with alpha := 1, gamma := 1 } := by
    simp [validGrid, sampleParams]
  refine ⟨hg, ?_⟩
  rw [((computedfdphi_stores_forcing approxMath rampArr (Arr.const 0) (Arr.const (-1))
    { sampleParams 2 4 4 1 allNoFlux with alpha := 1, gamma := 1 } hg).2.1 rfl 1 1
    (by decide) (by decide) (by decide) (by decide)).1]
  simp [couplingM, approxMath, rampArr, Arr.const, IDX, mainStrides, sampleParams]
  norm_num

/-! ## Explicit temperature update -/

theorem IDX_shift_k {F : Type} (params : SimParams F) (i j k : Int) (dk : Int) :
    IDX (mainStrides params) i j k + dk * mainStrides params 2
      = IDX (mainStrides params) i j (k + dk) := by
  simp [IDX, mainStrides]; ring

/-- The function `computeLaplacian` in grid coordinates, with `r2` and `strides`
as `main` builds them: the Laplacian of the specification. -/
theorem CppEngine.computeLaplacian_spec {F : Type} [Field F] (T : Arr F)
    (params : SimParams F) (i j k : Int) :
    CppEngine.computeLaplacian T (IDX (mainStrides params) i j k) (mainStrides params)
        (mainR2 params) params.DIM
      = specLaplacian T params i j k := by
  have e1 := IDX_shift params i j k 1 0
  have e2 := IDX_shift params i j k (-1) 0
  have e3 := IDX_shift params i j k 0 1
  have e4 := IDX_shift params i j k 0 (-1)
  have e5 := IDX_shift_k params i j k 1
  have e6 := IDX_shift_k params i j k (-1)
  simp only [one_mul, zero_mul, add_zero, neg_mul, zero_add, ← sub_eq_add_neg]
    at e1 e2 e3 e4 e5 e6
  simp only [CppEngine.computeLaplacian, specLaplacian]
  rw [e1, e2, e3, e4, e5, e6]
  have r0 : mainR2 params 0 = 1 / params.dx ^ 2 := by simp [mainR2, sq]
  have r1 : mainR2 params 1 = 1 / params.dy ^ 2 := by simp [mainR2, sq]
  have r2 : mainR2 params 2 = 1 / params.dz ^ 2 := by simp [mainR2, sq]
  rw [r0, r1, r2]
  split <;> simp only [mul_one_div]

theorem CppEngine.updateTempCell_ne {F : Type} [Field F] (temp : Arr F) (params : SimParams F)
    (strides : Fin 3 → Int) (r2 : Fin 3 → F) (idx : Int) (fb : FieldBuffers F) (p : Int)
    (hp : p ≠ idx) :
    (CppEngine.updateTempCell temp params strides r2 idx fb).temp_new.get p
      = fb.temp_new.get p := by
  simp [CppEngine.updateTempCell, hp]

theorem CppEngine.updateTempCell_self {F : Type} [Field F] (temp : Arr F) (params : SimParams F)
    (strides : Fin 3 → Int) (r2 : Fin 3 → F) (idx : Int) (fb : FieldBuffers F) :
    (CppEngine.updateTempCell temp params strides r2 idx fb).temp_new.get idx
      = temp.get idx + params.dt
          * (CppEngine.computeLaplacian temp idx strides r2 params.DIM
              + params.K * fb.dphi_dt.get idx) := by
  simp [CppEngine.updateTempCell]

/-- The explicit `updateTemp` writes `temp_new` only. -/
theorem CppEngine.updateTemp_others {F : Type} [Field F] (temp : Arr F) (fb : FieldBuffers F)
    (params : SimParams F) (strides : Fin 3 → Int) (r2 : Fin 3 → F) :
    (CppEngine.updateTemp temp fb params strides r2).dphi_dt = fb.dphi_dt ∧
    (CppEngine.updateTemp temp fb params strides r2).phi_new = fb.phi_new := by
  have h := forLoop_preserve (fun s : FieldBuffers F => (s.dphi_dt, s.phi_new))
    (fun i s => forLoop 1 (params.Num_Y - 1) (fun j s =>
      forLoop (if params.DIM = 3 then 1 else 0)
        (if params.DIM = 3 then params.Num_Z - 1 else 1) (fun k s =>
          CppEngine.updateTempCell temp params strides r2 (IDX strides i j k) s) s) s)
    (fun i s => forLoop_preserve (fun s : FieldBuffers F => (s.dphi_dt, s.phi_new))
      (fun j s => forLoop (if params.DIM = 3 then 1 else 0)
        (if params.DIM = 3 then params.Num_Z - 1 else 1) (fun k s =>
          CppEngine.updateTempCell temp params strides r2 (IDX strides i j k) s) s)
      (fun j s => forLoop_preserve (fun s : FieldBuffers F => (s.dphi_dt, s.phi_new))
        (fun k s => CppEngine.updateTempCell temp params strides r2 (IDX strides i j k) s)
        (fun k s => rfl) _ _ s) _ _ s)
    1 (params.Num_X - 1) fb
  simp only [Prod.mk.injEq] at h
  exact h

/-- The explicit `updateTemp`: every interior cell of `temp_new` holds the value
its own iteration stores, and no other entry of `temp_new` is written. -/
theorem CppEngine.updateTemp_cell {F : Type} [Field F] (temp : Arr F) (fb : FieldBuffers F)
    (params : SimParams F) (r2 : Fin 3 → F) (hg : validGrid params) :
    (∀ i j k, 1 ≤ i → i ≤ params.Num_X - 2 → 1 ≤ j → j ≤ params.Num_Y - 2 →
      interiorK params k →
      (CppEngine.updateTemp temp fb params (mainStrides params) r2).temp_new.get
          (IDX (mainStrides params) i j k)
        = temp.get (IDX (mainStrides params) i j k) + params.dt
          * (CppEngine.computeLaplacian temp (IDX (mainStrides params) i j k)
                (mainStrides params) r2 params.DIM
              + params.K * fb.dphi_dt.get (IDX (mainStrides params) i j k))) ∧
    (∀ p, (∀ i j k, 1 ≤ i → i ≤ params.Num_X - 2 → 1 ≤ j → j ≤ params.Num_Y - 2 →
        interiorK params k → p ≠ IDX (mainStrides params) i j k) →
      (CppEngine.updateTemp temp fb params (mainStrides params) r2).temp_new.get p
        = fb.temp_new.get p) := by
  obtain ⟨hks, hke⟩ := kloop_bounds hg
  obtain ⟨-, hf, hv⟩ := cellLoop3_spec (σ := FieldBuffers F)
    (fun s p => (s.temp_new.get p, s.dphi_dt.get p))
    (fun _ => 0) 0 (fun s _ => s) params
    (fun idx s => CppEngine.updateTempCell temp params (mainStrides params) r2 idx s)
    (if params.DIM = 3 then 1 else 0) (if params.DIM = 3 then params.Num_Z - 1 else 1)
    hks hke (fun _ _ _ => rfl) (fun _ _ => by simp) (fun _ _ => rfl)
    (fun idx s p hp => by
      beta_reduce
      rw [CppEngine.updateTempCell_ne temp params _ r2 idx s p hp]
      rfl)
    (fun idx s s' h _ => by
      beta_reduce at h ⊢
      rw [CppEngine.updateTempCell_self, CppEngine.updateTempCell_self, (Prod.mk.inj h).2]
      exact congrArg _ (Prod.mk.inj h).2) fb
  refine ⟨?_, ?_⟩
  · intro i j k hi0 hi1 hj0 hj1 hk
    obtain ⟨hk0, hk1, -, -, -⟩ := krange_of_interiorK hg hk
    rw [← CppEngine.updateTempCell_self]
    exact (Prod.mk.inj (hv i j k hi0 (by omega) hj0 (by omega) hk0 hk1 fb rfl (by simp))).1
  · intro p hp
    exact (Prod.mk.inj (hf p (fun i j k h1 h2 h3 h4 h5 h6 =>
      hp i j k h1 (by omega) h3 (by omega) (interiorK_of_krange hg h5 h6)))).1

/-! ## Claims on the explicit temperature update -/

/-- C15. For every interior cell, the explicit `updateTemp` (with `r2` and `strides`
as `main` builds them) stores `temp_new = temp + dt*(L + K*dphi_dt)`, where `L`
is the sum over the active axes of `(T[+1] - 2*T[0] + T[-1])/spacing^2`: the X and
Y terms when `DIM = 2`, the X, Y and Z terms when `DIM = 3`.  `K` multiplies the
`dphi_dt` term only.  The function returns buffers: the `temp` array is an input
and is not part of what it returns, and `dphi_dt` is returned as it was. -/
theorem explicit_updateTemp_stores {F : Type} [Field F] (temp : Arr F) (fb : FieldBuffers F)
    (params : SimParams F) (hg : validGrid params) :
    (∀ i j k, 1 ≤ i → i ≤ params.Num_X - 2 → 1 ≤ j → j ≤ params.Num_Y - 2 →
      interiorK params k →
      (CppEngine.updateTemp temp fb params (mainStrides params) (mainR2 params)).temp_new.get
          (IDX (mainStrides params) i j k)
        = temp.get (IDX (mainStrides params) i j k) + params.dt
          * (specLaplacian temp params i j k
              + params.K * fb.dphi_dt.get (IDX (mainStrides params) i j k))) ∧
    (params.DIM = 2 → ∀ i j k, specLaplacian temp params i j k
        = (temp.get (IDX (mainStrides params) (i + 1) j k)
            - 2 * temp.get (IDX (mainStrides params) i j k)
            + temp.get (IDX (mainStrides params) (i - 1) j k)) / params.dx ^ 2
          + (temp.get (IDX (mainStrides params) i (j + 1) k)
            - 2 * temp.get (IDX (mainStrides params) i j k)
            + temp.get (IDX (mainStrides params) i (j - 1) k)) / params.dy ^ 2) ∧
    (params.DIM = 3 → ∀ i j k, specLaplacian temp params i j k
        = (temp.get (IDX (mainStrides params) (i + 1) j k)
            - 2 * temp.get (IDX (mainStrides params) i j k)
            + temp.get (IDX (mainStrides params) (i - 1) j k)) / params.dx ^ 2
          + (temp.get (IDX (mainStrides params) i (j + 1) k)
            - 2 * temp.get (IDX (mainStrides params) i j k)
            + temp.get (IDX (mainStrides params) i (j - 1) k)) / params.dy ^ 2
          + (temp.get (IDX (mainStrides params) i j (k + 1))
            - 2 * temp.get (IDX (mainStrides params) i j k)
            + temp.get (IDX (mainStrides params) i j (k - 1))) / params.dz ^ 2) ∧
    (CppEngine.updateTemp temp fb params (mainStrides params) (mainR2 params)).dphi_dt
      = fb.dphi_dt := by
  refine ⟨?_, ?_, ?_, (CppEngine.updateTemp_others temp fb params _ _).1⟩
  · intro i j k hi0 hi1 hj0 hj1 hk
    rw [(CppEngine.updateTemp_cell temp fb params (mainR2 params) hg).1 i j k hi0 hi1 hj0 hj1 hk,
      CppEngine.computeLaplacian_spec]
  · intro h2 i j k
    have h3 : params.DIM ≠ 3 := by omega
    simp only [specLaplacian, h3, if_false]
  · intro h3 i j k
    simp only [specLaplacian, h3, if_true]

/-- Witness for C15: 3 x 3 x 3 grid, unit spacings, `dt = K = 1`, `temp[p] = p^2`,
`dphi_dt = 1`, cell `(1,1,1)` (index `13`, `strides = {9, 3, 1}`): the three
second differences are `2*81`, `2*9`, `2*1`, so
`temp_new = 169 + (162 + 18 + 2 + 1) = 352`. -/
theorem explicit_updateTemp_stores_witness :
    validGrid (sampleParams 3 3 3 3 allNoFlux) ∧
    (CppEngine.updateTemp ⟨fun p => (p : ℚ) ^ 2⟩ (constBuffers 1)
        (sampleParams 3 3 3 3 allNoFlux) (mainStrides (sampleParams 3 3 3 3 allNoFlux))
        (mainR2 (sampleParams 3 3 3 3 allNoFlux))).temp_new.get
        (IDX (mainStrides (sampleParams 3 3 3 3 allNoFlux)) 1 1 1) = 352 := by
  have hg : validGrid (sampleParams 3 3 3 3 allNoFlux) := by simp [validGrid, sampleParams]
  refine ⟨hg, ?_⟩
  rw [(explicit_updateTemp_stores ⟨fun p => (p : ℚ) ^ 2⟩ (constBuffers 1)
    (sampleParams 3 3 3 3 allNoFlux) hg).1 1 1 1 (by decide) (by decide) (by decide) (by decide)
    (by simp [interiorK, sampleParams])]
  simp [specLaplacian, constBuffers, Arr.const, IDX, mainStrides, sampleParams]
  norm_num

/-! ## The phase-field stage of a time step (C++ engine) -/

/-- The C++ `computeGradientPhi` writes the ten derivative buffers only. -/
theorem CppEngine.cpp_computeGradientPhi_others {F : Type} [Field F] (phi : Arr F)
    (fb : FieldBuffers F) (params : SimParams F) (r : Fin 3 → F) (strides : Fin 3 → Int) :
    (CppEngine.computeGradientPhi phi fb params r strides).dfdphi = fb.dfdphi ∧
    (CppEngine.computeGradientPhi phi fb params r strides).phi_new = fb.phi_new ∧
    (CppEngine.computeGradientPhi phi fb params r strides).dphi_dt = fb.dphi_dt := by
  have h := forLoop_preserve (fun s : FieldBuffers F => (s.dfdphi, s.phi_new, s.dphi_dt))
    (fun i s => forLoop 1 (params.Num_Y - 1) (fun j s =>
      forLoop (if params.DIM = 3 then 1 else 0)
        (if params.DIM = 3 then params.Num_Z - 1 else 1) (fun k s =>
          gradientCell phi r strides (IDX strides i j k) s) s) s)
    (fun i s => forLoop_preserve (fun s : FieldBuffers F => (s.dfdphi, s.phi_new, s.dphi_dt))
      (fun j s => forLoop (if params.DIM = 3 then 1 else 0)
        (if params.DIM = 3 then params.Num_Z - 1 else 1) (fun k s =>
          gradientCell phi r strides (IDX strides i j k) s) s)
      (fun j s => forLoop_preserve (fun s : FieldBuffers F => (s.dfdphi, s.phi_new, s.dphi_dt))
        (fun k s => gradientCell phi r strides (IDX strides i j k) s)
        (fun k s => rfl) _ _ s) _ _ s)
    1 (params.Num_X - 1) fb
  simp only [Prod.mk.injEq] at h
  exact h

/-- The buffers that `updatePhi` reads at an interior cell of a 2D grid, as the
three calls before it leave them. -/
theorem CppEngine.phiBuffers_cell_2D {F : Type} [Field F] (lib : MathLib F) (phi temp : Arr F)
    (fb : FieldBuffers F) (params : SimParams F) (hg : validGrid params) (h2 : params.DIM = 2)
    (i j : Int) (hi0 : 1 ≤ i) (hi1 : i ≤ params.Num_X - 2) (hj0 : 1 ≤ j)
    (hj1 : j ≤ params.Num_Y - 2) :
    (CppEngine.phiBuffers lib phi temp fb params (mainR params) (mainStrides params)).gradCell
        (IDX (mainStrides params) i j 0) = specGradient phi params i j 0 ∧
    (CppEngine.phiBuffers lib phi temp fb params (mainR params) (mainStrides params)).anisoCell
        (IDX (mainStrides params) i j 0)
      = specAnisotropy lib params
          (CppEngine.phiBuffers lib phi temp fb params (mainR params) (mainStrides params))
          (IDX (mainStrides params) i j 0) ∧
    (CppEngine.phiBuffers lib phi temp fb params (mainR params) (mainStrides params)).dfdphi.get
        (IDX (mainStrides params) i j 0)
      = phi.get (IDX (mainStrides params) i j 0) * (1 - phi.get (IDX (mainStrides params) i j 0))
          * (phi.get (IDX (mainStrides params) i j 0) - 1 / 2
              + couplingM lib params (temp.get (IDX (mainStrides params) i j 0))) := by
  obtain ⟨hNZ, hk⟩ := validGrid_2D hg h2
  have e : (if params.DIM = 3 then (1 : Int) else 0) = 0 := by simp [h2]
  have hdf := (CppEngine.cpp_computedfdphi_spec lib phi fb.dfdphi temp params hg).1 i j 0
    hi0 hi1 hj0 hj1 hk
  have key : ∀ fb1 : FieldBuffers F,
      fb1.dfdphi = CppEngine.computedfdphi lib phi fb.dfdphi temp params (mainStrides params) →
      (CppEngine.computeAnisotropy lib (CppEngine.computeGradientPhi phi fb1 params
          (mainR params) (mainStrides params)) params (mainStrides params)).gradCell
          (IDX (mainStrides params) i j 0) = specGradient phi params i j 0 ∧
      (CppEngine.computeAnisotropy lib (CppEngine.computeGradientPhi phi fb1 params
          (mainR params) (mainStrides params)) params (mainStrides params)).anisoCell
          (IDX (mainStrides params) i j 0)
        = specAnisotropy lib params
            (CppEngine.computeAnisotropy lib (CppEngine.computeGradientPhi phi fb1 params
              (mainR params) (mainStrides params)) params (mainStrides params))
            (IDX (mainStrides params) i j 0) ∧
      (CppEngine.computeAnisotropy lib (CppEngine.computeGradientPhi phi fb1 params
          (mainR params) (mainStrides params)) params (mainStrides params)).dfdphi.get
          (IDX (mainStrides params) i j 0)
        = phi.get (IDX (mainStrides params) i j 0)
          * (1 - phi.get (IDX (mainStrides params) i j 0))
          * (phi.get (IDX (mainStrides params) i j 0) - 1 / 2
              + couplingM lib params (temp.get (IDX (mainStrides params) i j 0))) := by
    intro fb1 h1
    have hfb2 := CppEngine.cpp_computeGradientPhi_spec phi fb1 params hg i j 0 hi0 hi1 hj0 hj1 hk
    have hd2 := (CppEngine.cpp_computeGradientPhi_others phi fb1 params (mainR params)
      (mainStrides params)).1
    have ha3 := (CppEngine.cpp_computeAnisotropy_spec lib
      (CppEngine.computeGradientPhi phi fb1 params (mainR params) (mainStrides params))
      params hg).1 i j hi0 hi1 hj0 hj1
    rw [e] at ha3
    obtain ⟨hg3, hd3, -, -, -⟩ := CppEngine.cpp_computeAnisotropy_others lib
      (CppEngine.computeGradientPhi phi fb1 params (mainR params) (mainStrides params))
      params (mainStrides params) (IDX (mainStrides params) i j 0)
    refine ⟨?_, ?_, ?_⟩
    · rw [hg3]; exact hfb2
    · rw [ha3]; exact (specAnisotropy_congr lib params _ _ _ hg3).symm
    · rw [hd3, hd2, h1]; exact hdf
  exact key _ rfl

/-- The value that `updatePhi` stores in `phi_new` at an interior cell, in terms
of the buffers that the three calls before it leave. -/
theorem CppEngine.phiUpdate_phi_new {F : Type} [Field F] (lib : MathLib F) (phi temp : Arr F)
    (fb : FieldBuffers F) (params : SimParams F) (RAND_MAX : Int) (rng : Nat → Int)
    (calls : Nat) (hg : validGrid params) (i j k : Int) (hi0 : 1 ≤ i)
    (hi1 : i ≤ params.Num_X - 2) (hj0 : 1 ≤ j) (hj1 : j ≤ params.Num_Y - 2)
    (hk : interiorK params k) :
    ∃ U : F,
      (CppEngine.phiUpdate lib phi temp fb params (mainR params) (mainStrides params) RAND_MAX
          rng calls).1.phi_new.get (IDX (mainStrides params) i j k)
        = phi.get (IDX (mainStrides params) i j k)
          + params.dt * specDphiDt
              (CppEngine.phiBuffers lib phi temp fb params (mainR params) (mainStrides params))
              phi params U (IDX (mainStrides params) i j k) := by
  have hc := CppEngine.cpp_updatePhi_cell phi
    (CppEngine.phiBuffers lib phi temp fb params (mainR params) (mainStrides params))
    params (mainR params) RAND_MAX rng calls hg i j k hi0 hi1 hj0 hj1 hk
  simp only [FieldBuffers.phiCell, List.cons.injEq] at hc
  exact ⟨_, hc.1.trans (CppEngine.cpp_updatePhiCell_value _ _ _ _ _ _ _).2⟩

/-- With `a = 0`, when the eight derivatives that the fluxes use vanish at the
cell, the time derivative of the specification is `dfdphi / tau`. -/
theorem specDphiDt_of_grad_zero {F : Type} [Field F] (fb : FieldBuffers F) (phi : Arr F)
    (params : SimParams F) (U : F) (idx : Int) (ha : params.a = 0)
    (h : fb.gradCell idx = [0, 0, 0, 0, 0, 0, 0, 0, 0, 0]) :
    specDphiDt fb phi params U idx = fb.dfdphi.get idx / params.tau := by
  simp only [FieldBuffers.gradCell, List.cons.injEq, and_true] at h
  obtain ⟨g1, g2, g3, g4, -, -, g7, g8, g9, g10⟩ := h
  simp [specDphiDt, g1, g2, g3, g4, g7, g8, g9, g10, ha]

/-- A phi array that holds `c` at every cell of a 2D grid (ghost cells and
corners included) and a temperature `T` at the cell: with `a = 0` the phase-field
stage stores `phi_new = c + dt * (c (1 - c) (c - 1/2 + m(T)) / tau)`. -/
theorem CppEngine.phiUpdate_uniform {F : Type} [Field F] (lib : MathLib F) (phi temp : Arr F)
    (fb : FieldBuffers F) (params : SimParams F) (RAND_MAX : Int) (rng : Nat → Int)
    (calls : Nat) (hg : validGrid params) (h2 : params.DIM = 2) (ha : params.a = 0) (c T : F)
    (hphi : ∀ i j, 0 ≤ i → i ≤ params.Num_X - 1 → 0 ≤ j → j ≤ params.Num_Y - 1 →
      phi.get (IDX (mainStrides params) i j 0) = c)
    (i j : Int) (hi0 : 1 ≤ i) (hi1 : i ≤ params.Num_X - 2) (hj0 : 1 ≤ j)
    (hj1 : j ≤ params.Num_Y - 2) (hT : temp.get (IDX (mainStrides params) i j 0) = T) :
    (CppEngine.phiUpdate lib phi temp fb params (mainR params) (mainStrides params) RAND_MAX
        rng calls).1.phi_new.get (IDX (mainStrides params) i j 0)
      = c + params.dt * (c * (1 - c) * (c - 1 / 2 + couplingM lib params T) / params.tau) := by
  obtain ⟨hNZ, hk⟩ := validGrid_2D hg h2
  obtain ⟨U, hv⟩ := CppEngine.phiUpdate_phi_new lib phi temp fb params RAND_MAX rng calls hg
    i j 0 hi0 hi1 hj0 hj1 hk
  obtain ⟨hgr, -, hdf⟩ := CppEngine.phiBuffers_cell_2D lib phi temp fb params hg h2 i j hi0 hi1
    hj0 hj1
  have hz := gradCell_uniform_all phi params _ _ i j 0 c hgr
    (hphi i j (by omega) (by omega) (by omega) (by omega))
    (hphi (i + 1) j (by omega) (by omega) (by omega) (by omega))
    (hphi (i - 1) j (by omega) (by omega) (by omega) (by omega))
    (hphi i (j + 1) (by omega) (by omega) (by omega) (by omega))
    (hphi i (j - 1) (by omega) (by omega) (by omega) (by omega))
    (hphi (i + 1) (j + 1) (by omega) (by omega) (by omega) (by omega))
    (hphi (i - 1) (j + 1) (by omega) (by omega) (by omega) (by omega))
    (hphi (i + 1) (j - 1) (by omega) (by omega) (by omega) (by omega))
    (hphi (i - 1) (j - 1) (by omega) (by omega) (by omega) (by omega))
  rw [hv, specDphiDt_of_grad_zero _ phi params U _ ha hz, hdf, hT,
    hphi i j (by omega) (by omega) (by omega) (by omega)]

/-! ## Claims on a uniform field -/

/-- C13, as stated, fails: 4 x 4 grid, every phi face NoFlux, `phi = 1/4` and
`temp = 0` everywhere, `a = 0`, `alpha = 0` (so `m = 0`), `tau = dt = 1`.  After
the boundary pass, `computedfdphi`, `computeGradientPhi`, `computeAnisotropy` and
`updatePhi` (C++ engine), the interior cell `(1,1)` has `phi = 1/4` and
`phi_new = 1/4 + (1/4)(3/4)(1/4 - 1/2) = 13/64`: the reaction term does not
vanish for a uniform field. -/
theorem uniform_phi_not_fixed_counterexample :
    (applyBoundaryConditions (Arr.const (1 / 4 : ℚ)) (sampleParams 2 4 4 1 allNoFlux)
        (mainStrides (sampleParams 2 4 4 1 allNoFlux)) allNoFlux).get
        (IDX (mainStrides (sampleParams 2 4 4 1 allNoFlux)) 1 1 0) = 1 / 4 ∧
    (CppEngine.phiUpdate approxMath
        (applyBoundaryConditions (Arr.const (1 / 4 : ℚ)) (sampleParams 2 4 4 1 allNoFlux)
          (mainStrides (sampleParams 2 4 4 1 allNoFlux)) allNoFlux)
        (Arr.const 0) (constBuffers 0) (sampleParams 2 4 4 1 allNoFlux)
        (mainR (sampleParams 2 4 4 1 allNoFlux)) (mainStrides (sampleParams 2 4 4 1 allNoFlux))
        2147483647 (fun _ => 0) 0).1.phi_new.get
        (IDX (mainStrides (sampleParams 2 4 4 1 allNoFlux)) 1 1 0) = 13 / 64 := by
  have hg : validGrid (sampleParams 2 4 4 1 allNoFlux) := by simp [validGrid, sampleParams]
  have hu : ∀ i j : Int, 0 ≤ i → i ≤ (sampleParams 2 4 4 1 allNoFlux).Num_X - 1 → 0 ≤ j →
      j ≤ (sampleParams 2 4 4 1 allNoFlux).Num_Y - 1 →
      (applyBoundaryConditions (Arr.const (1 / 4 : ℚ)) (sampleParams 2 4 4 1 allNoFlux)
        (mainStrides (sampleParams 2 4 4 1 allNoFlux)) allNoFlux).get
        (IDX (mainStrides (sampleParams 2 4 4 1 allNoFlux)) i j 0) = 1 / 4 :=
    applyBC_uniform_all _ _ allNoFlux hg rfl (by decide) (by decide) (by decide) (by decide)
      (1 / 4) (fun _ _ _ _ _ _ => rfl) (fun _ _ _ _ => rfl)
  refine ⟨hu 1 1 (by decide) (by decide) (by decide) (by decide), ?_⟩
  rw [CppEngine.phiUpdate_uniform approxMath _ (Arr.const 0) (constBuffers 0)
    (sampleParams 2 4 4 1 allNoFlux) 2147483647 (fun _ => 0) 0 hg rfl rfl (1 / 4) 0 hu 1 1
    (by decide) (by decide) (by decide) (by decide) rfl]
  simp [couplingM, sampleParams]
  norm_num

/-- C13, amended.  In 2D, if phi has the same value `c` at every interior cell and at
the four corner ghost cells, temp the same value `T` at every interior cell, the
four phi faces are NoFlux or Periodic, the boundary conditions have just been
enforced on phi, and `a = 0`, then after `computedfdphi`, `computeGradientPhi`,
`computeAnisotropy` and `updatePhi` (C++ engine) every interior cell has
`phi_new = phi + dt * c (1 - c) (c - 0.5 + m(T)) / tau` with
`m(T) = (alpha/pi) atan(gamma (T_e - T))`, for every `c`, `T` and every choice of
the other parameters; `phi_new` equals phi where that reaction term vanishes. -/
theorem uniform_phi_update {F : Type} [Field F] (lib : MathLib F) (phi temp : Arr F)
    (fb : FieldBuffers F) (params : SimParams F) (bc : FaceBoundary) (RAND_MAX : Int)
    (rng : Nat → Int) (calls : Nat) (hg : validGrid params) (h2 : params.DIM = 2)
    (hl : bc.left ≠ BoundaryType.BOUNDARY_UNDEFINED)
    (hr : bc.right ≠ BoundaryType.BOUNDARY_UNDEFINED)
    (hb : bc.bottom ≠ BoundaryType.BOUNDARY_UNDEFINED)
    (ht : bc.top ≠ BoundaryType.BOUNDARY_UNDEFINED) (ha : params.a = 0) (c T : F)
    (hint : ∀ i j, 1 ≤ i → i ≤ params.Num_X - 2 → 1 ≤ j → j ≤ params.Num_Y - 2 →
      phi.get (IDX (mainStrides params) i j 0) = c)
    (hcorner : ∀ i j, (i = 0 ∨ i = params.Num_X - 1) → (j = 0 ∨ j = params.Num_Y - 1) →
      phi.get (IDX (mainStrides params) i j 0) = c)
    (htemp : ∀ i j, 1 ≤ i → i ≤ params.Num_X - 2 → 1 ≤ j → j ≤ params.Num_Y - 2 →
      temp.get (IDX (mainStrides params) i j 0) = T)
    (i j : Int) (hi0 : 1 ≤ i) (hi1 : i ≤ params.Num_X - 2) (hj0 : 1 ≤ j)
    (hj1 : j ≤ params.Num_Y - 2) :
    (applyBoundaryConditions phi params (mainStrides params) bc).get
        (IDX (mainStrides params) i j 0) = c ∧
    (CppEngine.phiUpdate lib (applyBoundaryConditions phi params (mainStrides params) bc) temp fb
        params (mainR params) (mainStrides params) RAND_MAX rng calls).1.phi_new.get
        (IDX (mainStrides params) i j 0)
      = c + params.dt * (c * (1 - c) * (c - 1 / 2 + couplingM lib params T) / params.tau) ∧
    (c * (1 - c) * (c - 1 / 2 + couplingM lib params T) = 0 →
      (CppEngine.phiUpdate lib (applyBoundaryConditions phi params (mainStrides params) bc) temp fb
          params (mainR params) (mainStrides params) RAND_MAX rng calls).1.phi_new.get
          (IDX (mainStrides params) i j 0)
        = (applyBoundaryConditions phi params (mainStrides params) bc).get
          (IDX (mainStrides params) i j 0)) := by
  have hu := applyBC_uniform_all phi params bc hg h2 hl hr hb ht c hint hcorner
  have hv := CppEngine.phiUpdate_uniform lib _ temp fb params RAND_MAX rng calls hg h2 ha c T hu
    i j hi0 hi1 hj0 hj1 (htemp i j hi0 hi1 hj0 hj1)
  have hc := hu i j (by omega) (by omega) (by omega) (by omega)
  refine ⟨hc, hv, ?_⟩
  intro hz
  rw [hv, hc, hz]
  simp

/-- Witness for the amended C13: 4 x 4 grid, every face Periodic, `phi = 1`
everywhere (solid), `temp = 0`: the reaction term vanishes and `phi_new = 1`. -/
theorem uniform_phi_update_witness :
    validGrid (sampleParams 2 4 4 1 allPeriodic) ∧
    (CppEngine.phiUpdate approxMath
        (applyBoundaryConditions (Arr.const (1 : ℚ)) (sampleParams 2 4 4 1 allPeriodic)
          (mainStrides (sampleParams 2 4 4 1 allPeriodic)) allPeriodic)
        (Arr.const 0) (constBuffers 0) (sampleParams 2 4 4 1 allPeriodic)
        (mainR (sampleParams 2 4 4 1 allPeriodic)) (mainStrides (sampleParams 2 4 4 1 allPeriodic))
        2147483647 (fun _ => 0) 0).1.phi_new.get
        (IDX (mainStrides (sampleParams 2 4 4 1 allPeriodic)) 2 1 0) = 1 := by
  have hg : validGrid (sampleParams 2 4 4 1 allPeriodic) := by simp [validGrid, sampleParams]
  refine ⟨hg, ?_⟩
  have h := uniform_phi_update approxMath (Arr.const (1 : ℚ)) (Arr.const 0) (constBuffers 0)
    (sampleParams 2 4 4 1 allPeriodic) allPeriodic 2147483647 (fun _ => 0) 0 hg rfl
    (by decide) (by decide) (by decide) (by decide) rfl 1 0 (fun _ _ _ _ _ _ => rfl)
    (fun _ _ _ _ => rfl) (fun _ _ _ _ _ _ => rfl) 2 1 (by decide) (by decide) (by decide)
    (by decide)
  rw [h.2.2 (by simp), h.1]

/-! ## One time step of the explicit engine -/

/-- The C++ `copyInterior`: interior cells receive the value of the source, every
other cell keeps its value. -/
theorem CppEngine.cpp_copyInterior_spec {F : Type} (dst src : Arr F) (params : SimParams F)
    (hg : validGrid params) :
    (∀ i j k, 1 ≤ i → i ≤ params.Num_X - 2 → 1 ≤ j → j ≤ params.Num_Y - 2 →
      interiorK params k →
      (CppEngine.copyInterior dst src params (mainStrides params)).get
          (IDX (mainStrides params) i j k) = src.get (IDX (mainStrides params) i j k)) ∧
    (∀ p, (∀ i j k, 1 ≤ i → i ≤ params.Num_X - 2 → 1 ≤ j → j ≤ params.Num_Y - 2 →
        interiorK params k → p ≠ IDX (mainStrides params) i j k) →
      (CppEngine.copyInterior dst src params (mainStrides params)).get p = dst.get p) := by
  obtain ⟨hks, hke⟩ := kloop_bounds hg
  obtain ⟨-, hf, hv⟩ := cellLoop3_spec (σ := Arr F) (fun s p => s.get p)
    (fun _ => 0) 0 (fun s _ => s) params (fun idx s => s.set idx (src.get idx))
    (if params.DIM = 3 then 1 else 0) (if params.DIM = 3 then params.Num_Z - 1 else 1)
    hks hke (fun _ _ _ => rfl) (fun _ _ => by simp) (fun _ _ => rfl)
    (fun idx s p hp => Arr.get_set_ne s _ hp)
    (fun idx s s' _ _ => by simp) dst
  refine ⟨?_, ?_⟩
  · intro i j k hi0 hi1 hj0 hj1 hk
    obtain ⟨hk0, hk1, -, -, -⟩ := krange_of_interiorK hg hk
    exact (hv i j k hi0 (by omega) hj0 (by omega) hk0 hk1 dst rfl (by simp)).trans
      (Arr.get_set_self dst _ _)
  · intro p hp
    exact hf p (fun i j k h1 h2 h3 h4 h5 h6 =>
      hp i j k h1 (by omega) h3 (by omega) (interiorK_of_krange hg h5 h6))

/-- The ten assignments of a cell of `computeGradientPhi` read `phi` at the
subscripts of `gradientReads` only. -/
theorem gradientCell_reads {F : Type} [Field F] (phi phi' : Arr F) (r : Fin 3 → F)
    (strides : Fin 3 → Int) (idx : Int) (fb : FieldBuffers F)
    (h : ∀ p ∈ gradientReads strides idx, phi.get p = phi'.get p) :
    gradientCell phi r strides idx fb = gradientCell phi' r strides idx fb := by
  simp only [gradientReads, List.mem_cons, List.mem_singleton, forall_eq_or_imp, forall_eq,
    List.not_mem_nil, false_implies, implies_true, and_true] at h
  obtain ⟨h1, h2, h3, h4, h5, h6, h7, h8, h9⟩ := h
  simp only [gradientCell, h1, h2, h3, h4, h5, h6, h7, h8, h9]

/-- The function `computeLaplacian` reads `arr` at the subscripts of
`laplacianReads` only. -/
theorem computeLaplacian_reads {F : Type} [Field F] (arr arr' : Arr F) (index : Int)
    (strides : Fin 3 → Int) (r2 : Fin 3 → F) (dim : Int)
    (h : ∀ p ∈ laplacianReads strides index dim, arr.get p = arr'.get p) :
    CppEngine.computeLaplacian arr index strides r2 dim
      = CppEngine.computeLaplacian arr' index strides r2 dim := by
  unfold laplacianReads at h
  by_cases hd : dim = 3
  · simp only [hd, if_true, List.cons_append, List.nil_append, List.mem_cons,
      List.mem_singleton, forall_eq_or_imp, forall_eq, List.not_mem_nil, false_implies,
      implies_true, and_true] at h
    obtain ⟨h1, h2, h3, h4, h5, h6, h7⟩ := h
    simp only [CppEngine.computeLaplacian, hd, if_true, h1, h2, h3, h4, h5, h6, h7]
  · simp only [hd, if_false, List.append_nil, List.mem_cons,
      List.mem_singleton, forall_eq_or_imp, forall_eq, List.not_mem_nil, false_implies,
      implies_true, and_true] at h
    obtain ⟨h1, h2, h3, h4, h5⟩ := h
    simp only [CppEngine.computeLaplacian, hd, if_false, h1, h2, h3, h4, h5]

/-- A cell of the box either keeps its value through `applyBoundaryConditions`, or
it is a ghost cell in the interior of a face whose policy is not
`BOUNDARY_UNDEFINED`. -/
theorem applyBC_cell_cases {F : Type} (arr : Arr F) (params : SimParams F) (bc : FaceBoundary)
    (hg : validGrid params) (i j k : Int) (hj0 : 0 ≤ j) (hj1 : j < params.Num_Y)
    (hk0 : 0 ≤ k) (hk1 : k < params.Num_Z) :
    (applyBoundaryConditions arr params (mainStrides params) bc).get
        (IDX (mainStrides params) i j k) = arr.get (IDX (mainStrides params) i j k) ∨
    ((i = 0 ∧ bc.left ≠ BoundaryType.BOUNDARY_UNDEFINED ∨
        i = params.Num_X - 1 ∧ bc.right ≠ BoundaryType.BOUNDARY_UNDEFINED) ∧
      1 ≤ j ∧ j ≤ params.Num_Y - 2 ∧ interiorK params k) ∨
    ((j = 0 ∧ bc.bottom ≠ BoundaryType.BOUNDARY_UNDEFINED ∨
        j = params.Num_Y - 1 ∧ bc.top ≠ BoundaryType.BOUNDARY_UNDEFINED) ∧
      1 ≤ i ∧ i ≤ params.Num_X - 2 ∧ interiorK params k) ∨
    (params.DIM = 3 ∧
      (k = 0 ∧ bc.back ≠ BoundaryType.BOUNDARY_UNDEFINED ∨
        k = params.Num_Z - 1 ∧ bc.front ≠ BoundaryType.BOUNDARY_UNDEFINED) ∧
      1 ≤ i ∧ i ≤ params.Num_X - 2 ∧ 1 ≤ j ∧ j ≤ params.Num_Y - 2) := by
  have und : ∀ (b : BoundaryType) (x y z : F), b = BoundaryType.BOUNDARY_UNDEFINED →
      bcValue b x y z = z := by
    intro b x y z hb; subst hb; exact bcValue_undefined x y z
  by_cases hX : (i = 0 ∨ i = params.Num_X - 1) ∧ 1 ≤ j ∧ j ≤ params.Num_Y - 2 ∧
      interiorK params k
  · obtain ⟨hi, hj, hj', hk⟩ := hX
    have hx := applyBC_xface arr params bc hg j k hj hj' hk
    rcases hi with hi | hi
    · subst hi
      by_cases hp : bc.left = BoundaryType.BOUNDARY_UNDEFINED
      · left; rw [hx.1]; exact und _ _ _ _ hp
      · right; left; exact ⟨Or.inl ⟨rfl, hp⟩, hj, hj', hk⟩
    · subst hi
      by_cases hp : bc.right = BoundaryType.BOUNDARY_UNDEFINED
      · left; rw [hx.2]; exact und _ _ _ _ hp
      · right; left; exact ⟨Or.inr ⟨rfl, hp⟩, hj, hj', hk⟩
  by_cases hY : (j = 0 ∨ j = params.Num_Y - 1) ∧ 1 ≤ i ∧ i ≤ params.Num_X - 2 ∧
      interiorK params k
  · obtain ⟨hj, hi, hi', hk⟩ := hY
    have hy := applyBC_yface arr params bc hg i k hi hi' hk
    rcases hj with hj | hj
    · subst hj
      by_cases hp : bc.bottom = BoundaryType.BOUNDARY_UNDEFINED
      · left; rw [hy.1]; exact und _ _ _ _ hp
      · right; right; left; exact ⟨Or.inl ⟨rfl, hp⟩, hi, hi', hk⟩
    · subst hj
      by_cases hp : bc.top = BoundaryType.BOUNDARY_UNDEFINED
      · left; rw [hy.2]; exact und _ _ _ _ hp
      · right; right; left; exact ⟨Or.inr ⟨rfl, hp⟩, hi, hi', hk⟩
  by_cases hZ : params.DIM = 3 ∧ (k = 0 ∨ k = params.Num_Z - 1) ∧ 1 ≤ i ∧
      i ≤ params.Num_X - 2 ∧ 1 ≤ j ∧ j ≤ params.Num_Y - 2
  · obtain ⟨h3, hk, hi, hi', hj, hj'⟩ := hZ
    have hz := applyBC_zface arr params bc hg h3 i j hi hi' hj hj'
    rcases hk with hk | hk
    · subst hk
      by_cases hp : bc.back = BoundaryType.BOUNDARY_UNDEFINED
      · left; rw [hz.1]; exact und _ _ _ _ hp
      · right; right; right; exact ⟨h3, Or.inl ⟨rfl, hp⟩, hi, hi', hj, hj'⟩
    · subst hk
      by_cases hp : bc.front = BoundaryType.BOUNDARY_UNDEFINED
      · left; rw [hz.2]; exact und _ _ _ _ hp
      · right; right; right; exact ⟨h3, Or.inr ⟨rfl, hp⟩, hi, hi', hj, hj'⟩
  left
  exact applyBC_frame arr params bc hg i j k hj0 hj1 hk0 hk1 hX hY hZ

/-! ## Claim on the frame of the boundary enforcement -/

/-- C22. `applyBoundaryConditions` (the same function in both engines) changes only
ghost cells on faces whose policy is NoFlux or Periodic, for every array and
every combination of face policies, on 2D (`Num_Z = 1`) and 3D grids with
`NX, NY (, NZ) >= 3`: a cell `(i, j, k)` of the array (`j` and `k` within the box)
whose value differs after the call lies on a face whose policy is not
Undefined; in particular every interior cell is unchanged, and every cell of
the plane of a face whose policy is Undefined
(`left`: `i = 0`, `right`: `i = NX-1`, `bottom`: `j = 0`, `top`: `j = NY-1`, and in
3D `back`: `k = 0`, `front`: `k = NZ-1`) keeps the value it had before the call. -/
theorem applyBC_changes_only_defined_faces {F : Type} (arr : Arr F) (params : SimParams F)
    (bc : FaceBoundary) (hg : validGrid params) (i j k : Int) (hj0 : 0 ≤ j)
    (hj1 : j ≤ params.Num_Y - 1) (hk0 : 0 ≤ k) (hk1 : k ≤ params.Num_Z - 1) :
    ((applyBoundaryConditions arr params (mainStrides params) bc).get
          (IDX (mainStrides params) i j k) ≠ arr.get (IDX (mainStrides params) i j k) →
      (i = 0 ∧ bc.left ≠ BoundaryType.BOUNDARY_UNDEFINED) ∨
      (i = params.Num_X - 1 ∧ bc.right ≠ BoundaryType.BOUNDARY_UNDEFINED) ∨
      (j = 0 ∧ bc.bottom ≠ BoundaryType.BOUNDARY_UNDEFINED) ∨
      (j = params.Num_Y - 1 ∧ bc.top ≠ BoundaryType.BOUNDARY_UNDEFINED) ∨
      (params.DIM = 3 ∧ k = 0 ∧ bc.back ≠ BoundaryType.BOUNDARY_UNDEFINED) ∨
      (params.DIM = 3 ∧ k = params.Num_Z - 1 ∧
        bc.front ≠ BoundaryType.BOUNDARY_UNDEFINED)) ∧
    (1 ≤ i → i ≤ params.Num_X - 2 → 1 ≤ j → j ≤ params.Num_Y - 2 → interiorK params k →
      (applyBoundaryConditions arr params (mainStrides params) bc).get
          (IDX (mainStrides params) i j k) = arr.get (IDX (mainStrides params) i j k)) ∧
    ((i = 0 ∧ bc.left = BoundaryType.BOUNDARY_UNDEFINED) ∨
      (i = params.Num_X - 1 ∧ bc.right = BoundaryType.BOUNDARY_UNDEFINED) ∨
      (j = 0 ∧ bc.bottom = BoundaryType.BOUNDARY_UNDEFINED) ∨
      (j = params.Num_Y - 1 ∧ bc.top = BoundaryType.BOUNDARY_UNDEFINED) ∨
      (params.DIM = 3 ∧ k = 0 ∧ bc.back = BoundaryType.BOUNDARY_UNDEFINED) ∨
      (params.DIM = 3 ∧ k = params.Num_Z - 1 ∧
        bc.front = BoundaryType.BOUNDARY_UNDEFINED) →
      (applyBoundaryConditions arr params (mainStrides params) bc).get
          (IDX (mainStrides params) i j k) = arr.get (IDX (mainStrides params) i j k)) := by
  have hNX := hg.1
  have hNY := hg.2.1
  have hc := applyBC_cell_cases arr params bc hg i j k hj0 (by omega) hk0 (by omega)
  have hk3 : params.DIM = 3 → interiorK params k → 1 ≤ k ∧ k ≤ params.Num_Z - 2 := by
    intro h3 hk
    unfold interiorK at hk
    simpa [h3] using hk
  have hNZ3 : params.DIM = 3 → 3 ≤ params.Num_Z := by
    intro h3
    obtain ⟨_, _, h | h⟩ := hg
    · omega
    · exact h.2
  refine ⟨?_, ?_, ?_⟩
  · intro hne
    rcases hc with h | ⟨h, -⟩ | ⟨h, -⟩ | ⟨h3, h, -⟩
    · exact absurd h hne
    · rcases h with h | h
      · exact Or.inl h
      · exact Or.inr (Or.inl h)
    · rcases h with h | h
      · exact Or.inr (Or.inr (Or.inl h))
      · exact Or.inr (Or.inr (Or.inr (Or.inl h)))
    · rcases h with h | h
      · exact Or.inr (Or.inr (Or.inr (Or.inr (Or.inl ⟨h3, h⟩))))
      · exact Or.inr (Or.inr (Or.inr (Or.inr (Or.inr ⟨h3, h⟩))))
  · intro h1 h2 h3 h4 hk
    exact applyBC_interior arr params bc hg i j k h1 h2 h3 h4 hk
  · intro hu
    rcases hc with h | ⟨h, hj, hj', hk⟩ | ⟨h, hi, hi', hk⟩ | ⟨h3, h, hi, hi', hj, hj'⟩
    · exact h
    · exfalso
      rcases hu with ⟨a, b⟩ | ⟨a, b⟩ | ⟨a, b⟩ | ⟨a, b⟩ | ⟨d, a, b⟩ | ⟨d, a, b⟩
      · rcases h with ⟨_, c⟩ | ⟨c, _⟩
        · exact c b
        · omega
      · rcases h with ⟨c, _⟩ | ⟨_, c⟩
        · omega
        · exact c b
      · omega
      · omega
      · have := hk3 d hk; omega
      · have := hk3 d hk; omega
    · exfalso
      rcases hu with ⟨a, b⟩ | ⟨a, b⟩ | ⟨a, b⟩ | ⟨a, b⟩ | ⟨d, a, b⟩ | ⟨d, a, b⟩
      · omega
      · omega
      · rcases h with ⟨_, c⟩ | ⟨c, _⟩
        · exact c b
        · omega
      · rcases h with ⟨c, _⟩ | ⟨_, c⟩
        · omega
        · exact c b
      · have := hk3 d hk; omega
      · have := hk3 d hk; omega
    · exfalso
      have := hNZ3 h3
      rcases hu with ⟨a, b⟩ | ⟨a, b⟩ | ⟨a, b⟩ | ⟨a, b⟩ | ⟨d, a, b⟩ | ⟨d, a, b⟩
      · omega
      · omega
      · omega
      · omega
      · rcases h with ⟨_, c⟩ | ⟨c, _⟩
        · exact c b
        · omega
      · rcases h with ⟨c, _⟩ | ⟨_, c⟩
        · omega
        · exact c b

/-- Witness for C22: 4 x 4 grid, `phi[p] = p`, left face Undefined and the three
other faces NoFlux: the left ghost cell `(0,2)` (index `2`) keeps its value `2`. -/
theorem applyBC_changes_only_defined_faces_witness :
    validGrid (sampleParams 2 4 4 1 allNoFlux) ∧
    (applyBoundaryConditions rampArr (sampleParams 2 4 4 1 allNoFlux)
        (mainStrides (sampleParams 2 4 4 1 allNoFlux))
        { allNoFlux with left := BoundaryType.BOUNDARY_UNDEFINED }).get
        (IDX (mainStrides (sampleParams 2 4 4 1 allNoFlux)) 0 2 0)
      = rampArr.get (IDX (mainStrides (sampleParams 2 4 4 1 allNoFlux)) 0 2 0) :=
  ⟨by simp [validGrid, sampleParams],
    (applyBC_changes_only_defined_faces rampArr (sampleParams 2 4 4 1 allNoFlux)
      { allNoFlux with left := BoundaryType.BOUNDARY_UNDEFINED }
      (by simp [validGrid, sampleParams]) 0 2 0 (by decide) (by decide) (by decide)
      (by decide)).2.2 (Or.inl ⟨rfl, rfl⟩)⟩

/-! ## Write-back of the interior -/

/-- The C `copyInterior`: the cells `(i, j, 0)` with `i, j` interior receive the
value of the source, every other entry keeps its value. -/
theorem CEngine.c_copyInterior_spec {F : Type} (dst src : Arr F) (params : SimParams F)
    (hNZ : 1 ≤ params.Num_Z) :
    (∀ i j, 1 ≤ i → i ≤ params.Num_X - 2 → 1 ≤ j → j ≤ params.Num_Y - 2 →
      (CEngine.copyInterior dst src params (mainStrides params)).get
          (IDX (mainStrides params) i j 0) = src.get (IDX (mainStrides params) i j 0)) ∧
    (∀ p, (∀ i j, 1 ≤ i → i ≤ params.Num_X - 2 → 1 ≤ j → j ≤ params.Num_Y - 2 →
        p ≠ IDX (mainStrides params) i j 0) →
      (CEngine.copyInterior dst src params (mainStrides params)).get p = dst.get p) := by
  rw [CEngine.copyInterior_eq]
  exact interiorUpdate2D_spec params hNZ (fun index _ => src.get index) dst

/-- A cell of the box that is not interior has a flattened index different from
that of every interior cell. -/
theorem IDX_ne_of_not_interior {F : Type} (params : SimParams F) (hg : validGrid params)
    (i j k : Int) (hj0 : 0 ≤ j) (hj1 : j ≤ params.Num_Y - 1) (hk0 : 0 ≤ k)
    (hk1 : k ≤ params.Num_Z - 1)
    (h : ¬ (1 ≤ i ∧ i ≤ params.Num_X - 2 ∧ 1 ≤ j ∧ j ≤ params.Num_Y - 2 ∧ interiorK params k)) :
    ∀ i' j' k', 1 ≤ i' → i' ≤ params.Num_X - 2 → 1 ≤ j' → j' ≤ params.Num_Y - 2 →
      interiorK params k' → IDX (mainStrides params) i j k ≠ IDX (mainStrides params) i' j' k' := by
  intro i' j' k' h1 h2 h3 h4 hk' he
  obtain ⟨-, -, hk0', hk1', -⟩ := krange_of_interiorK hg hk'
  obtain ⟨e1, e2, e3⟩ := IDX_inj params hj0 (by omega) hk0 (by omega) (by omega) (by omega)
    hk0' hk1' he
  apply h
  rw [e1, e2, e3]
  exact ⟨h1, h2, h3, h4, hk'⟩

/-! ## Claim on the write-back of the interior -/

/-- C23, as stated, fails for the C engine on a 3D grid: 3 x 3 x 3 grid, `dst = 0` and
`src = 1` everywhere.  After the C engine's `copyInterior` the interior cell
`(1,1,1)` of `dst` still holds `0`, not the value `1` of `src`, and the ghost cell
`(1,1,0)` holds `1`: the function copies the layer `k = 0` only. -/
theorem copyInterior_C_engine_3D_counterexample :
    (CEngine.copyInterior (Arr.const (0 : ℚ)) (Arr.const 1) (sampleParams 3 3 3 3 allNoFlux)
        (mainStrides (sampleParams 3 3 3 3 allNoFlux))).get
        (IDX (mainStrides (sampleParams 3 3 3 3 allNoFlux)) 1 1 1) = 0 ∧
    (CEngine.copyInterior (Arr.const (0 : ℚ)) (Arr.const 1) (sampleParams 3 3 3 3 allNoFlux)
        (mainStrides (sampleParams 3 3 3 3 allNoFlux))).get
        (IDX (mainStrides (sampleParams 3 3 3 3 allNoFlux)) 1 1 0) = 1 := by
  obtain ⟨hv, hf⟩ := CEngine.c_copyInterior_spec (Arr.const (0 : ℚ)) (Arr.const 1)
    (sampleParams 3 3 3 3 allNoFlux) (by decide)
  refine ⟨?_, ?_⟩
  · rw [hf _ (fun i j _ _ _ _ => IDX_ne _ ⟨by decide, by decide⟩ ⟨by decide, by decide⟩
      ⟨by omega, by omega⟩ ⟨by decide, by decide⟩ (Or.inr (Or.inr (by decide))))]
    rfl
  · rw [hv 1 1 (by decide) (by decide) (by decide) (by decide)]
    rfl

/-- C23, amended.  In the C++ engine in 2D and 3D, and in the C engine on a 2D grid,
after `copyInterior(dst, src)` every interior cell of `dst` (`1 <= i <= NX-2`,
`1 <= j <= NY-2`, and `1 <= k <= NZ-2` in 3D) equals the corresponding cell of
`src`, and every ghost cell of `dst` (every cell of the box that is not
interior) is unchanged. -/
theorem copyInterior_interior_and_frame {F : Type} (dst src : Arr F) (params : SimParams F)
    (hg : validGrid params) :
    (∀ i j k, 1 ≤ i → i ≤ params.Num_X - 2 → 1 ≤ j → j ≤ params.Num_Y - 2 →
      interiorK params k →
      (CppEngine.copyInterior dst src params (mainStrides params)).get
          (IDX (mainStrides params) i j k) = src.get (IDX (mainStrides params) i j k)) ∧
    (∀ i j k, 0 ≤ i → i ≤ params.Num_X - 1 → 0 ≤ j → j ≤ params.Num_Y - 1 → 0 ≤ k →
      k ≤ params.Num_Z - 1 →
      ¬ (1 ≤ i ∧ i ≤ params.Num_X - 2 ∧ 1 ≤ j ∧ j ≤ params.Num_Y - 2 ∧ interiorK params k) →
      (CppEngine.copyInterior dst src params (mainStrides params)).get
          (IDX (mainStrides params) i j k) = dst.get (IDX (mainStrides params) i j k)) ∧
    (params.DIM = 2 →
      (∀ i j, 1 ≤ i → i ≤ params.Num_X - 2 → 1 ≤ j → j ≤ params.Num_Y - 2 →
        (CEngine.copyInterior dst src params (mainStrides params)).get
            (IDX (mainStrides params) i j 0) = src.get (IDX (mainStrides params) i j 0)) ∧
      (∀ i j, 0 ≤ i → i ≤ params.Num_X - 1 → 0 ≤ j → j ≤ params.Num_Y - 1 →
        ¬ (1 ≤ i ∧ i ≤ params.Num_X - 2 ∧ 1 ≤ j ∧ j ≤ params.Num_Y - 2) →
        (CEngine.copyInterior dst src params (mainStrides params)).get
            (IDX (mainStrides params) i j 0) = dst.get (IDX (mainStrides params) i j 0))) := by
  obtain ⟨hv, hf⟩ := CppEngine.cpp_copyInterior_spec dst src params hg
  refine ⟨hv, ?_, ?_⟩
  · intro i j k _ _ hj0 hj1 hk0 hk1 hn
    exact hf _ (IDX_ne_of_not_interior params hg i j k hj0 hj1 hk0 hk1 hn)
  · intro h2
    obtain ⟨hNZ, hk⟩ := validGrid_2D hg h2
    obtain ⟨cv, cf⟩ := CEngine.c_copyInterior_spec dst src params (by omega)
    refine ⟨cv, ?_⟩
    intro i j _ _ hj0 hj1 hn
    exact cf _ (IDX_ne_interior params (by omega) i j hj0 hj1 hn)

/-- Witness for the amended C23: C++ engine, 3 x 3 x 3 grid, `dst = 0`, `src[p] = p`:
the interior cell `(1,1,1)` receives `13`. -/
theorem copyInterior_interior_and_frame_witness :
    validGrid (sampleParams 3 3 3 3 allNoFlux) ∧
    (CppEngine.copyInterior (Arr.const 0) rampArr (sampleParams 3 3 3 3 allNoFlux)
        (mainStrides (sampleParams 3 3 3 3 allNoFlux))).get
        (IDX (mainStrides (sampleParams 3 3 3 3 allNoFlux)) 1 1 1) = 13 := by
  have hg : validGrid (sampleParams 3 3 3 3 allNoFlux) := by simp [validGrid, sampleParams]
  refine ⟨hg, ?_⟩
  rw [(copyInterior_interior_and_frame (Arr.const 0) rampArr (sampleParams 3 3 3 3 allNoFlux)
    hg).1 1 1 1 (by decide) (by decide) (by decide) (by decide)
    (by simp [interiorK, sampleParams])]
  simp [rampArr, IDX, mainStrides, sampleParams]

/-! ## Claim on the random sample -/

/-- The value stored by one cell of the C++ `updatePhi`, with the sample written
as `randSample`. -/
theorem CppEngine.cpp_updatePhiCell_sample {F : Type} [Field F] (phi : Arr F)
    (params : SimParams F) (RAND_MAX : Int) (rng : Nat → Int) (idx : Int) (fb : FieldBuffers F)
    (n : Nat) :
    (CppEngine.updatePhiCell phi params (mainR params) RAND_MAX rng idx (fb, n)).1.dphi_dt.get idx
      = specDphiDt fb phi params (randSample RAND_MAX (rng n)) idx :=
  (CppEngine.cpp_updatePhiCell_value phi params RAND_MAX rng idx fb n).1

/-- The sample lies in `[0, 1]` and reaches `1` exactly at `n = RAND_MAX`. -/
theorem randSample_bounds {F : Type} [LinearOrderedField F] (RAND_MAX n : Int)
    (hR : 0 < RAND_MAX) (h0 : 0 ≤ n) (h1 : n ≤ RAND_MAX) :
    0 ≤ (randSample RAND_MAX n : F) ∧ (randSample RAND_MAX n : F) ≤ 1 ∧
    ((randSample RAND_MAX n : F) = 1 ↔ n = RAND_MAX) := by
  have hRF : (0 : F) < ((RAND_MAX : Int) : F) := by exact_mod_cast hR
  have h0F : (0 : F) ≤ ((n : Int) : F) := by exact_mod_cast h0
  have h1F : ((n : Int) : F) ≤ ((RAND_MAX : Int) : F) := by exact_mod_cast h1
  unfold randSample
  refine ⟨div_nonneg h0F hRF.le, (div_le_one hRF).2 h1F, ?_⟩
  rw [div_eq_one_iff_eq hRF.ne']
  exact_mod_cast Iff.rfl

/-- C29, as stated, fails at the largest return value: with `RAND_MAX = 2147483647`
and `rand()` returning `RAND_MAX`, the sample `rand()/RAND_MAX` is `1`, which is
not in `[0,1)`. -/
theorem randSample_reaches_one_counterexample :
    (randSample 2147483647 2147483647 : ℚ) = 1 ∧
    ¬ ((randSample 2147483647 2147483647 : ℚ) < 1) := by
  have h : (randSample 2147483647 2147483647 : ℚ) = 1 := by
    simp [randSample]
  exact ⟨h, by rw [h]; exact lt_irrefl _⟩

/-- C29, amended.  The per-cell random sample `U = rand()/RAND_MAX` of `updatePhi`
lies in the closed interval `[0,1]` for every return value `n` of `rand()`
(`0 <= n <= RAND_MAX`); it equals `1` exactly when `n = RAND_MAX` and lies in
`[0,1)` for every other return value. -/
theorem randSample_in_closed_unit_interval {F : Type} [LinearOrderedField F]
    (RAND_MAX n : Int) (hR : 0 < RAND_MAX) (h0 : 0 ≤ n) (h1 : n ≤ RAND_MAX) :
    0 ≤ (randSample RAND_MAX n : F) ∧ (randSample RAND_MAX n : F) ≤ 1 ∧
    ((randSample RAND_MAX n : F) = 1 ↔ n = RAND_MAX) ∧
    (n ≠ RAND_MAX → (randSample RAND_MAX n : F) < 1) := by
  obtain ⟨a, b, c⟩ := randSample_bounds (F := F) RAND_MAX n hR h0 h1
  exact ⟨a, b, c, fun hne => lt_of_le_of_ne b (fun he => hne (c.1 he))⟩

/-- Witness for the amended C29: `RAND_MAX = 2147483647`, `n = 1073741823`. -/
theorem randSample_in_closed_unit_interval_witness :
    (0 : ℚ) ≤ randSample 2147483647 1073741823 ∧
    (randSample 2147483647 1073741823 : ℚ) < 1 :=
  ⟨(randSample_in_closed_unit_interval (F := ℚ) 2147483647 1073741823 (by decide) (by decide)
      (by decide)).1,
    (randSample_in_closed_unit_interval (F := ℚ) 2147483647 1073741823 (by decide) (by decide)
      (by decide)).2.2.2 (by decide)⟩

/-! ## Initial fills -/

/-- A loop nest of depth three over the cells `(i, j, k)` that assigns `g i j k` to
the array entry of its cell: the entry of each visited cell holds its value, and
every other entry is unchanged. -/
theorem assignLoop3_spec {F : Type} (params : SimParams F) (g : Int → Int → Int → F)
    (c0 c1 : Int) (hc0 : 0 ≤ c0) (hc1 : c1 ≤ params.Num_Z) (arr : Arr F) :
    (∀ i j k, 1 ≤ i → i < params.Num_X - 1 → 1 ≤ j → j < params.Num_Y - 1 → c0 ≤ k → k < c1 →
      (forLoop 1 (params.Num_X - 1) (fun i s => forLoop 1 (params.Num_Y - 1) (fun j s =>
        forLoop c0 c1 (fun k s => s.set (IDX (mainStrides params) i j k) (g i j k)) s) s) arr).get
          (IDX (mainStrides params) i j k) = g i j k) ∧
    (∀ p, (∀ i j k, 1 ≤ i → i < params.Num_X - 1 → 1 ≤ j → j < params.Num_Y - 1 → c0 ≤ k →
        k < c1 → p ≠ IDX (mainStrides params) i j k) →
      (forLoop 1 (params.Num_X - 1) (fun i s => forLoop 1 (params.Num_Y - 1) (fun j s =>
        forLoop c0 c1 (fun k s => s.set (IDX (mainStrides params) i j k) (g i j k)) s) s) arr).get p
        = arr.get p) := by
  obtain ⟨-, hf, hv⟩ := forLoop3_scatter (σ := Arr F) (fun s p => s.get p) (fun _ => 0) 0
    (fun s _ => s) (fun i j k s => s.set (IDX (mainStrides params) i j k) (g i j k))
    (fun i j k p => p = IDX (mainStrides params) i j k) (fun _ => True)
    1 (params.Num_X - 1) 1 (params.Num_Y - 1) c0 c1 (fun _ _ _ => rfl) (fun _ _ => by simp)
    (fun _ _ _ _ _ _ _ _ _ _ _ => trivial)
    (fun _ _ _ _ _ _ _ _ _ _ => rfl)
    (fun i j k _ _ _ _ _ _ s p hp => Arr.get_set_ne s _ hp)
    (by
      intro i j k _ _ _ _ _ _ s s' p hp _ _ _
      subst hp
      simp [Arr.get_set_self])
    (by
      intro i j k i' j' k' h1 h2 h3 h4 h5 h6 h7 h8 h9 h10 h11 h12 hne p hp hp'
      have := IDX_inj params (by omega) (by omega) (by omega) (by omega) (by omega) (by omega)
        (by omega) (by omega) (hp.symm.trans hp')
      rcases hne with hne | hne | hne
      · exact hne this.1
      · exact hne this.2.1
      · exact hne this.2.2)
    arr
  refine ⟨?_, ?_⟩
  · intro i j k h1 h2 h3 h4 h5 h6
    exact (hv i j k h1 h2 h3 h4 h5 h6 _ rfl arr (fun _ _ => rfl) rfl rfl).trans
      (Arr.get_set_self arr _ _)
  · intro p hp
    exact hf p hp

/-- The C++ `FillCube`: every interior cell holds `fillValue` when the inside test
of the specification holds for it and `1 - fillValue` otherwise; every other
entry of the array is unchanged. -/
theorem CppEngine.cpp_FillCube_spec {F : Type} [Field F] (arr : Arr F) (vb : VariableFill F)
    (params : SimParams F) (hg : validGrid params) :
    (∀ i j k, 1 ≤ i → i ≤ params.Num_X - 2 → 1 ≤ j → j ≤ params.Num_Y - 2 →
      interiorK params k →
      (CppEngine.FillCube arr vb params (mainStrides params)).get (IDX (mainStrides params) i j k)
        = if specInsideCube vb.c params.DIM i j k then vb.fillValue else 1 - vb.fillValue) ∧
    (∀ p, (∀ i j k, 1 ≤ i → i ≤ params.Num_X - 2 → 1 ≤ j → j ≤ params.Num_Y - 2 →
        interiorK params k → p ≠ IDX (mainStrides params) i j k) →
      (CppEngine.FillCube arr vb params (mainStrides params)).get p = arr.get p) := by
  obtain ⟨hks, hke⟩ := kloop_bounds hg
  obtain ⟨hv, hf⟩ := assignLoop3_spec params
    (fun i j k => if ((decide (i ≥ vb.c.x_start) && decide (i ≤ vb.c.x_end)) &&
          (decide (j ≥ vb.c.y_start) && decide (j ≤ vb.c.y_end)) &&
          (decide (params.DIM = 2) || (decide (k ≥ vb.c.z_start) && decide (k ≤ vb.c.z_end))))
        = true then vb.fillValue else 1 - vb.fillValue)
    (if params.DIM = 3 then 1 else 0) (if params.DIM = 3 then params.Num_Z - 1 else 1)
    hks hke arr
  refine ⟨?_, ?_⟩
  · intro i j k hi0 hi1 hj0 hj1 hk
    obtain ⟨hk0, hk1, -, -, -⟩ := krange_of_interiorK hg hk
    have := hv i j k hi0 (by omega) hj0 (by omega) hk0 hk1
    simp only [CppEngine.FillCube]
    rw [this]
    simp only [specInsideCube, Bool.and_eq_true, Bool.or_eq_true, decide_eq_true_eq, ge_iff_le,
      and_assoc]
  · intro p hp
    exact hf p (fun i j k h1 h2 h3 h4 h5 h6 =>
      hp i j k h1 (by omega) h3 (by omega) (interiorK_of_krange hg h5 h6))

/-- The C `FillCube`: every interior cell holds `fillValue` when the test of the
code holds for it, namely `x_start <= i <= x_end`, `y_start <= j <= y_end`, and
`DIM = 2` or `x_start <= k <= z_end`, and `1 - fillValue` otherwise; every other
entry of the array is unchanged. -/
theorem CEngine.c_FillCube_spec {F : Type} [Field F] (arr : Arr F) (vb : VariableFill F)
    (params : SimParams F) (hg : validGrid params) :
    (∀ i j k, 1 ≤ i → i ≤ params.Num_X - 2 → 1 ≤ j → j ≤ params.Num_Y - 2 →
      interiorK params k →
      (CEngine.FillCube arr vb params (mainStrides params)).get (IDX (mainStrides params) i j k)
        = if vb.c.x_start ≤ i ∧ i ≤ vb.c.x_end ∧ vb.c.y_start ≤ j ∧ j ≤ vb.c.y_end ∧
            (params.DIM = 2 ∨ (vb.c.x_start ≤ k ∧ k ≤ vb.c.z_end))
          then vb.fillValue else 1 - vb.fillValue) ∧
    (∀ p, (∀ i j k, 1 ≤ i → i ≤ params.Num_X - 2 → 1 ≤ j → j ≤ params.Num_Y - 2 →
        interiorK params k → p ≠ IDX (mainStrides params) i j k) →
      (CEngine.FillCube arr vb params (mainStrides params)).get p = arr.get p) := by
  obtain ⟨hks, hke⟩ := kloop_bounds hg
  obtain ⟨hv, hf⟩ := assignLoop3_spec params
    (fun i j k => if (decide (i ≥ vb.c.x_start) && decide (i ≤ vb.c.x_end) &&
            decide (j ≥ vb.c.y_start) && decide (j ≤ vb.c.y_end) &&
            (decide (params.DIM = 2) || (decide (k ≥ vb.c.x_start) && decide (k ≤ vb.c.z_end))))
          = true then vb.fillValue else 1 - vb.fillValue)
    (if params.DIM = 3 then 1 else 0) (if params.DIM = 3 then params.Num_Z - 1 else 1)
    hks hke arr
  have e : CEngine.FillCube arr vb params (mainStrides params)
      = forLoop 1 (params.Num_X - 1) (fun i s => forLoop 1 (params.Num_Y - 1) (fun j s =>
          forLoop (if params.DIM = 3 then 1 else 0)
            (if params.DIM = 3 then params.Num_Z - 1 else 1)
            (fun k s => s.set (IDX (mainStrides params) i j k)
              (if (decide (i ≥ vb.c.x_start) && decide (i ≤ vb.c.x_end) &&
                  decide (j ≥ vb.c.y_start) && decide (j ≤ vb.c.y_end) &&
                  (decide (params.DIM = 2) ||
                    (decide (k ≥ vb.c.x_start) && decide (k ≤ vb.c.z_end)))) = true
                then vb.fillValue else 1 - vb.fillValue)) s) s) arr := by
    simp only [CEngine.FillCube]
    congr 1
    funext i s
    congr 1
    funext j s
    congr 1
    funext k s
    split <;> rfl
  rw [e]
  refine ⟨?_, ?_⟩
  · intro i j k hi0 hi1 hj0 hj1 hk
    obtain ⟨hk0, hk1, -, -, -⟩ := krange_of_interiorK hg hk
    rw [hv i j k hi0 (by omega) hj0 (by omega) hk0 hk1]
    simp only [Bool.and_eq_true, Bool.or_eq_true, decide_eq_true_eq, ge_iff_le, and_assoc]
  · intro p hp
    exact hf p (fun i j k h1 h2 h3 h4 h5 h6 =>
      hp i j k h1 (by omega) h3 (by omega) (interiorK_of_krange hg h5 h6))

/-- The C `FillCube` on a 2D grid: every interior cell holds `fillValue` when the
inside test of the specification holds for it and `1 - fillValue` otherwise. -/
theorem CEngine.c_FillCube_2D {F : Type} [Field F] (arr : Arr F) (vb : VariableFill F)
    (params : SimParams F) (hg : validGrid params) (h2 : params.DIM = 2) (i j : Int)
    (hi0 : 1 ≤ i) (hi1 : i ≤ params.Num_X - 2) (hj0 : 1 ≤ j) (hj1 : j ≤ params.Num_Y - 2) :
    (CEngine.FillCube arr vb params (mainStrides params)).get (IDX (mainStrides params) i j 0)
      = if specInsideCube vb.c params.DIM i j 0 then vb.fillValue else 1 - vb.fillValue := by
  obtain ⟨-, hk⟩ := validGrid_2D hg h2
  rw [(CEngine.c_FillCube_spec arr vb params hg).1 i j 0 hi0 hi1 hj0 hj1 hk]
  simp [specInsideCube, h2]

/-! ## Claim on the cube fill -/

/-- C26: the C engine's `FillCube` departs from the claim on a 3D grid.  Grid
4 x 3 x 3, array `0` everywhere, cube `x = 2..2`, `y = 1..1`, `z = 1..1`, fill value
`3/4`.  The interior cell `(2,1,1)` passes the inside test of the claim.  The C++
engine stores `fillValue = 3/4` there, as claimed; the C engine stores
`1 - fillValue = 1/4`, because its test compares `k` with `x_start` (`1 >= 2`
fails) where the claim has `z_start`. -/
theorem FillCube_C_engine_compares_k_with_x_start :
    specInsideCube (sampleCubeFill (3 / 4) 2 2 1 1 1 1).c (sampleParams 3 4 3 3 allNoFlux).DIM
      2 1 1 ∧
    (CppEngine.FillCube (Arr.const 0) (sampleCubeFill (3 / 4) 2 2 1 1 1 1)
        (sampleParams 3 4 3 3 allNoFlux) (mainStrides (sampleParams 3 4 3 3 allNoFlux))).get
        (IDX (mainStrides (sampleParams 3 4 3 3 allNoFlux)) 2 1 1) = 3 / 4 ∧
    (CEngine.FillCube (Arr.const 0) (sampleCubeFill (3 / 4) 2 2 1 1 1 1)
        (sampleParams 3 4 3 3 allNoFlux) (mainStrides (sampleParams 3 4 3 3 allNoFlux))).get
        (IDX (mainStrides (sampleParams 3 4 3 3 allNoFlux)) 2 1 1) = 1 / 4 := by
  have hg : validGrid (sampleParams 3 4 3 3 allNoFlux) := by simp [validGrid, sampleParams]
  have hk : interiorK (sampleParams 3 4 3 3 allNoFlux) 1 := by simp [interiorK, sampleParams]
  refine ⟨by simp [specInsideCube, sampleCubeFill], ?_, ?_⟩
  · rw [(CppEngine.cpp_FillCube_spec _ _ _ hg).1 2 1 1 (by decide) (by decide) (by decide)
      (by decide) hk]
    simp [specInsideCube, sampleCubeFill]
  · rw [(CEngine.c_FillCube_spec _ _ _ hg).1 2 1 1 (by decide) (by decide) (by decide)
      (by decide) hk]
    simp [sampleCubeFill, sampleParams]
    norm_num

/-! ## Loops as folds over the list of their index values -/

/-- The iterations of a loop are the fold of its body over the list of its index
values. -/
theorem loopFrom_eq_foldl {σ : Type} (body : Int → σ → σ) :
    ∀ (n : Nat) (i : Int) (s : σ),
      loopFrom body n i s
        = ((List.range n).map (fun (m : Nat) => i + (m : Int))).foldl (fun s i => body i s) s := by
  intro n
  induction n with
  | zero => intro i s; rfl
  | succ n ih =>
    intro i s
    rw [loopFrom, ih, List.range_succ_eq_map]
    simp only [List.map_cons, List.foldl_cons, List.map_map]
    have e : (fun m : Nat => i + 1 + (m : Int)) = (fun m : Nat => i + (m : Int)) ∘ Nat.succ := by
      funext m
      simp only [Function.comp, Nat.cast_succ]
      ring
    rw [e]
    simp

/-- A `for` loop is the fold of its body over the list of its index values. -/
theorem forLoop_eq_foldl {σ : Type} (lo hi : Int) (body : Int → σ → σ) (s : σ) :
    forLoop lo hi body s = (loopRange lo hi).foldl (fun s i => body i s) s :=
  loopFrom_eq_foldl body _ lo s

/-- The index values of a loop are the integers from `lo` to `hi - 1`. -/
theorem mem_loopRange {lo hi i : Int} : i ∈ loopRange lo hi ↔ lo ≤ i ∧ i < hi := by
  simp only [loopRange, List.mem_map, List.mem_range]
  constructor
  · rintro ⟨n, hn, rfl⟩
    omega
  · intro h
    exact ⟨(i - lo).toNat, by omega, by omega⟩

/-- The index values of a loop are pairwise distinct. -/
theorem loopRange_nodup (lo hi : Int) : (loopRange lo hi).Nodup := by
  apply List.Nodup.map _ (List.nodup_range _)
  intro a b h
  simpa using h

/-- Two nested folds are one fold over the list of the pairs. -/
theorem foldl_product {σ β γ : Type} (f : β → γ → σ → σ) (l2 : List γ) :
    ∀ (l1 : List β) (s : σ),
      l1.foldl (fun s a => l2.foldl (fun s b => f a b s) s) s
        = (l1 ×ˢ l2).foldl (fun s c => f c.1 c.2 s) s := by
  intro l1
  induction l1 with
  | nil => intro s; rfl
  | cons a l1 ih =>
    intro s
    rw [List.foldl_cons, ih, List.product_cons, List.foldl_append, List.foldl_map]

/-- A loop nest of depth two is the fold of its body over the list of the pairs
of its index values, the first index varying slowest. -/
theorem forLoop2_eq_foldl {σ : Type} (a0 a1 b0 b1 : Int) (body : Int → Int → σ → σ) (s : σ) :
    forLoop a0 a1 (fun i s => forLoop b0 b1 (fun j s => body i j s) s) s
      = (loopRange a0 a1 ×ˢ loopRange b0 b1).foldl (fun s c => body c.1 c.2 s) s := by
  rw [forLoop_eq_foldl, ← foldl_product]
  congr 1
  funext s i
  exact forLoop_eq_foldl b0 b1 _ s

/-- A fold that appends one item per element produces the list of the items. -/
theorem foldl_append_singleton {β γ : Type} (g : β → γ) :
    ∀ (l : List β) (out : List γ), l.foldl (fun out c => out ++ [g c]) out = out ++ l.map g := by
  intro l
  induction l with
  | nil => intro out; simp
  | cons a l ih => intro out; simp [ih]

/-! ## Readers of restart files -/

/-- A reader whose loop visits the cells `L` (pairwise distinct flattened
indices), on a file that starts with one item per cell of `L`: no call of
`fscanf` fails, the items of the cells are consumed, the array entry of each
cell of `L` holds the value read from the item at the same position, and every
other entry is unchanged. -/
theorem readCells_spec {α β F : Type} (rd : List α → Option (F × List α)) (idx : β → Int)
    (item : β → α) (val : β → F) (hrd : ∀ b rest, rd (item b :: rest) = some (val b, rest))
    (tail : List α) :
    ∀ (L : List β), L.Nodup → (∀ a ∈ L, ∀ b ∈ L, idx a = idx b → a = b) → ∀ (arr : Arr F),
      (L.foldl (fun st c => readCell rd (idx c) st)
          { arr := arr, fp := L.map item ++ tail, exited := false }).exited = false ∧
      (L.foldl (fun st c => readCell rd (idx c) st)
          { arr := arr, fp := L.map item ++ tail, exited := false }).fp = tail ∧
      (∀ c ∈ L, (L.foldl (fun st c => readCell rd (idx c) st)
          { arr := arr, fp := L.map item ++ tail, exited := false }).arr.get (idx c) = val c) ∧
      (∀ p, (∀ c ∈ L, p ≠ idx c) → (L.foldl (fun st c => readCell rd (idx c) st)
          { arr := arr, fp := L.map item ++ tail, exited := false }).arr.get p = arr.get p) := by
  intro L
  induction L with
  | nil =>
    intro _ _ arr
    exact ⟨rfl, rfl, fun c hc => absurd hc (List.not_mem_nil c), fun _ _ => rfl⟩
  | cons a L ih =>
    intro hnd hinj arr
    have hstep : readCell rd (idx a)
        { arr := arr, fp := (a :: L).map item ++ tail, exited := false }
        = { arr := arr.set (idx a) (val a), fp := L.map item ++ tail, exited := false } := by
      simp [readCell, hrd]
    rw [List.foldl_cons, hstep]
    obtain ⟨h1, h2, h3, h4⟩ := ih (List.nodup_cons.1 hnd).2
      (fun x hx y hy => hinj x (List.mem_cons_of_mem _ hx) y (List.mem_cons_of_mem _ hy))
      (arr.set (idx a) (val a))
    refine ⟨h1, h2, ?_, ?_⟩
    · intro c hc
      rcases List.mem_cons.1 hc with rfl | hc
      · rw [h4 _ (fun b hb he => (List.nodup_cons.1 hnd).1
          ((hinj _ (List.mem_cons_self _ _) b (List.mem_cons_of_mem _ hb) he) ▸ hb))]
        exact Arr.get_set_self arr _ _
      · exact h3 c hc
    · intro p hp
      rw [h4 p (fun c hc => hp c (List.mem_cons_of_mem _ hc))]
      exact Arr.get_set_ne arr _ (hp a (List.mem_cons_self _ _))

/-- The pairs `(i, j)` of interior indices have pairwise distinct flattened
indices on every layer `k` of the box. -/
theorem interiorPairs_inj {F : Type} (params : SimParams F) (k : Int) (hk0 : 0 ≤ k)
    (hk1 : k ≤ params.Num_Z - 1) :
    ∀ a ∈ loopRange 1 (params.Num_X - 1) ×ˢ loopRange 1 (params.Num_Y - 1),
    ∀ b ∈ loopRange 1 (params.Num_X - 1) ×ˢ loopRange 1 (params.Num_Y - 1),
      IDX (mainStrides params) a.1 a.2 k = IDX (mainStrides params) b.1 b.2 k → a = b := by
  intro a ha b hb he
  obtain ⟨ha1, ha2⟩ := List.mem_product.1 ha
  obtain ⟨hb1, hb2⟩ := List.mem_product.1 hb
  rw [mem_loopRange] at ha1 ha2 hb1 hb2
  obtain ⟨e1, e2, -⟩ := IDX_inj params (by omega) (by omega) hk0 (by omega) (by omega) (by omega)
    hk0 (by omega) he
  exact Prod.ext e1 e2

/-- The pairs `(i, j)` of interior indices are pairwise distinct. -/
theorem interiorPairs_nodup {F : Type} (params : SimParams F) :
    (loopRange 1 (params.Num_X - 1) ×ˢ loopRange 1 (params.Num_Y - 1)).Nodup :=
  List.Nodup.product (loopRange_nodup _ _) (loopRange_nodup _ _)

/-- The loop `for (k = 0; k < 1; k++)` runs its body once, with `k = 0`. -/
theorem forLoop_zero_one {σ : Type} (body : Int → σ → σ) (s : σ) :
    forLoop 0 1 body s = body 0 s := rfl

/-- On a 2D grid `write_output_csv` writes one three-field record per interior
cell, `i` outermost. -/
theorem CppEngine.write_output_csv_2D {F : Type} (arr : Arr F) (params : SimParams F)
    (strides : Fin 3 → Int) (h2 : params.DIM = 2) :
    CppEngine.write_output_csv arr params strides
      = (loopRange 1 (params.Num_X - 1) ×ˢ loopRange 1 (params.Num_Y - 1)).map
          (fun c => CsvItem.line2 c.1 c.2 (arr.get (IDX strides c.1 c.2 0))) := by
  have e := forLoop2_eq_foldl 1 (params.Num_X - 1) 1 (params.Num_Y - 1)
    (fun i j (out : List (CsvItem F)) => out ++ [CsvItem.line2 i j (arr.get (IDX strides i j 0))])
    []
  rw [foldl_append_singleton (fun c : Int × Int =>
    CsvItem.line2 c.1 c.2 (arr.get (IDX strides c.1 c.2 0)))] at e
  simp only [List.nil_append] at e
  rw [← e]
  simp [CppEngine.write_output_csv, h2, forLoop_zero_one]

/-- On a 2D grid `write_output_vtk` writes one value per interior cell, `j`
outermost and `i` innermost. -/
theorem CppEngine.write_output_vtk_2D {F : Type} (arr : Arr F) (params : SimParams F)
    (strides : Fin 3 → Int) (h2 : params.DIM = 2) :
    CppEngine.write_output_vtk arr params strides
      = (loopRange 1 (params.Num_Y - 1) ×ˢ loopRange 1 (params.Num_X - 1)).map
          (fun c => arr.get (IDX strides c.2 c.1 0)) := by
  have e := forLoop2_eq_foldl 1 (params.Num_Y - 1) 1 (params.Num_X - 1)
    (fun j i (out : List F) => out ++ [arr.get (IDX strides i j 0)]) []
  rw [foldl_append_singleton (fun c : Int × Int => arr.get (IDX strides c.2 c.1 0))] at e
  simp only [List.nil_append] at e
  rw [← e]
  simp [CppEngine.write_output_vtk, h2, forLoop_zero_one]

/-- On a 2D grid the loop nest of `read_input_csv` is a fold over the interior
cells, `i` outermost. -/
theorem CppEngine.read_input_csv_2D {F : Type} [Field F] (rt : F → F) (file : List (CsvItem F))
    (arr : Arr F) (params : SimParams F) (strides : Fin 3 → Int) (h2 : params.DIM = 2) :
    CppEngine.read_input_csv rt file arr params strides
      = (loopRange 1 (params.Num_X - 1) ×ˢ loopRange 1 (params.Num_Y - 1)).foldl
          (fun st c => readCell (fscanf_csv rt) (IDX strides c.1 c.2 0) st)
          { arr := arr, fp := file, exited := false } := by
  rw [← forLoop2_eq_foldl 1 (params.Num_X - 1) 1 (params.Num_Y - 1)
    (fun i j st => readCell (fscanf_csv rt) (IDX strides i j 0) st)]
  simp [CppEngine.read_input_csv, h2]

/-- On a 2D grid the loop nest of `read_input_vtk` is a fold over the interior
cells, `i` outermost and `j` innermost. -/
theorem CppEngine.read_input_vtk_2D {F : Type} (rt : F → F) (file : List F)
    (arr : Arr F) (params : SimParams F) (strides : Fin 3 → Int) (h2 : params.DIM = 2) :
    CppEngine.read_input_vtk rt file arr params strides
      = (loopRange 1 (params.Num_X - 1) ×ˢ loopRange 1 (params.Num_Y - 1)).foldl
          (fun st c => readCell (fscanf_lf rt) (IDX strides c.1 c.2 0) st)
          { arr := arr, fp := file, exited := false } := by
  rw [← forLoop2_eq_foldl 1 (params.Num_X - 1) 1 (params.Num_Y - 1)
    (fun i j st => readCell (fscanf_lf rt) (IDX strides i j 0) st)]
  simp [CppEngine.read_input_vtk, h2]

/-- Restart from a 2D CSV file written by `write_output_csv`: no call of `fscanf`
fails, the whole file is consumed, and every interior cell receives the value
written for that cell, read back from its text. -/
theorem CppEngine.csv_read_write_2D {F : Type} [Field F] (rt : F → F) (src dst : Arr F)
    (params : SimParams F) (hg : validGrid params) (h2 : params.DIM = 2) :
    (CppEngine.read_input_csv rt (CppEngine.write_output_csv src params (mainStrides params))
        dst params (mainStrides params)).exited = false ∧
    (CppEngine.read_input_csv rt (CppEngine.write_output_csv src params (mainStrides params))
        dst params (mainStrides params)).fp = [] ∧
    ∀ i j, 1 ≤ i → i ≤ params.Num_X - 2 → 1 ≤ j → j ≤ params.Num_Y - 2 →
      (CppEngine.read_input_csv rt (CppEngine.write_output_csv src params (mainStrides params))
        dst params (mainStrides params)).arr.get (IDX (mainStrides params) i j 0)
        = rt (src.get (IDX (mainStrides params) i j 0)) := by
  obtain ⟨hNZ, -⟩ := validGrid_2D hg h2
  rw [CppEngine.write_output_csv_2D _ _ _ h2, CppEngine.read_input_csv_2D _ _ _ _ _ h2]
  have key := readCells_spec (fscanf_csv rt)
    (fun c : Int × Int => IDX (mainStrides params) c.1 c.2 0)
    (fun c => CsvItem.line2 c.1 c.2 (src.get (IDX (mainStrides params) c.1 c.2 0)))
    (fun c => rt (src.get (IDX (mainStrides params) c.1 c.2 0)))
    (fun _ _ => rfl) []
    (loopRange 1 (params.Num_X - 1) ×ˢ loopRange 1 (params.Num_Y - 1))
    (interiorPairs_nodup params) (interiorPairs_inj params 0 le_rfl (by omega)) dst
  simp only [List.append_nil] at key
  obtain ⟨h1, h2', h3, -⟩ := key
  refine ⟨h1, h2', ?_⟩
  intro i j hi0 hi1 hj0 hj1
  exact h3 (i, j) (List.mem_product.2 ⟨mem_loopRange.2 ⟨hi0, by omega⟩,
    mem_loopRange.2 ⟨hj0, by omega⟩⟩)

/-- Rounding to 8 decimals moves a value by at most `1e-8`. -/
theorem round8_error (v : ℚ) : |round8 v - v| ≤ 1 / 10 ^ 8 := by
  unfold round8
  have h := abs_sub_round (v * 10 ^ 8)
  have e : ((round (v * 10 ^ 8) : ℚ) / 10 ^ 8 - v)
      = -(v * 10 ^ 8 - round (v * 10 ^ 8)) / 10 ^ 8 := by
    field_simp
    ring
  rw [e, abs_div, abs_neg, abs_of_pos (show (0 : ℚ) < 10 ^ 8 by norm_num)]
  calc |v * 10 ^ 8 - (round (v * 10 ^ 8) : ℚ)| / 10 ^ 8 ≤ (1 / 2) / 10 ^ 8 := by gcongr
    _ ≤ 1 / 10 ^ 8 := by norm_num

/-! ## Claim on the restart from a VTK file -/

/-- C24: the reader of VTK files does not consume the values in the order of the
writer.  For every 2D grid with `Num_X = Num_Y`, every field `src` and every
destination array, `read_input_vtk` applied to the data written by
`write_output_vtk` ends without a failed read and has consumed the whole file,
and it stores at the interior cell `(i, j)` the value that was written for the
cell `(j, i)`: the writer emits with `j` outermost and `i` innermost, the reader
assigns with `i` outermost and `j` innermost, so the field comes back
transposed. -/
theorem vtk_restart_transposes_square_grid {F : Type} (rt : F → F) (src dst : Arr F)
    (params : SimParams F) (hg : validGrid params) (h2 : params.DIM = 2)
    (hsq : params.Num_X = params.Num_Y) :
    (CppEngine.read_input_vtk rt (CppEngine.write_output_vtk src params (mainStrides params))
        dst params (mainStrides params)).exited = false ∧
    (CppEngine.read_input_vtk rt (CppEngine.write_output_vtk src params (mainStrides params))
        dst params (mainStrides params)).fp = [] ∧
    ∀ i j, 1 ≤ i → i ≤ params.Num_X - 2 → 1 ≤ j → j ≤ params.Num_Y - 2 →
      (CppEngine.read_input_vtk rt (CppEngine.write_output_vtk src params (mainStrides params))
        dst params (mainStrides params)).arr.get (IDX (mainStrides params) i j 0)
        = rt (src.get (IDX (mainStrides params) j i 0)) := by
  obtain ⟨hNZ, -⟩ := validGrid_2D hg h2
  rw [CppEngine.write_output_vtk_2D _ _ _ h2, CppEngine.read_input_vtk_2D _ _ _ _ _ h2]
  have key := readCells_spec (fscanf_lf rt)
    (fun c : Int × Int => IDX (mainStrides params) c.1 c.2 0)
    (fun c => src.get (IDX (mainStrides params) c.2 c.1 0))
    (fun c => rt (src.get (IDX (mainStrides params) c.2 c.1 0)))
    (fun _ _ => rfl) []
    (loopRange 1 (params.Num_X - 1) ×ˢ loopRange 1 (params.Num_Y - 1))
    (interiorPairs_nodup params) (interiorPairs_inj params 0 le_rfl (by omega)) dst
  simp only [List.append_nil] at key
  rw [← hsq] at key ⊢
  obtain ⟨h1, h2', h3, -⟩ := key
  refine ⟨h1, h2', ?_⟩
  intro i j hi0 hi1 hj0 hj1
  exact h3 (i, j) (List.mem_product.2 ⟨mem_loopRange.2 ⟨hi0, by omega⟩,
    mem_loopRange.2 ⟨hj0, by omega⟩⟩)

/-- Witness for C24: 4 x 4 grid, `src[p] = p`, exact text round trip.  After the
restart the cell `(1,2)` holds `9`, the value written for the cell `(2,1)`; the
value written for the cell `(1,2)` itself is `6`. -/
theorem vtk_restart_transposes_square_grid_witness :
    validGrid (sampleParams 2 4 4 1 allNoFlux) ∧
    (CppEngine.read_input_vtk id
        (CppEngine.write_output_vtk rampArr (sampleParams 2 4 4 1 allNoFlux)
          (mainStrides (sampleParams 2 4 4 1 allNoFlux)))
        (Arr.const 0) (sampleParams 2 4 4 1 allNoFlux)
        (mainStrides (sampleParams 2 4 4 1 allNoFlux))).arr.get
        (IDX (mainStrides (sampleParams 2 4 4 1 allNoFlux)) 1 2 0) = 9 ∧
    rampArr.get (IDX (mainStrides (sampleParams 2 4 4 1 allNoFlux)) 1 2 0) = 6 := by
  have hg : validGrid (sampleParams 2 4 4 1 allNoFlux) := by simp [validGrid, sampleParams]
  refine ⟨hg, ?_, ?_⟩
  · rw [(vtk_restart_transposes_square_grid id rampArr (Arr.const 0)
      (sampleParams 2 4 4 1 allNoFlux) hg rfl rfl).2.2 1 2 (by decide) (by decide) (by decide)
      (by decide)]
    simp [rampArr, IDX, mainStrides, sampleParams]
  · simp [rampArr, IDX, mainStrides, sampleParams]

/-! ## Claim on the restart from a CSV file -/

/-- C25, as stated, fails for `DIM = 3`: 4 x 3 x 3 grid, `src[p] = p`, exact text
round trip.  The writer emits the four-field records `1,1,1,13` and `2,1,1,22`.
The first `fscanf("%d,%d,%lf")` of the reader takes the field `k = 1` for the
value and stores `1` at the cell `(1,1,1)`, whose value is `13`; the second call
meets the comma left in the stream and the reader exits. -/
theorem csv_restart_3D_counterexample :
    (CppEngine.read_input_csv id
        (CppEngine.write_output_csv rampArr (sampleParams 3 4 3 3 allNoFlux)
          (mainStrides (sampleParams 3 4 3 3 allNoFlux)))
        (Arr.const 0) (sampleParams 3 4 3 3 allNoFlux)
        (mainStrides (sampleParams 3 4 3 3 allNoFlux))).exited = true ∧
    (CppEngine.read_input_csv id
        (CppEngine.write_output_csv rampArr (sampleParams 3 4 3 3 allNoFlux)
          (mainStrides (sampleParams 3 4 3 3 allNoFlux)))
        (Arr.const 0) (sampleParams 3 4 3 3 allNoFlux)
        (mainStrides (sampleParams 3 4 3 3 allNoFlux))).arr.get
        (IDX (mainStrides (sampleParams 3 4 3 3 allNoFlux)) 1 1 1) = 1 ∧
    rampArr.get (IDX (mainStrides (sampleParams 3 4 3 3 allNoFlux)) 1 1 1) = 13 := by
  have e3 : (sampleParams 3 4 3 3 allNoFlux).DIM = 3 := rfl
  have ex : (sampleParams 3 4 3 3 allNoFlux).Num_X = 4 := rfl
  have ey : (sampleParams 3 4 3 3 allNoFlux).Num_Y = 3 := rfl
  have ez : (sampleParams 3 4 3 3 allNoFlux).Num_Z = 3 := rfl
  have l1 : ∀ {σ : Type} (body : Int → σ → σ) (s : σ),
      forLoop 1 (3 - 1) body s = body 1 s := fun _ _ => rfl
  have l2 : ∀ {σ : Type} (body : Int → σ → σ) (s : σ),
      forLoop 1 (4 - 1) body s = body 2 (body 1 s) := fun _ _ => rfl
  simp only [CppEngine.read_input_csv, CppEngine.write_output_csv, e3, ex, ey, ez, l1, l2,
    if_true, readCell, fscanf_csv]
  simp [Arr.set, Arr.const, rampArr, IDX, mainStrides, sampleParams, Function.update]

/-- C25, amended.  For `DIM = 2` and every field, `read_input_csv` applied to the
file produced by `write_output_csv` reads the records in the `(i, j)` order in
which they were written (no read fails and the whole file is consumed) and
reproduces every interior value within `1e-8` absolute error, the round trip
`rt` of a value through its 8-decimal text being within `1e-8` of the value. -/
theorem csv_restart_round_trip_2D {F : Type} [LinearOrderedField F] (rt : F → F)
    (src dst : Arr F) (params : SimParams F) (hg : validGrid params) (h2 : params.DIM = 2)
    (hrt : ∀ v, |rt v - v| ≤ 1 / 10 ^ 8) :
    (CppEngine.read_input_csv rt (CppEngine.write_output_csv src params (mainStrides params))
        dst params (mainStrides params)).exited = false ∧
    (CppEngine.read_input_csv rt (CppEngine.write_output_csv src params (mainStrides params))
        dst params (mainStrides params)).fp = [] ∧
    ∀ i j, 1 ≤ i → i ≤ params.Num_X - 2 → 1 ≤ j → j ≤ params.Num_Y - 2 →
      (CppEngine.read_input_csv rt (CppEngine.write_output_csv src params (mainStrides params))
          dst params (mainStrides params)).arr.get (IDX (mainStrides params) i j 0)
        = rt (src.get (IDX (mainStrides params) i j 0)) ∧
      |(CppEngine.read_input_csv rt (CppEngine.write_output_csv src params (mainStrides params))
          dst params (mainStrides params)).arr.get (IDX (mainStrides params) i j 0)
        - src.get (IDX (mainStrides params) i j 0)| ≤ 1 / 10 ^ 8 := by
  obtain ⟨h1, h2', h3⟩ := CppEngine.csv_read_write_2D rt src dst params hg h2
  refine ⟨h1, h2', ?_⟩
  intro i j hi0 hi1 hj0 hj1
  rw [h3 i j hi0 hi1 hj0 hj1]
  exact ⟨rfl, hrt _⟩

/-- Witness for the amended C25: 4 x 4 grid, `src[p] = p/3`, rounding to 8
decimals.  The cell `(1,1)` (index 5, value `5/3`) is read back as `1.66666667`. -/
theorem csv_restart_round_trip_2D_witness :
    validGrid (sampleParams 2 4 4 1 allNoFlux) ∧
    (CppEngine.read_input_csv round8
        (CppEngine.write_output_csv thirdsArr (sampleParams 2 4 4 1 allNoFlux)
          (mainStrides (sampleParams 2 4 4 1 allNoFlux)))
        (Arr.const 0) (sampleParams 2 4 4 1 allNoFlux)
        (mainStrides (sampleParams 2 4 4 1 allNoFlux))).arr.get
        (IDX (mainStrides (sampleParams 2 4 4 1 allNoFlux)) 1 1 0) = 166666667 / 100000000 := by
  have hg : validGrid (sampleParams 2 4 4 1 allNoFlux) := by simp [validGrid, sampleParams]
  refine ⟨hg, ?_⟩
  rw [((csv_restart_round_trip_2D round8 thirdsArr (Arr.const 0)
    (sampleParams 2 4 4 1 allNoFlux) hg rfl round8_error).2.2 1 1 (by decide) (by decide)
    (by decide) (by decide)).1]
  simp only [thirdsArr, IDX, mainStrides, sampleParams, round8]
  norm_num [round_eq]

/-! ## Reading the input file: the loop over the lines -/

/-- The loop over the lines stops at the first line whose handling does not go
on: the lines before it are handled in order, and its outcome is the outcome of
the loop. -/
theorem readLines_stop {σ : Type} (handle : List Char → σ → ReadResult σ) (line : List Char)
    (post : List (List Char)) :
    ∀ (pre : List (List Char)) (st0 st : σ), readLines handle pre st0 = ReadResult.ok st →
      (∀ s, handle line st ≠ ReadResult.ok s) →
      readLines handle (pre ++ line :: post) st0
        = (match handle line st with
            | ReadResult.ok s => ReadResult.ok s
            | ReadResult.error => ReadResult.error
            | ReadResult.exit_failure => ReadResult.exit_failure
            | ReadResult.null_dereference => ReadResult.null_dereference) := by
  intro pre
  induction pre with
  | nil =>
    intro st0 st h hne
    simp only [readLines] at h
    cases h
    simp only [List.nil_append, readLines]
    cases hl : handle line st0 with
    | ok s => exact absurd hl (hne s)
    | error => rfl
    | exit_failure => rfl
    | null_dereference => rfl
  | cons l pre ih =>
    intro st0 st h hne
    simp only [List.cons_append, readLines] at h ⊢
    cases hl : handle l st0 with
    | ok s =>
      rw [hl] at h
      exact ih s st h hne
    | error => rw [hl] at h; cases h
    | exit_failure => rw [hl] at h; cases h
    | null_dereference => rw [hl] at h; cases h

/-- When the handling of a line of the file executes `return 1`, so does
`readParameters`. -/
theorem readParametersWith_error {F : Type} [LinearOrderedField F]
    (parseKey : List Char → List Char → ParseState F → ReadResult (ParseState F))
    (file : List Char) (ps : ParamSet F) (pre post : List (List Char)) (line : List Char)
    (st : ParseState F) (hfile : fgetsLines 256 file [] = pre ++ line :: post)
    (hpre : readLines (parseLine parseKey) pre (ParseState.init ps) = ReadResult.ok st)
    (hline : parseLine parseKey line st = ReadResult.error) :
    readParametersWith parseKey file ps = ReadResult.error := by
  have h := readLines_stop (parseLine parseKey) line post pre _ st hpre
    (fun s hs => by rw [hline] at hs; cases hs)
  rw [hline] at h
  simp only [readParametersWith, hfile, h]

/-! ## Reading the input file: the fill lines -/

/-- The fill branches of the C `readParameters` execute `return 1` when the
number of tokens of the line (commas plus one) is not the number expected for
`DIM`, and when the variable that the line names has no entry. -/
theorem CEngine.c_parseFill_reports {F : Type} [Field F] (lib : Stdlib F) (name0 : List Char)
    (value : List Char) (st : ParseState F) :
    ((commaTokenCount value ≠ (if st.params.DIM = 3 then 8 else 6) ∨
        findVariableBoundary (String.mk (fillName name0 value)) st.params = none) →
      CEngine.parseFillCube lib name0 value st = ReadResult.error) ∧
    ((commaTokenCount value ≠ (if st.params.DIM = 3 then 6 else 5) ∨
        findVariableBoundary (String.mk (fillName name0 value)) st.params = none) →
      CEngine.parseFillSphere lib name0 value st = ReadResult.error) ∧
    ((commaTokenCount value ≠ 2 ∨
        findVariableBoundary (String.mk (fillName name0 value)) st.params = none) →
      CEngine.parseFillConstant lib name0 value st = ReadResult.error) := by
  refine ⟨?_, ?_, ?_⟩
  · intro h
    unfold CEngine.parseFillCube
    dsimp only
    by_cases hc : commaTokenCount value ≠ (if st.params.DIM = 3 then 8 else 6)
    · rw [if_pos hc]
    · rw [if_neg hc]
      rcases h with h | h
      · exact absurd h hc
      · simp only [fillName] at h
        rw [h]
  · intro h
    unfold CEngine.parseFillSphere
    dsimp only
    by_cases hc : commaTokenCount value ≠ (if st.params.DIM = 3 then 6 else 5)
    · rw [if_pos hc]
    · rw [if_neg hc]
      rcases h with h | h
      · exact absurd h hc
      · simp only [fillName] at h
        rw [h]
  · intro h
    unfold CEngine.parseFillConstant
    dsimp only
    by_cases hc : commaTokenCount value ≠ 2
    · rw [if_pos hc]
    · rw [if_neg hc]
      rcases h with h | h
      · exact absurd h hc
      · simp only [fillName] at h
        rw [h]

/-- The fill branches of the C++ `readParameters` never execute `return 1` and
never end the process: whatever the line, they store through the pointer
returned by `findVariableBoundary`, which is null exactly when the variable
that the line names has no entry. -/
theorem CppEngine.cpp_parseFill_unchecked {F : Type} [Field F] (lib : Stdlib F)
    (name0 : List Char) (value : List Char) (st : ParseState F) :
    (CppEngine.parseFillCube lib name0 value st ≠ ReadResult.error ∧
      CppEngine.parseFillCube lib name0 value st ≠ ReadResult.exit_failure ∧
      (CppEngine.parseFillCube lib name0 value st = ReadResult.null_dereference ↔
        findVariableBoundary (String.mk (fillName name0 value)) st.params = none)) ∧
    (CppEngine.parseFillSphere lib name0 value st ≠ ReadResult.error ∧
      CppEngine.parseFillSphere lib name0 value st ≠ ReadResult.exit_failure ∧
      (CppEngine.parseFillSphere lib name0 value st = ReadResult.null_dereference ↔
        findVariableBoundary (String.mk (fillName name0 value)) st.params = none)) ∧
    (CppEngine.parseFillConstant lib name0 value st ≠ ReadResult.error ∧
      CppEngine.parseFillConstant lib name0 value st ≠ ReadResult.exit_failure ∧
      (CppEngine.parseFillConstant lib name0 value st = ReadResult.null_dereference ↔
        findVariableBoundary (String.mk (fillName name0 value)) st.params = none)) := by
  refine ⟨?_, ?_, ?_⟩
  · simp only [CppEngine.parseFillCube, fillName]
    cases h : findVariableBoundary (String.mk (tokenOr ((strtok ',' value).map trim) 0
      (fun t => t.take (MAX_VAR_NAME - 1)) name0)) st.params <;> simp
  · simp only [CppEngine.parseFillSphere, fillName]
    cases h : findVariableBoundary (String.mk (tokenOr ((strtok ',' value).map trim) 0
      (fun t => t.take (MAX_VAR_NAME - 1)) name0)) st.params <;> simp
  · simp only [CppEngine.parseFillConstant, fillName]
    cases h : findVariableBoundary (String.mk (tokenOr ((strtok ',' value).map trim) 0
      (fun t => t.take (MAX_VAR_NAME - 1)) name0)) st.params <;> simp

/-! ## Claim on the fill lines of the input file -/

/-- C27: the C++ `readParameters` does not check the fill lines.  (1) On the file
`DIM = 2; boundary = phi,...; Fill_Constant = temp,1.0;`, which fills the
undeclared variable `temp`, the C++ function stores through the null pointer
returned by `findVariableBoundary`, where the C function returns 1.  (2) On a
complete 2D file whose line `Fill_Cube = phi,1.0,2,3;` has four tokens instead of
six, the C++ function returns 0 with the cube `x = 2..3`, `y = 0..0`, where the C
function returns 1.  (3) For every line, the three fill branches of the C++
function never execute `return 1`. -/
theorem readParameters_cpp_fill_lines_unchecked :
    CppEngine.readParameters decimalStdlib [] undeclaredFillFile zeroParamSet
      = ReadResult.null_dereference ∧
    CEngine.readParameters decimalStdlib [] undeclaredFillFile zeroParamSet
      = ReadResult.error ∧
    (∃ ps, CppEngine.readParameters decimalStdlib [] shortFillFile zeroParamSet
        = ReadResult.ok ps ∧
      ps.fills.map (fun fl => (fl.fillType, fl.c))
        = [(FillType.FILL_CUBE, { x_start := 2, y_start := 0, z_start := 0,
                                  x_end := 3, y_end := 0, z_end := 0 })]) ∧
    CEngine.readParameters decimalStdlib [] shortFillFile zeroParamSet = ReadResult.error ∧
    (∀ (lib : Stdlib ℚ) (name0 value : List Char) (st : ParseState ℚ),
      CppEngine.parseFillCube lib name0 value st ≠ ReadResult.error ∧
      CppEngine.parseFillSphere lib name0 value st ≠ ReadResult.error ∧
      CppEngine.parseFillConstant lib name0 value st ≠ ReadResult.error) :=
  ⟨rfl, rfl, ⟨_, rfl, rfl⟩, rfl, fun lib name0 value st =>
    ⟨(CppEngine.cpp_parseFill_unchecked lib name0 value st).1.1,
      (CppEngine.cpp_parseFill_unchecked lib name0 value st).2.1.1,
      (CppEngine.cpp_parseFill_unchecked lib name0 value st).2.2.1⟩⟩

/-! ## Writing the parameters back -/

/-- The character chosen for a digit is one of `0` .. `9`. -/
theorem digitChars_getD_mem (k : Nat) : digitChars.getD k '0' ∈ digitChars := by
  by_cases h : k < 10
  · interval_cases k <;> decide
  · rw [List.getD_eq_default]
    · decide
    · simp only [digitChars, List.length_cons, List.length_nil]
      omega

/-- The characters that `printDigits` produces are digits. -/
theorem printDigits_chars :
    ∀ (fuel n : Nat) (ds : List Char), (∀ c ∈ ds, c ∈ digitChars) →
      ∀ c ∈ printDigits fuel n ds, c ∈ digitChars := by
  intro fuel
  induction fuel with
  | zero => intro n ds h c hc; exact h c hc
  | succ fuel ih =>
    intro n ds h c hc
    simp only [printDigits] at hc
    have hd : ∀ x ∈ digitChars.getD (n % 10) '0' :: ds, x ∈ digitChars := by
      intro x hx
      rcases List.mem_cons.1 hx with rfl | hx
      · exact digitChars_getD_mem _
      · exact h x hx
    split at hc
    · exact hd c hc
    · exact ih _ _ hd c hc

/-- The output of `printf("%d")` has no `;`. -/
theorem printf_d_no_semicolon (n : Int) : ';' ∉ printf_d n := by
  intro h
  simp only [printf_d, List.mem_append] at h
  rcases h with h | h
  · split at h
    · simp at h
    · simp at h
  · have := printDigits_chars _ _ [] (fun c hc => absurd hc (List.not_mem_nil c)) _ h
    revert this
    decide

/-- The first line that `fgets` returns on a non-empty text: it starts with the
first character of the text, and it does not reach beyond the first newline. -/
theorem fgetsLines_first (size : Nat) :
    ∀ (cs : List Char) (c : Char) (cur : List Char),
      ∃ l ls, fgetsLines size (c :: cs) cur = l :: ls ∧
        l.head? = (cur.reverse ++ [c]).head? ∧
        ∀ A B, c :: cs = A ++ '\n' :: B → ∀ x ∈ l, x ∈ cur ∨ x ∈ A ∨ x = '\n' := by
  have hmem : ∀ (c : Char) (cs cur : List Char) (A B : List Char),
      c :: cs = A ++ '\n' :: B → ∀ x ∈ (c :: cur).reverse, x ∈ cur ∨ x ∈ A ∨ x = '\n' := by
    intro c cs cur A B h x hx
    rw [List.mem_reverse] at hx
    rcases List.mem_cons.1 hx with rfl | hx
    · cases A with
      | nil =>
        simp only [List.nil_append, List.cons.injEq] at h
        exact Or.inr (Or.inr h.1)
      | cons a A =>
        simp only [List.cons_append, List.cons.injEq] at h
        exact Or.inr (Or.inl (h.1 ▸ List.mem_cons_self _ _))
    · exact Or.inl hx
  intro cs
  induction cs with
  | nil =>
    intro c cur
    by_cases hc : c = '\n' ∨ cur.length + 2 = size
    · refine ⟨(c :: cur).reverse, [], ?_, ?_, hmem c [] cur⟩
      · simp [fgetsLines, hc]
      · simp
    · refine ⟨(c :: cur).reverse, [], ?_, ?_, hmem c [] cur⟩
      · simp [fgetsLines, hc]
      · simp
  | cons d cs ih =>
    intro c cur
    by_cases hc : c = '\n' ∨ cur.length + 2 = size
    · refine ⟨(c :: cur).reverse, fgetsLines size (d :: cs) [], ?_, ?_, hmem c (d :: cs) cur⟩
      · rw [fgetsLines, if_pos hc]
      · simp
    · obtain ⟨l, ls, h1, h2, h3⟩ := ih d (c :: cur)
      refine ⟨l, ls, ?_, ?_, ?_⟩
      · rw [fgetsLines, if_neg hc]
        exact h1
      · rw [h2]
        simp only [List.reverse_cons, List.append_assoc, List.singleton_append]
        cases cur.reverse <;> simp
      · intro A B hAB x hx
        have hcn : c ≠ '\n' := fun h => hc (Or.inl h)
        cases A with
        | nil =>
          simp only [List.nil_append, List.cons.injEq] at hAB
          exact absurd hAB.1 hcn
        | cons a A =>
          simp only [List.cons_append, List.cons.injEq] at hAB
          rcases h3 A B hAB.2 x hx with h | h | h
          · rcases List.mem_cons.1 h with h | h
            · exact Or.inr (Or.inl (by rw [h, hAB.1]; exact List.mem_cons_self _ _))
            · exact Or.inl h
          · exact Or.inr (Or.inl (List.mem_cons_of_mem _ h))
          · exact Or.inr (Or.inr h)

/-- A line that starts with `D` and has no `;` ends the process. -/
theorem parseLine_no_semicolon {σ : Type} (parseKey : List Char → List Char → σ → ReadResult σ)
    (line : List Char) (st : σ) (hhead : line.head? = some 'D') (hsemi : ';' ∉ line) :
    parseLine parseKey line st = ReadResult.exit_failure := by
  simp [parseLine, hhead, hsemi]

/-! ## Claim on the file written by `writeParameters` -/

/-- C28: the file written by `writeParameters` is not accepted by
`readParameters`.  For every parameter set `ps`, every output `g` of `%g` and
every conversion library, the C++ `readParameters` run on the text written by
the C++ `writeParameters` calls `exit(EXIT_FAILURE)`: the first line of the
file is `DIM = <digits>` without the terminating `;` that the reader requires
of every line that is not a comment. -/
theorem writeParameters_output_rejected {F : Type} [LinearOrderedField F] (lib : Stdlib F)
    (name0 : List Char) (g : F → List Char) (ps ps0 : ParamSet F) :
    CppEngine.readParameters lib name0 (CppEngine.writeParameters g ps) ps0
      = ReadResult.exit_failure := by
  have e : CppEngine.writeParameters g ps
      = 'D' :: (['I', 'M', ' ', '=', ' '] ++ printf_d ps.params.DIM ++
          '\n' :: (CppEngine.writeParametersTail g ps).foldr (fun piece out => piece ++ out) []) :=
    rfl
  obtain ⟨l, ls, h1, h2, h3⟩ := fgetsLines_first 256
    (['I', 'M', ' ', '=', ' '] ++ printf_d ps.params.DIM ++
      '\n' :: (CppEngine.writeParametersTail g ps).foldr (fun piece out => piece ++ out) [])
    'D' []
  have hsemi : ';' ∉ l := by
    intro hl
    rcases h3 ('D' :: (['I', 'M', ' ', '=', ' '] ++ printf_d ps.params.DIM))
      ((CppEngine.writeParametersTail g ps).foldr (fun piece out => piece ++ out) [])
      (by simp) ';' hl with h | h | h
    · simp at h
    · rcases List.mem_cons.1 h with h | h
      · revert h; decide
      · rcases List.mem_append.1 h with h | h
        · revert h; decide
        · exact printf_d_no_semicolon _ h
    · revert h; decide
  have hline := parseLine_no_semicolon (CppEngine.parseKey lib name0) l (ParseState.init ps0)
    (by rw [h2]; rfl) hsemi
  simp only [CppEngine.readParameters, readParametersWith, e, h1, readLines, hline]

/-! ## Reading the input file: the fill lines in the C engine -/

/-- A key whose lower-case form is `L` differs from every string whose lower-case
form is not `L`. -/
theorem strcmp_false_of_lower (key K L : List Char) (hk : key.map Char.toLower = L)
    (hne : K.map Char.toLower ≠ L) : strcmp key K = false := by
  simp only [strcmp, beq_eq_false_iff_ne, ne_eq]
  intro h
  exact hne (h ▸ hk)

/-- A key whose lower-case form is `L` differs, letter case ignored, from every
string whose lower-case form is not `L`. -/
theorem strcasecmp_false_of_lower (key K L : List Char) (hk : key.map Char.toLower = L)
    (hne : K.map Char.toLower ≠ L) : strcasecmp key K = false := by
  simp only [strcasecmp, beq_eq_false_iff_ne, ne_eq]
  intro h
  exact hne (h.symm.trans hk)

/-- In the C `readParameters` a line whose key is `Fill_Cube`, `Fill_Sphere` or
`Fill_Constant` (in any letter case) is handled by the fill branch of that
name. -/
theorem CEngine.c_parseKey_fill {F : Type} [Field F] (lib : Stdlib F) (name0 : List Char)
    (key value : List Char) (st : ParseState F) :
    (strcasecmp key "Fill_Cube".toList = true →
      CEngine.parseKey lib name0 key value st = CEngine.parseFillCube lib name0 value st) ∧
    (strcasecmp key "Fill_Sphere".toList = true →
      CEngine.parseKey lib name0 key value st = CEngine.parseFillSphere lib name0 value st) ∧
    (strcasecmp key "Fill_Constant".toList = true →
      CEngine.parseKey lib name0 key value st
        = CEngine.parseFillConstant lib name0 value st) := by
  refine ⟨?_, ?_, ?_⟩
  · intro h
    have hk : key.map Char.toLower = "fill_cube".toList := by
      simpa [strcasecmp] using h
    simp (disch := decide) only [CEngine.parseKey, strcmp_false_of_lower _ _ _ hk, h, if_true,
      Bool.false_eq_true, if_false]
  · intro h
    have hk : key.map Char.toLower = "fill_sphere".toList := by
      simpa [strcasecmp] using h
    simp (disch := decide) only [CEngine.parseKey, strcmp_false_of_lower _ _ _ hk,
      strcasecmp_false_of_lower _ "Fill_Cube".toList _ hk, h, if_true,
      Bool.false_eq_true, if_false]
  · intro h
    have hk : key.map Char.toLower = "fill_constant".toList := by
      simpa [strcasecmp] using h
    simp (disch := decide) only [CEngine.parseKey, strcmp_false_of_lower _ _ _ hk,
      strcasecmp_false_of_lower _ "Fill_Cube".toList _ hk,
      strcasecmp_false_of_lower _ "Fill_Sphere".toList _ hk, h, if_true,
      Bool.false_eq_true, if_false]

/-- In the C `readParameters`, a line with the key `Fill_Cube`, `Fill_Sphere` or
`Fill_Constant` whose number of tokens (commas plus one) is not the number
expected for `DIM`, or which names a variable without an entry, makes the
function return 1: the lines `pre` before it having been handled, the result of
`readParameters` on the file is `return 1`. -/
theorem CEngine.c_readParameters_fill_error {F : Type} [LinearOrderedField F] (lib : Stdlib F)
    (name0 : List Char) (file : List Char) (ps : ParamSet F) (pre post : List (List Char))
    (line key value : List Char) (st : ParseState F)
    (hfile : fgetsLines 256 file [] = pre ++ line :: post)
    (hpre : readLines (parseLine (CEngine.parseKey lib name0)) pre (ParseState.init ps)
      = ReadResult.ok st)
    (hc : line.head? ≠ some '#' ∧ line.head? ≠ some '\n') (hsemi : ';' ∈ line)
    (hscan : sscanfKeyValue line = some (key, value))
    (hbad :
      (strcasecmp (trim key) "Fill_Cube".toList = true ∧
        (commaTokenCount (trim value) ≠ (if st.params.DIM = 3 then 8 else 6) ∨
          findVariableBoundary (String.mk (fillName name0 (trim value))) st.params = none)) ∨
      (strcasecmp (trim key) "Fill_Sphere".toList = true ∧
        (commaTokenCount (trim value) ≠ (if st.params.DIM = 3 then 6 else 5) ∨
          findVariableBoundary (String.mk (fillName name0 (trim value))) st.params = none)) ∨
      (strcasecmp (trim key) "Fill_Constant".toList = true ∧
        (commaTokenCount (trim value) ≠ 2 ∨
          findVariableBoundary (String.mk (fillName name0 (trim value))) st.params = none))) :
    CEngine.readParameters lib name0 file ps = ReadResult.error := by
  apply readParametersWith_error (CEngine.parseKey lib name0) file ps pre post line st hfile hpre
  have hl : parseLine (CEngine.parseKey lib name0) line st
      = CEngine.parseKey lib name0 (trim key) (trim value) st := by
    simp [parseLine, hc.1, hc.2, hsemi, hscan]
  rw [hl]
  obtain ⟨d1, d2, d3⟩ := CEngine.c_parseKey_fill lib name0 (trim key) (trim value) st
  obtain ⟨r1, r2, r3⟩ := CEngine.c_parseFill_reports lib name0 (trim value) st
  rcases hbad with ⟨hk, hb⟩ | ⟨hk, hb⟩ | ⟨hk, hb⟩
  · rw [d1 hk]; exact r1 hb
  · rw [d2 hk]; exact r2 hb
  · rw [d3 hk]; exact r3 hb

/-! ## Mixed derivatives as means of central differences -/

/-- The four mixed entries of the stencils of the specification are the
expressions with the cancelling terms removed. -/
theorem specGradient_mixed {F : Type} [Field F] (phi : Arr F) (params : SimParams F)
    (i j k : Int) : (specGradient phi params i j k).drop 6 = specMixed phi params i j k := by
  simp only [specGradient, specMixed, List.drop_succ_cons, List.drop_zero, List.cons.injEq,
    and_true]
  refine ⟨?_, ?_, ?_, ?_⟩ <;> ring

/-- Each mixed entry is the mean of two central differences. -/
theorem specMixed_mean {F : Type} [Field F] (phi : Arr F) (params : SimParams F)
    (i j k : Int) :
    specMixed phi params i j k
      = [(specCentralX phi params i j k + specCentralX phi params i (j + 1) k) / 2,
         (specCentralX phi params i j k + specCentralX phi params i (j - 1) k) / 2,
         (specCentralY phi params i j k + specCentralY phi params (i + 1) j k) / 2,
         (specCentralY phi params i j k + specCentralY phi params (i - 1) j k) / 2] := by
  have h4 : (1 / 4 : F) = (1 / 2) * (1 / 2) := by
    rw [show (4 : F) = 2 * 2 by norm_num, one_div, one_div, mul_inv]
  simp only [specMixed, specCentralX, specCentralY, List.cons.injEq, and_true, h4]
  refine ⟨?_, ?_, ?_, ?_⟩ <;> ring

/-! ## Claim on the mixed derivatives -/

/-- C38. In exact arithmetic, for every `phi` and every interior cell `(i, j)` (of
the layer `k`), the mixed derivatives written by `computeGradientPhi` are
`DERX_top = 0.25 (phi[i+1,j] + phi[i+1,j+1] - phi[i-1,j] - phi[i-1,j+1]) / dx`, and
likewise `DERX_bottom` (rows `j` and `j-1`), `DERY_right` (columns `i` and `i+1`)
and `DERY_left` (columns `i` and `i-1`): the `phi[i,j]` term and the other common
term of the two 4-point averages cancel, and each value is the mean of the
central differences of the two rows (columns).  The C++ engine writes these
values at every interior cell of a 2D or 3D grid, the C engine at the cells
`(i, j, 0)` it processes (the interior cells of a 2D grid). -/
theorem mixed_derivatives_are_means_of_central_differences {F : Type} [Field F] (phi : Arr F)
    (fb : FieldBuffers F) (params : SimParams F) (hg : validGrid params)
    (i j k : Int) (hi0 : 1 ≤ i) (hi1 : i ≤ params.Num_X - 2) (hj0 : 1 ≤ j)
    (hj1 : j ≤ params.Num_Y - 2) (hk : interiorK params k) :
    ((CppEngine.computeGradientPhi phi fb params (mainR params) (mainStrides params)).gradCell
        (IDX (mainStrides params) i j k)).drop 6 = specMixed phi params i j k ∧
    ((CEngine.computeGradientPhi phi fb params (mainR params) (mainStrides params)).gradCell
        (IDX (mainStrides params) i j 0)).drop 6 = specMixed phi params i j 0 ∧
    specMixed phi params i j k
      = [(specCentralX phi params i j k + specCentralX phi params i (j + 1) k) / 2,
         (specCentralX phi params i j k + specCentralX phi params i (j - 1) k) / 2,
         (specCentralY phi params i j k + specCentralY phi params (i + 1) j k) / 2,
         (specCentralY phi params i j k + specCentralY phi params (i - 1) j k) / 2] := by
  have hNZ : 1 ≤ params.Num_Z := by
    obtain ⟨_, _, h | h⟩ := hg <;> omega
  refine ⟨?_, ?_, specMixed_mean phi params i j k⟩
  · rw [CppEngine.cpp_computeGradientPhi_spec phi fb params hg i j k hi0 hi1 hj0 hj1 hk]
    exact specGradient_mixed phi params i j k
  · rw [CEngine.c_computeGradientPhi_spec phi fb params hNZ i j hi0 hi1 hj0 hj1]
    exact specGradient_mixed phi params i j 0

/-- Witness for C38: 4 x 4 grid, `phi[p] = p` (so `phi[i,j] = 4 i + j`), unit
spacings, cell `(1,2)`: `DERX_top = DERX_bottom = 4` and `DERY_right = DERY_left = 1`. -/
theorem mixed_derivatives_are_means_of_central_differences_witness :
    validGrid (sampleParams 2 4 4 1 allNoFlux) ∧
    ((CppEngine.computeGradientPhi rampArr (constBuffers 0) (sampleParams 2 4 4 1 allNoFlux)
        (mainR (sampleParams 2 4 4 1 allNoFlux))
        (mainStrides (sampleParams 2 4 4 1 allNoFlux))).gradCell
        (IDX (mainStrides (sampleParams 2 4 4 1 allNoFlux)) 1 2 0)).drop 6 = [4, 4, 1, 1] := by
  have hg : validGrid (sampleParams 2 4 4 1 allNoFlux) := by simp [validGrid, sampleParams]
  refine ⟨hg, ?_⟩
  rw [(mixed_derivatives_are_means_of_central_differences rampArr (constBuffers 0)
    (sampleParams 2 4 4 1 allNoFlux) hg 1 2 0 (by decide) (by decide) (by decide)
    (by decide) (by simp [interiorK, sampleParams])).1]
  simp [specMixed, rampArr, IDX, mainStrides, sampleParams]
  norm_num

/-! ## Divisors of the ADI line solves -/

/-- The coefficient arrays that a line solve hands to `thomas`: `a = c = -r`, and
the diagonal is `1 + 2r` with `r` added at each end (`1 + 4r` when the line has
one unknown). -/
theorem adiCoefficients_spec {F : Type} [Field F] (N : Int) (r : F) (rhs : Int → F)
    (st : AdiState F) (hN : 3 ≤ N) :
    (∀ p, 0 ≤ p → p < N - 2 →
      (adiAdjust (N - 2) (adiBuild N r rhs st)).a.get p = -r ∧
      (adiAdjust (N - 2) (adiBuild N r rhs st)).c.get p = -r ∧
      (adiAdjust (N - 2) (adiBuild N r rhs st)).d.get p = rhs (p + 1) ∧
      (adiAdjust (N - 2) (adiBuild N r rhs st)).b.get p
        = 1 + 2 * r + (if p = 0 then r else 0) + (if p = N - 3 then r else 0)) := by
  obtain ⟨hcoef, -, -⟩ := adiBuild_spec N r rhs st (by omega)
  intro p hp0 hp1
  have h0 := hcoef 0 (le_refl _) (by omega)
  have hl := hcoef (N - 2 - 1) (by omega) (by omega)
  have hp := hcoef p hp0 hp1
  refine ⟨hp.1, hp.2.2.1, hp.2.2.2, ?_⟩
  have e : N - 2 - 1 = N - 3 := by ring
  simp only [adiAdjust, Arr.get_set, e]
  rw [e] at hl
  by_cases c1 : p = N - 3 <;> by_cases c2 : p = 0
  · have c3 : N - 3 = 0 := by omega
    simp only [c1, c3, if_true, h0.1, h0.2.1, h0.2.2.1]
    rw [c3] at hl
    ring
  · have c3 : N - 3 ≠ 0 := by omega
    simp only [c1, c3, if_true, if_false, hl.2.1, hl.2.2.1]
    ring
  · have c3 : N - 3 ≠ 0 := by omega
    simp only [c2, Ne.symm c3, if_true, if_false, h0.1, h0.2.1]
    ring
  · simp only [c1, c2, if_false, hp.2.1]
    ring

/-- The write-back loop of a line solve leaves the coefficient arrays and the
solution vector as they are. -/
theorem adiWriteBack_coefficients {F : Type} (N : Int) (cell : Int → Int) (st : AdiState F) :
    (adiWriteBack N cell st).a = st.a ∧ (adiWriteBack N cell st).b = st.b ∧
    (adiWriteBack N cell st).c = st.c ∧ (adiWriteBack N cell st).d = st.d ∧
    (adiWriteBack N cell st).x = st.x := by
  unfold adiWriteBack
  refine ⟨?_, ?_, ?_, ?_, ?_⟩
  · exact forLoop_preserve (fun s : AdiState F => s.a)
      (fun i (st : AdiState F) => { st with out := st.out.set (cell i) (st.x.get (i - 1)) })
      (fun _ _ => rfl) _ _ _
  · exact forLoop_preserve (fun s : AdiState F => s.b)
      (fun i (st : AdiState F) => { st with out := st.out.set (cell i) (st.x.get (i - 1)) })
      (fun _ _ => rfl) _ _ _
  · exact forLoop_preserve (fun s : AdiState F => s.c)
      (fun i (st : AdiState F) => { st with out := st.out.set (cell i) (st.x.get (i - 1)) })
      (fun _ _ => rfl) _ _ _
  · exact forLoop_preserve (fun s : AdiState F => s.d)
      (fun i (st : AdiState F) => { st with out := st.out.set (cell i) (st.x.get (i - 1)) })
      (fun _ _ => rfl) _ _ _
  · exact forLoop_preserve (fun s : AdiState F => s.x)
      (fun i (st : AdiState F) => { st with out := st.out.set (cell i) (st.x.get (i - 1)) })
      (fun _ _ => rfl) _ _ _

/-- A line solve with `r >= 0`: the arrays `a, b, c, d` it leaves are the ones
its call of `thomas` ran on, `b[0] >= 1 + 2r`, and every pivot
`b[p] - a[p] c'[p-1]` of that call is at least `1 + r`. -/
theorem adiLine_divisors {F : Type} [LinearOrderedField F] (N : Int) (r : F) (rhs : Int → F)
    (cell : Int → Int) (st : AdiState F) (hN : 3 ≤ N) (hr : 0 ≤ r) :
    (adiLine N r rhs cell st).x
      = thomas (N - 2) (adiLine N r rhs cell st).a (adiLine N r rhs cell st).b
          (adiLine N r rhs cell st).c (adiLine N r rhs cell st).d st.x ∧
    1 + 2 * r ≤ (adiLine N r rhs cell st).b.get 0 ∧
    (∀ p, 1 ≤ p → p < N - 2 →
      1 + r ≤ (adiLine N r rhs cell st).b.get p - (adiLine N r rhs cell st).a.get p
        * (thomasForward (N - 2) (adiLine N r rhs cell st).a (adiLine N r rhs cell st).b
            (adiLine N r rhs cell st).c (adiLine N r rhs cell st).d).1.get (p - 1)) := by
  obtain ⟨wa, wb, wc, wd, wx⟩ := adiWriteBack_coefficients N cell
    (adiSolve (N - 2) (adiAdjust (N - 2) (adiBuild N r rhs st)))
  have ea : (adiLine N r rhs cell st).a = (adiAdjust (N - 2) (adiBuild N r rhs st)).a := wa
  have eb : (adiLine N r rhs cell st).b = (adiAdjust (N - 2) (adiBuild N r rhs st)).b := wb
  have ec : (adiLine N r rhs cell st).c = (adiAdjust (N - 2) (adiBuild N r rhs st)).c := wc
  have ed : (adiLine N r rhs cell st).d = (adiAdjust (N - 2) (adiBuild N r rhs st)).d := wd
  have ex : (adiLine N r rhs cell st).x
      = thomas (N - 2) (adiAdjust (N - 2) (adiBuild N r rhs st)).a
          (adiAdjust (N - 2) (adiBuild N r rhs st)).b
          (adiAdjust (N - 2) (adiBuild N r rhs st)).c
          (adiAdjust (N - 2) (adiBuild N r rhs st)).d
          (adiAdjust (N - 2) (adiBuild N r rhs st)).x := wx
  have hx0 : (adiAdjust (N - 2) (adiBuild N r rhs st)).x = st.x :=
    (adiBuild_spec N r rhs st (by omega)).2.2
  rw [ea, eb, ec, ed, ex, hx0]
  have hco := adiCoefficients_spec N r rhs st hN
  have hb : ∀ p, 0 ≤ p → p < N - 2 →
      1 + 2 * r ≤ (adiAdjust (N - 2) (adiBuild N r rhs st)).b.get p := by
    intro p h0 h1
    rw [(hco p h0 h1).2.2.2]
    split_ifs <;> linarith
  obtain ⟨-, -, hpiv⟩ := thomas_pivots_pos (N - 2) _ _ _
    (adiAdjust (N - 2) (adiBuild N r rhs st)).d r (by omega) hr
    (fun p h0 h1 => (hco p h0 h1).1) (fun p h0 h1 => (hco p h0 h1).2.1) hb
  exact ⟨rfl, hb 0 le_rfl (by omega), hpiv⟩

/-- The coefficients `rx`, `ry` of the ADI `updateTemp` are non-negative when
`K * dt >= 0`. -/
theorem adi_coefficients_nonneg {F : Type} [LinearOrderedField F] (params : SimParams F)
    (hK : 0 ≤ params.K * params.dt) :
    0 ≤ (1 / 2) * params.K * params.dt * mainR2 params 0 ∧
    0 ≤ (1 / 2) * params.K * params.dt * mainR2 params 1 := by
  have h0 : (0 : F) ≤ mainR2 params 0 := by
    simp only [mainR2, Matrix.cons_val_zero]
    exact div_nonneg zero_le_one (mul_self_nonneg _)
  have h1 : (0 : F) ≤ mainR2 params 1 := by
    simp only [mainR2, Matrix.cons_val_one, Matrix.head_cons]
    exact div_nonneg zero_le_one (mul_self_nonneg _)
  constructor
  · have : (1 / 2) * params.K * params.dt * mainR2 params 0
        = (1 / 2) * (params.K * params.dt) * mainR2 params 0 := by ring
    rw [this]
    exact mul_nonneg (mul_nonneg (by norm_num) hK) h0
  · have : (1 / 2) * params.K * params.dt * mainR2 params 1
        = (1 / 2) * (params.K * params.dt) * mainR2 params 1 := by ring
    rw [this]
    exact mul_nonneg (mul_nonneg (by norm_num) hK) h1

/-! ## Claim on the divisors of the ADI solves -/

/-- C31. For every system size `M = N - 2 >= 1` and every `r >= 0`, with the
coefficients assembled by a row of `adi_step1_X` (`N = NX`, `r = rx`) or a column
of `adi_step2_Y` (`N = NY`, `r = ry`), namely `a = c = -r`, `b = 1 + 2r`,
`b[0] -= a[0]`, `b[M-1] -= c[M-1]`, every divisor used by the call of `thomas` is
at least 1: `b[0] >= 1` and each pivot `m = b[p] - a[p] c'[p-1] >= 1`, `1 <= p < M`.
No ADI solve divides by zero. -/
theorem adi_thomas_divisors_at_least_one {F : Type} [LinearOrderedField F] (NX NY : Int)
    (rx ry : F) (inp : Arr F) (strides : Fin 3 → Int) (i j : Int) (st : AdiState F)
    (hNX : 3 ≤ NX) (hNY : 3 ≤ NY) (hrx : 0 ≤ rx) (hry : 0 ≤ ry) :
    ((adi_step1_X_row NX rx ry inp strides j st).x
        = thomas (NX - 2) (adi_step1_X_row NX rx ry inp strides j st).a
            (adi_step1_X_row NX rx ry inp strides j st).b
            (adi_step1_X_row NX rx ry inp strides j st).c
            (adi_step1_X_row NX rx ry inp strides j st).d st.x ∧
      1 ≤ (adi_step1_X_row NX rx ry inp strides j st).b.get 0 ∧
      ∀ p, 1 ≤ p → p < NX - 2 →
        1 ≤ (adi_step1_X_row NX rx ry inp strides j st).b.get p
          - (adi_step1_X_row NX rx ry inp strides j st).a.get p
            * (thomasForward (NX - 2) (adi_step1_X_row NX rx ry inp strides j st).a
                (adi_step1_X_row NX rx ry inp strides j st).b
                (adi_step1_X_row NX rx ry inp strides j st).c
                (adi_step1_X_row NX rx ry inp strides j st).d).1.get (p - 1)) ∧
    ((adi_step2_Y_col NY rx ry inp strides i st).x
        = thomas (NY - 2) (adi_step2_Y_col NY rx ry inp strides i st).a
            (adi_step2_Y_col NY rx ry inp strides i st).b
            (adi_step2_Y_col NY rx ry inp strides i st).c
            (adi_step2_Y_col NY rx ry inp strides i st).d st.x ∧
      1 ≤ (adi_step2_Y_col NY rx ry inp strides i st).b.get 0 ∧
      ∀ p, 1 ≤ p → p < NY - 2 →
        1 ≤ (adi_step2_Y_col NY rx ry inp strides i st).b.get p
          - (adi_step2_Y_col NY rx ry inp strides i st).a.get p
            * (thomasForward (NY - 2) (adi_step2_Y_col NY rx ry inp strides i st).a
                (adi_step2_Y_col NY rx ry inp strides i st).b
                (adi_step2_Y_col NY rx ry inp strides i st).c
                (adi_step2_Y_col NY rx ry inp strides i st).d).1.get (p - 1)) := by
  rw [adi_step1_X_row_eq, adi_step2_Y_col_eq]
  obtain ⟨x1, b1, p1⟩ := adiLine_divisors NX rx
    (fun i => inp.get (IDX strides i j 0) + ry * lapY inp i j strides)
    (fun i => IDX strides i j 0) st hNX hrx
  obtain ⟨x2, b2, p2⟩ := adiLine_divisors NY ry
    (fun j => inp.get (IDX strides i j 0) + rx * lapX inp i j strides)
    (fun j => IDX strides i j 0) st hNY hry
  exact ⟨⟨x1, by linarith, fun p h0 h1 => by have := p1 p h0 h1; linarith⟩,
    ⟨x2, by linarith, fun p h0 h1 => by have := p2 p h0 h1; linarith⟩⟩

/-- Witness for C31: a row of 5 cells (`M = 3`), `rx = 1`, `ry = 0`, input `p`: the
diagonal handed to `thomas` is `4, 3, 4`, so `b[0] >= 1` and `b[1] = 3`. -/
theorem adi_thomas_divisors_at_least_one_witness :
    (1 : ℚ) ≤ (adi_step1_X_row 5 1 0 rampArr (mainStrides (sampleParams 2 5 5 1 allNoFlux)) 1
        { a := Arr.const 0, b := Arr.const 0, c := Arr.const 0, d := Arr.const 0,
          x := Arr.const 0, out := Arr.const 0 }).b.get 0 ∧
    (adi_step1_X_row 5 1 0 rampArr (mainStrides (sampleParams 2 5 5 1 allNoFlux)) 1
        { a := Arr.const 0, b := Arr.const 0, c := Arr.const 0, d := Arr.const 0,
          x := Arr.const 0, out := Arr.const (0 : ℚ) }).b.get 1 = 3 :=
  ⟨(adi_thomas_divisors_at_least_one 5 5 1 0 rampArr
      (mainStrides (sampleParams 2 5 5 1 allNoFlux)) 1 1 _ (by decide) (by decide)
      (by norm_num) (by norm_num)).1.2.1, by
    rw [adi_step1_X_row_eq]
    unfold adiLine
    rw [(adiWriteBack_coefficients _ _ _).2.1]
    show (adiAdjust (5 - 2) (adiBuild 5 1 _ _)).b.get 1 = 3
    rw [(adiCoefficients_spec 5 1 _ _ (by decide) 1 (by decide) (by decide)).2.2.2]
    norm_num⟩

/-! ## The ADI temperature update without diffusion -/

/-- With `r = 0` the system of a line solve is the identity: the solution is the
right-hand side. -/
theorem lineSystem_zero {F : Type} [Field F] (N : Int) (rhs g : Int → F) (hN : 3 ≤ N)
    (hs : lineSystem N 0 rhs g) : ∀ i, 1 ≤ i → i ≤ N - 2 → g i = rhs i := by
  intro i hi0 hi1
  obtain ⟨h3, h4⟩ := hs
  by_cases e : N = 3
  · have : i = 1 := by omega
    subst this
    have := h3 e
    simpa using this
  · obtain ⟨e0, em, el⟩ := h4 (by omega)
    by_cases c1 : i = 1
    · subst c1
      simpa using e0
    · by_cases c2 : i = N - 2
      · subst c2
        simpa using el
      · have := em i (by omega) (by omega)
        simpa using this

/-- With `K = 0` the ADI `updateTemp` returns, at every interior cell of a 2D
grid, the temperature it was given. -/
theorem CEngine.updateTemp_K_zero {F : Type} [LinearOrderedField F] (T : Arr F)
    (fb : FieldBuffers F) (params : SimParams F) (r2 : Fin 3 → F) (hg : validGrid params)
    (h2 : params.DIM = 2) (hK : params.K = 0) (i j : Int) (hi0 : 1 ≤ i)
    (hi1 : i ≤ params.Num_X - 2) (hj0 : 1 ≤ j) (hj1 : j ≤ params.Num_Y - 2) :
    (CEngine.updateTemp T fb params (mainStrides params) r2).temp_new.get
        (IDX (mainStrides params) i j 0)
      = T.get (IDX (mainStrides params) i j 0) := by
  obtain ⟨hNZ, hk⟩ := validGrid_2D hg h2
  have hNX := hg.1
  have hNY := hg.2.1
  have hrx : (1 / 2) * params.K * params.dt * r2 0 = 0 := by rw [hK]; ring
  have hry : (1 / 2) * params.K * params.dt * r2 1 = 0 := by rw [hK]; ring
  have hT1 : ∀ i j, 1 ≤ i → i ≤ params.Num_X - 2 → 1 ≤ j → j ≤ params.Num_Y - 2 →
      (CEngine.stageT1 T fb params (mainStrides params)).get (IDX (mainStrides params) i j 0)
        = T.get (IDX (mainStrides params) i j 0) := by
    intro i j h1 h2' h3 h4
    unfold CEngine.stageT1
    rw [applyBCIfFound_interior _ _ params hg i j 0 h1 h2' h3 h4 hk,
      (interiorUpdate2D_spec params (by omega) _ _).1 i j h1 h2' h3 h4, hK]
    ring
  have hT2E : ∀ i j, 1 ≤ i → i ≤ params.Num_X - 2 → 1 ≤ j → j ≤ params.Num_Y - 2 →
      (CEngine.stageT2Enforced T fb params (mainStrides params) r2).get
          (IDX (mainStrides params) i j 0)
        = T.get (IDX (mainStrides params) i j 0) := by
    intro i j h1 h2' h3 h4
    unfold CEngine.stageT2Enforced
    rw [applyBCIfFound_interior _ _ params hg i j 0 h1 h2' h3 h4 hk, hrx, hry]
    have hs := (adi_step1_X_spec params 0 0 (CEngine.stageT1 T fb params (mainStrides params))
      fb.temp_buf2 hNX (by omega) le_rfl).1 j h3 h4
    rw [lineSystem_zero _ _ _ hNX hs i h1 h2', hT1 i j h1 h2' h3 h4]
    ring
  have hT2 : ∀ i j, 1 ≤ i → i ≤ params.Num_X - 2 → 1 ≤ j → j ≤ params.Num_Y - 2 →
      (CEngine.stageT2 T fb params (mainStrides params) r2).get (IDX (mainStrides params) i j 0)
        = T.get (IDX (mainStrides params) i j 0) := by
    intro i j h1 h2' h3 h4
    unfold CEngine.stageT2
    rw [(interiorUpdate2D_spec params (by omega) _ _).1 i j h1 h2' h3 h4,
      hT2E i j h1 h2' h3 h4, hK]
    ring
  have hF : (CEngine.stageT1Final T fb params (mainStrides params) r2).get
        (IDX (mainStrides params) i j 0) = T.get (IDX (mainStrides params) i j 0) := by
    unfold CEngine.stageT1Final
    rw [applyBCIfFound_interior _ _ params hg i j 0 hi0 hi1 hj0 hj1 hk, hrx, hry]
    have hs := (adi_step2_Y_spec params 0 0 (CEngine.stageT2 T fb params (mainStrides params) r2)
      (CEngine.stageT1 T fb params (mainStrides params)) hNY (by omega) le_rfl).1 i hi0 hi1
    rw [lineSystem_zero _ _ _ hNY hs j hj0 hj1, hT2 i j hi0 hi1 hj0 hj1]
    ring
  rw [CEngine.updateTemp_temp_new,
    (interiorUpdate2D_spec params (by omega) _ _).1 i j hi0 hi1 hj0 hj1]
  exact hF

/-! ## Claim on the ADI update with `K = 0` -/

/-- C34, as stated, fails on a 3D grid: 3 x 3 x 3 grid, `K = 0`, `temp = 1`
everywhere, every buffer `0`.  After the ADI `updateTemp` the interior cell
`(1,1,1)` of `temp_new` still holds `0`, not the value `1` of `temp`: the function
works on the cells `(i, j, 0)` only. -/
theorem adi_updateTemp_K_zero_3D_counterexample :
    (CEngine.updateTemp (Arr.const (1 : ℚ)) (constBuffers 0)
        { sampleParams 3 3 3 3 allNoFlux with K := 0 }
        (mainStrides { sampleParams 3 3 3 3 allNoFlux with K := 0 })
        (mainR2 { sampleParams 3 3 3 3 allNoFlux with K := 0 })).temp_new.get
        (IDX (mainStrides { sampleParams 3 3 3 3 allNoFlux with K := 0 }) 1 1 1) = 0 ∧
    (Arr.const (1 : ℚ)).get
        (IDX (mainStrides { sampleParams 3 3 3 3 allNoFlux with K := 0 }) 1 1 1) = 1 := by
  refine ⟨?_, rfl⟩
  rw [CEngine.updateTemp_temp_new,
    (interiorUpdate2D_spec { sampleParams 3 3 3 3 allNoFlux with K := 0 } (by decide) _ _).2 _
      (fun i j _ _ _ _ => IDX_ne _ ⟨by decide, by decide⟩ ⟨by decide, by decide⟩
        ⟨by omega, by omega⟩ ⟨by decide, by decide⟩ (Or.inr (Or.inr (by decide))))]
  rfl

/-- C34, amended.  On a 2D grid, with `K = 0` the ADI `updateTemp` (C engine) is the
identity on the interior: for every temperature field, every `dphi_dt`, `dt`, spacings (the
array `r2`) and boundary policies, `temp_new` equals `temp` at every interior
cell.  The explicit `updateTemp` (C++ engine) with `K = 0` stores
`temp + dt * laplacian(temp)`. -/
theorem adi_updateTemp_identity_when_K_zero {F : Type} [LinearOrderedField F] (T : Arr F)
    (fb : FieldBuffers F) (params : SimParams F) (r2 : Fin 3 → F) (hg : validGrid params)
    (h2 : params.DIM = 2) (hK : params.K = 0) (i j : Int) (hi0 : 1 ≤ i)
    (hi1 : i ≤ params.Num_X - 2) (hj0 : 1 ≤ j) (hj1 : j ≤ params.Num_Y - 2) :
    (CEngine.updateTemp T fb params (mainStrides params) r2).temp_new.get
        (IDX (mainStrides params) i j 0)
      = T.get (IDX (mainStrides params) i j 0) ∧
    (CppEngine.updateTemp T fb params (mainStrides params) (mainR2 params)).temp_new.get
        (IDX (mainStrides params) i j 0)
      = T.get (IDX (mainStrides params) i j 0) + params.dt * specLaplacian T params i j 0 := by
  refine ⟨CEngine.updateTemp_K_zero T fb params r2 hg h2 hK i j hi0 hi1 hj0 hj1, ?_⟩
  rw [(CppEngine.updateTemp_cell T fb params (mainR2 params) hg).1 i j 0 hi0 hi1 hj0 hj1
    (validGrid_2D hg h2).2, CppEngine.computeLaplacian_spec, hK]
  ring

/-- Witness for C34: 4 x 4 grid, unit spacings, `dt = 1`, `K = 0`, `temp[p] = p^2`,
cell `(1,1)` (index 5): the ADI update returns `25`, the explicit update
`25 + 34 = 59`. -/
theorem adi_updateTemp_identity_when_K_zero_witness :
    validGrid { sampleParams 2 4 4 1 allNoFlux with K := 0 } ∧
    (CEngine.updateTemp squareArr (constBuffers 0) { sampleParams 2 4 4 1 allNoFlux with K := 0 }
        (mainStrides { sampleParams 2 4 4 1 allNoFlux with K := 0 })
        (mainR2 { sampleParams 2 4 4 1 allNoFlux with K := 0 })).temp_new.get
        (IDX (mainStrides { sampleParams 2 4 4 1 allNoFlux with K := 0 }) 1 1 0) = 25 ∧
    (CppEngine.updateTemp squareArr (constBuffers 0)
        { sampleParams 2 4 4 1 allNoFlux with K := 0 }
        (mainStrides { sampleParams 2 4 4 1 allNoFlux with K := 0 })
        (mainR2 { sampleParams 2 4 4 1 allNoFlux with K := 0 })).temp_new.get
        (IDX (mainStrides { sampleParams 2 4 4 1 allNoFlux with K := 0 }) 1 1 0) = 59 := by
  have hg : validGrid { sampleParams 2 4 4 1 allNoFlux with K := 0 } := by
    simp [validGrid, sampleParams]
  have h := adi_updateTemp_identity_when_K_zero squareArr (constBuffers 0)
    { sampleParams 2 4 4 1 allNoFlux with K := 0 }
    (mainR2 { sampleParams 2 4 4 1 allNoFlux with K := 0 }) hg rfl rfl 1 1 (by decide)
    (by decide) (by decide) (by decide)
  refine ⟨hg, ?_, ?_⟩
  · rw [h.1]
    simp [squareArr, IDX, mainStrides, sampleParams]
    norm_num
  · rw [h.2]
    simp [squareArr, specLaplacian, IDX, mainStrides, sampleParams]
    norm_num

/-! ## Order of the passes of the boundary enforcement -/

/-- Two arrays with the same value in every cell are equal. -/
theorem Arr.ext_get {F : Type} (A B : Arr F) (h : ∀ p, A.get p = B.get p) : A = B := by
  cases A
  cases B
  congr
  funext p
  exact h p

/-- Every integer is the flattened index of a cell whose Y and Z coordinates are
inside the box. -/
theorem IDX_decompose {F : Type} (params : SimParams F) (hY : 1 ≤ params.Num_Y)
    (hZ : 1 ≤ params.Num_Z) (p : Int) :
    ∃ i j k, (0 ≤ j ∧ j < params.Num_Y) ∧ (0 ≤ k ∧ k < params.Num_Z) ∧
      IDX (mainStrides params) i j k = p := by
  have hZ0 : (0 : Int) < params.Num_Z := by omega
  have hY0 : (0 : Int) < params.Num_Y := by omega
  refine ⟨p / params.Num_Z / params.Num_Y, p / params.Num_Z % params.Num_Y, p % params.Num_Z,
    ⟨Int.emod_nonneg _ (by omega), Int.emod_lt_of_pos _ hY0⟩,
    ⟨Int.emod_nonneg _ (by omega), Int.emod_lt_of_pos _ hZ0⟩, ?_⟩
  rw [IDX_mainStrides, Int.ediv_add_emod' (p / params.Num_Z) params.Num_Y,
    Int.ediv_add_emod' p params.Num_Z]

/-- The X pass and the Y pass commute. -/
theorem bcPassX_bcPassY_comm {F : Type} (arr : Arr F) (params : SimParams F)
    (bc : FaceBoundary) (hg : validGrid params) :
    bcPassX (bcPassY arr params (mainStrides params) bc) params (mainStrides params) bc
      = bcPassY (bcPassX arr params (mainStrides params) bc) params (mainStrides params) bc := by
  have hNX := hg.1
  have hNY := hg.2.1
  have hNZ : 1 ≤ params.Num_Z := by
    obtain ⟨_, _, h | h⟩ := hg <;> omega
  apply Arr.ext_get
  intro p
  obtain ⟨i, j, k, ⟨hj0, hj1⟩, ⟨hk0, hk1⟩, rfl⟩ := IDX_decompose params (by omega) hNZ p
  obtain ⟨xf, xv⟩ := bcPassX_spec arr params bc hg
  obtain ⟨xf', xv'⟩ := bcPassX_spec (bcPassY arr params (mainStrides params) bc) params bc hg
  obtain ⟨yf, yv⟩ := bcPassY_spec arr params bc hg
  obtain ⟨yf', yv'⟩ := bcPassY_spec (bcPassX arr params (mainStrides params) bc) params bc hg
  by_cases hx : (i = 0 ∨ i = params.Num_X - 1) ∧ 1 ≤ j ∧ j ≤ params.Num_Y - 2 ∧
      interiorK params k
  · obtain ⟨hi, h1, h2, hik⟩ := hx
    have nY : ∀ i', ¬ ((j = 0 ∨ j = params.Num_Y - 1) ∧ 1 ≤ i' ∧ i' ≤ params.Num_X - 2 ∧
        interiorK params k) := by
      intro i' h
      have := h.1
      omega
    rw [yf' i j k hj0 hj1 hk0 hk1 (nY i)]
    rcases hi with rfl | rfl
    · rw [(xv' j k h1 h2 hik).1, (xv j k h1 h2 hik).1, yf _ j k hj0 hj1 hk0 hk1 (nY _),
        yf _ j k hj0 hj1 hk0 hk1 (nY _), yf _ j k hj0 hj1 hk0 hk1 (nY _)]
    · rw [(xv' j k h1 h2 hik).2, (xv j k h1 h2 hik).2, yf _ j k hj0 hj1 hk0 hk1 (nY _),
        yf _ j k hj0 hj1 hk0 hk1 (nY _), yf _ j k hj0 hj1 hk0 hk1 (nY _)]
  · rw [xf' i j k hj0 hj1 hk0 hk1 hx]
    by_cases hy : (j = 0 ∨ j = params.Num_Y - 1) ∧ 1 ≤ i ∧ i ≤ params.Num_X - 2 ∧
        interiorK params k
    · obtain ⟨hjj, h1, h2, hik⟩ := hy
      have nX : ∀ j', ¬ ((i = 0 ∨ i = params.Num_X - 1) ∧ 1 ≤ j' ∧ j' ≤ params.Num_Y - 2 ∧
          interiorK params k) := by
        intro j' h
        have := h.1
        omega
      rcases hjj with rfl | rfl
      · rw [(yv' i k h1 h2 hik).1, (yv i k h1 h2 hik).1,
          xf i _ k (by omega) (by omega) hk0 hk1 (nX _),
          xf i _ k (by omega) (by omega) hk0 hk1 (nX _),
          xf i _ k (by omega) (by omega) hk0 hk1 (nX _)]
      · rw [(yv' i k h1 h2 hik).2, (yv i k h1 h2 hik).2,
          xf i _ k (by omega) (by omega) hk0 hk1 (nX _),
          xf i _ k (by omega) (by omega) hk0 hk1 (nX _),
          xf i _ k (by omega) (by omega) hk0 hk1 (nX _)]
    · rw [yf' i j k hj0 hj1 hk0 hk1 hy, yf i j k hj0 hj1 hk0 hk1 hy,
        xf i j k hj0 hj1 hk0 hk1 hx]

/-- In 3D the X pass and the Z pass commute. -/
theorem bcPassX_bcPassZ_comm {F : Type} (arr : Arr F) (params : SimParams F)
    (bc : FaceBoundary) (hg : validGrid params) (h3 : params.DIM = 3) :
    bcPassX (bcPassZ arr params (mainStrides params) bc) params (mainStrides params) bc
      = bcPassZ (bcPassX arr params (mainStrides params) bc) params (mainStrides params) bc := by
  have hNX := hg.1
  have hNY := hg.2.1
  have hNZ : 3 ≤ params.Num_Z := by
    obtain ⟨_, _, h | h⟩ := hg <;> omega
  have ik : ∀ k, interiorK params k ↔ (1 ≤ k ∧ k ≤ params.Num_Z - 2) := by
    intro k
    unfold interiorK
    rw [if_pos h3]
  apply Arr.ext_get
  intro p
  obtain ⟨i, j, k, ⟨hj0, hj1⟩, ⟨hk0, hk1⟩, rfl⟩ := IDX_decompose params (by omega) (by omega) p
  obtain ⟨xf, xv⟩ := bcPassX_spec arr params bc hg
  obtain ⟨xf', xv'⟩ := bcPassX_spec (bcPassZ arr params (mainStrides params) bc) params bc hg
  obtain ⟨zf, zv⟩ := bcPassZ_spec arr params bc hNZ
  obtain ⟨zf', zv'⟩ := bcPassZ_spec (bcPassX arr params (mainStrides params) bc) params bc hNZ
  by_cases hx : (i = 0 ∨ i = params.Num_X - 1) ∧ 1 ≤ j ∧ j ≤ params.Num_Y - 2 ∧
      interiorK params k
  · obtain ⟨hi, h1, h2, hik⟩ := hx
    have nZ : ∀ i', ¬ ((k = 0 ∨ k = params.Num_Z - 1) ∧ 1 ≤ i' ∧ i' ≤ params.Num_X - 2 ∧
        1 ≤ j ∧ j ≤ params.Num_Y - 2) := by
      intro i' h
      have := h.1
      have := (ik k).1 hik
      omega
    rw [zf' i j k hj0 hj1 hk0 hk1 (nZ i)]
    rcases hi with rfl | rfl
    · rw [(xv' j k h1 h2 hik).1, (xv j k h1 h2 hik).1, zf _ j k hj0 hj1 hk0 hk1 (nZ _),
        zf _ j k hj0 hj1 hk0 hk1 (nZ _), zf _ j k hj0 hj1 hk0 hk1 (nZ _)]
    · rw [(xv' j k h1 h2 hik).2, (xv j k h1 h2 hik).2, zf _ j k hj0 hj1 hk0 hk1 (nZ _),
        zf _ j k hj0 hj1 hk0 hk1 (nZ _), zf _ j k hj0 hj1 hk0 hk1 (nZ _)]
  · rw [xf' i j k hj0 hj1 hk0 hk1 hx]
    by_cases hz : (k = 0 ∨ k = params.Num_Z - 1) ∧ 1 ≤ i ∧ i ≤ params.Num_X - 2 ∧
        1 ≤ j ∧ j ≤ params.Num_Y - 2
    · obtain ⟨hkk, h1, h2, h4, h5⟩ := hz
      have nX : ∀ k', ¬ ((i = 0 ∨ i = params.Num_X - 1) ∧ 1 ≤ j ∧ j ≤ params.Num_Y - 2 ∧
          interiorK params k') := by
        intro k' h
        have := h.1
        omega
      rcases hkk with rfl | rfl
      · rw [(zv' i j h1 h2 h4 h5).1, (zv i j h1 h2 h4 h5).1,
          xf i j _ hj0 hj1 (by omega) (by omega) (nX _),
          xf i j _ hj0 hj1 (by omega) (by omega) (nX _),
          xf i j _ hj0 hj1 (by omega) (by omega) (nX _)]
      · rw [(zv' i j h1 h2 h4 h5).2, (zv i j h1 h2 h4 h5).2,
          xf i j _ hj0 hj1 (by omega) (by omega) (nX _),
          xf i j _ hj0 hj1 (by omega) (by omega) (nX _),
          xf i j _ hj0 hj1 (by omega) (by omega) (nX _)]
    · rw [zf' i j k hj0 hj1 hk0 hk1 hz, zf i j k hj0 hj1 hk0 hk1 hz,
        xf i j k hj0 hj1 hk0 hk1 hx]

/-- In 3D the Y pass and the Z pass commute. -/
theorem bcPassY_bcPassZ_comm {F : Type} (arr : Arr F) (params : SimParams F)
    (bc : FaceBoundary) (hg : validGrid params) (h3 : params.DIM = 3) :
    bcPassY (bcPassZ arr params (mainStrides params) bc) params (mainStrides params) bc
      = bcPassZ (bcPassY arr params (mainStrides params) bc) params (mainStrides params) bc := by
  have hNX := hg.1
  have hNY := hg.2.1
  have hNZ : 3 ≤ params.Num_Z := by
    obtain ⟨_, _, h | h⟩ := hg <;> omega
  have ik : ∀ k, interiorK params k ↔ (1 ≤ k ∧ k ≤ params.Num_Z - 2) := by
    intro k
    unfold interiorK
    rw [if_pos h3]
  apply Arr.ext_get
  intro p
  obtain ⟨i, j, k, ⟨hj0, hj1⟩, ⟨hk0, hk1⟩, rfl⟩ := IDX_decompose params (by omega) (by omega) p
  obtain ⟨yf, yv⟩ := bcPassY_spec arr params bc hg
  obtain ⟨yf', yv'⟩ := bcPassY_spec (bcPassZ arr params (mainStrides params) bc) params bc hg
  obtain ⟨zf, zv⟩ := bcPassZ_spec arr params bc hNZ
  obtain ⟨zf', zv'⟩ := bcPassZ_spec (bcPassY arr params (mainStrides params) bc) params bc hNZ
  by_cases hy : (j = 0 ∨ j = params.Num_Y - 1) ∧ 1 ≤ i ∧ i ≤ params.Num_X - 2 ∧
      interiorK params k
  · obtain ⟨hjj, h1, h2, hik⟩ := hy
    have nZ : ∀ j', 1 ≤ j' → j' ≤ params.Num_Y - 2 →
        ¬ ((k = 0 ∨ k = params.Num_Z - 1) ∧ 1 ≤ i ∧ i ≤ params.Num_X - 2 ∧
        1 ≤ j' ∧ j' ≤ params.Num_Y - 2) := by
      intro j' _ _ h
      have := h.1
      have := (ik k).1 hik
      omega
    have nZ0 : ∀ j', (j' = 0 ∨ j' = params.Num_Y - 1) →
        ¬ ((k = 0 ∨ k = params.Num_Z - 1) ∧ 1 ≤ i ∧ i ≤ params.Num_X - 2 ∧
        1 ≤ j' ∧ j' ≤ params.Num_Y - 2) := by
      intro j' hj' h
      have := h.2.2.2
      omega
    rw [zf' i j k hj0 hj1 hk0 hk1 (nZ0 j hjj)]
    rcases hjj with rfl | rfl
    · rw [(yv' i k h1 h2 hik).1, (yv i k h1 h2 hik).1,
        zf i _ k (by omega) (by omega) hk0 hk1 (nZ _ (by omega) (by omega)),
        zf i _ k (by omega) (by omega) hk0 hk1 (nZ _ (by omega) (by omega)),
        zf i _ k (by omega) (by omega) hk0 hk1 (nZ0 _ (Or.inl rfl))]
    · rw [(yv' i k h1 h2 hik).2, (yv i k h1 h2 hik).2,
        zf i _ k (by omega) (by omega) hk0 hk1 (nZ _ (by omega) (by omega)),
        zf i _ k (by omega) (by omega) hk0 hk1 (nZ _ (by omega) (by omega)),
        zf i _ k (by omega) (by omega) hk0 hk1 (nZ0 _ (Or.inr rfl))]
  · rw [yf' i j k hj0 hj1 hk0 hk1 hy]
    by_cases hz : (k = 0 ∨ k = params.Num_Z - 1) ∧ 1 ≤ i ∧ i ≤ params.Num_X - 2 ∧
        1 ≤ j ∧ j ≤ params.Num_Y - 2
    · obtain ⟨hkk, h1, h2, h4, h5⟩ := hz
      have nY : ∀ k', ¬ ((j = 0 ∨ j = params.Num_Y - 1) ∧ 1 ≤ i ∧ i ≤ params.Num_X - 2 ∧
          interiorK params k') := by
        intro k' h
        have := h.1
        omega
      rcases hkk with rfl | rfl
      · rw [(zv' i j h1 h2 h4 h5).1, (zv i j h1 h2 h4 h5).1,
          yf i j _ hj0 hj1 (by omega) (by omega) (nY _),
          yf i j _ hj0 hj1 (by omega) (by omega) (nY _),
          yf i j _ hj0 hj1 (by omega) (by omega) (nY _)]
      · rw [(zv' i j h1 h2 h4 h5).2, (zv i j h1 h2 h4 h5).2,
          yf i j _ hj0 hj1 (by omega) (by omega) (nY _),
          yf i j _ hj0 hj1 (by omega) (by omega) (nY _),
          yf i j _ hj0 hj1 (by omega) (by omega) (nY _)]
    · rw [zf' i j k hj0 hj1 hk0 hk1 hz, zf i j k hj0 hj1 hk0 hk1 hz,
        yf i j k hj0 hj1 hk0 hk1 hy]

/-! ## Claim on the order of the passes -/

/-- C35. For grids with `NX, NY >= 3` (and `NZ >= 3` in 3D), every array and
every combination of face policies, running the loop nests of
`applyBoundaryConditions` (X, Y, and Z in 3D) in any order gives the array that
`applyBoundaryConditions` returns. -/
theorem applyBoundaryConditions_pass_order_irrelevant {F : Type} (arr : Arr F)
    (params : SimParams F) (bc : FaceBoundary) (hg : validGrid params) (order : List BcAxis)
    (ho : order.Perm (bcAxes params)) :
    bcPassesInOrder order arr params (mainStrides params) bc
      = applyBoundaryConditions arr params (mainStrides params) bc := by
  rw [applyBoundaryConditions_eq_passes]
  unfold bcAxes at ho
  have cXY := fun a : Arr F => bcPassX_bcPassY_comm a params bc hg
  by_cases h3 : params.DIM = 3
  · rw [if_pos h3] at ho ⊢
    have cXZ := fun a : Arr F => bcPassX_bcPassZ_comm a params bc hg h3
    have cYZ := fun a : Arr F => bcPassY_bcPassZ_comm a params bc hg h3
    have hl := ho.length_eq
    have hn : order.Nodup := ho.nodup_iff.2 (by decide)
    rcases order with _ | ⟨a, _ | ⟨b, _ | ⟨c, _ | ⟨d, t⟩⟩⟩⟩ <;>
      simp only [List.length_cons, List.length_nil] at hl <;> try omega
    cases a <;> cases b <;> cases c <;>
      first
      | exact absurd hn (by decide)
      | simp only [bcPassesInOrder, List.foldl, bcPassOf, cXY, cXZ, cYZ]
  · rw [if_neg h3] at ho ⊢
    have hl := ho.length_eq
    have hn : order.Nodup := ho.nodup_iff.2 (by decide)
    rcases order with _ | ⟨a, _ | ⟨b, _ | ⟨c, t⟩⟩⟩ <;>
      simp only [List.length_cons, List.length_nil] at hl <;> try omega
    have hz : ∀ x, x ∈ [a, b] → x ≠ BcAxis.Z := by
      intro x hx hxz
      have := ho.subset hx
      rw [hxz] at this
      exact absurd this (by decide)
    have ha := hz a (by simp)
    have hb := hz b (by simp)
    cases a <;> cases b <;>
      first
      | exact absurd hn (by decide)
      | exact absurd rfl ha
      | exact absurd rfl hb
      | simp only [bcPassesInOrder, List.foldl, bcPassOf, cXY]

/-- Witness for C35: 3D grid of 3 x 3 x 3 cells with no-flux faces, ramp array,
order Z, Y, X. -/
theorem applyBoundaryConditions_pass_order_irrelevant_witness :
    validGrid (sampleParams 3 3 3 3 allNoFlux) ∧
    bcPassX (bcPassY (bcPassZ rampArr (sampleParams 3 3 3 3 allNoFlux)
        (mainStrides (sampleParams 3 3 3 3 allNoFlux)) allNoFlux)
        (sampleParams 3 3 3 3 allNoFlux) (mainStrides (sampleParams 3 3 3 3 allNoFlux)) allNoFlux)
        (sampleParams 3 3 3 3 allNoFlux) (mainStrides (sampleParams 3 3 3 3 allNoFlux)) allNoFlux
      = applyBoundaryConditions rampArr (sampleParams 3 3 3 3 allNoFlux)
          (mainStrides (sampleParams 3 3 3 3 allNoFlux)) allNoFlux :=
  have hg : validGrid (sampleParams 3 3 3 3 allNoFlux) := by simp [validGrid, sampleParams]
  ⟨hg, applyBoundaryConditions_pass_order_irrelevant rampArr (sampleParams 3 3 3 3 allNoFlux)
    allNoFlux hg [BcAxis.Z, BcAxis.Y, BcAxis.X] (by decide)⟩

/-! ## Bulk phases -/

/-- The values that the C++ `updatePhi` stores in `dphi_dt` and `phi_new` at an
interior cell, in terms of the buffers that the three calls before it leave; `U`
is the random sample of the cell. -/
theorem CppEngine.phiUpdate_cell {F : Type} [Field F] (lib : MathLib F) (phi temp : Arr F)
    (fb : FieldBuffers F) (params : SimParams F) (RAND_MAX : Int) (rng : Nat → Int)
    (calls : Nat) (hg : validGrid params) (i j k : Int) (hi0 : 1 ≤ i)
    (hi1 : i ≤ params.Num_X - 2) (hj0 : 1 ≤ j) (hj1 : j ≤ params.Num_Y - 2)
    (hk : interiorK params k) :
    ∃ U : F,
      (CppEngine.phiUpdate lib phi temp fb params (mainR params) (mainStrides params) RAND_MAX
          rng calls).1.dphi_dt.get (IDX (mainStrides params) i j k)
        = specDphiDt
            (CppEngine.phiBuffers lib phi temp fb params (mainR params) (mainStrides params))
            phi params U (IDX (mainStrides params) i j k) ∧
      (CppEngine.phiUpdate lib phi temp fb params (mainR params) (mainStrides params) RAND_MAX
          rng calls).1.phi_new.get (IDX (mainStrides params) i j k)
        = phi.get (IDX (mainStrides params) i j k)
          + params.dt * specDphiDt
              (CppEngine.phiBuffers lib phi temp fb params (mainR params) (mainStrides params))
              phi params U (IDX (mainStrides params) i j k) := by
  have hc := CppEngine.cpp_updatePhi_cell phi
    (CppEngine.phiBuffers lib phi temp fb params (mainR params) (mainStrides params))
    params (mainR params) RAND_MAX rng calls hg i j k hi0 hi1 hj0 hj1 hk
  simp only [FieldBuffers.phiCell, List.cons.injEq] at hc
  exact ⟨_, hc.2.1.trans (CppEngine.cpp_updatePhiCell_value _ _ _ _ _ _ _).1,
    hc.1.trans (CppEngine.cpp_updatePhiCell_value _ _ _ _ _ _ _).2⟩

/-- When the eight derivatives that the fluxes use vanish at the cell, the forcing
term vanishes there and `phi (1 - phi) = 0`, the time derivative of the
specification is `0`, whatever the noise amplitude and the sample. -/
theorem specDphiDt_bulk {F : Type} [Field F] (fb : FieldBuffers F) (phi : Arr F)
    (params : SimParams F) (U : F) (idx : Int)
    (h : fb.gradCell idx = [0, 0, 0, 0, 0, 0, 0, 0, 0, 0]) (hd : fb.dfdphi.get idx = 0)
    (hp : phi.get idx * (1 - phi.get idx) = 0) :
    specDphiDt fb phi params U idx = 0 := by
  simp only [FieldBuffers.gradCell, List.cons.injEq, and_true] at h
  obtain ⟨g1, g2, g3, g4, -, -, g7, g8, g9, g10⟩ := h
  have hn : params.a * (U - 1 / 2) * phi.get idx * (1 - phi.get idx) = 0 := by
    rw [mul_assoc, hp, mul_zero]
  simp only [specDphiDt, g1, g2, g3, g4, g7, g8, g9, g10, hd, hn]
  simp

/-! ## Claim on the bulk phases -/

/-- C36. Bulk phases are fixed points of the phase-field update (C++ engine, 2D):
if `phi` holds `0` at every cell of the grid, ghost cells and corners included
(or `1` at every cell), then for every temperature field, noise amplitude `a`,
stream of random samples, anisotropy parameters and `tau != 0`, the sequence
`computedfdphi`, `computeGradientPhi`, `computeAnisotropy`, `updatePhi` leaves
`dphi_dt = 0` and `phi_new = phi` at every interior cell. -/
theorem bulk_phases_are_fixed_points {F : Type} [Field F] (lib : MathLib F) (phi temp : Arr F)
    (fb : FieldBuffers F) (params : SimParams F) (RAND_MAX : Int) (rng : Nat → Int)
    (calls : Nat) (hg : validGrid params) (h2 : params.DIM = 2) (_htau : params.tau ≠ 0) (c : F)
    (hc : c = 0 ∨ c = 1)
    (hphi : ∀ i j, 0 ≤ i → i ≤ params.Num_X - 1 → 0 ≤ j → j ≤ params.Num_Y - 1 →
      phi.get (IDX (mainStrides params) i j 0) = c)
    (i j : Int) (hi0 : 1 ≤ i) (hi1 : i ≤ params.Num_X - 2) (hj0 : 1 ≤ j)
    (hj1 : j ≤ params.Num_Y - 2) :
    (CppEngine.phiUpdate lib phi temp fb params (mainR params) (mainStrides params) RAND_MAX
        rng calls).1.dphi_dt.get (IDX (mainStrides params) i j 0) = 0 ∧
    (CppEngine.phiUpdate lib phi temp fb params (mainR params) (mainStrides params) RAND_MAX
        rng calls).1.phi_new.get (IDX (mainStrides params) i j 0)
      = phi.get (IDX (mainStrides params) i j 0) := by
  obtain ⟨hNZ, hk⟩ := validGrid_2D hg h2
  obtain ⟨U, hd, hv⟩ := CppEngine.phiUpdate_cell lib phi temp fb params RAND_MAX rng calls hg
    i j 0 hi0 hi1 hj0 hj1 hk
  obtain ⟨hgr, -, hdf⟩ := CppEngine.phiBuffers_cell_2D lib phi temp fb params hg h2 i j hi0 hi1
    hj0 hj1
  have h0 := hphi i j (by omega) (by omega) (by omega) (by omega)
  have hz := gradCell_uniform_all phi params _ _ i j 0 c hgr h0
    (hphi (i + 1) j (by omega) (by omega) (by omega) (by omega))
    (hphi (i - 1) j (by omega) (by omega) (by omega) (by omega))
    (hphi i (j + 1) (by omega) (by omega) (by omega) (by omega))
    (hphi i (j - 1) (by omega) (by omega) (by omega) (by omega))
    (hphi (i + 1) (j + 1) (by omega) (by omega) (by omega) (by omega))
    (hphi (i - 1) (j + 1) (by omega) (by omega) (by omega) (by omega))
    (hphi (i + 1) (j - 1) (by omega) (by omega) (by omega) (by omega))
    (hphi (i - 1) (j - 1) (by omega) (by omega) (by omega) (by omega))
  have hp : phi.get (IDX (mainStrides params) i j 0)
      * (1 - phi.get (IDX (mainStrides params) i j 0)) = 0 := by
    rw [h0]
    rcases hc with rfl | rfl <;> simp
  have hs := specDphiDt_bulk _ phi params U _ hz (by rw [hdf, hp, zero_mul]) hp
  rw [hd, hv, hs]
  simp

/-- Witness for C36: 4 x 4 grid, `phi = 1` at every cell, `temp = 0`, noise
amplitude `a = 5`, samples `rand() = 3` with `RAND_MAX = 4`, `tau = 1`: at the
interior cell `(1,1)` the update leaves `dphi_dt = 0` and `phi_new = 1`. -/
theorem bulk_phases_are_fixed_points_witness :
    validGrid { sampleParams 2 4 4 1 allNoFlux with a := 5 } ∧
    (CppEngine.phiUpdate approxMath (Arr.const (1 : ℚ)) (Arr.const 0) (constBuffers 7)
        { sampleParams 2 4 4 1 allNoFlux with a := 5 }
        (mainR { sampleParams 2 4 4 1 allNoFlux with a := 5 })
        (mainStrides { sampleParams 2 4 4 1 allNoFlux with a := 5 }) 4 (fun _ => 3)
        0).1.dphi_dt.get (IDX (mainStrides { sampleParams 2 4 4 1 allNoFlux with a := 5 }) 1 1 0)
      = 0 ∧
    (CppEngine.phiUpdate approxMath (Arr.const (1 : ℚ)) (Arr.const 0) (constBuffers 7)
        { sampleParams 2 4 4 1 allNoFlux with a := 5 }
        (mainR { sampleParams 2 4 4 1 allNoFlux with a := 5 })
        (mainStrides { sampleParams 2 4 4 1 allNoFlux with a := 5 }) 4 (fun _ => 3)
        0).1.phi_new.get (IDX (mainStrides { sampleParams 2 4 4 1 allNoFlux with a := 5 }) 1 1 0)
      = 1 := by
  have hg : validGrid { sampleParams 2 4 4 1 allNoFlux with a := 5 } := by
    simp [validGrid, sampleParams]
  have h := bulk_phases_are_fixed_points approxMath (Arr.const (1 : ℚ)) (Arr.const 0)
    (constBuffers 7) { sampleParams 2 4 4 1 allNoFlux with a := 5 } 4 (fun _ => 3) 0 hg rfl
    (by simp [sampleParams]) 1 (Or.inr rfl) (fun _ _ _ _ _ _ => rfl) 1 1 (by decide)
    (by decide) (by decide) (by decide)
  exact ⟨hg, h.1, h.2⟩

/-! ## The phase-field stage of the two engines on a 2D grid -/

/-- Two assignments to the same element: the second one remains. -/
theorem Arr.set_set {F : Type} (arr : Arr F) (p : Int) (v w : F) :
    (arr.set p v).set p w = arr.set p w := by
  unfold Arr.set
  simp

/-- The loop bounds of the Z loops when `dim` is not 3: the single layer `0`. -/
theorem forLoop_k_2D {σ : Type} (dim NZ : Int) (h : dim ≠ 3) (body : Int → σ → σ) (s : σ) :
    forLoop (if dim = 3 then 1 else 0) (if dim = 3 then NZ - 1 else 1) body s = body 0 s := by
  rw [if_neg h, if_neg h]
  exact forLoop_zero_one body s

/-- When `dim` is not 3 the two engines' `computedfdphi` are the same function. -/
theorem computedfdphi_engines_2D {F : Type} [Field F] (lib : MathLib F) (phi dfdphi temp : Arr F)
    (params : SimParams F) (strides : Fin 3 → Int) (h : params.DIM ≠ 3) :
    CEngine.computedfdphi lib phi dfdphi temp params strides
      = CppEngine.computedfdphi lib phi dfdphi temp params strides := by
  unfold CEngine.computedfdphi CppEngine.computedfdphi
  simp only [forLoop_k_2D _ _ h]

/-- When `dim` is not 3 the two engines' `computeGradientPhi` are the same
function. -/
theorem computeGradientPhi_engines_2D {F : Type} [Field F] (phi : Arr F) (fb : FieldBuffers F)
    (params : SimParams F) (r : Fin 3 → F) (strides : Fin 3 → Int) (h : params.DIM ≠ 3) :
    CEngine.computeGradientPhi phi fb params r strides
      = CppEngine.computeGradientPhi phi fb params r strides := by
  unfold CEngine.computeGradientPhi CppEngine.computeGradientPhi
  simp only [forLoop_k_2D _ _ h]

/-- When `dim` is not 3 the two engines' `computeAnisotropy` are the same
function. -/
theorem computeAnisotropy_engines_2D {F : Type} [Field F] (lib : MathLib F)
    (fb : FieldBuffers F) (params : SimParams F) (strides : Fin 3 → Int) (h : params.DIM ≠ 3) :
    CEngine.computeAnisotropy lib fb params strides
      = CppEngine.computeAnisotropy lib fb params strides := by
  unfold CEngine.computeAnisotropy CppEngine.computeAnisotropy
  simp only [if_neg h]

/-- The bodies of the two engines' `updatePhi` store the same values: the C
engine builds `dphi_dt[index]` by four assignments, the C++ engine in a local
variable. -/
theorem updatePhiCell_engines {F : Type} [Field F] (phi : Arr F) (params : SimParams F)
    (r : Fin 3 → F) (RAND_MAX : Int) (rng : Nat → Int) (idx : Int) (st : FieldBuffers F × Nat) :
    CEngine.updatePhiCell phi params r RAND_MAX rng idx st
      = CppEngine.updatePhiCell phi params r RAND_MAX rng idx st := by
  unfold CEngine.updatePhiCell CppEngine.updatePhiCell
  simp only [Arr.set_set, Arr.get_set_self]

/-- When `dim` is not 3 the two engines' `updatePhi` are the same function. -/
theorem updatePhi_engines_2D {F : Type} [Field F] (phi : Arr F) (fb : FieldBuffers F)
    (params : SimParams F) (r : Fin 3 → F) (strides : Fin 3 → Int) (RAND_MAX : Int)
    (rng : Nat → Int) (calls : Nat) (h : params.DIM ≠ 3) :
    CEngine.updatePhi phi fb params r strides RAND_MAX rng calls
      = CppEngine.updatePhi phi fb params r strides RAND_MAX rng calls := by
  unfold CEngine.updatePhi CppEngine.updatePhi
  simp only [forLoop_k_2D _ _ h, updatePhiCell_engines]

/-- When `dim` is not 3 the phase-field stages of the two engines are the same
function. -/
theorem phiUpdate_engines_2D {F : Type} [Field F] (lib : MathLib F) (phi temp : Arr F)
    (fb : FieldBuffers F) (params : SimParams F) (r : Fin 3 → F) (strides : Fin 3 → Int)
    (RAND_MAX : Int) (rng : Nat → Int) (calls : Nat) (h : params.DIM ≠ 3) :
    CEngine.phiUpdate lib phi temp fb params r strides RAND_MAX rng calls
      = CppEngine.phiUpdate lib phi temp fb params r strides RAND_MAX rng calls := by
  unfold CEngine.phiUpdate CppEngine.phiUpdate CEngine.phiBuffers CppEngine.phiBuffers
  simp only [updatePhi_engines_2D _ _ _ _ _ _ _ _ h, computeAnisotropy_engines_2D _ _ _ _ h,
    computeGradientPhi_engines_2D _ _ _ _ _ h, computedfdphi_engines_2D _ _ _ _ _ _ h]

/-! ## Claim on the phase-field stage of the two engines -/

/-- C37. For `DIM = 2`, given the same `phi`, `temp`, buffers, parameters, face
policies and stream of random samples, the C engine's `applyBoundaryConditions`,
`computedfdphi`, `computeGradientPhi`, `computeAnisotropy` and `updatePhi` leave
the same `phi_new` and `dphi_dt` as the functions of the C++ engine, at every
index of the arrays (the interior cells among them), and have made the same
number of `rand()` calls. -/
theorem phase_stage_C_engine_agrees_with_Cpp_2D {F : Type} [Field F] (lib : MathLib F)
    (phi temp : Arr F) (fb : FieldBuffers F) (params : SimParams F) (bc : FaceBoundary)
    (RAND_MAX : Int) (rng : Nat → Int) (calls : Nat) (h2 : params.DIM = 2) :
    (∀ p,
      (CEngine.phiUpdate lib (applyBoundaryConditions phi params (mainStrides params) bc) temp fb
          params (mainR params) (mainStrides params) RAND_MAX rng calls).1.phi_new.get p
        = (CppEngine.phiUpdate lib (applyBoundaryConditions phi params (mainStrides params) bc)
            temp fb params (mainR params) (mainStrides params) RAND_MAX rng calls).1.phi_new.get p ∧
      (CEngine.phiUpdate lib (applyBoundaryConditions phi params (mainStrides params) bc) temp fb
          params (mainR params) (mainStrides params) RAND_MAX rng calls).1.dphi_dt.get p
        = (CppEngine.phiUpdate lib (applyBoundaryConditions phi params (mainStrides params) bc)
            temp fb params (mainR params) (mainStrides params) RAND_MAX rng calls).1.dphi_dt.get
            p) ∧
    (CEngine.phiUpdate lib (applyBoundaryConditions phi params (mainStrides params) bc) temp fb
        params (mainR params) (mainStrides params) RAND_MAX rng calls).2
      = (CppEngine.phiUpdate lib (applyBoundaryConditions phi params (mainStrides params) bc)
          temp fb params (mainR params) (mainStrides params) RAND_MAX rng calls).2 := by
  have h3 : params.DIM ≠ 3 := by omega
  rw [phiUpdate_engines_2D lib _ temp fb params _ _ RAND_MAX rng calls h3]
  exact ⟨fun _ => ⟨rfl, rfl⟩, rfl⟩

/-- Witness for C37: 4 x 4 grid with no-flux faces, `phi[p] = p`, `temp = 0`,
samples `rand() = 3` with `RAND_MAX = 4`: the two engines leave the same
`phi_new` and `dphi_dt` at the interior cell `(1,1)` (index 5). -/
theorem phase_stage_C_engine_agrees_with_Cpp_2D_witness :
    (sampleParams 2 4 4 1 allNoFlux).DIM = 2 ∧
    (CEngine.phiUpdate approxMath
        (applyBoundaryConditions rampArr (sampleParams 2 4 4 1 allNoFlux)
          (mainStrides (sampleParams 2 4 4 1 allNoFlux)) allNoFlux)
        (Arr.const 0) (constBuffers 0) (sampleParams 2 4 4 1 allNoFlux)
        (mainR (sampleParams 2 4 4 1 allNoFlux)) (mainStrides (sampleParams 2 4 4 1 allNoFlux))
        4 (fun _ => 3) 0).1.phi_new.get 5
      = (CppEngine.phiUpdate approxMath
          (applyBoundaryConditions rampArr (sampleParams 2 4 4 1 allNoFlux)
            (mainStrides (sampleParams 2 4 4 1 allNoFlux)) allNoFlux)
          (Arr.const 0) (constBuffers 0) (sampleParams 2 4 4 1 allNoFlux)
          (mainR (sampleParams 2 4 4 1 allNoFlux)) (mainStrides (sampleParams 2 4 4 1 allNoFlux))
          4 (fun _ => 3) 0).1.phi_new.get 5 ∧
    (CEngine.phiUpdate approxMath
        (applyBoundaryConditions rampArr (sampleParams 2 4 4 1 allNoFlux)
          (mainStrides (sampleParams 2 4 4 1 allNoFlux)) allNoFlux)
        (Arr.const 0) (constBuffers 0) (sampleParams 2 4 4 1 allNoFlux)
        (mainR (sampleParams 2 4 4 1 allNoFlux)) (mainStrides (sampleParams 2 4 4 1 allNoFlux))
        4 (fun _ => 3) 0).1.dphi_dt.get 5
      = (CppEngine.phiUpdate approxMath
          (applyBoundaryConditions rampArr (sampleParams 2 4 4 1 allNoFlux)
            (mainStrides (sampleParams 2 4 4 1 allNoFlux)) allNoFlux)
          (Arr.const 0) (constBuffers 0) (sampleParams 2 4 4 1 allNoFlux)
          (mainR (sampleParams 2 4 4 1 allNoFlux)) (mainStrides (sampleParams 2 4 4 1 allNoFlux))
          4 (fun _ => 3) 0).1.dphi_dt.get 5 :=
  ⟨rfl, (phase_stage_C_engine_agrees_with_Cpp_2D approxMath rampArr (Arr.const 0)
    (constBuffers 0) (sampleParams 2 4 4 1 allNoFlux) allNoFlux 4 (fun _ => 3) 0 rfl).1 5⟩

/-! ## The explicit temperature update on enforced ghost cells -/

/-- On a 2D grid whose four faces are NoFlux or Periodic, every cell of the
enforced array that is not a corner holds the value of an interior cell of the
array before the enforcement. -/
theorem applyBC_2D_value_of_interior {F : Type} (arr : Arr F) (params : SimParams F)
    (bc : FaceBoundary) (hg : validGrid params) (h2 : params.DIM = 2)
    (hl : bc.left = BoundaryType.BOUNDARY_NOFLUX ∨ bc.left = BoundaryType.BOUNDARY_PERIODIC)
    (hr : bc.right = BoundaryType.BOUNDARY_NOFLUX ∨ bc.right = BoundaryType.BOUNDARY_PERIODIC)
    (hb : bc.bottom = BoundaryType.BOUNDARY_NOFLUX ∨ bc.bottom = BoundaryType.BOUNDARY_PERIODIC)
    (ht : bc.top = BoundaryType.BOUNDARY_NOFLUX ∨ bc.top = BoundaryType.BOUNDARY_PERIODIC)
    (i j : Int) (hi0 : 0 ≤ i) (hi1 : i ≤ params.Num_X - 1) (hj0 : 0 ≤ j)
    (hj1 : j ≤ params.Num_Y - 1)
    (hnc : (1 ≤ i ∧ i ≤ params.Num_X - 2) ∨ (1 ≤ j ∧ j ≤ params.Num_Y - 2)) :
    ∃ i' j', 1 ≤ i' ∧ i' ≤ params.Num_X - 2 ∧ 1 ≤ j' ∧ j' ≤ params.Num_Y - 2 ∧
      (applyBoundaryConditions arr params (mainStrides params) bc).get
          (IDX (mainStrides params) i j 0)
        = arr.get (IDX (mainStrides params) i' j' 0) := by
  obtain ⟨hNZ, hk⟩ := validGrid_2D hg h2
  have hNX := hg.1
  have hNY := hg.2.1
  by_cases hi : 1 ≤ i ∧ i ≤ params.Num_X - 2
  · by_cases hj : 1 ≤ j ∧ j ≤ params.Num_Y - 2
    · exact ⟨i, j, hi.1, hi.2, hj.1, hj.2,
        applyBC_interior arr params bc hg i j 0 hi.1 hi.2 hj.1 hj.2 hk⟩
    · obtain ⟨y0, y1⟩ := applyBC_yface arr params bc hg i 0 hi.1 hi.2 hk
      have hj' : j = 0 ∨ j = params.Num_Y - 1 := by omega
      rcases hj' with rfl | rfl
      · rcases hb with e | e
        · exact ⟨i, 1, hi.1, hi.2, by omega, by omega, by rw [y0, e]; simp [bcValue]⟩
        · exact ⟨i, params.Num_Y - 2, hi.1, hi.2, by omega, by omega, by
            rw [y0, e]; simp [bcValue]⟩
      · rcases ht with e | e
        · exact ⟨i, params.Num_Y - 2, hi.1, hi.2, by omega, by omega, by
            rw [y1, e]; simp [bcValue]⟩
        · exact ⟨i, 1, hi.1, hi.2, by omega, by omega, by rw [y1, e]; simp [bcValue]⟩
  · have hj : 1 ≤ j ∧ j ≤ params.Num_Y - 2 := by
      rcases hnc with h | h
      · exact absurd h hi
      · exact h
    obtain ⟨x0, x1⟩ := applyBC_xface arr params bc hg j 0 hj.1 hj.2 hk
    have hi' : i = 0 ∨ i = params.Num_X - 1 := by omega
    rcases hi' with rfl | rfl
    · rcases hl with e | e
      · exact ⟨1, j, by omega, by omega, hj.1, hj.2, by rw [x0, e]; simp [bcValue]⟩
      · exact ⟨params.Num_X - 2, j, by omega, by omega, hj.1, hj.2, by
          rw [x0, e]; simp [bcValue]⟩
    · rcases hr with e | e
      · exact ⟨params.Num_X - 2, j, by omega, by omega, hj.1, hj.2, by
          rw [x1, e]; simp [bcValue]⟩
      · exact ⟨1, j, by omega, by omega, hj.1, hj.2, by rw [x1, e]; simp [bcValue]⟩

/-- A value `c + dt ((e - 2c + w)/dx^2 + (n - 2c + s)/dy^2)` with `dt >= 0` and
`dt (2/dx^2 + 2/dy^2) <= 1` lies between any two bounds of `c, e, w, n, s`. -/
theorem explicit_step_between {F : Type} [LinearOrderedField F] (dt dx dy c e w n s lo hi : F)
    (hdt : 0 ≤ dt) (hcfl : dt * (2 / dx ^ 2 + 2 / dy ^ 2) ≤ 1)
    (hc : lo ≤ c ∧ c ≤ hi) (he : lo ≤ e ∧ e ≤ hi) (hw : lo ≤ w ∧ w ≤ hi)
    (hn : lo ≤ n ∧ n ≤ hi) (hs : lo ≤ s ∧ s ≤ hi) :
    lo ≤ c + dt * ((e - 2 * c + w) / dx ^ 2 + (n - 2 * c + s) / dy ^ 2) ∧
    c + dt * ((e - 2 * c + w) / dx ^ 2 + (n - 2 * c + s) / dy ^ 2) ≤ hi := by
  have ha : 0 ≤ dt / dx ^ 2 := div_nonneg hdt (sq_nonneg dx)
  have hb : 0 ≤ dt / dy ^ 2 := div_nonneg hdt (sq_nonneg dy)
  have hcf : 0 ≤ 1 - 2 * (dt / dx ^ 2) - 2 * (dt / dy ^ 2) := by
    have : dt * (2 / dx ^ 2 + 2 / dy ^ 2) = 2 * (dt / dx ^ 2) + 2 * (dt / dy ^ 2) := by ring
    linarith
  have e1 : c + dt * ((e - 2 * c + w) / dx ^ 2 + (n - 2 * c + s) / dy ^ 2)
      = (1 - 2 * (dt / dx ^ 2) - 2 * (dt / dy ^ 2)) * c + dt / dx ^ 2 * e + dt / dx ^ 2 * w
        + dt / dy ^ 2 * n + dt / dy ^ 2 * s := by ring
  have e2 : ∀ v : F, v = (1 - 2 * (dt / dx ^ 2) - 2 * (dt / dy ^ 2)) * v + dt / dx ^ 2 * v
      + dt / dx ^ 2 * v + dt / dy ^ 2 * v + dt / dy ^ 2 * v := by
    intro v; ring
  rw [e1]
  constructor
  · rw [e2 lo]
    have := mul_le_mul_of_nonneg_left hc.1 hcf
    have := mul_le_mul_of_nonneg_left he.1 ha
    have := mul_le_mul_of_nonneg_left hw.1 ha
    have := mul_le_mul_of_nonneg_left hn.1 hb
    have := mul_le_mul_of_nonneg_left hs.1 hb
    linarith
  · rw [e2 hi]
    have := mul_le_mul_of_nonneg_left hc.2 hcf
    have := mul_le_mul_of_nonneg_left he.2 ha
    have := mul_le_mul_of_nonneg_left hw.2 ha
    have := mul_le_mul_of_nonneg_left hn.2 hb
    have := mul_le_mul_of_nonneg_left hs.2 hb
    linarith

/-- The value that the explicit `updateTemp` stores at an interior cell of a 2D
grid. -/
theorem CppEngine.updateTemp_cell_2D {F : Type} [Field F] (temp : Arr F) (fb : FieldBuffers F)
    (params : SimParams F) (hg : validGrid params) (h2 : params.DIM = 2) (i j : Int)
    (hi0 : 1 ≤ i) (hi1 : i ≤ params.Num_X - 2) (hj0 : 1 ≤ j) (hj1 : j ≤ params.Num_Y - 2) :
    (CppEngine.updateTemp temp fb params (mainStrides params) (mainR2 params)).temp_new.get
        (IDX (mainStrides params) i j 0)
      = temp.get (IDX (mainStrides params) i j 0) + params.dt
        * ((temp.get (IDX (mainStrides params) (i + 1) j 0)
              - 2 * temp.get (IDX (mainStrides params) i j 0)
              + temp.get (IDX (mainStrides params) (i - 1) j 0)) / params.dx ^ 2
            + (temp.get (IDX (mainStrides params) i (j + 1) 0)
              - 2 * temp.get (IDX (mainStrides params) i j 0)
              + temp.get (IDX (mainStrides params) i (j - 1) 0)) / params.dy ^ 2
            + params.K * fb.dphi_dt.get (IDX (mainStrides params) i j 0)) := by
  have h3 : params.DIM ≠ 3 := by omega
  rw [(CppEngine.updateTemp_cell temp fb params (mainR2 params) hg).1 i j 0 hi0 hi1 hj0 hj1
    (validGrid_2D hg h2).2, CppEngine.computeLaplacian_spec]
  simp only [specLaplacian, if_neg h3]

/-! ## Claim on the discrete maximum principle -/

/-- C33. Discrete maximum principle of the explicit strategy (C++ engine, 2D): if
`K * dphi_dt = 0` at every interior cell, `dt >= 0`,
`dt * (2/dx^2 + 2/dy^2) <= 1`, and the ghost cells of `temp` have just been
enforced with each of the four faces NoFlux or Periodic, then every interior
value of `temp_new` lies between any lower bound `lo` and upper bound `hi` of
the interior values of `temp` (so between their minimum and their maximum). -/
theorem explicit_updateTemp_maximum_principle {F : Type} [LinearOrderedField F] (temp : Arr F)
    (fb : FieldBuffers F) (params : SimParams F) (bc : FaceBoundary) (hg : validGrid params)
    (h2 : params.DIM = 2)
    (hl : bc.left = BoundaryType.BOUNDARY_NOFLUX ∨ bc.left = BoundaryType.BOUNDARY_PERIODIC)
    (hr : bc.right = BoundaryType.BOUNDARY_NOFLUX ∨ bc.right = BoundaryType.BOUNDARY_PERIODIC)
    (hb : bc.bottom = BoundaryType.BOUNDARY_NOFLUX ∨ bc.bottom = BoundaryType.BOUNDARY_PERIODIC)
    (ht : bc.top = BoundaryType.BOUNDARY_NOFLUX ∨ bc.top = BoundaryType.BOUNDARY_PERIODIC)
    (hsrc : ∀ i j, 1 ≤ i → i ≤ params.Num_X - 2 → 1 ≤ j → j ≤ params.Num_Y - 2 →
      params.K * fb.dphi_dt.get (IDX (mainStrides params) i j 0) = 0)
    (hdt : 0 ≤ params.dt)
    (hcfl : params.dt * (2 / params.dx ^ 2 + 2 / params.dy ^ 2) ≤ 1) (lo hi : F)
    (hbd : ∀ i j, 1 ≤ i → i ≤ params.Num_X - 2 → 1 ≤ j → j ≤ params.Num_Y - 2 →
      lo ≤ temp.get (IDX (mainStrides params) i j 0) ∧
      temp.get (IDX (mainStrides params) i j 0) ≤ hi)
    (i j : Int) (hi0 : 1 ≤ i) (hi1 : i ≤ params.Num_X - 2) (hj0 : 1 ≤ j)
    (hj1 : j ≤ params.Num_Y - 2) :
    lo ≤ (CppEngine.updateTemp (applyBoundaryConditions temp params (mainStrides params) bc) fb
        params (mainStrides params) (mainR2 params)).temp_new.get
        (IDX (mainStrides params) i j 0) ∧
    (CppEngine.updateTemp (applyBoundaryConditions temp params (mainStrides params) bc) fb
        params (mainStrides params) (mainR2 params)).temp_new.get
        (IDX (mainStrides params) i j 0) ≤ hi := by
  have hNX := hg.1
  have hNY := hg.2.1
  have nb : ∀ a b, 0 ≤ a → a ≤ params.Num_X - 1 → 0 ≤ b → b ≤ params.Num_Y - 1 →
      ((1 ≤ a ∧ a ≤ params.Num_X - 2) ∨ (1 ≤ b ∧ b ≤ params.Num_Y - 2)) →
      lo ≤ (applyBoundaryConditions temp params (mainStrides params) bc).get
          (IDX (mainStrides params) a b 0) ∧
      (applyBoundaryConditions temp params (mainStrides params) bc).get
          (IDX (mainStrides params) a b 0) ≤ hi := by
    intro a b ha0 ha1 hb0 hb1 hnc
    obtain ⟨a', b', h1, h2', h3, h4, he⟩ := applyBC_2D_value_of_interior temp params bc hg h2
      hl hr hb ht a b ha0 ha1 hb0 hb1 hnc
    rw [he]
    exact hbd a' b' h1 h2' h3 h4
  rw [CppEngine.updateTemp_cell_2D _ fb params hg h2 i j hi0 hi1 hj0 hj1,
    hsrc i j hi0 hi1 hj0 hj1, add_zero]
  exact explicit_step_between params.dt params.dx params.dy _ _ _ _ _ lo hi hdt hcfl
    (nb i j (by omega) (by omega) (by omega) (by omega) (Or.inl ⟨hi0, hi1⟩))
    (nb (i + 1) j (by omega) (by omega) (by omega) (by omega) (Or.inr ⟨hj0, hj1⟩))
    (nb (i - 1) j (by omega) (by omega) (by omega) (by omega) (Or.inr ⟨hj0, hj1⟩))
    (nb i (j + 1) (by omega) (by omega) (by omega) (by omega) (Or.inl ⟨hi0, hi1⟩))
    (nb i (j - 1) (by omega) (by omega) (by omega) (by omega) (Or.inl ⟨hi0, hi1⟩))

/-- Witness for C33: 4 x 4 grid with no-flux faces, unit spacings, `dt = 1/4`,
`dphi_dt = 0`, `temp[p] = p` (interior values `5, 6, 9, 10`): the value stored at
the interior cell `(1,1)` lies between `5` and `10`. -/
theorem explicit_updateTemp_maximum_principle_witness :
    validGrid { sampleParams 2 4 4 1 allNoFlux with dt := 1 / 4 } ∧
    (5 : ℚ) ≤ (CppEngine.updateTemp
        (applyBoundaryConditions rampArr { sampleParams 2 4 4 1 allNoFlux with dt := 1 / 4 }
          (mainStrides { sampleParams 2 4 4 1 allNoFlux with dt := 1 / 4 }) allNoFlux)
        (constBuffers 0) { sampleParams 2 4 4 1 allNoFlux with dt := 1 / 4 }
        (mainStrides { sampleParams 2 4 4 1 allNoFlux with dt := 1 / 4 })
        (mainR2 { sampleParams 2 4 4 1 allNoFlux with dt := 1 / 4 })).temp_new.get
        (IDX (mainStrides { sampleParams 2 4 4 1 allNoFlux with dt := 1 / 4 }) 1 1 0) ∧
    (CppEngine.updateTemp
        (applyBoundaryConditions rampArr { sampleParams 2 4 4 1 allNoFlux with dt := 1 / 4 }
          (mainStrides { sampleParams 2 4 4 1 allNoFlux with dt := 1 / 4 }) allNoFlux)
        (constBuffers 0) { sampleParams 2 4 4 1 allNoFlux with dt := 1 / 4 }
        (mainStrides { sampleParams 2 4 4 1 allNoFlux with dt := 1 / 4 })
        (mainR2 { sampleParams 2 4 4 1 allNoFlux with dt := 1 / 4 })).temp_new.get
        (IDX (mainStrides { sampleParams 2 4 4 1 allNoFlux with dt := 1 / 4 }) 1 1 0)
      ≤ 10 := by
  have hg : validGrid { sampleParams 2 4 4 1 allNoFlux with dt := 1 / 4 } := by
    simp [validGrid, sampleParams]
  exact ⟨hg, explicit_updateTemp_maximum_principle rampArr (constBuffers 0)
    { sampleParams 2 4 4 1 allNoFlux with dt := 1 / 4 } allNoFlux hg rfl (Or.inl rfl)
    (Or.inl rfl) (Or.inl rfl) (Or.inl rfl)
    (fun _ _ _ _ _ _ => by simp [constBuffers, Arr.const])
    (by simp [sampleParams]) (by simp [sampleParams]; norm_num) 5 10
    (fun i j h1 h2 h3 h4 => by
      simp only [sampleParams] at h2 h4
      simp only [rampArr, IDX, mainStrides, sampleParams]
      have e : (![(4 : Int) * 1, 1, 1] : Fin 3 → Int) 0 = 4 := rfl
      have e1 : (![(4 : Int) * 1, 1, 1] : Fin 3 → Int) 1 = 1 := rfl
      have e2 : (![(4 : Int) * 1, 1, 1] : Fin 3 → Int) 2 = 1 := rfl
      rw [e, e1, e2]
      constructor
      · have : (5 : Int) ≤ i * 4 + j * 1 + 0 * 1 := by omega
        exact_mod_cast this
      · have : i * 4 + j * 1 + 0 * 1 ≤ (10 : Int) := by omega
        exact_mod_cast this)
    1 1 (by decide) (by decide) (by decide) (by decide)⟩

/-! ## Sums over the interior -/

/-- Sums of functions that agree on the range are equal. -/
theorem sumRange_congr {F : Type} [Field F] (lo hi : Int) (f g : Int → F)
    (h : ∀ i, lo ≤ i → i < hi → f i = g i) : sumRange lo hi f = sumRange lo hi g := by
  unfold sumRange
  apply Finset.sum_congr rfl
  intro n hn
  have := Finset.mem_range.1 hn
  exact h _ (by omega) (by omega)

/-- The sum of second differences telescopes. -/
theorem sumRange_second_difference {F : Type} [Field F] (lo hi : Int) (f : Int → F)
    (h : lo ≤ hi) :
    sumRange lo hi (fun i => f (i + 1) - 2 * f i + f (i - 1))
      = f hi - f (hi - 1) - f lo + f (lo - 1) := by
  have key : ∀ n : Nat,
      Finset.sum (Finset.range n)
          (fun (m : Nat) => f (lo + (m : Int) + 1) - 2 * f (lo + (m : Int))
            + f (lo + (m : Int) - 1))
        = f (lo + (n : Int)) - f (lo + (n : Int) - 1) - f lo + f (lo - 1) := by
    intro n
    induction n with
    | zero => simp
    | succ n ih =>
      rw [Finset.sum_range_succ, ih]
      have e1 : lo + ((n + 1 : Nat) : Int) = lo + (n : Int) + 1 := by push_cast; ring
      have e2 : lo + (n : Int) + 1 - 1 = lo + (n : Int) := by ring
      rw [e1, e2]
      ring
  unfold sumRange
  rw [key]
  have e : lo + ((hi - lo).toNat : Int) = hi := by
    rw [Int.toNat_of_nonneg (by omega)]
    ring
  rw [e]

/-- A double sum of a linear combination of four families. -/
theorem sumRange2_linear {F : Type} [Field F] (a0 a1 b0 b1 : Int) (A X Y D : Int → Int → F)
    (a b c : F) :
    sumRange a0 a1 (fun i => sumRange b0 b1 (fun j =>
        A i j + a * X i j + b * Y i j + c * D i j))
      = sumRange a0 a1 (fun i => sumRange b0 b1 (fun j => A i j))
        + a * sumRange a0 a1 (fun i => sumRange b0 b1 (fun j => X i j))
        + b * sumRange a0 a1 (fun i => sumRange b0 b1 (fun j => Y i j))
        + c * sumRange a0 a1 (fun i => sumRange b0 b1 (fun j => D i j)) := by
  simp only [sumRange, Finset.sum_add_distrib, Finset.mul_sum]

/-- A sum over `i` of sums over `j` of second differences in `i` telescopes. -/
theorem sumRange2_second_difference_outer {F : Type} [Field F] (a0 a1 b0 b1 : Int)
    (P : Int → Int → F) (h : a0 ≤ a1) :
    sumRange a0 a1 (fun i => sumRange b0 b1 (fun j => P (i + 1) j - 2 * P i j + P (i - 1) j))
      = sumRange b0 b1 (fun j => P a1 j - P (a1 - 1) j - P a0 j + P (a0 - 1) j) := by
  have e : ∀ i, sumRange b0 b1 (fun j => P (i + 1) j - 2 * P i j + P (i - 1) j)
      = sumRange b0 b1 (fun j => P (i + 1) j) - 2 * sumRange b0 b1 (fun j => P i j)
        + sumRange b0 b1 (fun j => P (i - 1) j) := by
    intro i
    simp only [sumRange, Finset.sum_add_distrib, Finset.sum_sub_distrib, Finset.mul_sum]
  simp only [e]
  rw [sumRange_second_difference a0 a1 (fun i => sumRange b0 b1 (fun j => P i j)) h]
  simp only [sumRange, Finset.sum_add_distrib, Finset.sum_sub_distrib]

/-- A sum of zeros is zero. -/
theorem sumRange_zero {F : Type} [Field F] (lo hi : Int) :
    sumRange lo hi (fun _ => (0 : F)) = 0 := by
  simp [sumRange]

/-- On a 2D grid whose four faces are all NoFlux or all Periodic, the enforced
array has no net flux through the X faces of a row, nor through the Y faces of
a column. -/
theorem applyBC_2D_no_net_flux {F : Type} [Field F] (arr : Arr F) (params : SimParams F)
    (bc : FaceBoundary) (hg : validGrid params) (h2 : params.DIM = 2)
    (hbc : (bc.left = BoundaryType.BOUNDARY_NOFLUX ∧ bc.right = BoundaryType.BOUNDARY_NOFLUX ∧
        bc.bottom = BoundaryType.BOUNDARY_NOFLUX ∧ bc.top = BoundaryType.BOUNDARY_NOFLUX) ∨
      (bc.left = BoundaryType.BOUNDARY_PERIODIC ∧ bc.right = BoundaryType.BOUNDARY_PERIODIC ∧
        bc.bottom = BoundaryType.BOUNDARY_PERIODIC ∧ bc.top = BoundaryType.BOUNDARY_PERIODIC)) :
    (∀ j, 1 ≤ j → j ≤ params.Num_Y - 2 →
      (applyBoundaryConditions arr params (mainStrides params) bc).get
          (IDX (mainStrides params) (params.Num_X - 1) j 0)
        - (applyBoundaryConditions arr params (mainStrides params) bc).get
          (IDX (mainStrides params) (params.Num_X - 2) j 0)
        - (applyBoundaryConditions arr params (mainStrides params) bc).get
          (IDX (mainStrides params) 1 j 0)
        + (applyBoundaryConditions arr params (mainStrides params) bc).get
          (IDX (mainStrides params) 0 j 0) = 0) ∧
    (∀ i, 1 ≤ i → i ≤ params.Num_X - 2 →
      (applyBoundaryConditions arr params (mainStrides params) bc).get
          (IDX (mainStrides params) i (params.Num_Y - 1) 0)
        - (applyBoundaryConditions arr params (mainStrides params) bc).get
          (IDX (mainStrides params) i (params.Num_Y - 2) 0)
        - (applyBoundaryConditions arr params (mainStrides params) bc).get
          (IDX (mainStrides params) i 1 0)
        + (applyBoundaryConditions arr params (mainStrides params) bc).get
          (IDX (mainStrides params) i 0 0) = 0) := by
  obtain ⟨hNZ, hk⟩ := validGrid_2D hg h2
  have hNX := hg.1
  have hNY := hg.2.1
  have hin := fun i j h1 h2 h3 h4 => applyBC_interior arr params bc hg i j 0 h1 h2 h3 h4 hk
  constructor
  · intro j hj0 hj1
    obtain ⟨x0, x1⟩ := applyBC_xface arr params bc hg j 0 hj0 hj1 hk
    rw [x0, x1, hin 1 j (by omega) (by omega) hj0 hj1,
      hin (params.Num_X - 2) j (by omega) (by omega) hj0 hj1]
    rcases hbc with ⟨e1, e2, -, -⟩ | ⟨e1, e2, -, -⟩ <;> rw [e1, e2] <;> simp [bcValue]
  · intro i hi0 hi1
    obtain ⟨y0, y1⟩ := applyBC_yface arr params bc hg i 0 hi0 hi1 hk
    rw [y0, y1, hin i 1 hi0 hi1 (by omega) (by omega),
      hin i (params.Num_Y - 2) hi0 hi1 (by omega) (by omega)]
    rcases hbc with ⟨-, -, e1, e2⟩ | ⟨-, -, e1, e2⟩ <;> rw [e1, e2] <;> simp [bcValue]

/-! ## Claim on the discrete heat balance -/

/-- C32. Discrete heat balance of the explicit strategy (C++ engine, 2D): when the
ghost cells of `temp` have just been enforced with all four faces NoFlux, or all
four Periodic, the sum over the interior cells of `temp_new` equals the sum over
the interior cells of `temp` plus `dt * K` times the sum over the interior cells
of `dphi_dt`; with `K = 0`, or `dphi_dt = 0` at every interior cell, the two sums
are equal. -/
theorem explicit_updateTemp_heat_balance {F : Type} [Field F] (temp : Arr F)
    (fb : FieldBuffers F) (params : SimParams F) (bc : FaceBoundary) (hg : validGrid params)
    (h2 : params.DIM = 2)
    (hbc : (bc.left = BoundaryType.BOUNDARY_NOFLUX ∧ bc.right = BoundaryType.BOUNDARY_NOFLUX ∧
        bc.bottom = BoundaryType.BOUNDARY_NOFLUX ∧ bc.top = BoundaryType.BOUNDARY_NOFLUX) ∨
      (bc.left = BoundaryType.BOUNDARY_PERIODIC ∧ bc.right = BoundaryType.BOUNDARY_PERIODIC ∧
        bc.bottom = BoundaryType.BOUNDARY_PERIODIC ∧ bc.top = BoundaryType.BOUNDARY_PERIODIC)) :
    interiorSum2D params
        (CppEngine.updateTemp (applyBoundaryConditions temp params (mainStrides params) bc) fb
          params (mainStrides params) (mainR2 params)).temp_new
      = interiorSum2D params temp + params.dt * params.K * interiorSum2D params fb.dphi_dt ∧
    ((params.K = 0 ∨ ∀ i j, 1 ≤ i → i ≤ params.Num_X - 2 → 1 ≤ j → j ≤ params.Num_Y - 2 →
        fb.dphi_dt.get (IDX (mainStrides params) i j 0) = 0) →
      interiorSum2D params
          (CppEngine.updateTemp (applyBoundaryConditions temp params (mainStrides params) bc) fb
            params (mainStrides params) (mainR2 params)).temp_new
        = interiorSum2D params temp) := by
  obtain ⟨hNZ, hk⟩ := validGrid_2D hg h2
  have hNX := hg.1
  have hNY := hg.2.1
  obtain ⟨fx, fy⟩ := applyBC_2D_no_net_flux temp params bc hg h2 hbc
  have step1 : interiorSum2D params
        (CppEngine.updateTemp (applyBoundaryConditions temp params (mainStrides params) bc) fb
          params (mainStrides params) (mainR2 params)).temp_new
      = sumRange 1 (params.Num_X - 1) (fun i => sumRange 1 (params.Num_Y - 1) (fun j =>
          temp.get (IDX (mainStrides params) i j 0)
          + params.dt / params.dx ^ 2
            * ((applyBoundaryConditions temp params (mainStrides params) bc).get
                  (IDX (mainStrides params) (i + 1) j 0)
                - 2 * (applyBoundaryConditions temp params (mainStrides params) bc).get
                  (IDX (mainStrides params) i j 0)
                + (applyBoundaryConditions temp params (mainStrides params) bc).get
                  (IDX (mainStrides params) (i - 1) j 0))
          + params.dt / params.dy ^ 2
            * ((applyBoundaryConditions temp params (mainStrides params) bc).get
                  (IDX (mainStrides params) i (j + 1) 0)
                - 2 * (applyBoundaryConditions temp params (mainStrides params) bc).get
                  (IDX (mainStrides params) i j 0)
                + (applyBoundaryConditions temp params (mainStrides params) bc).get
                  (IDX (mainStrides params) i (j - 1) 0))
          + params.dt * params.K * fb.dphi_dt.get (IDX (mainStrides params) i j 0))) := by
    unfold interiorSum2D
    apply sumRange_congr
    intro i hi0 hi1
    apply sumRange_congr
    intro j hj0 hj1
    rw [CppEngine.updateTemp_cell_2D _ fb params hg h2 i j hi0 (by omega) hj0 (by omega)]
    have e := applyBC_interior temp params bc hg i j 0 hi0 (by omega) hj0 (by omega) hk
    rw [e]
    ring
  have hX : sumRange 1 (params.Num_X - 1) (fun i => sumRange 1 (params.Num_Y - 1) (fun j =>
        (applyBoundaryConditions temp params (mainStrides params) bc).get
            (IDX (mainStrides params) (i + 1) j 0)
          - 2 * (applyBoundaryConditions temp params (mainStrides params) bc).get
            (IDX (mainStrides params) i j 0)
          + (applyBoundaryConditions temp params (mainStrides params) bc).get
            (IDX (mainStrides params) (i - 1) j 0))) = 0 := by
    rw [sumRange2_second_difference_outer 1 (params.Num_X - 1) 1 (params.Num_Y - 1)
      (fun i j => (applyBoundaryConditions temp params (mainStrides params) bc).get
        (IDX (mainStrides params) i j 0)) (by omega)]
    rw [← sumRange_zero (F := F) 1 (params.Num_Y - 1)]
    apply sumRange_congr
    intro j hj0 hj1
    have e1 : params.Num_X - 1 - 1 = params.Num_X - 2 := by ring
    have e2 : (1 : Int) - 1 = 0 := rfl
    rw [e1, e2]
    exact fx j hj0 (by omega)
  have hY : sumRange 1 (params.Num_X - 1) (fun i => sumRange 1 (params.Num_Y - 1) (fun j =>
        (applyBoundaryConditions temp params (mainStrides params) bc).get
            (IDX (mainStrides params) i (j + 1) 0)
          - 2 * (applyBoundaryConditions temp params (mainStrides params) bc).get
            (IDX (mainStrides params) i j 0)
          + (applyBoundaryConditions temp params (mainStrides params) bc).get
            (IDX (mainStrides params) i (j - 1) 0))) = 0 := by
    rw [← sumRange_zero (F := F) 1 (params.Num_X - 1)]
    apply sumRange_congr
    intro i hi0 hi1
    rw [sumRange_second_difference 1 (params.Num_Y - 1)
      (fun j => (applyBoundaryConditions temp params (mainStrides params) bc).get
        (IDX (mainStrides params) i j 0)) (by omega)]
    have e1 : params.Num_Y - 1 - 1 = params.Num_Y - 2 := by ring
    have e2 : (1 : Int) - 1 = 0 := rfl
    rw [e1, e2]
    exact fy i hi0 (by omega)
  have main : interiorSum2D params
        (CppEngine.updateTemp (applyBoundaryConditions temp params (mainStrides params) bc) fb
          params (mainStrides params) (mainR2 params)).temp_new
      = interiorSum2D params temp
        + params.dt * params.K * interiorSum2D params fb.dphi_dt := by
    rw [step1, sumRange2_linear 1 (params.Num_X - 1) 1 (params.Num_Y - 1)
      (fun i j => temp.get (IDX (mainStrides params) i j 0))
      (fun i j => (applyBoundaryConditions temp params (mainStrides params) bc).get
            (IDX (mainStrides params) (i + 1) j 0)
          - 2 * (applyBoundaryConditions temp params (mainStrides params) bc).get
            (IDX (mainStrides params) i j 0)
          + (applyBoundaryConditions temp params (mainStrides params) bc).get
            (IDX (mainStrides params) (i - 1) j 0))
      (fun i j => (applyBoundaryConditions temp params (mainStrides params) bc).get
            (IDX (mainStrides params) i (j + 1) 0)
          - 2 * (applyBoundaryConditions temp params (mainStrides params) bc).get
            (IDX (mainStrides params) i j 0)
          + (applyBoundaryConditions temp params (mainStrides params) bc).get
            (IDX (mainStrides params) i (j - 1) 0))
      (fun i j => fb.dphi_dt.get (IDX (mainStrides params) i j 0))
      (params.dt / params.dx ^ 2) (params.dt / params.dy ^ 2) (params.dt * params.K),
      hX, hY]
    unfold interiorSum2D
    ring
  refine ⟨main, ?_⟩
  intro h
  rw [main]
  rcases h with hK | hd
  · rw [hK]
    ring
  · have : interiorSum2D params fb.dphi_dt = 0 := by
      unfold interiorSum2D
      rw [← sumRange_zero (F := F) 1 (params.Num_X - 1)]
      apply sumRange_congr
      intro i hi0 hi1
      rw [← sumRange_zero (F := F) 1 (params.Num_Y - 1)]
      apply sumRange_congr
      intro j hj0 hj1
      exact hd i j hi0 (by omega) hj0 (by omega)
    rw [this]
    ring

/-- Witness for C32: 4 x 4 grid with no-flux faces, unit spacings, `dt = K = 1`,
`temp[p] = p` (interior sum `5 + 6 + 9 + 10 = 30`), `dphi_dt = 2` everywhere
(interior sum `8`): the interior sum of `temp_new` is `30 + 8 = 38`. -/
theorem explicit_updateTemp_heat_balance_witness :
    validGrid (sampleParams 2 4 4 1 allNoFlux) ∧
    interiorSum2D (sampleParams 2 4 4 1 allNoFlux)
        (CppEngine.updateTemp
          (applyBoundaryConditions rampArr (sampleParams 2 4 4 1 allNoFlux)
            (mainStrides (sampleParams 2 4 4 1 allNoFlux)) allNoFlux)
          (constBuffers 2) (sampleParams 2 4 4 1 allNoFlux)
          (mainStrides (sampleParams 2 4 4 1 allNoFlux))
          (mainR2 (sampleParams 2 4 4 1 allNoFlux))).temp_new = 38 := by
  have hg : validGrid (sampleParams 2 4 4 1 allNoFlux) := by simp [validGrid, sampleParams]
  refine ⟨hg, ?_⟩
  rw [(explicit_updateTemp_heat_balance rampArr (constBuffers 2)
    (sampleParams 2 4 4 1 allNoFlux) allNoFlux hg rfl (Or.inl ⟨rfl, rfl, rfl, rfl⟩)).1]
  simp [interiorSum2D, sumRange, Finset.sum_range_succ, rampArr, IDX, mainStrides, sampleParams,
    constBuffers, Arr.const]
  norm_num

/-! ## The divisor of the periodic-output test -/

/-- With `timebreak = 0` the first iteration of the time loop ends in the
division by zero, whatever the time step does. -/
theorem timeLoop_timebreak_zero {σ : Type} (step : σ → σ) (n : Nat) (t : Int) (s : σ) :
    timeLoop step 0 (n + 1) t s = MainResult.division_by_zero t (step s) := rfl

/-- An input file that declares `phi` only is accepted by the C++
`readParameters`, and `main` returns `EXIT_FAILURE` at the lookup of `temp`,
before the time loop. -/
theorem CppEngine.main_without_temp_fails :
    (∃ ps, CppEngine.readParameters decimalStdlib [] shortFillFile ParamSet.zero
        = ReadResult.ok ps) ∧
    CppEngine.main decimalStdlib [] approxMath 4 (fun _ => 3) freshEnv shortFillFile
      = MainResult.failure :=
  ⟨⟨_, rfl⟩, rfl⟩

/-! ## Claim on the divisor of the periodic-output test -/

/-- C39 does not hold of the code: `readParameters` checks that a `timebreak` line
was read, not its value, and `main` checks nothing.  On the complete input file
`zeroTimebreakFile`, which declares and fills `phi` and `temp` and sets
`timebreak = 0` and `total_steps = 1`, the C++ `readParameters` returns 0 with
`params.timebreak = 0`; and in every environment where the folder `output` does
not exist yet and `mkdir` and `malloc` succeed, whatever the memory contents, the
math library and the random numbers, the C++ `main` passes every check before
the time loop, runs the steps a) to g) of the time step `t = 1` and evaluates
`1 % 0`.  The C engine's `readParameters` returns 0 on the same file, with
`params.timebreak = 0` as well. -/
theorem main_divides_by_zero_timebreak (mlib : MathLib ℚ) (RAND_MAX : Int) (rng : Nat → Int)
    (env : MainEnv ℚ) (h1 : env.folder_exists = false) (h2 : env.mkdir_ok = true)
    (h3 : env.malloc_ok = true) :
    (∃ ps, CppEngine.readParameters decimalStdlib [] zeroTimebreakFile ParamSet.zero
        = ReadResult.ok ps ∧ ps.params.timebreak = 0 ∧ ps.params.total_timesteps = 1) ∧
    (∃ st, CppEngine.main decimalStdlib [] mlib RAND_MAX rng env zeroTimebreakFile
        = MainResult.division_by_zero 1 st) ∧
    (∃ ps, CEngine.readParameters decimalStdlib [] zeroTimebreakFile ParamSet.zero
        = ReadResult.ok ps ∧ ps.params.timebreak = 0 ∧ ps.params.total_timesteps = 1) := by
  obtain ⟨fe, resp, rm, mk, ma, v0, b0, rt, vf, cf⟩ := env
  simp only at h1 h2 h3
  subst h1 h2 h3
  exact ⟨⟨_, rfl, rfl, rfl⟩, ⟨_, rfl⟩, ⟨_, rfl, rfl, rfl⟩⟩

/-- Witness for C39: the environment `freshEnv` (no folder `output`, `mkdir` and
`malloc` succeed, memory holding `7`), `rand() = 3` with `RAND_MAX = 4`: the run
of the C++ `main` on `zeroTimebreakFile` ends in the evaluation of `1 % 0`. -/
theorem main_divides_by_zero_timebreak_witness :
    freshEnv.folder_exists = false ∧ freshEnv.mkdir_ok = true ∧ freshEnv.malloc_ok = true ∧
    ∃ st, CppEngine.main decimalStdlib [] approxMath 4 (fun _ => 3) freshEnv zeroTimebreakFile
      = MainResult.division_by_zero 1 st :=
  ⟨rfl, rfl, rfl,
    (main_divides_by_zero_timebreak approxMath 4 (fun _ => 3) freshEnv rfl rfl rfl).2.1⟩

end PhaseField
